import Mathlib

/-!
# ClassicSVfit: the likelihood integrand

A shallow embedding of `ClassicSVfitIntegrand` (src/src/ClassicSVfitIntegrand.cc) and of the
auxiliary functions it calls (src/src/svFitAuxFunctions.cc).

Conventions of the embedding

* `double` is an arbitrary linearly ordered field `K` (exact arithmetic); the literals
  `1.e-300`, `1.e-5`, `1.e-2` are the rationals `1/10^300`, `1/10^5`, `1/10^2`.  There is no
  NaN in `K`, so `TMath::IsNaN(prob)` is never true and the coercion of NaN to 0 is a no-op.
* Library functions (`exp`, `sqrt`, `pow`, pseudo-rapidity), the constants and the error-code
  masks of headers that are not part of the sources, and the operations of the classes whose
  implementation files are not part of the sources (`FittedTauLepton`, `comp_PCA`,
  `comp_dmin_and_dmax`) are fields of the environment `Env`.
* A function returns `none` when the C++ code aborts on a failing `assert` or indexes a
  `std::vector` out of bounds / dereferences a null pointer.
* `const` member functions that write `mutable` members return the new object state.
* The functions `Eval`, `EvalPS`, `EvalFlightLength` and `EvalMEtTF` leave out the diagnostic
  blocks `if ( verbosity_ >= 2 )`; `Eval_cout`, `EvalPS_cout`, `EvalFlightLength_cout` and
  `EvalMEtTF_cout` are the same functions with these blocks and with what they write to
  `std::cout`.  The messages to `std::cerr` and the block of `setMeasurement` (lines 209-212)
  are omitted.
* The special values of a `double` (infinities, NaN) are modelled for the last lines of
  `EvalPS` and `Eval` only (`Double`, `EvalPS_return`, `Eval_return`).
-/

namespace classic_svFit

/-! ## Data model -/

/-- Three-vector (`classic_svFit::Vector`, also used for `classic_svFit::Point`). -/
structure Vector (K : Type) where
  x : K
  y : K
  z : K

/-- Position in space (`classic_svFit::Point`). -/
abbrev Point (K : Type) := Vector K

/-- Four-momentum `(px, py, pz, E)` (`classic_svFit::LorentzVector`). -/
structure LorentzVector (K : Type) where
  px : K
  py : K
  pz : K
  E : K

/-- Matrix with entries addressed as `m(i,j)` (`TMatrixD`). -/
abbrev TMatrixD (K : Type) := Nat → Nat → K

/-- Data members of `MeasuredHadTauDecayProduct` (src/src/MeasuredHadTauDecayProduct.cc). -/
structure MeasuredHadTauDecayProduct (K : Type) where
  charge_ : Int
  pt_ : K
  eta_ : K
  phi_ : K
  mass_ : K
  preciseVisMass_ : K
  decayMode_ : Int
  p_ : K
  px_ : K
  py_ : K
  pz_ : K
  energy_ : K
  p4_ : LorentzVector K
  p3_ : Vector K

/-- Modelled from the spec: `MeasuredTauLepton` (its header and implementation are not part of
the sources), as the record of what the accessors used by the integrand return: "one observed
decay leg: charge, visible 4-momentum, decay category {leptonic-tau, hadronic-tau,
prompt/stable}, ..., optional decay-vertex position and 3x3 covariance (with lazily-computed
inverse and validity flag), optional leading-charged-daughter kinematics". -/
structure MeasuredTauLepton (K : Type) where
  isLeptonicTauDecay : Bool
  isHadronicTauDecay : Bool
  isPrompt : Bool
  decayMode : Int
  pt : K
  px : K
  py : K
  pz : K
  energy : K
  mass : K
  p4 : LorentzVector K
  hasDecayVertex : Bool
  decayVertex : Point K
  decayVertexCov : TMatrixD K
  decayVertexCovInv_isValid : Bool
  leadChargedHadron : Option (MeasuredHadTauDecayProduct K)

/-- Collision type of a MEt measurement; `other` stands for every value of the C++ enumeration
that is neither of the two tested by `EvalMEtTF`. -/
inductive CollisionType where
  | kProtonProtonCollisions
  | kElectronPositronCollisions
  | other
  deriving DecidableEq

/-- Modelled from the spec: `MeasuredMEt` (not part of the sources): "either a 2-D (px,py)
vector with 2x2 covariance or a 4-vector with 4x4 covariance; each carries a lazily-inverted
covariance, a validity flag and a precomputed Gaussian normalization constant". -/
structure MeasuredMEt (K : Type) where
  type : CollisionType
  px : K
  py : K
  pz : K
  energy : K
  covInv : TMatrixD K
  covInv_isValid : Bool
  const_MET : K

/-- Modelled from the spec: `MeasuredEvent` (not part of the sources): the measured leptons,
"one or more MeasuredMEt alternatives (index 0 = central value, others = systematic
variations), optional primary-vertex position+covariance". -/
structure MeasuredEvent (K : Type) where
  tauLeptons : List (MeasuredTauLepton K)
  MEt : List (MeasuredMEt K)
  hasPrimaryVertex : Bool
  primaryVertex : Point K
  primaryVertexCov : TMatrixD K
  primaryVertexCovInv_isValid : Bool

/-- Modelled from the spec: `FittedTauLepton` (not part of the sources), as the record of what
its accessors return: the measured lepton it is bound to, "the energy fraction x carried by the
visible system, the reconstructed invisible-system 4-momentum and total 4-momentum, and an error
flag raised when the requested (x, angle, invisible-mass) point has no physical solution". -/
structure FittedTauLepton (K : Type) where
  getMeasuredTauLepton : MeasuredTauLepton K
  visP4 : LorentzVector K
  nuP4 : LorentzVector K
  tauP4 : LorentzVector K
  x : K
  nuMass : K
  errorCode : Nat

/-- The result sink (`HistogramAdapterDiTau`, an external collaborator): the record of the
fitted-leg pairs it was handed through `setFittedTauLeptons`, oldest first. -/
structure HistogramAdapterDiTau (K : Type) where
  received : List (FittedTauLepton K × FittedTauLepton K)

/-- The call `HistogramAdapterDiTau::setFittedTauLeptons`, recorded by the sink. -/
def HistogramAdapterDiTau.setFittedTauLeptons {K : Type} (adapter : HistogramAdapterDiTau K)
    (fittedTauLepton1 fittedTauLepton2 : FittedTauLepton K) : HistogramAdapterDiTau K :=
  { received := adapter.received ++ [(fittedTauLepton1, fittedTauLepton2)] }

/-- Per-leg map from a quantity to its index in the parameter vector, `-1` meaning absent
(`classic_svFit::integrationParameters`; `reset` of svFitAuxFunctions.cc sets all to `-1`). -/
structure integrationParameters where
  idx_X_ : Int
  idx_phi_ : Int
  idx_VisPtShift_ : Int
  idx_mNuNu_ : Int
  idx_flightLength_ : Int
  deriving DecidableEq

/-- A hadronic-tau transfer function `(recPt, genPt, genEta) -> density` (`HadTauTFBase`). -/
abbrev HadTauTF (K : Type) := K → K → K → K

/-- Everything the integrand uses that is declared outside the source files: the maths library,
the constants of `svFitAuxFunctions.h`, the `ErrorCodes` masks of `ClassicSVfitIntegrand.h`, the
member functions of `FittedTauLepton` and the functions of `comp_PCA.h`. -/
structure Env (K : Type) where
  exp : K → K
  sqrt : K → K
  pow : K → K →K
  eta : LorentzVector K → K
  tauLeptonMass : K
  tauLeptonMass2 : K
  cTauLifetime : K
  epsilon : K
  constFactor : K
  matrixElementNorm : K
  MatrixInversion : Nat
  LeptonNumber : Nat
  TauDecayParameters : Nat
  MissingVertex : Nat
  MissingLeadChargedHadron : Nat
  FittedTauLepton_None : Nat
  setMeasuredTauLepton : FittedTauLepton K → MeasuredTauLepton K → FittedTauLepton K
  updateVisMomentum : FittedTauLepton K → K → FittedTauLepton K
  updateTauMomentum : FittedTauLepton K → K → K → K → FittedTauLepton K
  comp_PCA : LorentzVector K → MeasuredTauLepton K → MeasuredHadTauDecayProduct K →
    Point K → Point K → TMatrixD K → Point K
  comp_dmin_and_dmax : LorentzVector K → Vector K → TMatrixD K → K × K

/-- Data members of `ClassicSVfitIntegrand`.  `numTaus_` is 2 throughout, so the two-element
vectors `legIntegrationParams_` and `fittedTauLeptons_` are stored by component;
`hadTauTFs_` is `none` while the vector is empty. -/
structure ClassicSVfitIntegrand (K : Type) where
  measuredEvent_ : MeasuredEvent K
  measuredTauLepton1_ : MeasuredTauLepton K
  measuredTauLepton2_ : MeasuredTauLepton K
  fittedTauLepton1_ : FittedTauLepton K
  fittedTauLepton2_ : FittedTauLepton K
  leg1isLeptonicTauDecay_ : Bool
  leg1isHadronicTauDecay_ : Bool
  leg1isPrompt_ : Bool
  leg2isLeptonicTauDecay_ : Bool
  leg2isHadronicTauDecay_ : Bool
  leg2isPrompt_ : Bool
  mVis_measured_ : K
  mVis2_measured_ : K
  primaryVertex_ : Point K
  leg1decayVertexCov_ : TMatrixD K
  leg1decayVertexCovInv_ : TMatrixD K
  leg2decayVertexCov_ : TMatrixD K
  leg2decayVertexCovInv_ : TMatrixD K
  leg1leadChargedHadron_ : Option (MeasuredHadTauDecayProduct K)
  leg2leadChargedHadron_ : Option (MeasuredHadTauDecayProduct K)
  isCentral_ : Bool
  idxMEtSystematic_ : Nat
  useTauFlightLength_ : Bool
  const_FlightLength1_ : K
  const_FlightLength2_ : K
  diTauMassConstraint_ : K
  diTauMassConstraint2_ : K
  addLogM_ : Bool
  addLogM_power_ : K
  rhoHadTau_ : K
  useHadTauTF_ : Bool
  hadTauTFs_ : Option (HadTauTF K × HadTauTF K)
  legIntegrationParams_0 : integrationParameters
  legIntegrationParams_1 : integrationParameters
  numDimensions_ : Nat
  maxNumberOfDimensions_ : Nat
  xMin_ : List K
  xMax_ : List K
  x_ : List K
  errorCode_ : Nat
  probPS_ : K
  probFlightLength_ : K
  histogramAdapter_ : Option (HistogramAdapterDiTau K)
  verbosity_ : Int

variable {K : Type} [LinearOrderedField K]

/-! ## Auxiliary functions (svFitAuxFunctions) -/

/-- The helper `square` of svFitAuxFunctions.h. -/
def square (x : K) : K := x * x

/-- Element `v[idx]` of a `std::vector` read with an `int` index; `none` when out of bounds. -/
def readX (x : List K) (idx : Int) : Option K :=
  if idx < 0 then none else x[idx.toNat]?

/-- The literal `1.e-300`. -/
def floor300 : K := 1 / 10 ^ 300

/-- The literal `1.e-5`. -/
def lit1em5 : K := 1 / 10 ^ 5

/-- The literal `1.e-2`. -/
def lit1em2 : K := 1 / 10 ^ 2

/-- Sum of two four-momenta (`LorentzVector::operator+`). -/
def LorentzVector.add (a b : LorentzVector K) : LorentzVector K :=
  { px := a.px + b.px, py := a.py + b.py, pz := a.pz + b.pz, E := a.E + b.E }

/-- Spatial part of a four-momentum (`LorentzVector::Vect`). -/
def LorentzVector.Vect (p : LorentzVector K) : Vector K :=
  { x := p.px, y := p.py, z := p.pz }

/-- Momentum magnitude (`LorentzVector::P`). -/
def LorentzVector.P (env : Env K) (p : LorentzVector K) : K :=
  env.sqrt (p.px * p.px + p.py * p.py + p.pz * p.pz)

/-- Transverse momentum (`LorentzVector::pt`). -/
def LorentzVector.pt (env : Env K) (p : LorentzVector K) : K :=
  env.sqrt (p.px * p.px + p.py * p.py)

/-- Invariant mass (`LorentzVector::mass`): `sqrt(m2)` for `m2 = E^2 - p^2 >= 0`, and
`-sqrt(-m2)` for a space-like vector. -/
def LorentzVector.mass (env : Env K) (p : LorentzVector K) : K :=
  let mm := p.E * p.E - p.px * p.px - p.py * p.py - p.pz * p.pz
  if 0 ≤ mm then env.sqrt mm else -env.sqrt (-mm)

/-- Difference of two points (`Point - Point`, a `Vector`). -/
def Vector.sub (a b : Vector K) : Vector K :=
  { x := a.x - b.x, y := a.y - b.y, z := a.z - b.z }

/-- The function `normalize` (svFitAuxFunctions.cc, lines 154-164). -/
def normalize (env : Env K) (p : Vector K) : Vector K :=
  let mag2 := square p.x + square p.y + square p.z
  if mag2 ≤ 0 then p
  else
    let mag := env.sqrt mag2
    { x := p.x / mag, y := p.y / mag, z := p.z / mag }

/-- Components of a three-vector as a `TVectorD` (`convert_to_mathVector`). -/
def convert_to_mathVector (p : Vector K) : Nat → K
  | 0 => p.x
  | 1 => p.y
  | _ => p.z

/-- Product `m*v` of an `n x n` `TMatrixD` with a `TVectorD`. -/
def matVec (n : Nat) (m : TMatrixD K) (v : Nat → K) : Nat → K :=
  fun i => ((List.range n).map fun j => m i j * v j).sum

/-- Scalar product `a*b` of two `TVectorD` of size `n`. -/
def dotVec (n : Nat) (a b : Nat → K) : K :=
  ((List.range n).map fun i => a i * b i).sum

/-- The function `compCosThetaNuNu` (svFitAuxFunctions.cc, lines 181-186). -/
def compCosThetaNuNu (env : Env K) (visEn visP visMass2 nunuEn nunuP nunuMass2 : K) : K :=
  (visEn * nunuEn - (1 / 2) * (env.tauLeptonMass2 - (visMass2 + nunuMass2))) / (visP * nunuP)

/-- The function `compPSfactor_tauToLepDecay` (svFitAuxFunctions.cc, lines 188-214), compiled
without `XSECTION_NORMALIZATION`. -/
def compPSfactor_tauToLepDecay (env : Env K) (x visEn visP visMass nunuEn nunuP nunuMass : K) :
    K :=
  let visMass2 := square visMass
  let nunuMass2 := square nunuMass
  if x ≥ visMass2 / env.tauLeptonMass2 ∧ x ≤ 1 ∧ nunuMass2 < (1 - x) * env.tauLeptonMass2 then
    let tauEn_rf := (env.tauLeptonMass2 + nunuMass2 - visMass2) / (2 * nunuMass)
    let visEn_rf := tauEn_rf - nunuMass
    if ¬ (tauEn_rf ≥ env.tauLeptonMass ∧ visEn_rf ≥ visMass) then 0
    else
      let I := nunuMass2 * (2 * tauEn_rf * visEn_rf -
        (2 / 3) * env.sqrt ((square tauEn_rf - env.tauLeptonMass2) * (square visEn_rf - visMass2)))
      let cosThetaNuNu := compCosThetaNuNu env visEn visP visMass2 nunuEn nunuP nunuMass2
      if ¬ (cosThetaNuNu ≥ -1 + env.epsilon ∧ cosThetaNuNu ≤ 1) then 0
      else
        (visEn + nunuEn) * I / (8 * visP * square x *
          env.sqrt (square visP + square nunuP + 2 * visP * nunuP * cosThetaNuNu
            + env.tauLeptonMass2))
  else 0

/-- The function `compPSfactor_tauToHadDecay` (svFitAuxFunctions.cc, lines 216-240), compiled
without `XSECTION_NORMALIZATION`. -/
def compPSfactor_tauToHadDecay (env : Env K) (x visEn visP visMass nuEn nuP : K) : K :=
  let visMass2 := square visMass
  if x ≥ visMass2 / env.tauLeptonMass2 ∧ x ≤ 1 then
    let cosThetaNu := compCosThetaNuNu env visEn visP visMass2 nuEn nuP 0
    if ¬ (cosThetaNu ≥ -1 + env.epsilon ∧ cosThetaNu ≤ 1) then 0
    else
      let PSfactor := (visEn + nuEn) / (8 * visP * square x *
        env.sqrt (square visP + square nuP + 2 * visP * nuP * cosThetaNu + env.tauLeptonMass2))
      PSfactor * (1 / (env.tauLeptonMass2 - visMass2))
  else 0

/-! ## rescaleX (ClassicSVfitIntegrand.cc, lines 348-356) -/

/-- The loop of `rescaleX`: `n` iterations are left, `iDimension` is the current index. -/
def rescaleXLoop (q : Nat → K) (xMin xMax : List K) : Nat → Nat → List K → Option (List K)
  | 0, _, x => some x
  | n + 1, iDimension, x =>
    match xMin[iDimension]?, xMax[iDimension]? with
    | some lo, some hi =>
      if iDimension < x.length then
        rescaleXLoop q xMin xMax n (iDimension + 1)
          (x.set iDimension ((1 - q iDimension) * lo + q iDimension * hi))
      else none
    | _, _ => none

/-- `ClassicSVfitIntegrand::rescaleX`. -/
def rescaleX (s : ClassicSVfitIntegrand K) (q : Nat → K) : Option (ClassicSVfitIntegrand K) :=
  match rescaleXLoop q s.xMin_ s.xMax_ s.numDimensions_ 0 s.x_ with
  | some x => some { s with x_ := x }
  | none => none

/-! ## EvalPS (ClassicSVfitIntegrand.cc, lines 358-556)

The body is cut at its early `return`s: `EvalPS` (lines 373-388) continues in `EvalPS_leg1`
(lines 390-416), `EvalPS_leg2` (lines 418-467) and `EvalPS_prob` (lines 489-555). -/

/-- Lines 376-382: the shift of the visible momentum of one leg, `1.` unless the hadronic
transfer function is in use, the leg has a `VisPtShift` dimension and is not leptonic. -/
def visPtShift (s : ClassicSVfitIntegrand K) (params : integrationParameters)
    (isLeptonicTauDecay : Bool) : Option K :=
  if s.useHadTauTF_ = true ∧ params.idx_VisPtShift_ ≠ -1 ∧ isLeptonicTauDecay = false then
    match readX s.x_ params.idx_VisPtShift_ with
    | some v => some (1 / v)
    | none => none
  else some 1

/-- Lines 391-397: `x1_dash`; `none` is the failing `assert(idx_x1 != -1)` or a read outside
`x_`. -/
def x1_dash (s : ClassicSVfitIntegrand K) : Option K :=
  if s.leg1isPrompt_ = false then
    if s.legIntegrationParams_0.idx_X_ ≠ -1 then readX s.x_ s.legIntegrationParams_0.idx_X_
    else none
  else some 1

/-- Lines 419-448: `x2_dash`, read from the sample or derived from the mass constraint. -/
def x2_dash (s : ClassicSVfitIntegrand K) (x1_dash : K) : Option K :=
  if s.leg2isPrompt_ = false then
    if s.legIntegrationParams_1.idx_X_ ≠ -1 then readX s.x_ s.legIntegrationParams_1.idx_X_
    else some ((s.mVis2_measured_ / s.diTauMassConstraint2_) / x1_dash)
  else some 1

/-- Lines 404-409 and 455-460: read the angle and the neutrino-system mass of a leg from `x_`
and call `updateTauMomentum`; `none` is the failing `assert(idx_phiNu != -1)` or a read
outside `x_`. -/
def updateLeg (env : Env K) (x_ : List K) (params : integrationParameters)
    (leg : FittedTauLepton K) (x : K) : Option (FittedTauLepton K) :=
  if params.idx_phi_ ≠ -1 then
    match readX x_ params.idx_phi_ with
    | none => none
    | some phiNu =>
      if params.idx_mNuNu_ ≠ -1 then
        match readX x_ params.idx_mNuNu_ with
        | none => none
        | some m2 => some (env.updateTauMomentum leg x phiNu (env.sqrt m2))
      else some (env.updateTauMomentum leg x phiNu 0)
  else none

/-- Lines 502-504: the decay matrix element of one leg. -/
def legDecayProb (env : Env K) (leg : FittedTauLepton K) : K :=
  if leg.getMeasuredTauLepton.isLeptonicTauDecay = true then
    compPSfactor_tauToLepDecay env leg.x leg.visP4.E (leg.visP4.P env)
      leg.getMeasuredTauLepton.mass leg.nuP4.E (leg.nuP4.P env) leg.nuMass
  else if leg.getMeasuredTauLepton.isHadronicTauDecay = true then
    compPSfactor_tauToHadDecay env leg.x leg.visP4.E (leg.visP4.P env)
      leg.getMeasuredTauLepton.mass leg.nuP4.E (leg.nuP4.P env)
  else 1

/-- Lines 508-519: the transfer function of one leg multiplied into `prob_TF`; `none` is a
read outside `hadTauTFs_`. -/
def legProbTF (env : Env K) (s : ClassicSVfitIntegrand K) (params : integrationParameters)
    (hadTauTF : Option (HadTauTF K)) (leg : FittedTauLepton K) (prob_TF : K) : Option K :=
  if s.useHadTauTF_ = true ∧ params.idx_VisPtShift_ ≠ -1 ∧
      leg.getMeasuredTauLepton.isHadronicTauDecay = true then
    match hadTauTF with
    | none => none
    | some tf =>
      some (prob_TF * tf leg.getMeasuredTauLepton.pt (leg.visP4.pt env) (env.eta leg.visP4))
  else some prob_TF

/-- Lines 489-555: the product of the densities, the regularization term and the Jacobian. -/
def EvalPS_prob (env : Env K) (s : ClassicSVfitIntegrand K) (visPtShift1 visPtShift2 x2 : K) :
    Option K :=
  let prob_tauDecay := 1 * legDecayProb env s.fittedTauLepton1_ * legDecayProb env s.fittedTauLepton2_
  match legProbTF env s s.legIntegrationParams_0 (s.hadTauTFs_.map Prod.fst) s.fittedTauLepton1_ 1 with
  | none => none
  | some prob_TF0 =>
    match legProbTF env s s.legIntegrationParams_1 (s.hadTauTFs_.map Prod.snd) s.fittedTauLepton2_
        prob_TF0 with
    | none => none
    | some prob_TF =>
      let prob_PS_and_tauDecay := env.constFactor * prob_tauDecay * env.matrixElementNorm
      let mTauTau := (s.fittedTauLepton1_.tauP4.add s.fittedTauLepton2_.tauP4).mass env
      let prob_logM := if s.addLogM_ = true then 1 / env.pow (max 1 mTauTau) s.addLogM_power_ else 1
      let jacobiFactor0 := 1 / (visPtShift1 * visPtShift2)
      let jacobiFactor :=
        if s.diTauMassConstraint_ > 0 then jacobiFactor0 * (2 * x2 / s.diTauMassConstraint_)
        else jacobiFactor0
      some (prob_PS_and_tauDecay * prob_TF * prob_logM * jacobiFactor)

/-- Lines 418-467, then the product: the second leg. -/
def EvalPS_leg2 (env : Env K) (s : ClassicSVfitIntegrand K) (visPtShift1 visPtShift2 x1_dash : K) :
    Option (K × ClassicSVfitIntegrand K) :=
  match x2_dash s x1_dash with
  | none => none
  | some x2_dash =>
    let x2 := x2_dash / visPtShift2
    if ¬ (x2 ≥ lit1em5 ∧ x2 ≤ 1) then some (0, s)
    else if s.leg2isPrompt_ = false then
      match updateLeg env s.x_ s.legIntegrationParams_1 s.fittedTauLepton2_ x2 with
      | none => none
      | some leg2 =>
        let s2 := { s with fittedTauLepton2_ := leg2 }
        if leg2.errorCode ≠ env.FittedTauLepton_None then
          some (0, { s2 with errorCode_ := s2.errorCode_ ||| env.TauDecayParameters })
        else (EvalPS_prob env s2 visPtShift1 visPtShift2 x2).map fun prob => (prob, s2)
    else (EvalPS_prob env s visPtShift1 visPtShift2 x2).map fun prob => (prob, s)

/-- Lines 390-416, then the second leg: the first leg. -/
def EvalPS_leg1 (env : Env K) (s : ClassicSVfitIntegrand K) (visPtShift1 visPtShift2 : K) :
    Option (K × ClassicSVfitIntegrand K) :=
  match x1_dash s with
  | none => none
  | some x1_dash =>
    let x1 := x1_dash / visPtShift1
    if ¬ (x1 ≥ lit1em5 ∧ x1 ≤ 1) then some (0, s)
    else if s.leg1isPrompt_ = false then
      match updateLeg env s.x_ s.legIntegrationParams_0 s.fittedTauLepton1_ x1 with
      | none => none
      | some leg1 =>
        let s1 := { s with fittedTauLepton1_ := leg1 }
        if leg1.errorCode ≠ env.FittedTauLepton_None then
          some (0, { s1 with errorCode_ := s1.errorCode_ ||| env.TauDecayParameters })
        else EvalPS_leg2 env s1 visPtShift1 visPtShift2 x1_dash
    else EvalPS_leg2 env s visPtShift1 visPtShift2 x1_dash

/-- `ClassicSVfitIntegrand::EvalPS`: the value returned and the object state left behind. -/
def EvalPS (env : Env K) (s : ClassicSVfitIntegrand K) : Option (K × ClassicSVfitIntegrand K) :=
  let s0 := { s with errorCode_ := s.errorCode_ &&& (s.errorCode_ ^^^ env.TauDecayParameters) }
  match visPtShift s0 s0.legIntegrationParams_0 s0.leg1isLeptonicTauDecay_,
        visPtShift s0 s0.legIntegrationParams_1 s0.leg2isLeptonicTauDecay_ with
  | some visPtShift1, some visPtShift2 =>
    if visPtShift1 < lit1em2 ∨ visPtShift2 < lit1em2 then some (0, s0)
    else
      EvalPS_leg1 env
        { s0 with
          fittedTauLepton1_ := env.updateVisMomentum s0.fittedTauLepton1_ visPtShift1
          fittedTauLepton2_ := env.updateVisMomentum s0.fittedTauLepton2_ visPtShift2 }
        visPtShift1 visPtShift2
  | _, _ => none

/-! ## EvalFlightLength (ClassicSVfitIntegrand.cc, lines 558-634) -/

/-- Lines 566-627: one pass of the loop over the legs, multiplying `prob` by the leg's term;
`none` is a null `leadChargedHadron`, a read outside `x_` or the failing
`assert(jacobiFactor > 0.)`. -/
def EvalFlightLength_leg (env : Env K) (s : ClassicSVfitIntegrand K)
    (fittedTauLepton : FittedTauLepton K) (decayVertexCov decayVertexCovInv : TMatrixD K)
    (leadChargedHadron : Option (MeasuredHadTauDecayProduct K)) (params : integrationParameters)
    (const_FlightLength : K) (prob : K) : Option K :=
  let tauP4 := fittedTauLepton.tauP4
  let tauP3 := tauP4.Vect
  let measuredTauLepton := fittedTauLepton.getMeasuredTauLepton
  if measuredTauLepton.isPrompt = true then some prob
  else
    let decayVertex := measuredTauLepton.decayVertex
    match leadChargedHadron with
    | none => none
    | some hadron =>
      let pca := env.comp_PCA tauP4 measuredTauLepton hadron s.primaryVertex_ decayVertex
        decayVertexCovInv
      let flightLength := pca.sub s.primaryVertex_
      let dmin_and_dmax := env.comp_dmin_and_dmax tauP4 flightLength decayVertexCov
      let dmin := dmin_and_dmax.1
      let dmax := dmin_and_dmax.2
      match readX s.x_ params.idx_flightLength_ with
      | none => none
      | some x_flightLength =>
        let d := (1 - x_flightLength) * dmin + x_flightLength * dmax
        let gamma0 := tauP4.E / env.tauLeptonMass
        let gamma := if gamma0 < 1 then 1 else gamma0
        let gamma_times_cTauLifetime := gamma * env.cTauLifetime
        let prob_expDecay := (1 / gamma_times_cTauLifetime) * env.exp (-d / gamma_times_cTauLifetime)
        let eTau := convert_to_mathVector (normalize env tauP3)
        let residual : Nat → K := fun i =>
          convert_to_mathVector (decayVertex.sub s.primaryVertex_) i - d * eTau i
        let pull2 := dotVec 3 residual (matVec 3 decayVertexCovInv residual)
        let prob_TF := const_FlightLength * env.exp (-(1 / 2) * pull2)
        let jacobiFactor := dmax - dmin
        if jacobiFactor > 0 then some (prob * (prob_expDecay * prob_TF * jacobiFactor))
        else none

/-- `ClassicSVfitIntegrand::EvalFlightLength`. -/
def EvalFlightLength (env : Env K) (s : ClassicSVfitIntegrand K) : Option K :=
  if s.useTauFlightLength_ = false then some 1
  else
    match EvalFlightLength_leg env s s.fittedTauLepton1_ s.leg1decayVertexCov_
        s.leg1decayVertexCovInv_ s.leg1leadChargedHadron_ s.legIntegrationParams_0
        s.const_FlightLength1_ 1 with
    | none => none
    | some prob =>
      EvalFlightLength_leg env s s.fittedTauLepton2_ s.leg2decayVertexCov_
        s.leg2decayVertexCovInv_ s.leg2leadChargedHadron_ s.legIntegrationParams_1
        s.const_FlightLength2_ prob

/-! ## EvalMEtTF (ClassicSVfitIntegrand.cc, lines 636-755) -/

/-- Lines 660-672 and 717-731: the hadronic-response correction of one leg to the residual
`(px, py, pz, E)`; `withPzE` is false in the two-dimensional variant, which corrects `px` and
`py` only.  `none` is a read outside `x_`. -/
def EvalMEtTF_correction (s : ClassicSVfitIntegrand K) (fittedTauLepton : FittedTauLepton K)
    (params : integrationParameters) (withPzE : Bool) (r : K × K × K × K) :
    Option (K × K × K × K) :=
  let measuredTauLepton := fittedTauLepton.getMeasuredTauLepton
  if measuredTauLepton.isHadronicTauDecay = true then
    if params.idx_VisPtShift_ ≠ -1 then
      match readX s.x_ params.idx_VisPtShift_ with
      | none => none
      | some v =>
        let visPtShift := 1 / v
        if visPtShift < lit1em2 then some r
        else
          let c := s.rhoHadTau_ * (visPtShift - 1)
          if withPzE = true then
            some (r.1 + c * measuredTauLepton.px, r.2.1 + c * measuredTauLepton.py,
              r.2.2.1 + c * measuredTauLepton.pz, r.2.2.2 + c * measuredTauLepton.energy)
          else some (r.1 + c * measuredTauLepton.px, r.2.1 + c * measuredTauLepton.py, r.2.2)
    else some r
  else some r

/-- Lines 655-675 and 712-734: the correction of both legs, applied when `rhoHadTau_ != 0.`. -/
def EvalMEtTF_residual (s : ClassicSVfitIntegrand K) (withPzE : Bool) (r : K × K × K × K) :
    Option (K × K × K × K) :=
  if s.rhoHadTau_ ≠ 0 then
    match EvalMEtTF_correction s s.fittedTauLepton1_ s.legIntegrationParams_0 withPzE r with
    | none => none
    | some r1 => EvalMEtTF_correction s s.fittedTauLepton2_ s.legIntegrationParams_1 withPzE r1
  else some r

/-- Components of the four-dimensional residual as a `TVectorD`. -/
def residual4 (r : K × K × K × K) : Nat → K
  | 0 => r.1
  | 1 => r.2.1
  | 2 => r.2.2.1
  | _ => r.2.2.2

/-- `ClassicSVfitIntegrand::EvalMEtTF`; `none` is the `assert(0)` reached for a collision type
that is neither of the two, or a read outside `x_`. -/
def EvalMEtTF (env : Env K) (s : ClassicSVfitIntegrand K) (measuredMEt : MeasuredMEt K) :
    Option K :=
  match measuredMEt.type with
  | CollisionType.kProtonProtonCollisions =>
    let sumNuPx := 0 + s.fittedTauLepton1_.nuP4.px + s.fittedTauLepton2_.nuP4.px
    let sumNuPy := 0 + s.fittedTauLepton1_.nuP4.py + s.fittedTauLepton2_.nuP4.py
    match EvalMEtTF_residual s false (measuredMEt.px - sumNuPx, measuredMEt.py - sumNuPy, 0, 0) with
    | none => none
    | some r =>
      let residualPx := r.1
      let residualPy := r.2.1
      let covInv := measuredMEt.covInv
      let pull2 := residualPx * (covInv 0 0 * residualPx + covInv 0 1 * residualPy) +
        residualPy * (covInv 1 0 * residualPx + covInv 1 1 * residualPy)
      some (measuredMEt.const_MET * env.exp (-(1 / 2) * pull2))
  | CollisionType.kElectronPositronCollisions =>
    let sumNuPx := 0 + s.fittedTauLepton1_.nuP4.px + s.fittedTauLepton2_.nuP4.px
    let sumNuPy := 0 + s.fittedTauLepton1_.nuP4.py + s.fittedTauLepton2_.nuP4.py
    let sumNuPz := 0 + s.fittedTauLepton1_.nuP4.pz + s.fittedTauLepton2_.nuP4.pz
    let sumNuE := 0 + s.fittedTauLepton1_.nuP4.E + s.fittedTauLepton2_.nuP4.E
    match EvalMEtTF_residual s true (measuredMEt.px - sumNuPx, measuredMEt.py - sumNuPy,
        measuredMEt.pz - sumNuPz, measuredMEt.energy - sumNuE) with
    | none => none
    | some r =>
      let residual := residual4 r
      let pull2 := dotVec 4 residual (matVec 4 measuredMEt.covInv residual)
      some (measuredMEt.const_MET * env.exp (-(1 / 2) * pull2))
  | CollisionType.other => none

/-! ## Eval (ClassicSVfitIntegrand.cc, lines 313-346) -/

/-- The setup-time test of lines 317-320. -/
def hasSetupError (env : Env K) (s : ClassicSVfitIntegrand K) : Prop :=
  s.errorCode_ &&& env.MatrixInversion ≠ 0 ∨ s.errorCode_ &&& env.LeptonNumber ≠ 0 ∨
  s.errorCode_ &&& env.MissingVertex ≠ 0 ∨ s.errorCode_ &&& env.MissingLeadChargedHadron ≠ 0

instance (env : Env K) (s : ClassicSVfitIntegrand K) : Decidable (hasSetupError env s) := by
  unfold hasSetupError; infer_instance

/-- Line 336: the index of the MEt alternative, an `unsigned int`. -/
def idxMeasuredMEt (s : ClassicSVfitIntegrand K) : Nat :=
  if s.isCentral_ = true then 0 else (s.idxMEtSystematic_ + 1) % 2 ^ 32

/-- Lines 333-345: the floor test, the MEt term, the product and the report to the sink;
`none` is the failing `assert(idxMeasuredMEt < measuredMEt.size())` or an abort of
`EvalMEtTF`. -/
def Eval_combine (env : Env K) (s : ClassicSVfitIntegrand K) :
    Option (K × ClassicSVfitIntegrand K) :=
  if s.probPS_ * s.probFlightLength_ < floor300 then some (0, s)
  else
    match s.measuredEvent_.MEt[idxMeasuredMEt s]? with
    | none => none
    | some measuredMEt =>
      match EvalMEtTF env s measuredMEt with
      | none => none
      | some probMEtTF =>
        let prob := s.probPS_ * s.probFlightLength_ * probMEtTF
        match s.histogramAdapter_ with
        | some adapter =>
          if prob > floor300 then
            let adapter1 := adapter.setFittedTauLeptons s.fittedTauLepton1_ s.fittedTauLepton2_
            some (prob, { s with histogramAdapter_ := some adapter1 })
          else some (prob, s)
        | none => some (prob, s)

/-- `ClassicSVfitIntegrand::Eval`: the value returned and the object state left behind. -/
def Eval (env : Env K) (s : ClassicSVfitIntegrand K) (q : Nat → K) :
    Option (K × ClassicSVfitIntegrand K) :=
  if hasSetupError env s then some (0, s)
  else
    match rescaleX s q with
    | none => none
    | some s1 =>
      if s1.isCentral_ = true ∨ s1.idxMEtSystematic_ = 0 then
        match EvalPS env s1 with
        | none => none
        | some (probPS, s2) =>
          let s3 := { s2 with probPS_ := probPS }
          if s3.errorCode_ &&& env.TauDecayParameters ≠ 0 then some (0, s3)
          else
            match EvalFlightLength env s3 with
            | none => none
            | some probFlightLength =>
              Eval_combine env { s3 with probFlightLength_ := probFlightLength }
      else Eval_combine env s1

/-! ## Construction and configuration (ClassicSVfitIntegrand.cc, lines 17-156) -/

/-- The constructor `ClassicSVfitIntegrand(int verbosity)` (lines 17-58).  The members that the
constructor does not initialize keep the value they have in `uninitialized`. -/
def ClassicSVfitIntegrand.ctor (uninitialized : ClassicSVfitIntegrand K) (verbosity : Int) :
    ClassicSVfitIntegrand K :=
  { uninitialized with
    leg1leadChargedHadron_ := none
    leg2leadChargedHadron_ := none
    isCentral_ := true
    idxMEtSystematic_ := 0
    useTauFlightLength_ := false
    const_FlightLength1_ := 0
    const_FlightLength2_ := 0
    diTauMassConstraint_ := -1
    addLogM_ := true
    addLogM_power_ := 6
    rhoHadTau_ := 0
    useHadTauTF_ := false
    hadTauTFs_ := none
    legIntegrationParams_0 := ⟨-1, -1, -1, -1, -1⟩
    legIntegrationParams_1 := ⟨-1, -1, -1, -1, -1⟩
    maxNumberOfDimensions_ := 4 * 2
    numDimensions_ := 0
    x_ := []
    xMin_ := []
    xMax_ := []
    errorCode_ := 0
    probPS_ := 0
    probFlightLength_ := 0
    histogramAdapter_ := none
    verbosity_ := verbosity }

/-- `ClassicSVfitIntegrand::setCentral` (lines 70-75). -/
def setCentral (s : ClassicSVfitIntegrand K) : ClassicSVfitIntegrand K :=
  { s with isCentral_ := true, idxMEtSystematic_ := 0 }

/-- `ClassicSVfitIntegrand::setMEtSystematic` (lines 77-82); `idx` is an `unsigned int`. -/
def setMEtSystematic (s : ClassicSVfitIntegrand K) (idx : Nat) : ClassicSVfitIntegrand K :=
  { s with isCentral_ := false, idxMEtSystematic_ := idx % 2 ^ 32 }

/-- `ClassicSVfitIntegrand::enableDiTauMassConstraint` (lines 96-101). -/
def enableDiTauMassConstraint (s : ClassicSVfitIntegrand K) (diTauMass : K) :
    ClassicSVfitIntegrand K :=
  { s with diTauMassConstraint_ := diTauMass, diTauMassConstraint2_ := square diTauMass }

/-- `ClassicSVfitIntegrand::disableDiTauMassConstraint` (lines 103-108). -/
def disableDiTauMassConstraint (s : ClassicSVfitIntegrand K) : ClassicSVfitIntegrand K :=
  { s with diTauMassConstraint_ := -1, diTauMassConstraint2_ := -1 }

/-- `ClassicSVfitIntegrand::setHistogramAdapter` (lines 124-128); `none` is the null pointer. -/
def setHistogramAdapter (s : ClassicSVfitIntegrand K)
    (histogramAdapter : Option (HistogramAdapterDiTau K)) : ClassicSVfitIntegrand K :=
  { s with histogramAdapter_ := histogramAdapter }

/-- `ClassicSVfitIntegrand::setIntegrationRanges` (lines 151-156). -/
def setIntegrationRanges (s : ClassicSVfitIntegrand K) (xl xh : List K) :
    ClassicSVfitIntegrand K :=
  { s with xMin_ := xl, xMax_ := xh }

/-- `ClassicSVfitIntegrand::setNumDimensions` (lines 137-143); `none` is the failing `assert`.
`resize` keeps the leading entries of `x_` and pads with `0.`. -/
def setNumDimensions (s : ClassicSVfitIntegrand K) (numDimensions : Nat) :
    Option (ClassicSVfitIntegrand K) :=
  if numDimensions ≤ s.maxNumberOfDimensions_ then
    some { s with
      numDimensions_ := numDimensions
      x_ := s.x_.take numDimensions ++ List.replicate (numDimensions - s.x_.length) 0 }
  else none

/-! ## The inverse of the rescaling, as the specification words it -/

/-- The inverse affine map `x -> (x - xMin)/(xMax - xMin)` of the specification's round-trip
property; it is undefined (`none`) where the divisor `xMax - xMin` is zero. -/
def inverseAffine (xMin xMax x : K) : Option K :=
  if xMax - xMin = 0 then none else some ((x - xMin) / (xMax - xMin))

/-! ## Sample inputs -/

/-- The zero four-momentum. -/
def LorentzVector.zero : LorentzVector K := ⟨0, 0, 0, 0⟩

/-- A four-momentum with every component multiplied by `a`. -/
def LorentzVector.scale (a : K) (p : LorentzVector K) : LorentzVector K :=
  ⟨a * p.px, a * p.py, a * p.pz, a * p.E⟩

/-- A sample measured lepton of the prompt category with four-momentum `p4` and no vertex. -/
def samplePromptLepton (p4 : LorentzVector K) : MeasuredTauLepton K :=
  { isLeptonicTauDecay := false, isHadronicTauDecay := false, isPrompt := true, decayMode := -1
    pt := 0, px := p4.px, py := p4.py, pz := p4.pz, energy := p4.E, mass := 0, p4 := p4
    hasDecayVertex := false, decayVertex := ⟨0, 0, 0⟩, decayVertexCov := fun _ _ => 0
    decayVertexCovInv_isValid := false, leadChargedHadron := none }

/-- A sample measured hadronic tau decay with massless visible four-momentum `p4`. -/
def sampleHadTau (p4 : LorentzVector K) : MeasuredTauLepton K :=
  { samplePromptLepton p4 with isHadronicTauDecay := true, isPrompt := false, decayMode := 0 }

/-- A fitted leg freshly bound to a measured lepton. -/
def sampleFitted (m : MeasuredTauLepton K) : FittedTauLepton K :=
  { getMeasuredTauLepton := m, visP4 := m.p4, nuP4 := LorentzVector.zero, tauP4 := m.p4
    x := 1, nuMass := 0, errorCode := 0 }

/-- A sample environment around given library functions.  The constants are placeholders; the
error masks are five distinct bits; `updateTauMomentum` is the collinear solution (invisible
momentum parallel to the visible one, `nuP4 = (1-x)/x * visP4`, `tauP4 = visP4/x`), flagging an
error for `x <= 0`. -/
def sampleEnv (exp sqrt : K → K) (pow : K → K → K) : Env K :=
  { exp := exp, sqrt := sqrt, pow := pow, eta := fun _ => 0
    tauLeptonMass := 2, tauLeptonMass2 := 4, cTauLifetime := 1 / 100, epsilon := 1 / 1000
    constFactor := 1, matrixElementNorm := 1
    MatrixInversion := 1, LeptonNumber := 2, TauDecayParameters := 4, MissingVertex := 8
    MissingLeadChargedHadron := 16, FittedTauLepton_None := 0
    setMeasuredTauLepton := fun _ m => sampleFitted m
    updateVisMomentum := fun leg visPtShift =>
      { leg with visP4 := LorentzVector.scale visPtShift leg.getMeasuredTauLepton.p4 }
    updateTauMomentum := fun leg x _ nuMass =>
      { leg with
        x := x, nuMass := nuMass
        nuP4 := LorentzVector.scale ((1 - x) / x) leg.visP4
        tauP4 := LorentzVector.scale (1 / x) leg.visP4
        errorCode := if x ≤ 0 then 1 else 0 }
    comp_PCA := fun _ _ _ primaryVertex _ _ => primaryVertex
    comp_dmin_and_dmax := fun _ _ _ => (0, 1) }

/-- The sample environment over the rationals, with placeholders for the library functions. -/
def sampleEnvQ : Env ℚ := sampleEnv (fun _ => 1) (fun t => t) (fun _ _ => 1)

/-- A sample MEt measurement of the two-dimensional kind with unit inverse covariance. -/
def sampleMEt (px py : K) : MeasuredMEt K :=
  { type := CollisionType.kProtonProtonCollisions, px := px, py := py, pz := 0, energy := 0
    covInv := fun i j => if i = j then 1 else 0, covInv_isValid := true, const_MET := 1 }

/-- An integrand in which every member is zero, false or empty. -/
def blankIntegrand : ClassicSVfitIntegrand K :=
  { measuredEvent_ := ⟨[], [], false, ⟨0, 0, 0⟩, fun _ _ => 0, false⟩
    measuredTauLepton1_ := samplePromptLepton LorentzVector.zero
    measuredTauLepton2_ := samplePromptLepton LorentzVector.zero
    fittedTauLepton1_ := sampleFitted (samplePromptLepton LorentzVector.zero)
    fittedTauLepton2_ := sampleFitted (samplePromptLepton LorentzVector.zero)
    leg1isLeptonicTauDecay_ := false, leg1isHadronicTauDecay_ := false, leg1isPrompt_ := false
    leg2isLeptonicTauDecay_ := false, leg2isHadronicTauDecay_ := false, leg2isPrompt_ := false
    mVis_measured_ := 0, mVis2_measured_ := 0, primaryVertex_ := ⟨0, 0, 0⟩
    leg1decayVertexCov_ := fun _ _ => 0, leg1decayVertexCovInv_ := fun _ _ => 0
    leg2decayVertexCov_ := fun _ _ => 0, leg2decayVertexCovInv_ := fun _ _ => 0
    leg1leadChargedHadron_ := none, leg2leadChargedHadron_ := none
    isCentral_ := false, idxMEtSystematic_ := 0, useTauFlightLength_ := false
    const_FlightLength1_ := 0, const_FlightLength2_ := 0
    diTauMassConstraint_ := 0, diTauMassConstraint2_ := 0, addLogM_ := false, addLogM_power_ := 0
    rhoHadTau_ := 0, useHadTauTF_ := false, hadTauTFs_ := none
    legIntegrationParams_0 := ⟨-1, -1, -1, -1, -1⟩, legIntegrationParams_1 := ⟨-1, -1, -1, -1, -1⟩
    numDimensions_ := 0, maxNumberOfDimensions_ := 0, xMin_ := [], xMax_ := [], x_ := []
    errorCode_ := 0, probPS_ := 0, probFlightLength_ := 0, histogramAdapter_ := none
    verbosity_ := 0 }

/-- A sample integrand bound to an event of two prompt leptons `leg1`, `leg2` with the MEt
alternatives `mets`, as the constructor, `disableLogM`, `disableDiTauMassConstraint` and
`setMeasurement` (flight length disabled) leave it. -/
def samplePromptIntegrand (p1 p2 : LorentzVector K) (mets : List (MeasuredMEt K)) :
    ClassicSVfitIntegrand K :=
  { disableDiTauMassConstraint (ClassicSVfitIntegrand.ctor blankIntegrand 0) with
    addLogM_ := false, addLogM_power_ := 0
    measuredEvent_ :=
      ⟨[samplePromptLepton p1, samplePromptLepton p2], mets, false, ⟨0, 0, 0⟩, fun _ _ => 0, false⟩
    measuredTauLepton1_ := samplePromptLepton p1
    measuredTauLepton2_ := samplePromptLepton p2
    fittedTauLepton1_ := sampleFitted (samplePromptLepton p1)
    fittedTauLepton2_ := sampleFitted (samplePromptLepton p2)
    leg1isPrompt_ := true, leg2isPrompt_ := true }

/-! ## The state of the sink after Eval -/

/-- The sink as lines 341-344 leave it when the value about to be returned is `v` and the
fitted legs are `l1`, `l2`: one more recorded call when a sink is attached and `v > 1.e-300`,
no change otherwise. -/
def sinkAfter (adapter : Option (HistogramAdapterDiTau K)) (v : K) (l1 l2 : FittedTauLepton K) :
    Option (HistogramAdapterDiTau K) :=
  match adapter with
  | some a => if v > floor300 then some (a.setFittedTauLeptons l1 l2) else some a
  | none => none

/-- The sample integrand of two prompt leptons `(3,0,0,3)` and `(-3,0,0,3)` with one MEt
alternative `(0,0)`, after `enableDiTauMassConstraint(2e301)`. -/
def sampleFloorIntegrand : ClassicSVfitIntegrand K :=
  enableDiTauMassConstraint (samplePromptIntegrand ⟨3, 0, 0, 3⟩ ⟨-3, 0, 0, 3⟩ [sampleMEt 0 0])
    (2 * 10 ^ 301)

/-- A sample integrand with one dimension whose configured range is the single point 2. -/
def sampleDegenerateRange : ClassicSVfitIntegrand K :=
  { (blankIntegrand : ClassicSVfitIntegrand K) with
    numDimensions_ := 1, xMin_ := [2], xMax_ := [2], x_ := [0] }


/-- A sample integrand bound to a hadronic tau decay (leg 1, visible four-momentum `(3,0,0,3)`,
energy fraction in dimension 0, angle in dimension 1) and a prompt lepton (leg 2, `(-3,0,0,3)`),
with one MEt alternative `(3,0)`, regularization and mass constraint disabled. -/
def sampleHadIntegrand : ClassicSVfitIntegrand K :=
  { samplePromptIntegrand ⟨3, 0, 0, 3⟩ ⟨-3, 0, 0, 3⟩ [sampleMEt 3 0] with
    measuredEvent_ :=
      ⟨[sampleHadTau ⟨3, 0, 0, 3⟩, samplePromptLepton ⟨-3, 0, 0, 3⟩], [sampleMEt 3 0], false,
        ⟨0, 0, 0⟩, fun _ _ => 0, false⟩
    measuredTauLepton1_ := sampleHadTau ⟨3, 0, 0, 3⟩
    fittedTauLepton1_ := sampleFitted (sampleHadTau ⟨3, 0, 0, 3⟩)
    leg1isHadronicTauDecay_ := true, leg1isPrompt_ := false
    mVis_measured_ := 6, mVis2_measured_ := 36
    legIntegrationParams_0 := ⟨0, 1, -1, -1, -1⟩
    numDimensions_ := 2, x_ := [0, 0], xMin_ := [0, -3], xMax_ := [1, 3] }


/-! ## The configurations on which Eval does not abort -/

/-- An index read from `x_`: not negative and below `numDimensions_`. -/
def idxInRange (s : ClassicSVfitIntegrand K) (idx : Int) : Prop :=
  0 ≤ idx ∧ idx.toNat < s.numDimensions_

/-- The conditions that the assertions of `Eval`, `EvalPS`, `EvalFlightLength` and `EvalMEtTF`
test, and the bounds of the vectors they index:
the integration ranges and `x_` cover the `numDimensions_` dimensions; the energy-fraction index
of a non-prompt first leg and the angle index of every non-prompt leg are set; every other
index that is read is `-1` (where the code tests for it) or below `numDimensions_`;
`hadTauTFs_` is filled when the transfer function is used; with the flight length in use, every
non-prompt leg has a leading charged hadron and a flight-length dimension; and the selected MEt
alternative exists and is of one of the two known collision types. -/
structure WellConfigured (s : ClassicSVfitIntegrand K) : Prop where
  covered : s.numDimensions_ ≤ s.xMin_.length ∧ s.numDimensions_ ≤ s.xMax_.length ∧
    s.numDimensions_ ≤ s.x_.length
  idx_X_1 : s.leg1isPrompt_ = false → idxInRange s s.legIntegrationParams_0.idx_X_
  idx_X_2 : s.leg2isPrompt_ = false →
    s.legIntegrationParams_1.idx_X_ = -1 ∨ idxInRange s s.legIntegrationParams_1.idx_X_
  idx_phi_1 : s.leg1isPrompt_ = false → idxInRange s s.legIntegrationParams_0.idx_phi_
  idx_phi_2 : s.leg2isPrompt_ = false → idxInRange s s.legIntegrationParams_1.idx_phi_
  idx_mNuNu_1 : s.leg1isPrompt_ = false →
    s.legIntegrationParams_0.idx_mNuNu_ = -1 ∨ idxInRange s s.legIntegrationParams_0.idx_mNuNu_
  idx_mNuNu_2 : s.leg2isPrompt_ = false →
    s.legIntegrationParams_1.idx_mNuNu_ = -1 ∨ idxInRange s s.legIntegrationParams_1.idx_mNuNu_
  idx_VisPtShift_1 : s.useHadTauTF_ = true ∨ s.rhoHadTau_ ≠ 0 →
    s.legIntegrationParams_0.idx_VisPtShift_ = -1 ∨
      idxInRange s s.legIntegrationParams_0.idx_VisPtShift_
  idx_VisPtShift_2 : s.useHadTauTF_ = true ∨ s.rhoHadTau_ ≠ 0 →
    s.legIntegrationParams_1.idx_VisPtShift_ = -1 ∨
      idxInRange s s.legIntegrationParams_1.idx_VisPtShift_
  hadTauTFs : s.useHadTauTF_ = true → s.hadTauTFs_ ≠ none
  flightLength_1 : s.useTauFlightLength_ = true →
    s.fittedTauLepton1_.getMeasuredTauLepton.isPrompt = false →
    s.leg1leadChargedHadron_ ≠ none ∧ idxInRange s s.legIntegrationParams_0.idx_flightLength_
  flightLength_2 : s.useTauFlightLength_ = true →
    s.fittedTauLepton2_.getMeasuredTauLepton.isPrompt = false →
    s.leg2leadChargedHadron_ ≠ none ∧ idxInRange s s.legIntegrationParams_1.idx_flightLength_
  MEt : ∃ met, s.measuredEvent_.MEt[idxMeasuredMEt s]? = some met ∧
    met.type ≠ CollisionType.other

/-! ## Exchanging the two legs -/

/-- The integrand with the roles of the two legs exchanged: the measured leptons, the fitted
legs, the cached decay categories, the decay-vertex covariances, the leading charged hadrons,
the flight-length constants, the transfer functions and the integration-parameter maps of leg 1
and leg 2 change places; everything else (in particular `x_` and the ranges) stays. -/
def swapLegs (s : ClassicSVfitIntegrand K) : ClassicSVfitIntegrand K :=
  { s with
    measuredEvent_ := { s.measuredEvent_ with tauLeptons := s.measuredEvent_.tauLeptons.reverse }
    measuredTauLepton1_ := s.measuredTauLepton2_
    measuredTauLepton2_ := s.measuredTauLepton1_
    fittedTauLepton1_ := s.fittedTauLepton2_
    fittedTauLepton2_ := s.fittedTauLepton1_
    leg1isLeptonicTauDecay_ := s.leg2isLeptonicTauDecay_
    leg1isHadronicTauDecay_ := s.leg2isHadronicTauDecay_
    leg1isPrompt_ := s.leg2isPrompt_
    leg2isLeptonicTauDecay_ := s.leg1isLeptonicTauDecay_
    leg2isHadronicTauDecay_ := s.leg1isHadronicTauDecay_
    leg2isPrompt_ := s.leg1isPrompt_
    leg1decayVertexCov_ := s.leg2decayVertexCov_
    leg1decayVertexCovInv_ := s.leg2decayVertexCovInv_
    leg2decayVertexCov_ := s.leg1decayVertexCov_
    leg2decayVertexCovInv_ := s.leg1decayVertexCovInv_
    leg1leadChargedHadron_ := s.leg2leadChargedHadron_
    leg2leadChargedHadron_ := s.leg1leadChargedHadron_
    const_FlightLength1_ := s.const_FlightLength2_
    const_FlightLength2_ := s.const_FlightLength1_
    hadTauTFs_ := s.hadTauTFs_.map Prod.swap
    legIntegrationParams_0 := s.legIntegrationParams_1
    legIntegrationParams_1 := s.legIntegrationParams_0 }

/-- The outcome of lines 402-416 (leg 1) or 453-467 (leg 2) when no error is flagged: a
non-prompt leg is the result `l` of `updateLeg`, with its error code clear; a prompt leg is left
as it is. -/
def LegUpdated (env : Env K) (x_ : List K) (params : integrationParameters) (isPrompt : Bool)
    (leg : FittedTauLepton K) (x : K) (l : FittedTauLepton K) : Prop :=
  (isPrompt = false ∧ updateLeg env x_ params leg x = some l ∧
    l.errorCode = env.FittedTauLepton_None) ∨
  (isPrompt = true ∧ l = leg)

/-! ## The fitted leg, as the specification describes it -/

/-- The function `compScalarProduct` (svFitAuxFunctions.cc, lines 166-170). -/
def compScalarProduct (p1 p2 : Vector K) : K :=
  p1.x * p2.x + p1.y * p2.y + p1.z * p2.z

/-- The function `compCrossProduct` (svFitAuxFunctions.cc, lines 172-179). -/
def compCrossProduct (p1 p2 : Vector K) : Vector K :=
  { x := p1.y * p2.z - p1.z * p2.y
    y := p1.z * p2.x - p1.x * p2.z
    z := p1.x * p2.y - p1.y * p2.x }

/-- Modelled from the spec: `FittedTauLepton::updateTauMomentum` (FittedTauLepton.cc is not part
of the sources).  "Given the energy fraction x, the azimuthal angle phi of the invisible
system's momentum around the visible direction, and the invisible system's invariant mass,
solves the two-body kinematics: the invisible system's momentum magnitude is fixed by
energy-momentum conservation in the parent's rest frame, and the parent and invisible
4-momenta in the lab frame follow from rotating/boosting this rest-frame solution into the
measured visible direction.  Computation is guarded: if the implied rest-frame energies are
below their corresponding rest masses, or the solution requires imaginary momentum, flags
Error and leaves downstream momenta stale."

The energy fraction is the "ratio of visible-system energy to total leg energy in the lab
frame", so the invisible energy is `visEn*(1 - x)/x` and the invisible momentum is
`sqrt(nuEn^2 - nuMass^2)`; conservation of energy and momentum with the mass of the parent
fixes the angle between the visible and the invisible momentum (`compCosThetaNuNu`); the
invisible momentum is placed at that angle from the visible direction `eZ`, with azimuth
`phiNu` around it, in the frame `eY = eZ x beam axis`, `eX = eY x eZ`; the parent four-momentum
is the sum of the visible and the invisible one. -/
def updateTauMomentum_spec (env : Env K) (cos sin : K → K) (leg : FittedTauLepton K)
    (x phiNu nuMass : K) : FittedTauLepton K :=
  let visEn := leg.visP4.E
  let visP := leg.visP4.P env
  let visMass := leg.getMeasuredTauLepton.mass
  let visMass2 := square visMass
  let nuMass2 := square nuMass
  let nuEn := visEn * (1 - x) / x
  let visEn_rf := (env.tauLeptonMass2 + visMass2 - nuMass2) / (2 * env.tauLeptonMass)
  let nuEn_rf := (env.tauLeptonMass2 - visMass2 + nuMass2) / (2 * env.tauLeptonMass)
  let flagged : FittedTauLepton K :=
    { leg with x := x, nuMass := nuMass, errorCode := env.FittedTauLepton_None + 1 }
  if visEn_rf < visMass ∨ nuEn_rf < nuMass ∨ nuEn * nuEn < nuMass2 then flagged
  else
    let nuP := env.sqrt (nuEn * nuEn - nuMass2)
    let cosThetaNu := compCosThetaNuNu env visEn visP visMass2 nuEn nuP nuMass2
    if ¬ (cosThetaNu ≥ -1 ∧ cosThetaNu ≤ 1) then flagged
    else
      let sinThetaNu := env.sqrt (1 - cosThetaNu * cosThetaNu)
      let eZ := normalize env leg.visP4.Vect
      let eY := normalize env (compCrossProduct eZ ⟨0, 0, 1⟩)
      let eX := normalize env (compCrossProduct eY eZ)
      let nuPx_local := nuP * cos phiNu * sinThetaNu
      let nuPy_local := nuP * sin phiNu * sinThetaNu
      let nuPz_local := nuP * cosThetaNu
      let nuP4 : LorentzVector K :=
        { px := nuPx_local * eX.x + nuPy_local * eY.x + nuPz_local * eZ.x
          py := nuPx_local * eX.y + nuPy_local * eY.y + nuPz_local * eZ.y
          pz := nuPx_local * eX.z + nuPy_local * eY.z + nuPz_local * eZ.z
          E := nuEn }
      { leg with
        x := x, nuMass := nuMass, nuP4 := nuP4, tauP4 := leg.visP4.add nuP4
        errorCode := env.FittedTauLepton_None }

/-- The sample environment with `updateTauMomentum` as the specification describes it. -/
def specEnv (exp sqrt : K → K) (pow : K → K → K) (cos sin : K → K) : Env K :=
  { sampleEnv exp sqrt pow with
    updateTauMomentum := updateTauMomentum_spec (sampleEnv exp sqrt pow) cos sin }

/-- A sample integrand bound to two hadronic tau decays with massless visible four-momenta
`(2,0,0,2)` and `(14/25,48/25,0,2)` (visible mass `12/5`) and the MEt alternative `(0,0)`: leg 1
has its energy fraction in dimension 0 and its angle in dimension 1, leg 2 has its angle in
dimension 2 and no energy-fraction dimension. -/
def sampleConstraintBase : ClassicSVfitIntegrand K :=
  { samplePromptIntegrand ⟨2, 0, 0, 2⟩ ⟨14 / 25, 48 / 25, 0, 2⟩ [sampleMEt 0 0] with
    measuredEvent_ :=
      ⟨[sampleHadTau ⟨2, 0, 0, 2⟩, sampleHadTau ⟨14 / 25, 48 / 25, 0, 2⟩], [sampleMEt 0 0],
        false, ⟨0, 0, 0⟩, fun _ _ => 0, false⟩
    measuredTauLepton1_ := sampleHadTau ⟨2, 0, 0, 2⟩
    measuredTauLepton2_ := sampleHadTau ⟨14 / 25, 48 / 25, 0, 2⟩
    fittedTauLepton1_ := sampleFitted (sampleHadTau ⟨2, 0, 0, 2⟩)
    fittedTauLepton2_ := sampleFitted (sampleHadTau ⟨14 / 25, 48 / 25, 0, 2⟩)
    leg1isHadronicTauDecay_ := true, leg1isPrompt_ := false
    leg2isHadronicTauDecay_ := true, leg2isPrompt_ := false
    mVis_measured_ := 12 / 5, mVis2_measured_ := 144 / 25
    legIntegrationParams_0 := ⟨0, 1, -1, -1, -1⟩
    legIntegrationParams_1 := ⟨-1, 2, -1, -1, -1⟩
    numDimensions_ := 3, x_ := [0, 0, 0], xMin_ := [0, -3, -3], xMax_ := [1, 3, 3] }

/-- The sample integrand `sampleConstraintBase` with the mass constraint `M = 18/5` enabled. -/
def sampleConstraintIntegrand : ClassicSVfitIntegrand K :=
  enableDiTauMassConstraint sampleConstraintBase (18 / 5)

/-- The sample point `(2/3, 1/2, 1/2)`. -/
def sampleConstraintPoint : Nat → K
  | 0 => 2 / 3
  | _ => 1 / 2

/-- The sample point `(8/9, 1/2, 1/2)`. -/
def sampleFlagPoint : Nat → K
  | 0 => 8 / 9
  | _ => 1 / 2

/-! ## Verbosity (ClassicSVfitIntegrand.cc, lines 145-149 and the diagnostic blocks) -/

/-- `ClassicSVfitIntegrand::setVerbosity` (lines 145-149). -/
def setVerbosity (s : ClassicSVfitIntegrand K) (aVerbosity : Int) : ClassicSVfitIntegrand K :=
  { s with verbosity_ := aVerbosity }

/-- Lines 361-371: the diagnostic block of `EvalPS`, run when `verbosity_ >= 2`, prints
`x_[iDimension]` for every `iDimension < numDimensions_`; this is the condition that all these
reads are inside `x_`.  The other diagnostic blocks (lines 209-212, 469-487, 512-516, 543-549,
620-632, 681-687, 744-752) print values that the function has computed anyway. -/
def EvalPS_printInBounds (s : ClassicSVfitIntegrand K) : Prop :=
  s.verbosity_ ≥ 2 → s.numDimensions_ ≤ s.x_.length

/-! ## setMeasurement (ClassicSVfitIntegrand.cc, lines 182-311) -/

/-- What `setMeasurement` uses that is declared outside the source files: `invertMatrix` (the
inverse and the error flag it sets), `TMatrixD::Determinant`, `TMath::Pi()` and
`HadTauTFBase::setDecayMode`. -/
structure SetupEnv (K : Type) where
  invertMatrix : TMatrixD K → TMatrixD K × Bool
  Determinant : TMatrixD K → K
  Pi : K
  setDecayMode : HadTauTF K → Int → HadTauTF K

/-- Sum of two matrices (`TMatrixD::operator+`). -/
def TMatrixD.add (a b : TMatrixD K) : TMatrixD K := fun i j => a i j + b i j

/-- Lines 215-228: with the hadronic transfer function in use, `setDecayMode` is called on
`hadTauTFs_[iTau]` for every hadronic leg; `none` is a read outside `hadTauTFs_`. -/
def setMeasurement_hadTauTFs (senv : SetupEnv K) (s : ClassicSVfitIntegrand K)
    (leg1 leg2 : FittedTauLepton K) : Option (Option (HadTauTF K × HadTauTF K)) :=
  if s.useHadTauTF_ = true ∧ (leg1.getMeasuredTauLepton.isHadronicTauDecay = true ∨
      leg2.getMeasuredTauLepton.isHadronicTauDecay = true) then
    match s.hadTauTFs_ with
    | none => none
    | some tfs =>
      some (some
        (if leg1.getMeasuredTauLepton.isHadronicTauDecay = true then
            senv.setDecayMode tfs.1 leg1.getMeasuredTauLepton.decayMode
          else tfs.1,
         if leg2.getMeasuredTauLepton.isHadronicTauDecay = true then
            senv.setDecayMode tfs.2 leg2.getMeasuredTauLepton.decayMode
          else tfs.2))
  else some s.hadTauTFs_

/-- Lines 240-307: the part of `setMeasurement` that runs when `useTauFlightLength_` is set,
given the error code accumulated so far. -/
def setMeasurement_flightLength (env : Env K) (senv : SetupEnv K) (s : ClassicSVfitIntegrand K)
    (measuredEvent : MeasuredEvent K) (errorCode : Nat) : ClassicSVfitIntegrand K :=
  let measuredTauLeptons := measuredEvent.tauLeptons
  let hasPrimaryVertex := measuredEvent.hasPrimaryVertex
  let e1 := if hasPrimaryVertex = false then errorCode ||| env.MissingVertex else errorCode
  let e2 :=
    if hasPrimaryVertex = true ∧ measuredEvent.primaryVertexCovInv_isValid = false then
      e1 ||| env.MatrixInversion
    else e1
  let hasDecayVertices := measuredTauLeptons.foldl
    (fun b m => if m.isPrompt = true then b else if m.hasDecayVertex = false then false else b)
    true
  let e3 := if hasDecayVertices = false then e2 ||| env.MissingVertex else e2
  let covInv_isValid := measuredTauLeptons.foldl
    (fun b m => if m.decayVertexCovInv_isValid = false then false else b) true
  let e4 :=
    if hasDecayVertices = true ∧ covInv_isValid = false then e3 ||| env.MatrixInversion else e3
  let leg1decayVertexCov := s.measuredTauLepton1_.decayVertexCov.add measuredEvent.primaryVertexCov
  let inv1 := senv.invertMatrix leg1decayVertexCov
  let leg2decayVertexCov := s.measuredTauLepton2_.decayVertexCov.add measuredEvent.primaryVertexCov
  let inv2 := senv.invertMatrix leg2decayVertexCov
  let e5 := if inv1.2 = true ∨ inv2.2 = true then e4 ||| env.MatrixInversion else e4
  let leg1leadChargedHadron := s.measuredTauLepton1_.leadChargedHadron
  let leg2leadChargedHadron := s.measuredTauLepton2_.leadChargedHadron
  let e6 :=
    if ¬ ((leg1leadChargedHadron.isSome = true ∨ s.leg1isPrompt_ = true) ∧
        (leg2leadChargedHadron.isSome = true ∨ s.leg2isPrompt_ = true)) then
      e5 ||| env.MissingLeadChargedHadron
    else e5
  { s with
    primaryVertex_ := measuredEvent.primaryVertex
    leg1decayVertexCov_ := leg1decayVertexCov, leg1decayVertexCovInv_ := inv1.1
    leg2decayVertexCov_ := leg2decayVertexCov, leg2decayVertexCovInv_ := inv2.1
    const_FlightLength1_ :=
      1 / (env.pow (2 * senv.Pi) (3 / 2) * env.sqrt |senv.Determinant leg1decayVertexCov|)
    const_FlightLength2_ :=
      1 / (env.pow (2 * senv.Pi) (3 / 2) * env.sqrt |senv.Determinant leg2decayVertexCov|)
    leg1leadChargedHadron_ := leg1leadChargedHadron
    leg2leadChargedHadron_ := leg2leadChargedHadron
    errorCode_ := e6 }

/-- `ClassicSVfitIntegrand::setMeasurement`; `none` is a read outside the vector of measured
leptons (lines 197 and 202) or outside `hadTauTFs_`. -/
def setMeasurement (env : Env K) (senv : SetupEnv K) (s : ClassicSVfitIntegrand K)
    (measuredEvent : MeasuredEvent K) : Option (ClassicSVfitIntegrand K) :=
  let measuredTauLeptons := measuredEvent.tauLeptons
  let e0 : Nat := 0
  let e1 := if measuredTauLeptons.length ≠ 2 then e0 ||| env.LeptonNumber else e0
  match measuredTauLeptons[0]?, measuredTauLeptons[1]? with
  | some measuredTauLepton1, some measuredTauLepton2 =>
    let fittedTauLepton1 := env.setMeasuredTauLepton s.fittedTauLepton1_ measuredTauLepton1
    let fittedTauLepton2 := env.setMeasuredTauLepton s.fittedTauLepton2_ measuredTauLepton2
    let mVis_measured := (measuredTauLepton1.p4.add measuredTauLepton2.p4).mass env
    match setMeasurement_hadTauTFs senv s fittedTauLepton1 fittedTauLepton2 with
    | none => none
    | some hadTauTFs =>
      let e2 := measuredEvent.MEt.foldl
        (fun e measuredMEt_i =>
          if measuredMEt_i.covInv_isValid = false then e ||| env.MatrixInversion else e) e1
      let s1 : ClassicSVfitIntegrand K :=
        { s with
          measuredEvent_ := measuredEvent
          measuredTauLepton1_ := measuredTauLepton1
          fittedTauLepton1_ := fittedTauLepton1
          leg1isLeptonicTauDecay_ := measuredTauLepton1.isLeptonicTauDecay
          leg1isHadronicTauDecay_ := measuredTauLepton1.isHadronicTauDecay
          leg1isPrompt_ := measuredTauLepton1.isPrompt
          measuredTauLepton2_ := measuredTauLepton2
          fittedTauLepton2_ := fittedTauLepton2
          leg2isLeptonicTauDecay_ := measuredTauLepton2.isLeptonicTauDecay
          leg2isHadronicTauDecay_ := measuredTauLepton2.isHadronicTauDecay
          leg2isPrompt_ := measuredTauLepton2.isPrompt
          mVis_measured_ := mVis_measured
          mVis2_measured_ := square mVis_measured
          hadTauTFs_ := hadTauTFs
          errorCode_ := e2 }
      let s2 := if s1.useTauFlightLength_ = true then
        setMeasurement_flightLength env senv s1 measuredEvent e2 else s1
      some { s2 with probPS_ := 0, probFlightLength_ := 0 }
  | _, _ => none

/-- `ClassicSVfitIntegrand::enableTauFlightLength` (lines 84-88). -/
def enableTauFlightLength (s : ClassicSVfitIntegrand K) : ClassicSVfitIntegrand K :=
  { s with useTauFlightLength_ := true }

/-- `ClassicSVfitIntegrand::disableTauFlightLength` (lines 90-94). -/
def disableTauFlightLength (s : ClassicSVfitIntegrand K) : ClassicSVfitIntegrand K :=
  { s with useTauFlightLength_ := false }

/-- A sample of the functions of `SetupEnv`; the values are placeholders. -/
def sampleSetupEnv : SetupEnv K :=
  { invertMatrix := fun m => (m, false), Determinant := fun _ => 1, Pi := 3
    setDecayMode := fun tf _ => tf }

/-- A sample event of the prompt leptons with four-momenta `ps` and one MEt alternative
`(0,0)`, without vertices. -/
def samplePromptEvent (ps : List (LorentzVector K)) : MeasuredEvent K :=
  ⟨ps.map samplePromptLepton, [sampleMEt 0 0], false, ⟨0, 0, 0⟩, fun _ _ => 0, false⟩

/-- The sample integrand of two prompt leptons `(3,0,0,3)` and `(-3,0,0,3)` with three MEt
alternatives `(0,0)`. -/
def sampleSystIntegrand : ClassicSVfitIntegrand K :=
  samplePromptIntegrand ⟨3, 0, 0, 3⟩ ⟨-3, 0, 0, 3⟩ [sampleMEt 0 0, sampleMEt 0 0, sampleMEt 0 0]

/-- The sample integrand `sampleSystIntegrand` after `enableDiTauMassConstraint(2e301)`. -/
def sampleSystFloorIntegrand : ClassicSVfitIntegrand K :=
  enableDiTauMassConstraint sampleSystIntegrand (2 * 10 ^ 301)

/-! ## BoostToHelicityFrame (src/src/BoostToHelicityFrame.cc, lines 7-85)

A division by a `sinTheta` that is zero gives a `double` that is infinite or not a number;
`K` has no such value, so this outcome of `get_r` is kept apart as `FrameResult.notFinite`. -/

/-- Scalar product of two three-vectors (`Vector::Dot`). -/
def Vector.Dot (a b : Vector K) : K := a.x * b.x + a.y * b.y + a.z * b.z

/-- Vector product of two three-vectors (`Vector::Cross`). -/
def Vector.Cross (a b : Vector K) : Vector K :=
  { x := a.y * b.z - a.z * b.y, y := a.z * b.x - a.x * b.z, z := a.x * b.y - a.y * b.x }

/-- A three-vector multiplied by a scalar (`Vector * double`). -/
def Vector.smul (a : Vector K) (c : K) : Vector K := { x := a.x * c, y := a.y * c, z := a.z * c }

/-- The opposite three-vector. -/
def Vector.neg (a : Vector K) : Vector K := { x := -a.x, y := -a.y, z := -a.z }

/-- The literal `1.01`. -/
def lit1p01 : K := 101 / 100

/-- The ways `get_r` and `get_localCoordinateSystem` end: the failing `assert(0)` of line 41,
a result with components that are infinite or not a number, or a value. -/
inductive FrameResult (α : Type) where
  | aborted
  | notFinite
  | value (a : α)

/-- The function `get_r` (lines 33-48). -/
def get_r (env : Env K) (k h : Vector K) : FrameResult (Vector K) :=
  let cosTheta := k.Dot h
  if cosTheta < -lit1p01 ∨ cosTheta > lit1p01 then FrameResult.aborted
  else
    let cosTheta1 := if cosTheta < -1 then -1 else cosTheta
    let cosTheta2 := if cosTheta1 > 1 then 1 else cosTheta1
    let sinTheta := env.sqrt (1 - cosTheta2 * cosTheta2)
    if sinTheta = 0 then FrameResult.notFinite
    else FrameResult.value ((h.sub (k.smul cosTheta2)).smul (1 / sinTheta))

/-- The function `get_n` (lines 50-61). -/
def get_n (k r : Vector K) : Vector K := r.Cross k

/-- The functions of ROOT that the frame transform uses: the Lorentz boost
`ROOT::Math::Boost(b)(p4)` with velocity `b`, `LorentzVector::BoostToCM` and `Vector::unit`. -/
structure RootEnv (K : Type) where
  Boost : Vector K → LorentzVector K → LorentzVector K
  BoostToCM : LorentzVector K → Vector K
  unit : Vector K → Vector K

/-- The function `getP4_rf` (lines 9-15). -/
def getP4_rf (renv : RootEnv K) (p4 : LorentzVector K) (boost : Vector K) : LorentzVector K :=
  renv.Boost boost p4

/-- The function `get_k` (lines 17-23). -/
def get_k (renv : RootEnv K) (p4 : LorentzVector K) (boost_ttrf : Vector K) : Vector K :=
  renv.unit (getP4_rf renv p4 boost_ttrf).Vect

/-- The function `get_h` (lines 25-31). -/
def get_h (renv : RootEnv K) (beamP4 : LorentzVector K) (boost_ttrf : Vector K) : Vector K :=
  renv.unit (getP4_rf renv beamP4 boost_ttrf).Vect

/-- The function `get_localCoordinateSystem` (lines 63-72): the vectors `(r, n, k)`. -/
def get_localCoordinateSystem (env : Env K) (renv : RootEnv K) (tauP4 : LorentzVector K)
    (boost_ttrf : Vector K) (beamP4 : LorentzVector K) :
    FrameResult (Vector K × Vector K × Vector K) :=
  let k := get_k renv tauP4 boost_ttrf
  let h := get_h renv beamP4 boost_ttrf
  match get_r env k h with
  | FrameResult.aborted => FrameResult.aborted
  | FrameResult.notFinite => FrameResult.notFinite
  | FrameResult.value r => FrameResult.value (r, get_n k r, k)

/-- The function `getP4_hf` (lines 74-84). -/
def getP4_hf (p4 : LorentzVector K) (r n k : Vector K) : LorentzVector K :=
  { px := p4.Vect.Dot r, py := p4.Vect.Dot n, pz := p4.Vect.Dot k, E := p4.E }

/-- Lines 122-127 of `BoostToHelicityFrame::setFittedTauLeptons`: the boost to the rest frame
of the pair and the local coordinate system, from the four-momenta of the two taus. -/
def setFittedTauLeptons_frame (env : Env K) (renv : RootEnv K) (beamP4 : LorentzVector K)
    (tauPlusP4 tauMinusP4 : LorentzVector K) : FrameResult (Vector K × Vector K × Vector K) :=
  let diTauP4 := tauPlusP4.add tauMinusP4
  let boost_ttrf := renv.BoostToCM diTauP4
  get_localCoordinateSystem env renv tauMinusP4 boost_ttrf beamP4

/-- The functions of `RootEnv` as ROOT defines them: the boost matrix of
`Boost::SetComponents`, `BoostToCM = -p/E` and `unit = p/|p|` (a zero vector is returned as it
is). -/
def sampleRootEnv (sqrt : K → K) : RootEnv K :=
  { Boost := fun b p =>
      let bp2 := b.x * b.x + b.y * b.y + b.z * b.z
      let gamma := 1 / sqrt (1 - bp2)
      let bgamma := gamma * gamma / (1 + gamma)
      { px := (1 + bgamma * b.x * b.x) * p.px + bgamma * b.x * b.y * p.py
              + bgamma * b.x * b.z * p.pz + gamma * b.x * p.E
        py := bgamma * b.y * b.x * p.px + (1 + bgamma * b.y * b.y) * p.py
              + bgamma * b.y * b.z * p.pz + gamma * b.y * p.E
        pz := bgamma * b.z * b.x * p.px + bgamma * b.z * b.y * p.py
              + (1 + bgamma * b.z * b.z) * p.pz + gamma * b.z * p.E
        E := gamma * b.x * p.px + gamma * b.y * p.py + gamma * b.z * p.pz + gamma * p.E }
    BoostToCM := fun p => { x := -p.px / p.E, y := -p.py / p.E, z := -p.pz / p.E }
    unit := fun v =>
      let tot := v.x * v.x + v.y * v.y + v.z * v.z
      if tot > 0 then { x := v.x / sqrt tot, y := v.y / sqrt tot, z := v.z / sqrt tot } else v }

/-- A sample integrand of two prompt leptons with the hadronic transfer function in use and a
`VisPtShift` dimension (dimension 0, with entry `x0` in `x_`) configured for the prompt first
leg. -/
def samplePromptShiftIntegrand (x0 : K) : ClassicSVfitIntegrand K :=
  { samplePromptIntegrand ⟨3, 0, 0, 3⟩ ⟨-3, 0, 0, 3⟩ [sampleMEt 0 0] with
    useHadTauTF_ := true, hadTauTFs_ := some (fun _ _ _ => 1, fun _ _ _ => 1)
    legIntegrationParams_0 := ⟨-1, -1, 0, -1, -1⟩
    numDimensions_ := 1, x_ := [x0], xMin_ := [0], xMax_ := [4] }

/-! ## Regularization and Jacobian of EvalPS (ClassicSVfitIntegrand.cc, lines 110-122, 524-535) -/

/-- `ClassicSVfitIntegrand::enableLogM` (lines 110-115). -/
def enableLogM (s : ClassicSVfitIntegrand K) (power : K) : ClassicSVfitIntegrand K :=
  { s with addLogM_ := true, addLogM_power_ := power }

/-- `ClassicSVfitIntegrand::disableLogM` (lines 117-122). -/
def disableLogM (s : ClassicSVfitIntegrand K) : ClassicSVfitIntegrand K :=
  { s with addLogM_ := false, addLogM_power_ := 0 }

/-- Line 524: `mTauTau`, the invariant mass of the sum of the four-momenta of the two fitted
taus. -/
def mTauTau (env : Env K) (s : ClassicSVfitIntegrand K) : K :=
  (s.fittedTauLepton1_.tauP4.add s.fittedTauLepton2_.tauP4).mass env

/-- Lines 525-529: `prob_logM`. -/
def prob_logM (env : Env K) (s : ClassicSVfitIntegrand K) : K :=
  if s.addLogM_ = true then 1 / env.pow (max 1 (mTauTau env s)) s.addLogM_power_ else 1

/-- Lines 531-535: `jacobiFactor`. -/
def jacobiFactor (s : ClassicSVfitIntegrand K) (visPtShift1 visPtShift2 x2 : K) : K :=
  let jacobiFactor0 := 1 / (visPtShift1 * visPtShift2)
  if s.diTauMassConstraint_ > 0 then jacobiFactor0 * (2 * x2 / s.diTauMassConstraint_)
  else jacobiFactor0

/-- The sample integrand `sampleHadIntegrand` with `x_` as `rescaleX` leaves it at the point
`(1/2, 1/2)`. -/
def sampleHadPoint : ClassicSVfitIntegrand K :=
  { (sampleHadIntegrand : ClassicSVfitIntegrand K) with x_ := [1 / 2, 0] }

/-- Components of the two-dimensional residual `(residualPx, residualPy)` as a `TVectorD`. -/
def residual2 (residualPx residualPy : K) : Nat → K
  | 0 => residualPx
  | _ => residualPy

/-! ## The factor of one leg in EvalFlightLength, as the specification words it -/

/-- The property of the masks of `ErrorCodes` (ClassicSVfitIntegrand.h, not part of the
sources) that the flag tests rely on: the five masks are single bits, pairwise distinct. -/
def ErrorCodes_distinctBits (env : Env K) : Prop :=
  ∃ a b c d e : Nat, [a, b, c, d, e].Nodup ∧
    env.MatrixInversion = 2 ^ a ∧ env.LeptonNumber = 2 ^ b ∧ env.TauDecayParameters = 2 ^ c ∧
    env.MissingVertex = 2 ^ d ∧ env.MissingLeadChargedHadron = 2 ^ e

/-- Lines 188-238 of `setMeasurement`: the error code accumulated before the flight-length
part, from the number of leptons and the MEt alternatives of the event. -/
def setMeasurement_errorCode (env : Env K) (measuredEvent : MeasuredEvent K) : Nat :=
  measuredEvent.MEt.foldl
    (fun e measuredMEt_i =>
      if measuredMEt_i.covInv_isValid = false then e ||| env.MatrixInversion else e)
    (if measuredEvent.tauLeptons.length ≠ 2 then 0 ||| env.LeptonNumber else 0)

/-- A sample event of two hadronic tau decays with visible four-momenta `(3,0,0,3)` and
`(-3,0,0,3)` (visible mass 6) and one MEt alternative `(0,0)`, without vertices. -/
def sampleHadHadEvent : MeasuredEvent K :=
  ⟨[sampleHadTau ⟨3, 0, 0, 3⟩, sampleHadTau ⟨-3, 0, 0, 3⟩], [sampleMEt 0 0], false, ⟨0, 0, 0⟩,
    fun _ _ => 0, false⟩

/-! ## The hadronic transfer function switch (ClassicSVfitIntegrand.cc, lines 157-180) -/

/-- `ClassicSVfitIntegrand::enableHadTauTF` (lines 158-173): `hadTauTFs_` is refilled with one
clone of the transfer function per leg. -/
def enableHadTauTF (s : ClassicSVfitIntegrand K) (hadTauTF : HadTauTF K) (rhoHadTau : K) :
    ClassicSVfitIntegrand K :=
  { s with hadTauTFs_ := some (hadTauTF, hadTauTF), rhoHadTau_ := rhoHadTau, useHadTauTF_ := true }

/-- `ClassicSVfitIntegrand::disableHadTauTF` (lines 175-179). -/
def disableHadTauTF (s : ClassicSVfitIntegrand K) : ClassicSVfitIntegrand K :=
  { s with useHadTauTF_ := false }

/-- The sample integrand `sampleHadIntegrand` (hadronic first leg, prompt second leg) with three
MEt alternatives `(3,0)`, `(3,0)`, `(0,0)`, a `VisPtShift` dimension (dimension 2, range
`[1, 2]`) for the first leg and cached probabilities 1, after `enableHadTauTF` with
`rhoHadTau = 1`, `disableHadTauTF` and `setMEtSystematic(1)`. -/
def sampleResponseIntegrand : ClassicSVfitIntegrand K :=
  setMEtSystematic
    { disableHadTauTF (enableHadTauTF sampleHadIntegrand (fun _ _ _ => 1) 1) with
      measuredEvent_ :=
        ⟨[sampleHadTau ⟨3, 0, 0, 3⟩, samplePromptLepton ⟨-3, 0, 0, 3⟩],
          [sampleMEt 3 0, sampleMEt 3 0, sampleMEt 0 0], false, ⟨0, 0, 0⟩, fun _ _ => 0, false⟩
      legIntegrationParams_0 := ⟨0, 1, 2, -1, -1⟩
      numDimensions_ := 3, x_ := [0, 0, 1], xMin_ := [0, -3, 1], xMax_ := [1, 3, 2]
      probPS_ := 1, probFlightLength_ := 1 } 1

/-- The sample integrand `sampleConstraintBase` (two hadronic legs, the second without
energy-fraction dimension, mass constraint disabled) with `x_ = (1/2, 0, 0)`. -/
def sampleUnconstrainedPoint : ClassicSVfitIntegrand K :=
  { (sampleConstraintBase : ClassicSVfitIntegrand K) with x_ := [1 / 2, 0, 0] }

/-- The divisors that `compPSfactor_tauToLepDecay` (svFitAuxFunctions.cc, lines 188-214)
evaluates on the path it takes, in the order of evaluation: `tauLeptonMass2` in the test of
line 193, `2.*nunuMass` in line 194, `visP*nunuP` inside `compCosThetaNuNu` (line 201) and
`8.*visP*square(x)*TMath::Sqrt(...)` in line 203. -/
def compPSfactor_tauToLepDecay_divisors (env : Env K)
    (x visEn visP visMass nunuEn nunuP nunuMass : K) : List K :=
  let visMass2 := square visMass
  let nunuMass2 := square nunuMass
  if x ≥ visMass2 / env.tauLeptonMass2 ∧ x ≤ 1 ∧ nunuMass2 < (1 - x) * env.tauLeptonMass2 then
    let tauEn_rf := (env.tauLeptonMass2 + nunuMass2 - visMass2) / (2 * nunuMass)
    let visEn_rf := tauEn_rf - nunuMass
    if ¬ (tauEn_rf ≥ env.tauLeptonMass ∧ visEn_rf ≥ visMass) then
      [env.tauLeptonMass2, 2 * nunuMass]
    else
      let cosThetaNuNu := compCosThetaNuNu env visEn visP visMass2 nunuEn nunuP nunuMass2
      if ¬ (cosThetaNuNu ≥ -1 + env.epsilon ∧ cosThetaNuNu ≤ 1) then
        [env.tauLeptonMass2, 2 * nunuMass, visP * nunuP]
      else
        [env.tauLeptonMass2, 2 * nunuMass, visP * nunuP,
          8 * visP * square x *
            env.sqrt (square visP + square nunuP + 2 * visP * nunuP * cosThetaNuNu
              + env.tauLeptonMass2)]
  else [env.tauLeptonMass2]

/-! ## MeasuredHadTauDecayProduct (src/src/MeasuredHadTauDecayProduct.cc) -/

/-- The functions of `TMath` that `MeasuredHadTauDecayProduct` uses. -/
structure TMathEnv (K : Type) where
  CosH : K → K
  Cos : K → K
  Sin : K → K
  SinH : K → K
  Sqrt : K → K

/-- `MeasuredHadTauDecayProduct::initialize` (lines 105-115). -/
def MeasuredHadTauDecayProduct.initialize (tm : TMathEnv K) (h : MeasuredHadTauDecayProduct K) :
    MeasuredHadTauDecayProduct K :=
  let p := h.pt_ * tm.CosH h.eta_
  let px := h.pt_ * tm.Cos h.phi_
  let py := h.pt_ * tm.Sin h.phi_
  let pz := h.pt_ * tm.SinH h.eta_
  let energy := tm.Sqrt (p * p + h.mass_ * h.mass_)
  { h with
    p_ := p, px_ := px, py_ := py, pz_ := pz, energy_ := energy
    p4_ := ⟨px, py, pz, energy⟩, p3_ := ⟨px, py, pz⟩ }

/-- `MeasuredHadTauDecayProduct::charge` (lines 40-43). -/
def MeasuredHadTauDecayProduct.charge (h : MeasuredHadTauDecayProduct K) : Int := h.charge_

/-- `MeasuredHadTauDecayProduct::pt` (lines 45-48). -/
def MeasuredHadTauDecayProduct.pt (h : MeasuredHadTauDecayProduct K) : K := h.pt_

/-- `MeasuredHadTauDecayProduct::eta` (lines 50-53). -/
def MeasuredHadTauDecayProduct.eta (h : MeasuredHadTauDecayProduct K) : K := h.eta_

/-- `MeasuredHadTauDecayProduct::phi` (lines 55-58). -/
def MeasuredHadTauDecayProduct.phi (h : MeasuredHadTauDecayProduct K) : K := h.phi_

/-- `MeasuredHadTauDecayProduct::mass` (lines 60-63): it returns `preciseVisMass_`. -/
def MeasuredHadTauDecayProduct.mass (h : MeasuredHadTauDecayProduct K) : K := h.preciseVisMass_

/-- `MeasuredHadTauDecayProduct::energy` (lines 65-68). -/
def MeasuredHadTauDecayProduct.energy (h : MeasuredHadTauDecayProduct K) : K := h.energy_

/-- `MeasuredHadTauDecayProduct::px` (lines 70-73). -/
def MeasuredHadTauDecayProduct.px (h : MeasuredHadTauDecayProduct K) : K := h.px_

/-- `MeasuredHadTauDecayProduct::py` (lines 75-78). -/
def MeasuredHadTauDecayProduct.py (h : MeasuredHadTauDecayProduct K) : K := h.py_

/-- `MeasuredHadTauDecayProduct::pz` (lines 80-83). -/
def MeasuredHadTauDecayProduct.pz (h : MeasuredHadTauDecayProduct K) : K := h.pz_

/-- `MeasuredHadTauDecayProduct::p` (lines 85-88). -/
def MeasuredHadTauDecayProduct.p (h : MeasuredHadTauDecayProduct K) : K := h.p_

/-- The constructor `MeasuredHadTauDecayProduct(int charge, double pt, double eta, double phi,
double mass)` (lines 17-25).  The members that the constructor does not set
(`preciseVisMass_`, `decayMode_`) keep the value they have in `uninitialized`. -/
def MeasuredHadTauDecayProduct.ctor (tm : TMathEnv K)
    (uninitialized : MeasuredHadTauDecayProduct K) (charge : Int) (pt eta phi mass : K) :
    MeasuredHadTauDecayProduct K :=
  MeasuredHadTauDecayProduct.initialize tm
    { uninitialized with charge_ := charge, pt_ := pt, eta_ := eta, phi_ := phi, mass_ := mass }

/-- The copy constructor (lines 27-35): the members are set from the accessors of the
original. -/
def MeasuredHadTauDecayProduct.copy_ctor (tm : TMathEnv K)
    (uninitialized measuredHadTauDecayProduct : MeasuredHadTauDecayProduct K) :
    MeasuredHadTauDecayProduct K :=
  MeasuredHadTauDecayProduct.initialize tm
    { uninitialized with
      charge_ := measuredHadTauDecayProduct.charge
      pt_ := measuredHadTauDecayProduct.pt
      eta_ := measuredHadTauDecayProduct.eta
      phi_ := measuredHadTauDecayProduct.phi
      mass_ := measuredHadTauDecayProduct.mass }

/-- Memory that holds zeros, for the members a constructor does not set. -/
def zeroHadTauDecayProduct : MeasuredHadTauDecayProduct K :=
  { charge_ := 0, pt_ := 0, eta_ := 0, phi_ := 0, mass_ := 0, preciseVisMass_ := 0
    decayMode_ := 0, p_ := 0, px_ := 0, py_ := 0, pz_ := 0, energy_ := 0
    p4_ := ⟨0, 0, 0, 0⟩, p3_ := ⟨0, 0, 0⟩ }

/-- The sample integrand of two prompt leptons with `errorCode_` set to `e`. -/
def sampleFlaggedIntegrand (e : Nat) : ClassicSVfitIntegrand K :=
  { samplePromptIntegrand ⟨3, 0, 0, 3⟩ ⟨-3, 0, 0, 3⟩ [sampleMEt 0 0] with errorCode_ := e }

/-! ## The diagnostic output (ClassicSVfitIntegrand.cc, the blocks `if ( verbosity_ >= 2 )`)

`EvalPS_cout`, `EvalFlightLength_cout`, `EvalMEtTF_cout` and `Eval_cout` are `EvalPS`,
`EvalFlightLength`, `EvalMEtTF` and `Eval` with their diagnostic blocks (lines 361-371, 469-487,
512-516, 543-549, 620-632, 681-687 and 744-752): next to the result they return what the call
writes to `std::cout`.  `phi` is `LorentzVector::phi`, which only these blocks call. -/

/-- What is written to `std::cout`: one entry for each line ended by `std::endl`, holding the
`double`s streamed into the line, in order (the character strings and the leg numbers between
them are left out). -/
abbrev Cout (K : Type) := List (List K)

/-- Lines 365-369: the loop that prints `x_[iDimension]` for `iDimension < numDimensions_`; `n`
iterations are left.  `none` is a read outside `x_`. -/
def EvalPS_coutLoop (x_ : List K) : Nat → Nat → Option (List K)
  | 0, _ => some []
  | n + 1, iDimension =>
    match x_[iDimension]? with
    | none => none
    | some v => (EvalPS_coutLoop x_ n (iDimension + 1)).map fun rest => v :: rest

/-- Lines 361-371: the header line and the line of the sample point. -/
def EvalPS_cout_x (s : ClassicSVfitIntegrand K) : Option (Cout K) :=
  if s.verbosity_ ≥ 2 then
    match EvalPS_coutLoop s.x_ s.numDimensions_ 0 with
    | none => none
    | some xs => some [[], xs]
  else some []

/-- Lines 473-485: the three lines printed for one fitted leg. -/
def EvalPS_cout_leg (env : Env K) (phi : LorentzVector K → K)
    (fittedTauLepton : FittedTauLepton K) : Cout K :=
  let visP4 := fittedTauLepton.visP4
  let nuP4 := fittedTauLepton.nuP4
  let tauP4 := fittedTauLepton.tauP4
  [[visP4.E, visP4.px, visP4.py, visP4.pz, visP4.pt env, env.eta visP4, phi visP4,
      visP4.mass env, fittedTauLepton.x],
    [tauP4.E, tauP4.px, tauP4.py, tauP4.pz, tauP4.pt env, env.eta tauP4, phi tauP4],
    [nuP4.E, nuP4.px, nuP4.py, nuP4.pz, nuP4.pt env, env.eta nuP4, phi nuP4, nuP4.mass env]]

/-- Lines 469-487: the fitted legs, printed after both have been updated. -/
def EvalPS_cout_legs (env : Env K) (phi : LorentzVector K → K) (s : ClassicSVfitIntegrand K) :
    Cout K :=
  if s.verbosity_ ≥ 2 then
    EvalPS_cout_leg env phi s.fittedTauLepton1_ ++ EvalPS_cout_leg env phi s.fittedTauLepton2_
  else []

/-- Lines 508-519 with the diagnostic block of lines 512-516. -/
def legProbTF_cout (env : Env K) (s : ClassicSVfitIntegrand K) (params : integrationParameters)
    (hadTauTF : Option (HadTauTF K)) (leg : FittedTauLepton K) (prob_TF : K) :
    Option (K × Cout K) :=
  if s.useHadTauTF_ = true ∧ params.idx_VisPtShift_ ≠ -1 ∧
      leg.getMeasuredTauLepton.isHadronicTauDecay = true then
    match hadTauTF with
    | none => none
    | some tf =>
      let prob := tf leg.getMeasuredTauLepton.pt (leg.visP4.pt env) (env.eta leg.visP4)
      some (prob_TF * prob,
        if s.verbosity_ ≥ 2 then
          [[leg.getMeasuredTauLepton.pt, leg.visP4.pt env, env.eta leg.visP4, prob]]
        else [])
  else some (prob_TF, [])

/-- Lines 489-555 with the diagnostic blocks of lines 512-516 and 543-549. -/
def EvalPS_prob_cout (env : Env K) (s : ClassicSVfitIntegrand K)
    (visPtShift1 visPtShift2 x2 : K) : Option (K × Cout K) :=
  let prob_tauDecay := 1 * legDecayProb env s.fittedTauLepton1_ * legDecayProb env s.fittedTauLepton2_
  match legProbTF_cout env s s.legIntegrationParams_0 (s.hadTauTFs_.map Prod.fst)
      s.fittedTauLepton1_ 1 with
  | none => none
  | some (prob_TF0, cout0) =>
    match legProbTF_cout env s s.legIntegrationParams_1 (s.hadTauTFs_.map Prod.snd)
        s.fittedTauLepton2_ prob_TF0 with
    | none => none
    | some (prob_TF, cout1) =>
      let prob_PS_and_tauDecay := env.constFactor * prob_tauDecay * env.matrixElementNorm
      let mTauTau := (s.fittedTauLepton1_.tauP4.add s.fittedTauLepton2_.tauP4).mass env
      let prob_logM := if s.addLogM_ = true then 1 / env.pow (max 1 mTauTau) s.addLogM_power_ else 1
      let jacobiFactor0 := 1 / (visPtShift1 * visPtShift2)
      let jacobiFactor :=
        if s.diTauMassConstraint_ > 0 then jacobiFactor0 * (2 * x2 / s.diTauMassConstraint_)
        else jacobiFactor0
      let prob := prob_PS_and_tauDecay * prob_TF * prob_logM * jacobiFactor
      some (prob,
        cout0 ++ cout1 ++
          if s.verbosity_ ≥ 2 then
            [[mTauTau], [prob_PS_and_tauDecay, prob_TF, prob_logM, jacobiFactor, prob]]
          else [])

/-- Lines 418-467, the diagnostic block of lines 469-487, then the product: the second leg. -/
def EvalPS_leg2_cout (env : Env K) (phi : LorentzVector K → K) (s : ClassicSVfitIntegrand K)
    (visPtShift1 visPtShift2 x1_dash : K) : Option ((K × ClassicSVfitIntegrand K) × Cout K) :=
  match x2_dash s x1_dash with
  | none => none
  | some x2_dash =>
    let x2 := x2_dash / visPtShift2
    if ¬ (x2 ≥ lit1em5 ∧ x2 ≤ 1) then some ((0, s), [])
    else if s.leg2isPrompt_ = false then
      match updateLeg env s.x_ s.legIntegrationParams_1 s.fittedTauLepton2_ x2 with
      | none => none
      | some leg2 =>
        let s2 := { s with fittedTauLepton2_ := leg2 }
        if leg2.errorCode ≠ env.FittedTauLepton_None then
          some ((0, { s2 with errorCode_ := s2.errorCode_ ||| env.TauDecayParameters }), [])
        else
          (EvalPS_prob_cout env s2 visPtShift1 visPtShift2 x2).map fun r =>
            ((r.1, s2), EvalPS_cout_legs env phi s2 ++ r.2)
    else
      (EvalPS_prob_cout env s visPtShift1 visPtShift2 x2).map fun r =>
        ((r.1, s), EvalPS_cout_legs env phi s ++ r.2)

/-- Lines 390-416, then the second leg: the first leg. -/
def EvalPS_leg1_cout (env : Env K) (phi : LorentzVector K → K) (s : ClassicSVfitIntegrand K)
    (visPtShift1 visPtShift2 : K) : Option ((K × ClassicSVfitIntegrand K) × Cout K) :=
  match x1_dash s with
  | none => none
  | some x1_dash =>
    let x1 := x1_dash / visPtShift1
    if ¬ (x1 ≥ lit1em5 ∧ x1 ≤ 1) then some ((0, s), [])
    else if s.leg1isPrompt_ = false then
      match updateLeg env s.x_ s.legIntegrationParams_0 s.fittedTauLepton1_ x1 with
      | none => none
      | some leg1 =>
        let s1 := { s with fittedTauLepton1_ := leg1 }
        if leg1.errorCode ≠ env.FittedTauLepton_None then
          some ((0, { s1 with errorCode_ := s1.errorCode_ ||| env.TauDecayParameters }), [])
        else EvalPS_leg2_cout env phi s1 visPtShift1 visPtShift2 x1_dash
    else EvalPS_leg2_cout env phi s visPtShift1 visPtShift2 x1_dash

/-- `ClassicSVfitIntegrand::EvalPS` with its diagnostic blocks: the value returned, the object
state left behind and the lines written to `std::cout`. -/
def EvalPS_cout (env : Env K) (phi : LorentzVector K → K) (s : ClassicSVfitIntegrand K) :
    Option ((K × ClassicSVfitIntegrand K) × Cout K) :=
  match EvalPS_cout_x s with
  | none => none
  | some cout0 =>
    let s0 := { s with errorCode_ := s.errorCode_ &&& (s.errorCode_ ^^^ env.TauDecayParameters) }
    match visPtShift s0 s0.legIntegrationParams_0 s0.leg1isLeptonicTauDecay_,
          visPtShift s0 s0.legIntegrationParams_1 s0.leg2isLeptonicTauDecay_ with
    | some visPtShift1, some visPtShift2 =>
      if visPtShift1 < lit1em2 ∨ visPtShift2 < lit1em2 then some ((0, s0), cout0)
      else
        (EvalPS_leg1_cout env phi
          { s0 with
            fittedTauLepton1_ := env.updateVisMomentum s0.fittedTauLepton1_ visPtShift1
            fittedTauLepton2_ := env.updateVisMomentum s0.fittedTauLepton2_ visPtShift2 }
          visPtShift1 visPtShift2).map fun r => (r.1, cout0 ++ r.2)
    | _, _ => none

/-- Lines 566-627 with the diagnostic block of lines 620-625: one pass of the loop over the
legs. -/
def EvalFlightLength_leg_cout (env : Env K) (s : ClassicSVfitIntegrand K)
    (fittedTauLepton : FittedTauLepton K) (decayVertexCov decayVertexCovInv : TMatrixD K)
    (leadChargedHadron : Option (MeasuredHadTauDecayProduct K)) (params : integrationParameters)
    (const_FlightLength : K) (prob : K) : Option (K × Cout K) :=
  let tauP4 := fittedTauLepton.tauP4
  let tauP3 := tauP4.Vect
  let measuredTauLepton := fittedTauLepton.getMeasuredTauLepton
  if measuredTauLepton.isPrompt = true then some (prob, [])
  else
    let decayVertex := measuredTauLepton.decayVertex
    match leadChargedHadron with
    | none => none
    | some hadron =>
      let pca := env.comp_PCA tauP4 measuredTauLepton hadron s.primaryVertex_ decayVertex
        decayVertexCovInv
      let flightLength := pca.sub s.primaryVertex_
      let dmin_and_dmax := env.comp_dmin_and_dmax tauP4 flightLength decayVertexCov
      let dmin := dmin_and_dmax.1
      let dmax := dmin_and_dmax.2
      match readX s.x_ params.idx_flightLength_ with
      | none => none
      | some x_flightLength =>
        let d := (1 - x_flightLength) * dmin + x_flightLength * dmax
        let gamma0 := tauP4.E / env.tauLeptonMass
        let gamma := if gamma0 < 1 then 1 else gamma0
        let gamma_times_cTauLifetime := gamma * env.cTauLifetime
        let prob_expDecay := (1 / gamma_times_cTauLifetime) * env.exp (-d / gamma_times_cTauLifetime)
        let eTau := convert_to_mathVector (normalize env tauP3)
        let residual : Nat → K := fun i =>
          convert_to_mathVector (decayVertex.sub s.primaryVertex_) i - d * eTau i
        let pull2 := dotVec 3 residual (matVec 3 decayVertexCovInv residual)
        let prob_TF := const_FlightLength * env.exp (-(1 / 2) * pull2)
        let jacobiFactor := dmax - dmin
        if jacobiFactor > 0 then
          let prob_i := prob_expDecay * prob_TF * jacobiFactor
          some (prob * prob_i,
            if s.verbosity_ ≥ 2 then [[prob_expDecay, prob_TF, jacobiFactor, prob_i]] else [])
        else none

/-- `ClassicSVfitIntegrand::EvalFlightLength` with its diagnostic blocks (lines 620-632). -/
def EvalFlightLength_cout (env : Env K) (s : ClassicSVfitIntegrand K) : Option (K × Cout K) :=
  if s.useTauFlightLength_ = false then some (1, [])
  else
    match EvalFlightLength_leg_cout env s s.fittedTauLepton1_ s.leg1decayVertexCov_
        s.leg1decayVertexCovInv_ s.leg1leadChargedHadron_ s.legIntegrationParams_0
        s.const_FlightLength1_ 1 with
    | none => none
    | some (prob1, cout1) =>
      match EvalFlightLength_leg_cout env s s.fittedTauLepton2_ s.leg2decayVertexCov_
          s.leg2decayVertexCovInv_ s.leg2leadChargedHadron_ s.legIntegrationParams_1
          s.const_FlightLength2_ prob1 with
      | none => none
      | some (prob, cout2) =>
        some (prob, cout1 ++ cout2 ++ if s.verbosity_ ≥ 2 then [[prob]] else [])

/-- `ClassicSVfitIntegrand::EvalMEtTF` with its diagnostic blocks (lines 681-687 and
744-752). -/
def EvalMEtTF_cout (env : Env K) (s : ClassicSVfitIntegrand K) (measuredMEt : MeasuredMEt K) :
    Option (K × Cout K) :=
  match measuredMEt.type with
  | CollisionType.kProtonProtonCollisions =>
    let sumNuPx := 0 + s.fittedTauLepton1_.nuP4.px + s.fittedTauLepton2_.nuP4.px
    let sumNuPy := 0 + s.fittedTauLepton1_.nuP4.py + s.fittedTauLepton2_.nuP4.py
    match EvalMEtTF_residual s false (measuredMEt.px - sumNuPx, measuredMEt.py - sumNuPy, 0, 0) with
    | none => none
    | some r =>
      let residualPx := r.1
      let residualPy := r.2.1
      let covInv := measuredMEt.covInv
      let pull2 := residualPx * (covInv 0 0 * residualPx + covInv 0 1 * residualPy) +
        residualPy * (covInv 1 0 * residualPx + covInv 1 1 * residualPy)
      let prob := measuredMEt.const_MET * env.exp (-(1 / 2) * pull2)
      some (prob,
        if s.verbosity_ ≥ 2 then
          [[measuredMEt.px, measuredMEt.py, sumNuPx, sumNuPy, pull2, prob]]
        else [])
  | CollisionType.kElectronPositronCollisions =>
    let sumNuPx := 0 + s.fittedTauLepton1_.nuP4.px + s.fittedTauLepton2_.nuP4.px
    let sumNuPy := 0 + s.fittedTauLepton1_.nuP4.py + s.fittedTauLepton2_.nuP4.py
    let sumNuPz := 0 + s.fittedTauLepton1_.nuP4.pz + s.fittedTauLepton2_.nuP4.pz
    let sumNuE := 0 + s.fittedTauLepton1_.nuP4.E + s.fittedTauLepton2_.nuP4.E
    match EvalMEtTF_residual s true (measuredMEt.px - sumNuPx, measuredMEt.py - sumNuPy,
        measuredMEt.pz - sumNuPz, measuredMEt.energy - sumNuE) with
    | none => none
    | some r =>
      let residual := residual4 r
      let pull2 := dotVec 4 residual (matVec 4 measuredMEt.covInv residual)
      let prob := measuredMEt.const_MET * env.exp (-(1 / 2) * pull2)
      some (prob,
        if s.verbosity_ ≥ 2 then
          [[measuredMEt.px, measuredMEt.py, measuredMEt.pz, measuredMEt.energy,
            sumNuPx, sumNuPy, sumNuPz, sumNuE, pull2, prob]]
        else [])
  | CollisionType.other => none

/-- Lines 333-345 with the output of `EvalMEtTF`. -/
def Eval_combine_cout (env : Env K) (s : ClassicSVfitIntegrand K) :
    Option ((K × ClassicSVfitIntegrand K) × Cout K) :=
  if s.probPS_ * s.probFlightLength_ < floor300 then some ((0, s), [])
  else
    match s.measuredEvent_.MEt[idxMeasuredMEt s]? with
    | none => none
    | some measuredMEt =>
      match EvalMEtTF_cout env s measuredMEt with
      | none => none
      | some (probMEtTF, cout) =>
        let prob := s.probPS_ * s.probFlightLength_ * probMEtTF
        match s.histogramAdapter_ with
        | some adapter =>
          if prob > floor300 then
            let adapter1 := adapter.setFittedTauLeptons s.fittedTauLepton1_ s.fittedTauLepton2_
            some ((prob, { s with histogramAdapter_ := some adapter1 }), cout)
          else some ((prob, s), cout)
        | none => some ((prob, s), cout)

/-- `ClassicSVfitIntegrand::Eval` with the diagnostic blocks of the functions it calls: the
value returned, the object state left behind and the lines written to `std::cout`. -/
def Eval_cout (env : Env K) (phi : LorentzVector K → K) (s : ClassicSVfitIntegrand K)
    (q : Nat → K) : Option ((K × ClassicSVfitIntegrand K) × Cout K) :=
  if hasSetupError env s then some ((0, s), [])
  else
    match rescaleX s q with
    | none => none
    | some s1 =>
      if s1.isCentral_ = true ∨ s1.idxMEtSystematic_ = 0 then
        match EvalPS_cout env phi s1 with
        | none => none
        | some ((probPS, s2), cout1) =>
          let s3 := { s2 with probPS_ := probPS }
          if s3.errorCode_ &&& env.TauDecayParameters ≠ 0 then some ((0, s3), cout1)
          else
            match EvalFlightLength_cout env s3 with
            | none => none
            | some (probFlightLength, cout2) =>
              (Eval_combine_cout env { s3 with probFlightLength_ := probFlightLength }).map
                fun r => (r.1, cout1 ++ cout2 ++ r.2)
      else Eval_combine_cout env s1

/-! ## The value of Eval as a `double` with its special values

Over the field `K` a product is never NaN.  The functions of this section evaluate the last
lines of `EvalPS` and of `Eval` on `double`s that may be infinite or NaN. -/

/-- A `double` as far as its special values go (IEEE 754): a finite number, an infinity or
NaN.  The sign of zero is not distinguished. -/
inductive Double (K : Type) where
  | finite (x : K)
  | posInf
  | negInf
  | nan

/-- The product `a*b` of two `double`s: NaN when an operand is NaN or when an infinity meets
zero, an infinity of the product sign when an infinity meets a non-zero operand.  The product
of two finite numbers is taken exactly (its rounding, overflow and underflow are left out). -/
def Double.mul (a b : Double K) : Double K :=
  match a, b with
  | Double.nan, _ => Double.nan
  | _, Double.nan => Double.nan
  | Double.finite x, Double.finite y => Double.finite (x * y)
  | Double.finite x, Double.posInf =>
    if 0 < x then Double.posInf else if x < 0 then Double.negInf else Double.nan
  | Double.finite x, Double.negInf =>
    if 0 < x then Double.negInf else if x < 0 then Double.posInf else Double.nan
  | Double.posInf, Double.finite y =>
    if 0 < y then Double.posInf else if y < 0 then Double.negInf else Double.nan
  | Double.negInf, Double.finite y =>
    if 0 < y then Double.negInf else if y < 0 then Double.posInf else Double.nan
  | Double.posInf, Double.posInf => Double.posInf
  | Double.posInf, Double.negInf => Double.negInf
  | Double.negInf, Double.posInf => Double.negInf
  | Double.negInf, Double.negInf => Double.posInf

/-- The comparison `a < b` of two `double`s, false whenever an operand is NaN. -/
def Double.lt (a b : Double K) : Bool :=
  match a, b with
  | Double.finite x, Double.finite y => if x < y then true else false
  | Double.finite _, Double.posInf => true
  | Double.negInf, Double.finite _ => true
  | Double.negInf, Double.posInf => true
  | _, _ => false

/-- The test `TMath::IsNaN`. -/
def Double.IsNaN (a : Double K) : Bool :=
  match a with
  | Double.nan => true
  | _ => false

/-- Lines 550-555 of `EvalPS`: a product `prob` that is NaN is returned as 0. -/
def EvalPS_return (prob : Double K) : Double K :=
  if prob.IsNaN = true then Double.finite 0 else prob

/-- Lines 333-345 of `Eval` on `double`s with their special values: from the cached `probPS_`
and `probFlightLength_` and the value `probMEtTF` of `EvalMEtTF` to the value returned and
whether the fitted legs are handed to an attached sink.  Nothing tests `prob` for NaN. -/
def Eval_return (probPS_ probFlightLength_ probMEtTF : Double K) : Double K × Bool :=
  if (probPS_.mul probFlightLength_).lt (Double.finite floor300) = true then
    (Double.finite 0, false)
  else
    let prob := (probPS_.mul probFlightLength_).mul probMEtTF
    (prob, (Double.finite floor300).lt prob)

/-! ## Properties of rescaleX -/

/-- The loop of `rescaleX` completes when the ranges and `x_` cover the indices it visits; it
writes the affine image at every visited index and leaves the other entries alone. -/
theorem rescaleXLoop_spec (q : Nat → K) (xMin xMax : List K) :
    ∀ (n i : Nat) (x : List K), i + n ≤ xMin.length → i + n ≤ xMax.length → i + n ≤ x.length →
      ∃ x1, rescaleXLoop q xMin xMax n i x = some x1 ∧ x1.length = x.length ∧
        (∀ j, i ≤ j → j < i + n → ∃ lo hi, xMin[j]? = some lo ∧ xMax[j]? = some hi ∧
          x1[j]? = some ((1 - q j) * lo + q j * hi)) ∧
        (∀ j, j < i → x1[j]? = x[j]?) := by
  intro n
  induction n with
  | zero =>
    intro i x _ _ _
    exact ⟨x, rfl, rfl, fun j h1 h2 => absurd h2 (by omega), fun _ _ => rfl⟩
  | succ n ih =>
    intro i x h1 h2 h3
    have hi1 : i < xMin.length := by omega
    have hi2 : i < xMax.length := by omega
    have hi3 : i < x.length := by omega
    obtain ⟨x1, hx1, hlen, hin, hout⟩ := ih (i + 1)
      (x.set i ((1 - q i) * xMin[i] + q i * xMax[i])) (by omega) (by omega)
      (by rw [List.length_set]; omega)
    refine ⟨x1, ?_, ?_, ?_, ?_⟩
    · simp only [rescaleXLoop, List.getElem?_eq_getElem hi1, List.getElem?_eq_getElem hi2,
        if_pos hi3]
      exact hx1
    · rw [hlen, List.length_set]
    · intro j hj1 hj2
      rcases Nat.eq_or_lt_of_le hj1 with hij | hij
      · subst hij
        refine ⟨xMin[i], xMax[i], List.getElem?_eq_getElem hi1, List.getElem?_eq_getElem hi2, ?_⟩
        rw [hout i (Nat.lt_succ_self i), List.getElem?_set_self hi3]
      · exact hin j hij (by omega)
    · intro j hj
      rw [hout j (by omega), List.getElem?_set_ne (by omega)]

/-- The state `rescaleX` returns differs from the one it is given in `x_` only. -/
theorem rescaleX_frame {s s1 : ClassicSVfitIntegrand K} {q : Nat → K}
    (h : rescaleX s q = some s1) : s1 = { s with x_ := s1.x_ } := by
  unfold rescaleX at h
  split at h
  · cases h; rfl
  · cases h

/-- C1: for every sample point `q` and every integrand state whose `errorCode_` has one of the
setup-time bits `MatrixInversion`, `LeptonNumber`, `MissingVertex`, `MissingLeadChargedHadron`
set, `Eval` returns exactly 0 and leaves the whole object state (in particular `x_`, `probPS_`,
`probFlightLength_`, the fitted legs and the sink) unchanged. -/
theorem Eval_setup_error_returns_zero (env : Env K) (s : ClassicSVfitIntegrand K) (q : Nat → K)
    (h : s.errorCode_ &&& env.MatrixInversion ≠ 0 ∨ s.errorCode_ &&& env.LeptonNumber ≠ 0 ∨
      s.errorCode_ &&& env.MissingVertex ≠ 0 ∨ s.errorCode_ &&& env.MissingLeadChargedHadron ≠ 0) :
    Eval env s q = some (0, s) := by
  unfold Eval
  rw [if_pos (show hasSetupError env s from h)]

/-- Witness of C1: an integrand whose `LeptonNumber` bit is set. -/
theorem Eval_setup_error_returns_zero_witness :
    Eval sampleEnvQ { (blankIntegrand : ClassicSVfitIntegrand ℚ) with errorCode_ := 2 }
        (fun _ => 1 / 2) =
      some (0, { (blankIntegrand : ClassicSVfitIntegrand ℚ) with errorCode_ := 2 }) :=
  Eval_setup_error_returns_zero _ _ _ (Or.inr (Or.inl (by decide)))

/-- C4: when the ranges and `x_` cover the `numDimensions_` dimensions, `rescaleX` completes,
changes nothing but `x_`, and sets `x_[i] = (1 - q_i)*xMin_[i] + q_i*xMax_[i]` for every
`i < numDimensions_`; so `q_i = 0` gives `xMin_[i]`, `q_i = 1` gives `xMax_[i]`, and for
`q_i` in `[0,1]` with `xMin_[i] <= xMax_[i]` the value lies in `[xMin_[i], xMax_[i]]`. -/
theorem rescaleX_affine (s : ClassicSVfitIntegrand K) (q : Nat → K)
    (hMin : s.numDimensions_ ≤ s.xMin_.length) (hMax : s.numDimensions_ ≤ s.xMax_.length)
    (hx : s.numDimensions_ ≤ s.x_.length) :
    ∃ s1, rescaleX s q = some s1 ∧ s1 = { s with x_ := s1.x_ } ∧
      ∀ i, i < s.numDimensions_ → ∃ lo hi xi, s.xMin_[i]? = some lo ∧ s.xMax_[i]? = some hi ∧
        s1.x_[i]? = some xi ∧ xi = (1 - q i) * lo + q i * hi ∧
        (q i = 0 → xi = lo) ∧ (q i = 1 → xi = hi) ∧
        (0 ≤ q i → q i ≤ 1 → lo ≤ hi → lo ≤ xi ∧ xi ≤ hi) := by
  obtain ⟨x1, hx1, -, hin, -⟩ := rescaleXLoop_spec q s.xMin_ s.xMax_ s.numDimensions_ 0 s.x_
    (by omega) (by omega) (by omega)
  refine ⟨{ s with x_ := x1 }, ?_, rfl, ?_⟩
  · unfold rescaleX
    rw [hx1]
  · intro i hi
    obtain ⟨lo, hi', h1, h2, h3⟩ := hin i (Nat.zero_le i) (by omega)
    refine ⟨lo, hi', _, h1, h2, h3, rfl, ?_, ?_, ?_⟩
    · intro h0; rw [h0]; ring
    · intro h0; rw [h0]; ring
    · intro h0 h1' hle
      constructor
      · nlinarith
      · nlinarith

/-- Witness of C4: two dimensions with ranges `[0,1]` and `[-3,3]` at `q = (1/4, 1/4)`. -/
theorem rescaleX_affine_witness :
    ∃ s1, rescaleX { (blankIntegrand : ClassicSVfitIntegrand ℚ) with
          numDimensions_ := 2, xMin_ := [0, -3], xMax_ := [1, 3], x_ := [0, 0] }
        (fun _ => 1 / 4) = some s1 ∧ s1.x_ = [1 / 4, -3 / 2] := by
  obtain ⟨s1, h1, -, h3⟩ := rescaleX_affine
    { (blankIntegrand : ClassicSVfitIntegrand ℚ) with
      numDimensions_ := 2, xMin_ := [0, -3], xMax_ := [1, 3], x_ := [0, 0] }
    (fun _ => 1 / 4) (by decide) (by decide) (by decide)
  refine ⟨s1, h1, ?_⟩
  simp [rescaleX, rescaleXLoop] at h1
  rw [← h1]
  norm_num

/-! ## Frame of EvalPS -/


omit [LinearOrderedField K] in
/-- Inversion of the pairing of a value with a state. -/
theorem map_pair_eq_some {α : Type} {o : Option K} {s s1 : α} {p : K}
    (h : o.map (fun prob => (prob, s)) = some (p, s1)) : o = some p ∧ s1 = s := by
  cases o with
  | none => cases h
  | some v => cases h; exact ⟨rfl, rfl⟩

/-- The second-leg part of `EvalPS` changes `fittedTauLepton2_` and `errorCode_` only. -/
theorem EvalPS_leg2_frame {env : Env K} {s s1 : ClassicSVfitIntegrand K} {a b c p : K}
    (h : EvalPS_leg2 env s a b c = some (p, s1)) :
    ∃ l2 e, s1 = { s with fittedTauLepton2_ := l2, errorCode_ := e } := by
  unfold EvalPS_leg2 at h
  cases hx : x2_dash s c with
  | none => simp [hx] at h
  | some x2 =>
    cases hu : updateLeg env s.x_ s.legIntegrationParams_1 s.fittedTauLepton2_ (x2 / b) <;>
      simp only [hx, hu] at h <;> split_ifs at h <;>
      first
        | (cases h; exact ⟨_, _, rfl⟩)
        | (obtain ⟨_, rfl⟩ := map_pair_eq_some h; exact ⟨_, _, rfl⟩)

/-- The first-leg part of `EvalPS` changes the fitted legs and `errorCode_` only. -/
theorem EvalPS_leg1_frame {env : Env K} {s s1 : ClassicSVfitIntegrand K} {a b p : K}
    (h : EvalPS_leg1 env s a b = some (p, s1)) :
    ∃ l1 l2 e, s1 = { s with fittedTauLepton1_ := l1, fittedTauLepton2_ := l2, errorCode_ := e } := by
  unfold EvalPS_leg1 at h
  cases hx : x1_dash s with
  | none => simp [hx] at h
  | some x1 =>
    cases hu : updateLeg env s.x_ s.legIntegrationParams_0 s.fittedTauLepton1_ (x1 / a) <;>
      simp only [hx, hu] at h <;> split_ifs at h <;>
      first
        | (cases h; exact ⟨_, _, _, rfl⟩)
        | (obtain ⟨l2, e, rfl⟩ := EvalPS_leg2_frame h; exact ⟨_, _, _, rfl⟩)

/-- `EvalPS` changes the fitted legs and `errorCode_` only. -/
theorem EvalPS_frame {env : Env K} {s s1 : ClassicSVfitIntegrand K} {p : K}
    (h : EvalPS env s = some (p, s1)) :
    ∃ l1 l2 e, s1 = { s with fittedTauLepton1_ := l1, fittedTauLepton2_ := l2, errorCode_ := e } := by
  unfold EvalPS at h
  simp only at h
  split at h
  · split_ifs at h
    · cases h; exact ⟨_, _, _, rfl⟩
    · obtain ⟨l1, l2, e, rfl⟩ := EvalPS_leg1_frame h
      exact ⟨_, _, _, rfl⟩
  · cases h

/-! ## The ways through Eval -/

/-- The floor `1.e-300` is positive. -/
theorem floor300_pos : (0 : K) < floor300 := by
  unfold floor300
  positivity

/-- The two ways through lines 333-345. -/
theorem Eval_combine_spec {env : Env K} {s s1 : ClassicSVfitIntegrand K} {v : K}
    (h : Eval_combine env s = some (v, s1)) :
    (s.probPS_ * s.probFlightLength_ < floor300 ∧ v = 0 ∧ s1 = s) ∨
    (¬ s.probPS_ * s.probFlightLength_ < floor300 ∧ ∃ met m,
      s.measuredEvent_.MEt[idxMeasuredMEt s]? = some met ∧ EvalMEtTF env s met = some m ∧
      v = s.probPS_ * s.probFlightLength_ * m ∧
      s1 = { s with
        histogramAdapter_ := sinkAfter s.histogramAdapter_ v s.fittedTauLepton1_
                               s.fittedTauLepton2_ }) := by
  unfold Eval_combine at h
  by_cases hf : s.probPS_ * s.probFlightLength_ < floor300
  · rw [if_pos hf] at h
    cases h
    exact Or.inl ⟨hf, rfl, rfl⟩
  · rw [if_neg hf] at h
    right
    refine ⟨hf, ?_⟩
    cases hm : s.measuredEvent_.MEt[idxMeasuredMEt s]? with
    | none => simp [hm] at h
    | some met =>
      cases hp : EvalMEtTF env s met with
      | none => simp [hm, hp] at h
      | some m =>
        refine ⟨met, m, rfl, hp, ?_⟩
        simp only [hm, hp] at h
        cases ha : s.histogramAdapter_ with
        | none =>
          simp only [ha] at h
          cases h
          refine ⟨rfl, ?_⟩
          have hs : sinkAfter none (s.probPS_ * s.probFlightLength_ * m)
              s.fittedTauLepton1_ s.fittedTauLepton2_ = s.histogramAdapter_ := by
            simp only [sinkAfter, ha]
          rw [hs]
        | some a =>
          simp only [ha] at h
          split_ifs at h with hv
          · cases h
            refine ⟨rfl, ?_⟩
            simp only [sinkAfter, ha, if_pos hv]
          · cases h
            refine ⟨rfl, ?_⟩
            have hs : sinkAfter (some a) (s.probPS_ * s.probFlightLength_ * m)
                s.fittedTauLepton1_ s.fittedTauLepton2_ = s.histogramAdapter_ := by
              simp only [sinkAfter, ha, if_neg hv]
            rw [hs]

/-- The ways through `Eval`. -/
theorem Eval_spec {env : Env K} {s s' : ClassicSVfitIntegrand K} {q : Nat → K} {v : K}
    (h : Eval env s q = some (v, s')) :
    (hasSetupError env s ∧ v = 0 ∧ s' = s) ∨
    (¬ hasSetupError env s ∧ ∃ s1, rescaleX s q = some s1 ∧
      (((s1.isCentral_ = true ∨ s1.idxMEtSystematic_ = 0) ∧ ∃ ps s2,
          EvalPS env s1 = some (ps, s2) ∧
          ((s2.errorCode_ &&& env.TauDecayParameters ≠ 0 ∧ v = 0 ∧
              s' = { s2 with probPS_ := ps }) ∨
           (¬ s2.errorCode_ &&& env.TauDecayParameters ≠ 0 ∧ ∃ fl,
              EvalFlightLength env { s2 with probPS_ := ps } = some fl ∧
              Eval_combine env { s2 with probPS_ := ps, probFlightLength_ := fl } =
                some (v, s')))) ∨
       (¬ (s1.isCentral_ = true ∨ s1.idxMEtSystematic_ = 0) ∧
          Eval_combine env s1 = some (v, s')))) := by
  unfold Eval at h
  by_cases he : hasSetupError env s
  · rw [if_pos he] at h
    cases h
    exact Or.inl ⟨he, rfl, rfl⟩
  · rw [if_neg he] at h
    right
    refine ⟨he, ?_⟩
    cases hr : rescaleX s q with
    | none => simp [hr] at h
    | some s1 =>
      refine ⟨s1, rfl, ?_⟩
      simp only [hr] at h
      by_cases hc : s1.isCentral_ = true ∨ s1.idxMEtSystematic_ = 0
      · rw [if_pos hc] at h
        left
        refine ⟨hc, ?_⟩
        cases hp : EvalPS env s1 with
        | none => simp [hp] at h
        | some r =>
          obtain ⟨ps, s2⟩ := r
          refine ⟨ps, s2, rfl, ?_⟩
          simp only [hp] at h
          by_cases hk : s2.errorCode_ &&& env.TauDecayParameters ≠ 0
          · rw [if_pos hk] at h
            cases h
            exact Or.inl ⟨hk, rfl, rfl⟩
          · rw [if_neg hk] at h
            right
            refine ⟨hk, ?_⟩
            cases hfl : EvalFlightLength env { s2 with probPS_ := ps } with
            | none => simp [hfl] at h
            | some fl =>
              simp only [hfl] at h
              exact ⟨fl, rfl, h⟩
      · rw [if_neg hc] at h
        exact Or.inr ⟨hc, h⟩

/-- The MEt term is the normalization constant times an exponential. -/
theorem EvalMEtTF_form {env : Env K} {s : ClassicSVfitIntegrand K} {met : MeasuredMEt K} {m : K}
    (h : EvalMEtTF env s met = some m) : ∃ pull2, m = met.const_MET * env.exp (-(1 / 2) * pull2) := by
  unfold EvalMEtTF at h
  split at h
  · simp only at h
    split at h
    · cases h
    · cases h; exact ⟨_, rfl⟩
  · simp only at h
    split at h
    · cases h
    · cases h; exact ⟨_, rfl⟩
  · cases h

/-- C10: whenever `Eval` returns, it has reported the current fitted-leg pair
(`fittedTauLepton1_`, `fittedTauLepton2_`) to the sink exactly when a sink is attached and the
value it returns exceeds `1.e-300`; in every other case (setup error, per-call kinematic error,
product below the floor, no sink) the sink is left as it was. -/
theorem Eval_reports_to_sink_iff (env : Env K) (s s' : ClassicSVfitIntegrand K) (q : Nat → K)
    (v : K) (h : Eval env s q = some (v, s')) :
    (∀ adapter, s.histogramAdapter_ = some adapter → v > floor300 →
      s'.histogramAdapter_ =
        some (adapter.setFittedTauLeptons s'.fittedTauLepton1_ s'.fittedTauLepton2_)) ∧
    (s.histogramAdapter_ = none ∨ ¬ v > floor300 → s'.histogramAdapter_ = s.histogramAdapter_) := by
  have key : s'.histogramAdapter_ =
      sinkAfter s.histogramAdapter_ v s'.fittedTauLepton1_ s'.fittedTauLepton2_ := by
    have h0 : ∀ (ad : Option (HistogramAdapterDiTau K)) l1 l2,
        sinkAfter ad (0 : K) l1 l2 = ad := by
      intro ad l1 l2
      have hf : ¬ (floor300 : K) < 0 := not_lt.mpr (le_of_lt (floor300_pos (K := K)))
      cases ad with
      | none => rfl
      | some a => simp only [sinkAfter, gt_iff_lt, if_neg hf]
    have hc : ∀ {t t' : ClassicSVfitIntegrand K}, Eval_combine env t = some (v, t') →
        t'.histogramAdapter_ =
          sinkAfter t.histogramAdapter_ v t'.fittedTauLepton1_ t'.fittedTauLepton2_ := by
      intro t t' ht
      rcases Eval_combine_spec ht with ⟨-, rfl, rfl⟩ | ⟨-, met, m, -, -, -, rfl⟩
      · exact (h0 _ _ _).symm
      · rfl
    rcases Eval_spec h with ⟨-, rfl, rfl⟩ | ⟨-, s1, hr, hcase⟩
    · exact (h0 _ _ _).symm
    · have hs1 := rescaleX_frame hr
      rcases hcase with ⟨-, ps, s2, hp, hcase2⟩ | ⟨-, hcomb⟩
      · obtain ⟨l1, l2, e, rfl⟩ := EvalPS_frame hp
        rcases hcase2 with ⟨-, rfl, rfl⟩ | ⟨-, fl, -, hcomb⟩
        · rw [h0]
          show s1.histogramAdapter_ = _
          rw [hs1]
        · rw [hc hcomb]
          show sinkAfter s1.histogramAdapter_ _ _ _ = _
          rw [hs1]
      · rw [hc hcomb, hs1]
  constructor
  · intro adapter ha hv
    rw [key, ha]
    simp only [sinkAfter, if_pos hv]
  · intro hor
    rw [key]
    rcases hor with hn | hv
    · rw [hn]; rfl
    · cases s.histogramAdapter_ with
      | none => rfl
      | some a => simp only [sinkAfter, if_neg hv]

/-- Witness of C10: two prompt leptons, a sink attached; `Eval` returns 1 and the sink holds
the fitted-leg pair. -/
theorem Eval_reports_to_sink_iff_witness :
    ∃ s', Eval sampleEnvQ
        (setHistogramAdapter (samplePromptIntegrand ⟨3, 0, 0, 3⟩ ⟨-3, 0, 0, 3⟩ [sampleMEt 0 0])
          (some ⟨[]⟩)) (fun _ => 1 / 2) = some (1, s') ∧
      s'.histogramAdapter_ = some ⟨[(s'.fittedTauLepton1_, s'.fittedTauLepton2_)]⟩ := by
  have hval : (Eval sampleEnvQ
      (setHistogramAdapter (samplePromptIntegrand ⟨3, 0, 0, 3⟩ ⟨-3, 0, 0, 3⟩ [sampleMEt 0 0])
        (some ⟨[]⟩)) (fun _ => 1 / 2)).map Prod.fst = some 1 := by
    norm_num [Eval, setHistogramAdapter, samplePromptIntegrand, hasSetupError, sampleEnvQ, sampleEnv,
      rescaleX, rescaleXLoop, ClassicSVfitIntegrand.ctor, disableDiTauMassConstraint,
      blankIntegrand, EvalPS, visPtShift, EvalPS_leg1, EvalPS_leg2, x1_dash, x2_dash, lit1em2,
      lit1em5, floor300, EvalPS_prob, legDecayProb, legProbTF, sampleFitted, samplePromptLepton,
      EvalFlightLength, Eval_combine, idxMeasuredMEt, EvalMEtTF, EvalMEtTF_residual, sampleMEt,
      LorentzVector.zero]
  cases hE : Eval sampleEnvQ
      (setHistogramAdapter (samplePromptIntegrand ⟨3, 0, 0, 3⟩ ⟨-3, 0, 0, 3⟩ [sampleMEt 0 0])
        (some ⟨[]⟩)) (fun _ => 1 / 2) with
  | none => rw [hE] at hval; cases hval
  | some r =>
    obtain ⟨v, s'⟩ := r
    rw [hE] at hval
    cases hval
    refine ⟨s', rfl, ?_⟩
    exact (Eval_reports_to_sink_iff _ _ _ _ _ hE).1 ⟨[]⟩ rfl (by norm_num [floor300])

/-- The sign of the value of `Eval` over the field `K`, where every product is a number: if the
exponential is non-negative and the selected MEt alternative has `const_MET >= 0`, every value
`Eval` returns is `>= 0`: it is 0, or it is `probPS_*probFlightLength_*probMEtTF` with
`probPS_*probFlightLength_ >= 1.e-300` and `probMEtTF = const_MET*exp(-pull2/2) >= 0`, whatever
the sign of the two cached terms.  (For `double`s that are infinite or NaN see
`Eval_return`.) -/
theorem Eval_nonneg (env : Env K) (s s' : ClassicSVfitIntegrand K) (q : Nat → K) (v : K)
    (hexp : ∀ t, 0 ≤ env.exp t)
    (hconst : ∀ met, s.measuredEvent_.MEt[idxMeasuredMEt s]? = some met → 0 ≤ met.const_MET)
    (h : Eval env s q = some (v, s')) :
    0 ≤ v ∧ (v = 0 ∨ ∃ met pull2, s.measuredEvent_.MEt[idxMeasuredMEt s]? = some met ∧
      v = s'.probPS_ * s'.probFlightLength_ * (met.const_MET * env.exp (-(1 / 2) * pull2)) ∧
      floor300 ≤ s'.probPS_ * s'.probFlightLength_ ∧
      0 ≤ met.const_MET * env.exp (-(1 / 2) * pull2)) := by
  have hc : ∀ {t t' : ClassicSVfitIntegrand K}, Eval_combine env t = some (v, t') →
      t.measuredEvent_ = s.measuredEvent_ → idxMeasuredMEt t = idxMeasuredMEt s →
      0 ≤ v ∧ (v = 0 ∨ ∃ met pull2, s.measuredEvent_.MEt[idxMeasuredMEt s]? = some met ∧
        v = t'.probPS_ * t'.probFlightLength_ * (met.const_MET * env.exp (-(1 / 2) * pull2)) ∧
        floor300 ≤ t'.probPS_ * t'.probFlightLength_ ∧
        0 ≤ met.const_MET * env.exp (-(1 / 2) * pull2)) := by
    intro t t' ht hev hidx
    rcases Eval_combine_spec ht with ⟨-, rfl, rfl⟩ | ⟨hf, met, m, hmet, hm, hv, rfl⟩
    · exact ⟨le_refl _, Or.inl rfl⟩
    · obtain ⟨pull2, rfl⟩ := EvalMEtTF_form hm
      rw [hev, hidx] at hmet
      have h1 : 0 ≤ met.const_MET * env.exp (-(1 / 2) * pull2) :=
        mul_nonneg (hconst met hmet) (hexp _)
      have h2 : floor300 ≤ t.probPS_ * t.probFlightLength_ := not_lt.mp hf
      refine ⟨?_, Or.inr ⟨met, pull2, hmet, hv, h2, h1⟩⟩
      rw [hv]
      exact mul_nonneg (le_trans (le_of_lt floor300_pos) h2) h1
  rcases Eval_spec h with ⟨-, rfl, rfl⟩ | ⟨-, s1, hr, hcase⟩
  · exact ⟨le_refl _, Or.inl rfl⟩
  · have hs1 := rescaleX_frame hr
    have e1 : s1.measuredEvent_ = s.measuredEvent_ := by rw [hs1]
    have e2 : idxMeasuredMEt s1 = idxMeasuredMEt s := by rw [hs1]; rfl
    rcases hcase with ⟨-, ps, s2, hp, hcase2⟩ | ⟨-, hcomb⟩
    · obtain ⟨l1, l2, e, rfl⟩ := EvalPS_frame hp
      rcases hcase2 with ⟨-, rfl, rfl⟩ | ⟨-, fl, -, hcomb⟩
      · exact ⟨le_refl _, Or.inl rfl⟩
      · exact hc hcomb e1 e2
    · exact hc hcomb e1 e2

/-! ## Sign and composition of the value of Eval -/

/-- The sample integrand of two prompt leptons evaluates to 1 and raises no error flag. -/
theorem samplePrompt_Eval :
    ∃ s', Eval sampleEnvQ (samplePromptIntegrand ⟨3, 0, 0, 3⟩ ⟨-3, 0, 0, 3⟩ [sampleMEt 0 0])
      (fun _ => 1 / 2) = some (1, s') ∧ s'.errorCode_ = 0 := by
  have hval : (Eval sampleEnvQ (samplePromptIntegrand ⟨3, 0, 0, 3⟩ ⟨-3, 0, 0, 3⟩ [sampleMEt 0 0])
      (fun _ => 1 / 2)).map (fun r => (r.1, r.2.errorCode_)) = some (1, 0) := by
    norm_num [Eval, samplePromptIntegrand, hasSetupError, sampleEnvQ, sampleEnv,
      rescaleX, rescaleXLoop, ClassicSVfitIntegrand.ctor, disableDiTauMassConstraint,
      blankIntegrand, EvalPS, visPtShift, EvalPS_leg1, EvalPS_leg2, x1_dash, x2_dash, lit1em2,
      lit1em5, floor300, EvalPS_prob, legDecayProb, legProbTF, sampleFitted, samplePromptLepton,
      EvalFlightLength, Eval_combine, idxMeasuredMEt, EvalMEtTF, EvalMEtTF_residual, sampleMEt,
      LorentzVector.zero]
  cases hE : Eval sampleEnvQ (samplePromptIntegrand ⟨3, 0, 0, 3⟩ ⟨-3, 0, 0, 3⟩ [sampleMEt 0 0])
      (fun _ => 1 / 2) with
  | none => rw [hE] at hval; cases hval
  | some r =>
    obtain ⟨v, s'⟩ := r
    rw [hE] at hval
    simp only [Option.map_some', Option.some.injEq, Prod.mk.injEq] at hval
    obtain ⟨rfl, h2⟩ := hval
    exact ⟨s', rfl, h2⟩

/-- `EvalFlightLength` does not read the cached probabilities. -/
theorem EvalFlightLength_probPS (env : Env K) (s : ClassicSVfitIntegrand K) (ps : K) :
    EvalFlightLength env { s with probPS_ := ps } = EvalFlightLength env s := rfl

/-- `EvalMEtTF` does not read the cached probabilities. -/
theorem EvalMEtTF_probs (env : Env K) (s : ClassicSVfitIntegrand K) (ps fl : K)
    (met : MeasuredMEt K) :
    EvalMEtTF env { s with probPS_ := ps, probFlightLength_ := fl } met = EvalMEtTF env s met :=
  rfl

/-- C9 (amended): for an event without setup-time error and a sample point that raises no
per-call kinematic error, a central-mode `Eval` that returns has evaluated `EvalPS` and
`EvalFlightLength`, and it returns exactly `EvalPS() * EvalFlightLength() * EvalMEtTF(MEt
alternative 0)` when `EvalPS() * EvalFlightLength() >= 1.e-300`, and exactly 0 when that
product is below `1.e-300`. -/
theorem Eval_central_product (env : Env K) (s s' : ClassicSVfitIntegrand K) (q : Nat → K) (v : K)
    (hs : ¬ hasSetupError env s) (hc : s.isCentral_ = true)
    (hk : s'.errorCode_ &&& env.TauDecayParameters = 0)
    (h : Eval env s q = some (v, s')) :
    ∃ s1 ps s2 fl, rescaleX s q = some s1 ∧ EvalPS env s1 = some (ps, s2) ∧
      EvalFlightLength env s2 = some fl ∧
      ((ps * fl < floor300 ∧ v = 0) ∨
       (floor300 ≤ ps * fl ∧ ∃ met m, s.measuredEvent_.MEt[0]? = some met ∧
          EvalMEtTF env s2 met = some m ∧ v = ps * fl * m)) := by
  rcases Eval_spec h with ⟨he, -, -⟩ | ⟨-, s1, hr, hcase⟩
  · exact absurd he hs
  · have hs1 := rescaleX_frame hr
    have hc1 : s1.isCentral_ = true := by rw [hs1]; exact hc
    rcases hcase with ⟨-, ps, s2, hp, hcase2⟩ | ⟨hn, -⟩
    · rcases hcase2 with ⟨hflag, -, rfl⟩ | ⟨-, fl, hfl, hcomb⟩
      · exact absurd hk hflag
      · refine ⟨s1, ps, s2, fl, hr, hp, hfl, ?_⟩
        obtain ⟨l1, l2, e, rfl⟩ := EvalPS_frame hp
        rcases Eval_combine_spec hcomb with ⟨hf, rfl, -⟩ | ⟨hf, met, m, hmet, hm, hv, -⟩
        · exact Or.inl ⟨hf, rfl⟩
        · refine Or.inr ⟨not_lt.mp hf, met, m, ?_, hm, hv⟩
          have hidx : ∀ t : ClassicSVfitIntegrand K, t.isCentral_ = true → idxMeasuredMEt t = 0 := by
            intro t ht
            simp only [idxMeasuredMEt, ht, if_true]
          change s1.measuredEvent_.MEt[idxMeasuredMEt s1]? = some met at hmet
          rw [hidx _ hc1] at hmet
          rw [← hmet, hs1]
    · exact absurd (Or.inl hc1) hn

/-- Counterexample to C9 as stated: two prompt leptons, mass constraint `2e301`, no error of
either kind, central mode.  `EvalPS` returns `1e-301`, `EvalFlightLength` returns 1 and
`EvalMEtTF` of alternative 0 returns 1 (real `exp`), so the product is `1e-301`, which is not
0; `Eval` returns 0 because `1e-301` is below the floor `1.e-300`. -/
theorem Eval_central_product_counterexample :
    ¬ hasSetupError (sampleEnv Real.exp Real.sqrt Real.rpow) (sampleFloorIntegrand : ClassicSVfitIntegrand ℝ) ∧
    (sampleFloorIntegrand : ClassicSVfitIntegrand ℝ).isCentral_ = true ∧
    rescaleX (sampleFloorIntegrand : ClassicSVfitIntegrand ℝ) (fun _ => 1 / 2) =
      some sampleFloorIntegrand ∧
    (EvalPS (sampleEnv Real.exp Real.sqrt Real.rpow) sampleFloorIntegrand).map Prod.fst =
      some (1 / 10 ^ 301) ∧
    (EvalPS (sampleEnv Real.exp Real.sqrt Real.rpow) sampleFloorIntegrand).map
      (fun r => r.2.errorCode_ &&& (sampleEnv Real.exp Real.sqrt Real.rpow).TauDecayParameters) = some 0 ∧
    (EvalPS (sampleEnv Real.exp Real.sqrt Real.rpow) sampleFloorIntegrand).bind
      (fun r => EvalFlightLength (sampleEnv Real.exp Real.sqrt Real.rpow) r.2) = some 1 ∧
    (sampleFloorIntegrand : ClassicSVfitIntegrand ℝ).measuredEvent_.MEt[0]? = some (sampleMEt 0 0) ∧
    (EvalPS (sampleEnv Real.exp Real.sqrt Real.rpow) sampleFloorIntegrand).bind
      (fun r => EvalMEtTF (sampleEnv Real.exp Real.sqrt Real.rpow) r.2 (sampleMEt 0 0)) = some 1 ∧
    (Eval (sampleEnv Real.exp Real.sqrt Real.rpow) sampleFloorIntegrand (fun _ => 1 / 2)).map
      Prod.fst = some 0 ∧
    (1 / 10 ^ 301 * 1 * 1 : ℝ) ≠ 0 := by
  refine ⟨?_, rfl, rfl, ?_, ?_, ?_, rfl, ?_, ?_, ?_⟩
  · norm_num [hasSetupError, sampleFloorIntegrand, enableDiTauMassConstraint, samplePromptIntegrand,
      ClassicSVfitIntegrand.ctor, disableDiTauMassConstraint, blankIntegrand, sampleEnv]
  · norm_num [sampleFloorIntegrand, enableDiTauMassConstraint, samplePromptIntegrand, sampleEnv,
      ClassicSVfitIntegrand.ctor, disableDiTauMassConstraint,
      blankIntegrand, EvalPS, visPtShift, EvalPS_leg1, EvalPS_leg2, x1_dash, x2_dash, lit1em2,
      lit1em5, EvalPS_prob, legDecayProb, legProbTF, sampleFitted, samplePromptLepton,
      LorentzVector.zero]
  · norm_num [sampleFloorIntegrand, enableDiTauMassConstraint, samplePromptIntegrand, sampleEnv,
      ClassicSVfitIntegrand.ctor, disableDiTauMassConstraint,
      blankIntegrand, EvalPS, visPtShift, EvalPS_leg1, EvalPS_leg2, x1_dash, x2_dash, lit1em2,
      lit1em5, EvalPS_prob, legDecayProb, legProbTF, sampleFitted, samplePromptLepton,
      LorentzVector.zero]
  · norm_num [sampleFloorIntegrand, enableDiTauMassConstraint, samplePromptIntegrand, sampleEnv,
      ClassicSVfitIntegrand.ctor, disableDiTauMassConstraint,
      blankIntegrand, EvalPS, visPtShift, EvalPS_leg1, EvalPS_leg2, x1_dash, x2_dash, lit1em2,
      lit1em5, EvalPS_prob, legDecayProb, legProbTF, sampleFitted, samplePromptLepton,
      LorentzVector.zero, EvalFlightLength]
  · norm_num [sampleFloorIntegrand, enableDiTauMassConstraint, samplePromptIntegrand, sampleEnv,
      ClassicSVfitIntegrand.ctor, disableDiTauMassConstraint,
      blankIntegrand, EvalPS, visPtShift, EvalPS_leg1, EvalPS_leg2, x1_dash, x2_dash, lit1em2,
      lit1em5, EvalPS_prob, legDecayProb, legProbTF, sampleFitted, samplePromptLepton,
      LorentzVector.zero, EvalMEtTF, EvalMEtTF_residual, sampleMEt, LorentzVector.scale]
  · norm_num [Eval, hasSetupError, rescaleX, rescaleXLoop, floor300, EvalFlightLength, Eval_combine,
      sampleFloorIntegrand, enableDiTauMassConstraint, samplePromptIntegrand, sampleEnv,
      ClassicSVfitIntegrand.ctor, disableDiTauMassConstraint,
      blankIntegrand, EvalPS, visPtShift, EvalPS_leg1, EvalPS_leg2, x1_dash, x2_dash, lit1em2,
      lit1em5, EvalPS_prob, legDecayProb, legProbTF, sampleFitted, samplePromptLepton,
      LorentzVector.zero]
  · norm_num

/-- Witness of C9 (amended): the sample integrand of two prompt leptons. -/
theorem Eval_central_product_witness :
    ∃ s' s1 ps s2 fl,
      Eval sampleEnvQ (samplePromptIntegrand ⟨3, 0, 0, 3⟩ ⟨-3, 0, 0, 3⟩ [sampleMEt 0 0])
        (fun _ => 1 / 2) = some (1, s') ∧
      rescaleX (samplePromptIntegrand ⟨3, 0, 0, 3⟩ ⟨-3, 0, 0, 3⟩ [sampleMEt 0 0])
        (fun _ => (1 / 2 : ℚ)) = some s1 ∧
      EvalPS sampleEnvQ s1 = some (ps, s2) ∧ EvalFlightLength sampleEnvQ s2 = some fl ∧
      ((ps * fl < floor300 ∧ (1 : ℚ) = 0) ∨
       (floor300 ≤ ps * fl ∧ ∃ met m,
          (samplePromptIntegrand ⟨3, 0, 0, 3⟩ ⟨-3, 0, 0, 3⟩ [sampleMEt 0 0] :
            ClassicSVfitIntegrand ℚ).measuredEvent_.MEt[0]? = some met ∧
          EvalMEtTF sampleEnvQ s2 met = some m ∧ 1 = ps * fl * m)) := by
  obtain ⟨s', hs', he⟩ := samplePrompt_Eval
  obtain ⟨s1, ps, s2, fl, h⟩ := Eval_central_product sampleEnvQ _ s' _ 1
    (by norm_num [hasSetupError, samplePromptIntegrand, ClassicSVfitIntegrand.ctor,
      disableDiTauMassConstraint, blankIntegrand, sampleEnvQ, sampleEnv])
    rfl (by rw [he]; rfl) hs'
  exact ⟨s', s1, ps, s2, fl, hs', h⟩

/-! ## The rescaling round trip -/

/-- C5 (amended): rescaling round-trip over exact arithmetic.  For every `q` and every
configured range with `xMin_[i] ≠ xMax_[i]`, applying the inverse affine map
`x -> (x - xMin_[i])/(xMax_[i] - xMin_[i])` to the output of `rescaleX(q)` recovers `q_i`, in
every dimension `i < numDimensions_`. -/
theorem rescaleX_roundtrip (s : ClassicSVfitIntegrand K) (q : Nat → K)
    (hMin : s.numDimensions_ ≤ s.xMin_.length) (hMax : s.numDimensions_ ≤ s.xMax_.length)
    (hx : s.numDimensions_ ≤ s.x_.length) :
    ∃ s1, rescaleX s q = some s1 ∧
      ∀ i, i < s.numDimensions_ → ∃ lo hi xi, s.xMin_[i]? = some lo ∧ s.xMax_[i]? = some hi ∧
        s1.x_[i]? = some xi ∧ (lo ≠ hi → inverseAffine lo hi xi = some (q i)) := by
  obtain ⟨x1, hx1, -, hin, -⟩ := rescaleXLoop_spec q s.xMin_ s.xMax_ s.numDimensions_ 0 s.x_
    (by omega) (by omega) (by omega)
  refine ⟨{ s with x_ := x1 }, ?_, ?_⟩
  · unfold rescaleX
    rw [hx1]
  · intro i hi
    obtain ⟨lo, hi', h1, h2, h3⟩ := hin i (Nat.zero_le i) (by omega)
    refine ⟨lo, hi', _, h1, h2, h3, ?_⟩
    intro hne
    have hd : hi' - lo ≠ 0 := sub_ne_zero.mpr (Ne.symm hne)
    unfold inverseAffine
    rw [if_neg hd]
    congr 1
    field_simp
    ring

/-- Witness of C5 (amended): two dimensions with ranges `[0,1]` and `[-3,3]`. -/
theorem rescaleX_roundtrip_witness :
    ∃ s1, rescaleX { (blankIntegrand : ClassicSVfitIntegrand ℚ) with
          numDimensions_ := 2, xMin_ := [0, -3], xMax_ := [1, 3], x_ := [0, 0] }
        (fun _ => 1 / 4) = some s1 ∧ s1.x_ = [1 / 4, -3 / 2] ∧
      inverseAffine (0 : ℚ) 1 (1 / 4) = some (1 / 4) ∧
      inverseAffine (-3 : ℚ) 3 (-3 / 2) = some (1 / 4) := by
  obtain ⟨s1, h1, h2⟩ := rescaleX_roundtrip
    { (blankIntegrand : ClassicSVfitIntegrand ℚ) with
      numDimensions_ := 2, xMin_ := [0, -3], xMax_ := [1, 3], x_ := [0, 0] }
    (fun _ => 1 / 4) (by decide) (by decide) (by decide)
  refine ⟨s1, h1, ?_, ?_, ?_⟩
  · simp [rescaleX, rescaleXLoop] at h1
    rw [← h1]
    norm_num
  · norm_num [inverseAffine]
  · norm_num [inverseAffine]

/-- Counterexample to C5 as stated: one dimension with the configured range `[2,2]` and
`q = 1/2`.  `rescaleX` gives `x_ = [2]`; the inverse affine map divides by `xMax - xMin = 0`
and recovers nothing, and `rescaleX` gives the same `x_` for `q = 0` and `q = 1`, so no map of
`x_` recovers `q`. -/
theorem rescaleX_roundtrip_counterexample :
    rescaleX (sampleDegenerateRange : ClassicSVfitIntegrand ℚ) (fun _ => 1 / 2) =
      some { (sampleDegenerateRange : ClassicSVfitIntegrand ℚ) with x_ := [2] } ∧
    (0 : ℚ) ≤ 1 / 2 ∧ (1 / 2 : ℚ) ≤ 1 ∧
    inverseAffine (2 : ℚ) 2 2 = none ∧
    rescaleX (sampleDegenerateRange : ClassicSVfitIntegrand ℚ) (fun _ => 0) =
      rescaleX (sampleDegenerateRange : ClassicSVfitIntegrand ℚ) (fun _ => 1) := by
  refine ⟨?_, by norm_num, by norm_num, ?_, ?_⟩
  · norm_num [rescaleX, rescaleXLoop, sampleDegenerateRange, blankIntegrand]
  · norm_num [inverseAffine]
  · norm_num [rescaleX, rescaleXLoop, sampleDegenerateRange, blankIntegrand]


/-! ## The range of the energy fractions -/

/-- The literal `1.e-5` is positive. -/
theorem lit1em5_pos : (0 : K) < lit1em5 := by
  unfold lit1em5
  positivity

/-- A non-zero value of the second-leg part of `EvalPS` was computed with `x2` in range. -/
theorem EvalPS_leg2_fraction {env : Env K} {s s1 : ClassicSVfitIntegrand K} {sh1 sh2 a p : K}
    (h : EvalPS_leg2 env s sh1 sh2 a = some (p, s1)) (hp : p ≠ 0) :
    ∃ b, x2_dash s a = some b ∧ lit1em5 ≤ b / sh2 ∧ b / sh2 ≤ 1 := by
  unfold EvalPS_leg2 at h
  cases hx : x2_dash s a with
  | none => simp [hx] at h
  | some b =>
    refine ⟨b, rfl, ?_⟩
    simp only [hx] at h
    by_cases hr : ¬ (b / sh2 ≥ lit1em5 ∧ b / sh2 ≤ 1)
    · rw [if_pos hr] at h
      cases h
      exact absurd rfl hp
    · exact not_not.mp hr

/-- A non-zero value of the first-leg part of `EvalPS` was computed with `x1`, `x2` in range. -/
theorem EvalPS_leg1_fraction {env : Env K} {s s1 : ClassicSVfitIntegrand K} {sh1 sh2 p : K}
    (h : EvalPS_leg1 env s sh1 sh2 = some (p, s1)) (hp : p ≠ 0) :
    ∃ a b, x1_dash s = some a ∧ x2_dash s a = some b ∧
      (lit1em5 ≤ a / sh1 ∧ a / sh1 ≤ 1) ∧ (lit1em5 ≤ b / sh2 ∧ b / sh2 ≤ 1) := by
  unfold EvalPS_leg1 at h
  cases hx : x1_dash s with
  | none => simp [hx] at h
  | some a =>
    simp only [hx] at h
    by_cases hr : ¬ (a / sh1 ≥ lit1em5 ∧ a / sh1 ≤ 1)
    · rw [if_pos hr] at h
      cases h
      exact absurd rfl hp
    · rw [if_neg hr] at h
      have hr' := not_not.mp hr
      cases hu : updateLeg env s.x_ s.legIntegrationParams_0 s.fittedTauLepton1_ (a / sh1) <;>
        simp only [hu] at h <;> split_ifs at h <;>
        first
          | (cases h; exact absurd rfl hp)
          | (obtain ⟨b, hb, hb2⟩ := EvalPS_leg2_fraction h hp
             exact ⟨a, b, rfl, hb, hr', hb2⟩)

/-- A non-zero value of `EvalPS` was computed with both energy fractions in `[1.e-5, 1]`. -/
theorem EvalPS_fractions {env : Env K} {s s1 : ClassicSVfitIntegrand K} {p : K}
    (h : EvalPS env s = some (p, s1)) (hp : p ≠ 0) :
    ∃ sh1 sh2 a b,
      visPtShift s s.legIntegrationParams_0 s.leg1isLeptonicTauDecay_ = some sh1 ∧
      visPtShift s s.legIntegrationParams_1 s.leg2isLeptonicTauDecay_ = some sh2 ∧
      x1_dash s = some a ∧ x2_dash s a = some b ∧
      (lit1em5 ≤ a / sh1 ∧ a / sh1 ≤ 1) ∧ (lit1em5 ≤ b / sh2 ∧ b / sh2 ≤ 1) := by
  unfold EvalPS at h
  simp only at h
  split at h
  · rename_i sh1 sh2 h1 h2
    split_ifs at h
    · cases h; exact absurd rfl hp
    · obtain ⟨a, b, ha, hb, hr⟩ := EvalPS_leg1_fraction h hp
      exact ⟨sh1, sh2, a, b, h1, h2, ha, hb, hr⟩
  · cases h

/-- C6: whenever a central-mode `Eval` returns a non-zero value, the visible energy fractions
`x1 = x1_dash/visPtShift1` and `x2 = x2_dash/visPtShift2` that `EvalPS` used satisfy
`0 < x <= 1` (indeed `1.e-5 <= x <= 1`); and `EvalPS` returns 0 at every sample point at which
`x1` or `x2` falls outside `(0,1]`. -/
theorem Eval_nonzero_fractions (env : Env K) (s s' : ClassicSVfitIntegrand K) (q : Nat → K)
    (v : K) (hc : s.isCentral_ = true) (h : Eval env s q = some (v, s')) (hv : v ≠ 0) :
    (∃ s1 sh1 sh2 x1d x2d, rescaleX s q = some s1 ∧
      visPtShift s1 s1.legIntegrationParams_0 s1.leg1isLeptonicTauDecay_ = some sh1 ∧
      visPtShift s1 s1.legIntegrationParams_1 s1.leg2isLeptonicTauDecay_ = some sh2 ∧
      x1_dash s1 = some x1d ∧ x2_dash s1 x1d = some x2d ∧
      (0 < x1d / sh1 ∧ lit1em5 ≤ x1d / sh1 ∧ x1d / sh1 ≤ 1) ∧
      (0 < x2d / sh2 ∧ lit1em5 ≤ x2d / sh2 ∧ x2d / sh2 ≤ 1)) ∧
    (∀ (t t' : ClassicSVfitIntegrand K) (p sh1 sh2 x1d : K), EvalPS env t = some (p, t') →
      visPtShift t t.legIntegrationParams_0 t.leg1isLeptonicTauDecay_ = some sh1 →
      visPtShift t t.legIntegrationParams_1 t.leg2isLeptonicTauDecay_ = some sh2 →
      x1_dash t = some x1d →
      (¬ (0 < x1d / sh1 ∧ x1d / sh1 ≤ 1) ∨
        ∃ x2d, x2_dash t x1d = some x2d ∧ ¬ (0 < x2d / sh2 ∧ x2d / sh2 ≤ 1)) →
      p = 0) := by
  constructor
  · rcases Eval_spec h with ⟨-, rfl, -⟩ | ⟨-, s1, hr, hcase⟩
    · exact absurd rfl hv
    · have hs1 := rescaleX_frame hr
      have hc1 : s1.isCentral_ = true := by rw [hs1]; exact hc
      rcases hcase with ⟨-, ps, s2, hp, hcase2⟩ | ⟨hn, -⟩
      · rcases hcase2 with ⟨-, rfl, -⟩ | ⟨-, fl, -, hcomb⟩
        · exact absurd rfl hv
        · have hps : ps ≠ 0 := by
            rcases Eval_combine_spec hcomb with ⟨-, rfl, -⟩ | ⟨-, met, m, -, -, hval, -⟩
            · exact absurd rfl hv
            · intro h0
              apply hv
              rw [hval]
              show ps * fl * m = 0
              rw [h0, zero_mul, zero_mul]
          obtain ⟨sh1, sh2, a, b, h1, h2, ha, hb, ⟨ha1, ha2⟩, ⟨hb1, hb2⟩⟩ := EvalPS_fractions hp hps
          exact ⟨s1, sh1, sh2, a, b, hr, h1, h2, ha, hb,
            ⟨lt_of_lt_of_le lit1em5_pos ha1, ha1, ha2⟩, ⟨lt_of_lt_of_le lit1em5_pos hb1, hb1, hb2⟩⟩
      · exact absurd (Or.inl hc1) hn
  · intro t t' p sh1 sh2 x1d hp h1 h2 ha hout
    by_contra hne
    obtain ⟨sh1', sh2', a, b, h1', h2', ha', hb, ⟨ha1, ha2⟩, ⟨hb1, hb2⟩⟩ := EvalPS_fractions hp hne
    rw [h1] at h1'
    rw [h2] at h2'
    rw [ha] at ha'
    cases h1'
    cases h2'
    cases ha'
    rcases hout with hx | ⟨x2d, hx2, hx⟩
    · exact hx ⟨lt_of_lt_of_le lit1em5_pos ha1, ha2⟩
    · rw [hb] at hx2
      cases hx2
      exact hx ⟨lt_of_lt_of_le lit1em5_pos hb1, hb2⟩

/-! ## Totality of Eval -/

omit [LinearOrderedField K] in
/-- A read of `x_` at an index in range succeeds. -/
theorem readX_isSome {x : List K} {idx : Int} (h0 : 0 ≤ idx) (h1 : idx.toNat < x.length) :
    ∃ v, readX x idx = some v := by
  unfold readX
  rw [if_neg (not_lt.mpr h0)]
  exact ⟨x[idx.toNat], List.getElem?_eq_getElem h1⟩

omit [LinearOrderedField K] in
/-- An index in range is not the sentinel `-1`. -/
theorem idxInRange_ne {s : ClassicSVfitIntegrand K} {idx : Int} (h : idxInRange s idx) :
    idx ≠ -1 := by
  intro h1
  have := h.1
  omega

omit [LinearOrderedField K] in
/-- A read of `x_` at an index of a covered configuration succeeds. -/
theorem readX_of_idxInRange {s : ClassicSVfitIntegrand K} {idx : Int}
    (hlen : s.numDimensions_ ≤ s.x_.length) (h : idxInRange s idx) :
    ∃ v, readX s.x_ idx = some v :=
  readX_isSome h.1 (lt_of_lt_of_le h.2 hlen)

/-- `rescaleX` completes on a covered configuration and keeps the length of `x_`. -/
theorem rescaleX_isSome (s : ClassicSVfitIntegrand K) (q : Nat → K)
    (h : s.numDimensions_ ≤ s.xMin_.length ∧ s.numDimensions_ ≤ s.xMax_.length ∧
      s.numDimensions_ ≤ s.x_.length) :
    ∃ x1, rescaleX s q = some { s with x_ := x1 } ∧ x1.length = s.x_.length := by
  obtain ⟨x1, hx1, hlen, -, -⟩ := rescaleXLoop_spec q s.xMin_ s.xMax_ s.numDimensions_ 0 s.x_
    (by omega) (by omega) (by omega)
  refine ⟨x1, ?_, hlen⟩
  unfold rescaleX
  rw [hx1]

/-- The shift of the visible momentum is read successfully when its index is `-1` or in
range. -/
theorem visPtShift_isSome {s : ClassicSVfitIntegrand K} {params : integrationParameters}
    (b : Bool) (hlen : s.numDimensions_ ≤ s.x_.length)
    (h : s.useHadTauTF_ = true ∨ s.rhoHadTau_ ≠ 0 →
      params.idx_VisPtShift_ = -1 ∨ idxInRange s params.idx_VisPtShift_) :
    ∃ v, visPtShift s params b = some v := by
  unfold visPtShift
  split_ifs with hc
  · rcases h (Or.inl hc.1) with h1 | h1
    · exact absurd h1 hc.2.1
    · obtain ⟨v, hv⟩ := readX_of_idxInRange hlen h1
      rw [hv]
      exact ⟨_, rfl⟩
  · exact ⟨_, rfl⟩

/-- The angle and the neutrino mass of a leg are read successfully. -/
theorem updateLeg_isSome {s : ClassicSVfitIntegrand K} (env : Env K)
    {params : integrationParameters} (leg : FittedTauLepton K) (x : K)
    (hlen : s.numDimensions_ ≤ s.x_.length) (hphi : idxInRange s params.idx_phi_)
    (hm : params.idx_mNuNu_ = -1 ∨ idxInRange s params.idx_mNuNu_) :
    ∃ leg1, updateLeg env s.x_ params leg x = some leg1 := by
  unfold updateLeg
  rw [if_pos (idxInRange_ne hphi)]
  obtain ⟨v, hv⟩ := readX_of_idxInRange hlen hphi
  rw [hv]
  rcases hm with h1 | h1
  · simp only [h1, ne_eq, not_true_eq_false, if_false]
    exact ⟨_, rfl⟩
  · obtain ⟨w, hw⟩ := readX_of_idxInRange hlen h1
    simp only [hw, if_pos (idxInRange_ne h1)]
    exact ⟨_, rfl⟩

/-- The transfer function of a leg is available when the vector is filled. -/
theorem legProbTF_isSome (env : Env K) (s : ClassicSVfitIntegrand K)
    (params : integrationParameters) (tf : Option (HadTauTF K)) (leg : FittedTauLepton K)
    (p : K) (h : s.useHadTauTF_ = true → tf ≠ none) :
    ∃ v, legProbTF env s params tf leg p = some v := by
  unfold legProbTF
  split_ifs with hc
  · cases tf with
    | none => exact absurd rfl (h hc.1)
    | some f => exact ⟨_, rfl⟩
  · exact ⟨_, rfl⟩

/-- The product of the densities is computed when `hadTauTFs_` is filled. -/
theorem EvalPS_prob_isSome (env : Env K) (s : ClassicSVfitIntegrand K) (a b c : K)
    (h : s.useHadTauTF_ = true → s.hadTauTFs_ ≠ none) :
    ∃ v, EvalPS_prob env s a b c = some v := by
  have h1 : s.useHadTauTF_ = true → s.hadTauTFs_.map Prod.fst ≠ none := by
    intro hu
    have := h hu
    cases hh : s.hadTauTFs_ with
    | none => exact absurd hh this
    | some v => simp
  have h2 : s.useHadTauTF_ = true → s.hadTauTFs_.map Prod.snd ≠ none := by
    intro hu
    have := h hu
    cases hh : s.hadTauTFs_ with
    | none => exact absurd hh this
    | some v => simp
  unfold EvalPS_prob
  obtain ⟨v1, hv1⟩ := legProbTF_isSome env s s.legIntegrationParams_0 _ s.fittedTauLepton1_ 1 h1
  obtain ⟨v2, hv2⟩ := legProbTF_isSome env s s.legIntegrationParams_1 _ s.fittedTauLepton2_ v1 h2
  simp only [hv1, hv2]
  exact ⟨_, rfl⟩

/-- The second-leg part of `EvalPS` completes on a configuration that meets its guards. -/
theorem EvalPS_leg2_isSome (env : Env K) (s : ClassicSVfitIntegrand K) (sh1 sh2 a : K)
    (hlen : s.numDimensions_ ≤ s.x_.length)
    (hX : s.leg2isPrompt_ = false →
      s.legIntegrationParams_1.idx_X_ = -1 ∨ idxInRange s s.legIntegrationParams_1.idx_X_)
    (hphi : s.leg2isPrompt_ = false → idxInRange s s.legIntegrationParams_1.idx_phi_)
    (hm : s.leg2isPrompt_ = false →
      s.legIntegrationParams_1.idx_mNuNu_ = -1 ∨ idxInRange s s.legIntegrationParams_1.idx_mNuNu_)
    (htf : s.useHadTauTF_ = true → s.hadTauTFs_ ≠ none) :
    ∃ r, EvalPS_leg2 env s sh1 sh2 a = some r := by
  have hx2 : ∃ b, x2_dash s a = some b := by
    unfold x2_dash
    split_ifs with hp hi
    · rcases hX hp with h1 | h1
      · exact absurd h1 hi
      · exact readX_of_idxInRange hlen h1
    · exact ⟨_, rfl⟩
    · exact ⟨_, rfl⟩
  obtain ⟨b, hb⟩ := hx2
  unfold EvalPS_leg2
  simp only [hb]
  by_cases hr : ¬ (b / sh2 ≥ lit1em5 ∧ b / sh2 ≤ 1)
  · rw [if_pos hr]
    exact ⟨_, rfl⟩
  · rw [if_neg hr]
    by_cases hp : s.leg2isPrompt_ = false
    · rw [if_pos hp]
      obtain ⟨leg2, hl⟩ := updateLeg_isSome env s.fittedTauLepton2_ (b / sh2) hlen (hphi hp) (hm hp)
      simp only [hl]
      by_cases he : leg2.errorCode ≠ env.FittedTauLepton_None
      · rw [if_pos he]
        exact ⟨_, rfl⟩
      · rw [if_neg he]
        obtain ⟨v, hv⟩ := EvalPS_prob_isSome env { s with fittedTauLepton2_ := leg2 } sh1 sh2
          (b / sh2) htf
        rw [hv]
        exact ⟨_, rfl⟩
    · rw [if_neg hp]
      obtain ⟨v, hv⟩ := EvalPS_prob_isSome env s sh1 sh2 (b / sh2) htf
      rw [hv]
      exact ⟨_, rfl⟩

/-- The first-leg part of `EvalPS` completes on a configuration that meets its guards. -/
theorem EvalPS_leg1_isSome (env : Env K) (s : ClassicSVfitIntegrand K) (sh1 sh2 : K)
    (hlen : s.numDimensions_ ≤ s.x_.length)
    (hX1 : s.leg1isPrompt_ = false → idxInRange s s.legIntegrationParams_0.idx_X_)
    (hphi1 : s.leg1isPrompt_ = false → idxInRange s s.legIntegrationParams_0.idx_phi_)
    (hm1 : s.leg1isPrompt_ = false →
      s.legIntegrationParams_0.idx_mNuNu_ = -1 ∨ idxInRange s s.legIntegrationParams_0.idx_mNuNu_)
    (hX : s.leg2isPrompt_ = false →
      s.legIntegrationParams_1.idx_X_ = -1 ∨ idxInRange s s.legIntegrationParams_1.idx_X_)
    (hphi : s.leg2isPrompt_ = false → idxInRange s s.legIntegrationParams_1.idx_phi_)
    (hm : s.leg2isPrompt_ = false →
      s.legIntegrationParams_1.idx_mNuNu_ = -1 ∨ idxInRange s s.legIntegrationParams_1.idx_mNuNu_)
    (htf : s.useHadTauTF_ = true → s.hadTauTFs_ ≠ none) :
    ∃ r, EvalPS_leg1 env s sh1 sh2 = some r := by
  have hx1 : ∃ a, x1_dash s = some a := by
    unfold x1_dash
    split_ifs with hp hi
    · exact readX_of_idxInRange hlen (hX1 hp)
    · exact absurd (not_not.mp hi) (idxInRange_ne (hX1 hp))
    · exact ⟨_, rfl⟩
  obtain ⟨a, ha⟩ := hx1
  unfold EvalPS_leg1
  simp only [ha]
  by_cases hr : ¬ (a / sh1 ≥ lit1em5 ∧ a / sh1 ≤ 1)
  · rw [if_pos hr]
    exact ⟨_, rfl⟩
  · rw [if_neg hr]
    by_cases hp : s.leg1isPrompt_ = false
    · rw [if_pos hp]
      obtain ⟨leg1, hl⟩ := updateLeg_isSome env s.fittedTauLepton1_ (a / sh1) hlen (hphi1 hp)
        (hm1 hp)
      simp only [hl]
      by_cases he : leg1.errorCode ≠ env.FittedTauLepton_None
      · rw [if_pos he]
        exact ⟨_, rfl⟩
      · rw [if_neg he]
        exact EvalPS_leg2_isSome env { s with fittedTauLepton1_ := leg1 } sh1 sh2 a hlen hX hphi
          hm htf
    · rw [if_neg hp]
      exact EvalPS_leg2_isSome env s sh1 sh2 a hlen hX hphi hm htf

/-- `EvalPS` completes on a configuration that meets its guards. -/
theorem EvalPS_isSome (env : Env K) (s : ClassicSVfitIntegrand K) (hw : WellConfigured s) :
    ∃ r, EvalPS env s = some r := by
  obtain ⟨-, -, hlen⟩ := hw.covered
  obtain ⟨sh1, h1⟩ := visPtShift_isSome (s := s) s.leg1isLeptonicTauDecay_ hlen hw.idx_VisPtShift_1
  obtain ⟨sh2, h2⟩ := visPtShift_isSome (s := s) s.leg2isLeptonicTauDecay_ hlen hw.idx_VisPtShift_2
  unfold EvalPS
  have h1' : visPtShift
      { s with errorCode_ := s.errorCode_ &&& (s.errorCode_ ^^^ env.TauDecayParameters) }
      s.legIntegrationParams_0 s.leg1isLeptonicTauDecay_ = some sh1 := h1
  have h2' : visPtShift
      { s with errorCode_ := s.errorCode_ &&& (s.errorCode_ ^^^ env.TauDecayParameters) }
      s.legIntegrationParams_1 s.leg2isLeptonicTauDecay_ = some sh2 := h2
  simp only [h1', h2']
  by_cases hsh : sh1 < lit1em2 ∨ sh2 < lit1em2
  · rw [if_pos hsh]
    exact ⟨_, rfl⟩
  · rw [if_neg hsh]
    exact EvalPS_leg1_isSome env _ sh1 sh2 hlen hw.idx_X_1 hw.idx_phi_1 hw.idx_mNuNu_1
      hw.idx_X_2 hw.idx_phi_2 hw.idx_mNuNu_2 hw.hadTauTFs

/-- `updateLeg` keeps the measured lepton when `updateTauMomentum` does. -/
theorem updateLeg_measured {env : Env K} {x_ : List K} {params : integrationParameters}
    {leg leg1 : FittedTauLepton K} {x : K}
    (hTau : ∀ l a b c, (env.updateTauMomentum l a b c).getMeasuredTauLepton =
      l.getMeasuredTauLepton)
    (h : updateLeg env x_ params leg x = some leg1) :
    leg1.getMeasuredTauLepton = leg.getMeasuredTauLepton := by
  unfold updateLeg at h
  cases h1 : readX x_ params.idx_phi_ <;> cases h2 : readX x_ params.idx_mNuNu_ <;>
    simp only [h1, h2] at h <;> split_ifs at h <;> cases h <;> exact hTau _ _ _ _

/-- The second-leg part of `EvalPS` keeps the measured leptons of the fitted legs. -/
theorem EvalPS_leg2_measured {env : Env K} {s s1 : ClassicSVfitIntegrand K} {a b c p : K}
    (hTau : ∀ l a b c, (env.updateTauMomentum l a b c).getMeasuredTauLepton =
      l.getMeasuredTauLepton)
    (h : EvalPS_leg2 env s a b c = some (p, s1)) :
    s1.fittedTauLepton1_ = s.fittedTauLepton1_ ∧
    s1.fittedTauLepton2_.getMeasuredTauLepton = s.fittedTauLepton2_.getMeasuredTauLepton := by
  unfold EvalPS_leg2 at h
  cases hx : x2_dash s c with
  | none => simp [hx] at h
  | some x2 =>
    cases hu : updateLeg env s.x_ s.legIntegrationParams_1 s.fittedTauLepton2_ (x2 / b) with
    | none =>
      simp only [hx, hu] at h
      split_ifs at h <;>
      first
        | (cases h; exact ⟨rfl, rfl⟩)
        | (obtain ⟨_, rfl⟩ := map_pair_eq_some h; exact ⟨rfl, rfl⟩)
    | some leg2 =>
      have hm := updateLeg_measured hTau hu
      simp only [hx, hu] at h
      split_ifs at h <;>
      first
        | (cases h; exact ⟨rfl, rfl⟩)
        | (cases h; exact ⟨rfl, hm⟩)
        | (obtain ⟨_, rfl⟩ := map_pair_eq_some h; exact ⟨rfl, rfl⟩)
        | (obtain ⟨_, rfl⟩ := map_pair_eq_some h; exact ⟨rfl, hm⟩)

/-- The first-leg part of `EvalPS` keeps the measured leptons of the fitted legs. -/
theorem EvalPS_leg1_measured {env : Env K} {s s1 : ClassicSVfitIntegrand K} {a b p : K}
    (hTau : ∀ l a b c, (env.updateTauMomentum l a b c).getMeasuredTauLepton =
      l.getMeasuredTauLepton)
    (h : EvalPS_leg1 env s a b = some (p, s1)) :
    s1.fittedTauLepton1_.getMeasuredTauLepton = s.fittedTauLepton1_.getMeasuredTauLepton ∧
    s1.fittedTauLepton2_.getMeasuredTauLepton = s.fittedTauLepton2_.getMeasuredTauLepton := by
  unfold EvalPS_leg1 at h
  cases hx : x1_dash s with
  | none => simp [hx] at h
  | some x1 =>
    cases hu : updateLeg env s.x_ s.legIntegrationParams_0 s.fittedTauLepton1_ (x1 / a) with
    | none =>
      simp only [hx, hu] at h
      split_ifs at h <;>
      first
        | (cases h; exact ⟨rfl, rfl⟩)
        | (obtain ⟨h1, h2⟩ := EvalPS_leg2_measured hTau h
           refine ⟨?_, h2⟩
           rw [h1])
    | some leg1 =>
      have hm := updateLeg_measured hTau hu
      simp only [hx, hu] at h
      split_ifs at h <;>
      first
        | (cases h; exact ⟨rfl, rfl⟩)
        | (cases h; exact ⟨hm, rfl⟩)
        | (obtain ⟨h1, h2⟩ := EvalPS_leg2_measured hTau h
           refine ⟨?_, h2⟩
           rw [h1]
           try exact hm)

/-- `EvalPS` keeps the measured leptons of the fitted legs when the operations of
`FittedTauLepton` do. -/
theorem EvalPS_measured {env : Env K} {s s1 : ClassicSVfitIntegrand K} {p : K}
    (hVis : ∀ l a, (env.updateVisMomentum l a).getMeasuredTauLepton = l.getMeasuredTauLepton)
    (hTau : ∀ l a b c, (env.updateTauMomentum l a b c).getMeasuredTauLepton =
      l.getMeasuredTauLepton)
    (h : EvalPS env s = some (p, s1)) :
    s1.fittedTauLepton1_.getMeasuredTauLepton = s.fittedTauLepton1_.getMeasuredTauLepton ∧
    s1.fittedTauLepton2_.getMeasuredTauLepton = s.fittedTauLepton2_.getMeasuredTauLepton := by
  unfold EvalPS at h
  simp only at h
  split at h
  · split_ifs at h
    · cases h; exact ⟨rfl, rfl⟩
    · obtain ⟨h1, h2⟩ := EvalPS_leg1_measured hTau h
      exact ⟨h1.trans (hVis _ _), h2.trans (hVis _ _)⟩
  · cases h

/-- One pass of the loop of `EvalFlightLength` completes when a non-prompt leg has a leading
charged hadron and a flight-length dimension and `dmax` exceeds `dmin`. -/
theorem EvalFlightLength_leg_isSome (env : Env K) (s : ClassicSVfitIntegrand K)
    (leg : FittedTauLepton K) (cov covInv : TMatrixD K)
    (hadron : Option (MeasuredHadTauDecayProduct K)) (params : integrationParameters)
    (c prob : K) (hlen : s.numDimensions_ ≤ s.x_.length)
    (h : leg.getMeasuredTauLepton.isPrompt = false →
      hadron ≠ none ∧ idxInRange s params.idx_flightLength_)
    (hd : ∀ p f m, (env.comp_dmin_and_dmax p f m).1 < (env.comp_dmin_and_dmax p f m).2) :
    ∃ v, EvalFlightLength_leg env s leg cov covInv hadron params c prob = some v := by
  unfold EvalFlightLength_leg
  simp only
  by_cases hp : leg.getMeasuredTauLepton.isPrompt = true
  · rw [if_pos hp]
    exact ⟨_, rfl⟩
  · rw [if_neg hp]
    obtain ⟨hh, hi⟩ := h (by simpa using hp)
    cases hadron with
    | none => exact absurd rfl hh
    | some had =>
      obtain ⟨v, hv⟩ := readX_of_idxInRange hlen hi
      simp only [hv, gt_iff_lt, sub_pos, if_pos (hd _ _ _)]
      exact ⟨_, rfl⟩

/-- `EvalFlightLength` completes on a configuration that meets its guards. -/
theorem EvalFlightLength_isSome (env : Env K) (s : ClassicSVfitIntegrand K)
    (hlen : s.numDimensions_ ≤ s.x_.length)
    (h1 : s.useTauFlightLength_ = true →
      s.fittedTauLepton1_.getMeasuredTauLepton.isPrompt = false →
      s.leg1leadChargedHadron_ ≠ none ∧ idxInRange s s.legIntegrationParams_0.idx_flightLength_)
    (h2 : s.useTauFlightLength_ = true →
      s.fittedTauLepton2_.getMeasuredTauLepton.isPrompt = false →
      s.leg2leadChargedHadron_ ≠ none ∧ idxInRange s s.legIntegrationParams_1.idx_flightLength_)
    (hd : s.useTauFlightLength_ = true →
      ∀ p f m, (env.comp_dmin_and_dmax p f m).1 < (env.comp_dmin_and_dmax p f m).2) :
    ∃ v, EvalFlightLength env s = some v := by
  unfold EvalFlightLength
  by_cases hu : s.useTauFlightLength_ = false
  · rw [if_pos hu]
    exact ⟨_, rfl⟩
  · rw [if_neg hu]
    have hu' : s.useTauFlightLength_ = true := by simpa using hu
    obtain ⟨v1, hv1⟩ := EvalFlightLength_leg_isSome env s s.fittedTauLepton1_
      s.leg1decayVertexCov_ s.leg1decayVertexCovInv_ s.leg1leadChargedHadron_
      s.legIntegrationParams_0 s.const_FlightLength1_ 1 hlen (h1 hu') (hd hu')
    simp only [hv1]
    exact EvalFlightLength_leg_isSome env s s.fittedTauLepton2_
      s.leg2decayVertexCov_ s.leg2decayVertexCovInv_ s.leg2leadChargedHadron_
      s.legIntegrationParams_1 s.const_FlightLength2_ v1 hlen (h2 hu') (hd hu')

/-- The response correction of one leg completes when its index is `-1` or in range. -/
theorem EvalMEtTF_correction_isSome (s : ClassicSVfitIntegrand K) (leg : FittedTauLepton K)
    (params : integrationParameters) (b : Bool) (r : K × K × K × K)
    (hlen : s.numDimensions_ ≤ s.x_.length)
    (h : params.idx_VisPtShift_ = -1 ∨ idxInRange s params.idx_VisPtShift_) :
    ∃ r1, EvalMEtTF_correction s leg params b r = some r1 := by
  unfold EvalMEtTF_correction
  simp only
  by_cases h1 : leg.getMeasuredTauLepton.isHadronicTauDecay = true
  · rw [if_pos h1]
    rcases h with h2 | h2
    · rw [if_neg (not_not.mpr h2)]
      exact ⟨_, rfl⟩
    · rw [if_pos (idxInRange_ne h2)]
      obtain ⟨v, hv⟩ := readX_of_idxInRange hlen h2
      simp only [hv]
      split_ifs <;> exact ⟨_, rfl⟩
  · rw [if_neg h1]
    exact ⟨_, rfl⟩

/-- `EvalMEtTF` completes for a MEt alternative of a known collision type. -/
theorem EvalMEtTF_isSome (env : Env K) (s : ClassicSVfitIntegrand K) (met : MeasuredMEt K)
    (hlen : s.numDimensions_ ≤ s.x_.length)
    (h1 : s.rhoHadTau_ ≠ 0 → s.legIntegrationParams_0.idx_VisPtShift_ = -1 ∨
      idxInRange s s.legIntegrationParams_0.idx_VisPtShift_)
    (h2 : s.rhoHadTau_ ≠ 0 → s.legIntegrationParams_1.idx_VisPtShift_ = -1 ∨
      idxInRange s s.legIntegrationParams_1.idx_VisPtShift_)
    (ht : met.type ≠ CollisionType.other) :
    ∃ m, EvalMEtTF env s met = some m := by
  have hres : ∀ b r, ∃ r1, EvalMEtTF_residual s b r = some r1 := by
    intro b r
    unfold EvalMEtTF_residual
    by_cases hrho : s.rhoHadTau_ ≠ 0
    · rw [if_pos hrho]
      obtain ⟨r1, hr1⟩ := EvalMEtTF_correction_isSome s s.fittedTauLepton1_
        s.legIntegrationParams_0 b r hlen (h1 hrho)
      simp only [hr1]
      exact EvalMEtTF_correction_isSome s s.fittedTauLepton2_ s.legIntegrationParams_1 b r1 hlen
        (h2 hrho)
    · rw [if_neg hrho]
      exact ⟨_, rfl⟩
  unfold EvalMEtTF
  cases hty : met.type with
  | kProtonProtonCollisions =>
    simp only
    obtain ⟨r1, hr1⟩ := hres false
      (met.px - (0 + s.fittedTauLepton1_.nuP4.px + s.fittedTauLepton2_.nuP4.px),
        met.py - (0 + s.fittedTauLepton1_.nuP4.py + s.fittedTauLepton2_.nuP4.py), 0, 0)
    rw [hr1]
    exact ⟨_, rfl⟩
  | kElectronPositronCollisions =>
    simp only
    obtain ⟨r1, hr1⟩ := hres true
      (met.px - (0 + s.fittedTauLepton1_.nuP4.px + s.fittedTauLepton2_.nuP4.px),
        met.py - (0 + s.fittedTauLepton1_.nuP4.py + s.fittedTauLepton2_.nuP4.py),
        met.pz - (0 + s.fittedTauLepton1_.nuP4.pz + s.fittedTauLepton2_.nuP4.pz),
        met.energy - (0 + s.fittedTauLepton1_.nuP4.E + s.fittedTauLepton2_.nuP4.E))
    rw [hr1]
    exact ⟨_, rfl⟩
  | other => exact absurd hty ht

/-- Lines 333-345 complete when the selected MEt alternative exists and is of a known type. -/
theorem Eval_combine_isSome (env : Env K) (s : ClassicSVfitIntegrand K)
    (hlen : s.numDimensions_ ≤ s.x_.length)
    (h1 : s.rhoHadTau_ ≠ 0 → s.legIntegrationParams_0.idx_VisPtShift_ = -1 ∨
      idxInRange s s.legIntegrationParams_0.idx_VisPtShift_)
    (h2 : s.rhoHadTau_ ≠ 0 → s.legIntegrationParams_1.idx_VisPtShift_ = -1 ∨
      idxInRange s s.legIntegrationParams_1.idx_VisPtShift_)
    (hmet : ∃ met, s.measuredEvent_.MEt[idxMeasuredMEt s]? = some met ∧
      met.type ≠ CollisionType.other) :
    ∃ r, Eval_combine env s = some r := by
  obtain ⟨met, hm, ht⟩ := hmet
  obtain ⟨m, hmm⟩ := EvalMEtTF_isSome env s met hlen h1 h2 ht
  unfold Eval_combine
  by_cases hf : s.probPS_ * s.probFlightLength_ < floor300
  · rw [if_pos hf]
    exact ⟨_, rfl⟩
  · rw [if_neg hf]
    simp only [hm, hmm]
    cases s.histogramAdapter_ with
    | none => exact ⟨_, rfl⟩
    | some a =>
      simp only
      split_ifs <;> exact ⟨_, rfl⟩

/-- `Eval` completes on every configuration that meets the guards. -/
theorem Eval_isSome (env : Env K) (s : ClassicSVfitIntegrand K) (q : Nat → K)
    (hw : WellConfigured s)
    (hVis : ∀ l a, (env.updateVisMomentum l a).getMeasuredTauLepton = l.getMeasuredTauLepton)
    (hTau : ∀ l a b c, (env.updateTauMomentum l a b c).getMeasuredTauLepton =
      l.getMeasuredTauLepton)
    (hd : s.useTauFlightLength_ = true →
      ∀ p f m, (env.comp_dmin_and_dmax p f m).1 < (env.comp_dmin_and_dmax p f m).2) :
    ∃ r, Eval env s q = some r := by
  unfold Eval
  by_cases he : hasSetupError env s
  · rw [if_pos he]
    exact ⟨_, rfl⟩
  · rw [if_neg he]
    obtain ⟨x1, hx1, hlen1⟩ := rescaleX_isSome s q hw.covered
    have hlen : s.numDimensions_ ≤ x1.length := by rw [hlen1]; exact hw.covered.2.2
    have hw1 : WellConfigured { s with x_ := x1 } :=
      ⟨⟨hw.covered.1, hw.covered.2.1, hlen⟩, hw.idx_X_1, hw.idx_X_2, hw.idx_phi_1, hw.idx_phi_2,
        hw.idx_mNuNu_1, hw.idx_mNuNu_2, hw.idx_VisPtShift_1, hw.idx_VisPtShift_2, hw.hadTauTFs,
        hw.flightLength_1, hw.flightLength_2, hw.MEt⟩
    simp only [hx1]
    by_cases hc : s.isCentral_ = true ∨ s.idxMEtSystematic_ = 0
    · rw [if_pos hc]
      obtain ⟨⟨ps, s2⟩, hps⟩ := EvalPS_isSome env _ hw1
      obtain ⟨hm1, hm2⟩ := EvalPS_measured hVis hTau hps
      obtain ⟨l1, l2, e, rfl⟩ := EvalPS_frame hps
      simp only [hps]
      split_ifs
      · exact ⟨_, rfl⟩
      · obtain ⟨fl, hfl⟩ := EvalFlightLength_isSome env
          { s with x_ := x1, fittedTauLepton1_ := l1, fittedTauLepton2_ := l2, errorCode_ := e,
                   probPS_ := ps } hlen
          (fun hu hp => hw.flightLength_1 hu (by rw [← hm1]; exact hp))
          (fun hu hp => hw.flightLength_2 hu (by rw [← hm2]; exact hp)) hd
        simp only [hfl]
        exact Eval_combine_isSome env _ hlen (fun hr => hw.idx_VisPtShift_1 (Or.inr hr))
          (fun hr => hw.idx_VisPtShift_2 (Or.inr hr)) hw.MEt
    · rw [if_neg hc]
      exact Eval_combine_isSome env _ hlen (fun hr => hw.idx_VisPtShift_1 (Or.inr hr))
        (fun hr => hw.idx_VisPtShift_2 (Or.inr hr)) hw.MEt

/-- C3 (amended): `Eval` returns a value, without reaching a failing assertion and without
indexing `x_`, `xMin_`, `xMax_`, the MEt list or `hadTauTFs_` out of bounds, for every sample
point `q` and every configuration that meets the guards collected in `WellConfigured`, when
`updateVisMomentum` and `updateTauMomentum` keep the measured lepton of the fitted leg and,
with the flight length in use, `comp_dmin_and_dmax` returns `dmin < dmax`. -/
theorem Eval_total (env : Env K) (s : ClassicSVfitIntegrand K) (q : Nat → K)
    (hw : WellConfigured s)
    (hVis : ∀ l a, (env.updateVisMomentum l a).getMeasuredTauLepton = l.getMeasuredTauLepton)
    (hTau : ∀ l a b c, (env.updateTauMomentum l a b c).getMeasuredTauLepton =
      l.getMeasuredTauLepton)
    (hd : s.useTauFlightLength_ = true →
      ∀ p f m, (env.comp_dmin_and_dmax p f m).1 < (env.comp_dmin_and_dmax p f m).2) :
    ∃ v s', Eval env s q = some (v, s') := by
  obtain ⟨⟨v, s'⟩, h⟩ := Eval_isSome env s q hw hVis hTau hd
  exact ⟨v, s', h⟩

/-- The sample integrand with a hadronic first leg meets the guards. -/
theorem sampleHadIntegrand_wellConfigured :
    WellConfigured (sampleHadIntegrand : ClassicSVfitIntegrand K) := by
  refine ⟨?_, ?_, ?_, ?_, ?_, ?_, ?_, ?_, ?_, ?_, ?_, ?_, ?_⟩
  · simp [sampleHadIntegrand]
  · intro _; simp [sampleHadIntegrand, idxInRange]
  · simp [sampleHadIntegrand, samplePromptIntegrand]
  · intro _; simp [sampleHadIntegrand, idxInRange]
  · simp [sampleHadIntegrand, samplePromptIntegrand]
  · intro _; simp [sampleHadIntegrand]
  · simp [sampleHadIntegrand, samplePromptIntegrand]
  · intro _; simp [sampleHadIntegrand]
  · intro _
    simp [sampleHadIntegrand, samplePromptIntegrand, disableDiTauMassConstraint,
      ClassicSVfitIntegrand.ctor]
  · simp [sampleHadIntegrand, samplePromptIntegrand, disableDiTauMassConstraint,
      ClassicSVfitIntegrand.ctor]
  · simp [sampleHadIntegrand, samplePromptIntegrand, disableDiTauMassConstraint,
      ClassicSVfitIntegrand.ctor]
  · simp [sampleHadIntegrand, samplePromptIntegrand, disableDiTauMassConstraint,
      ClassicSVfitIntegrand.ctor]
  · refine ⟨sampleMEt 3 0, ?_, ?_⟩
    · simp [sampleHadIntegrand, samplePromptIntegrand, disableDiTauMassConstraint,
        ClassicSVfitIntegrand.ctor, idxMeasuredMEt]
    · simp [sampleMEt]

/-- Witness of C3 (amended): the sample integrand with a hadronic first leg. -/
theorem Eval_total_witness :
    ∃ v s', Eval sampleEnvQ (sampleHadIntegrand : ClassicSVfitIntegrand ℚ) (fun _ => 1 / 2) =
      some (v, s') :=
  Eval_total sampleEnvQ sampleHadIntegrand (fun _ => 1 / 2) sampleHadIntegrand_wellConfigured
    (fun _ _ => rfl) (fun _ _ _ _ => rfl)
    (fun h => by
      simp [sampleHadIntegrand, samplePromptIntegrand, disableDiTauMassConstraint,
        ClassicSVfitIntegrand.ctor] at h)

/-- Counterexample to C3 as stated: (a) the sample integrand with a hadronic first leg whose
integration-parameter map is still the reset one (`idx_X_ = -1`) fails
`assert(idx_x1 != -1)` in `EvalPS`; (b) two prompt leptons with a single MEt alternative
under `setMEtSystematic(0)` fail `assert(idxMeasuredMEt < measuredMEt.size())` in `Eval`. -/
theorem Eval_total_counterexample :
    Eval sampleEnvQ
      { (sampleHadIntegrand : ClassicSVfitIntegrand ℚ) with
        legIntegrationParams_0 := ⟨-1, -1, -1, -1, -1⟩ } (fun _ => 1 / 2) = none ∧
    Eval sampleEnvQ
      (setMEtSystematic (samplePromptIntegrand ⟨3, 0, 0, 3⟩ ⟨-3, 0, 0, 3⟩ [sampleMEt 0 0]) 0)
      (fun _ => 1 / 2) = none := by
  constructor
  · norm_num [Eval, sampleHadIntegrand, samplePromptIntegrand, hasSetupError, sampleEnvQ, sampleEnv,
      rescaleX, rescaleXLoop, ClassicSVfitIntegrand.ctor, disableDiTauMassConstraint,
      blankIntegrand, EvalPS, visPtShift, EvalPS_leg1, x1_dash, lit1em2]
  · norm_num [Eval, setMEtSystematic, samplePromptIntegrand, hasSetupError, sampleEnvQ, sampleEnv,
      rescaleX, rescaleXLoop, ClassicSVfitIntegrand.ctor, disableDiTauMassConstraint,
      blankIntegrand, EvalPS, visPtShift, EvalPS_leg1, EvalPS_leg2, x1_dash, x2_dash, lit1em2,
      lit1em5, floor300, EvalPS_prob, legDecayProb, legProbTF, sampleFitted, samplePromptLepton,
      EvalFlightLength, Eval_combine, idxMeasuredMEt, LorentzVector.zero]

/-! ## A sample evaluation with the real library functions -/

/-- The real square root of 9. -/
theorem sqrt_nine : Real.sqrt 9 = 3 := by
  rw [show (9 : ℝ) = 3 ^ 2 by norm_num, Real.sqrt_sq (by norm_num)]

/-- The real square root of 36. -/
theorem sqrt_thirtysix : Real.sqrt 36 = 6 := by
  rw [show (36 : ℝ) = 6 ^ 2 by norm_num, Real.sqrt_sq (by norm_num)]

omit [LinearOrderedField K] in
/-- A computation whose value component is known returns a pair with that value. -/
theorem exists_of_map_fst {α : Type} {o : Option (K × α)} {v : K}
    (h : o.map Prod.fst = some v) : ∃ a, o = some (v, a) := by
  cases o with
  | none => cases h
  | some r => obtain ⟨w, a⟩ := r; cases h; exact ⟨a, rfl⟩

/-- With the real `exp` and `sqrt`, the sample integrand with a hadronic first leg evaluates to
`1/24` at `q = (1/2, 1/2)`. -/
theorem sampleHad_Eval :
    ∃ s', Eval (sampleEnv Real.exp Real.sqrt Real.rpow) sampleHadIntegrand (fun _ => 1 / 2) =
      some (1 / 24, s') := by
  apply exists_of_map_fst
  norm_num [Eval, sampleHadIntegrand, samplePromptIntegrand, hasSetupError, sampleEnv,
    rescaleX, rescaleXLoop, ClassicSVfitIntegrand.ctor, disableDiTauMassConstraint,
    blankIntegrand, EvalPS, visPtShift, EvalPS_leg1, EvalPS_leg2, x1_dash, x2_dash, lit1em2,
    lit1em5, floor300, EvalPS_prob, legDecayProb, legProbTF, sampleFitted, samplePromptLepton,
    sampleHadTau, EvalFlightLength, Eval_combine, idxMeasuredMEt, EvalMEtTF, EvalMEtTF_residual,
    sampleMEt, LorentzVector.zero, readX, updateLeg, LorentzVector.scale,
    compPSfactor_tauToHadDecay, compCosThetaNuNu, LorentzVector.P, square, sqrt_nine,
    sqrt_thirtysix]

/-- Witness of C6: the sample integrand with a hadronic first leg at `q = (1/2, 1/2)`, where
`Eval` returns `1/24` (real `exp` and `sqrt`). -/
theorem Eval_nonzero_fractions_witness :
    ∃ s' s1 sh1 sh2 x1d x2d,
      Eval (sampleEnv Real.exp Real.sqrt Real.rpow) sampleHadIntegrand (fun _ => 1 / 2) =
        some (1 / 24, s') ∧
      rescaleX (sampleHadIntegrand : ClassicSVfitIntegrand ℝ) (fun _ => 1 / 2) = some s1 ∧
      visPtShift s1 s1.legIntegrationParams_0 s1.leg1isLeptonicTauDecay_ = some sh1 ∧
      visPtShift s1 s1.legIntegrationParams_1 s1.leg2isLeptonicTauDecay_ = some sh2 ∧
      x1_dash s1 = some x1d ∧ x2_dash s1 x1d = some x2d ∧
      (0 < x1d / sh1 ∧ lit1em5 ≤ x1d / sh1 ∧ x1d / sh1 ≤ 1) ∧
      (0 < x2d / sh2 ∧ lit1em5 ≤ x2d / sh2 ∧ x2d / sh2 ≤ 1) := by
  obtain ⟨s', hs'⟩ := sampleHad_Eval
  obtain ⟨s1, sh1, sh2, x1d, x2d, h⟩ :=
    (Eval_nonzero_fractions (sampleEnv Real.exp Real.sqrt Real.rpow) sampleHadIntegrand s'
      (fun _ => 1 / 2) (1 / 24) rfl hs' (by norm_num)).1
  exact ⟨s', s1, sh1, sh2, x1d, x2d, hs', h⟩

/-! ## Exchange of the legs -/

/-- The sum of four-momenta is commutative. -/
theorem LorentzVector_add_comm (a b : LorentzVector K) : a.add b = b.add a := by
  unfold LorentzVector.add
  rw [add_comm a.px, add_comm a.py, add_comm a.pz, add_comm a.E]

/-- The transfer function of a leg multiplies `prob_TF` by a factor that does not depend on
`prob_TF`. -/
theorem legProbTF_factor (env : Env K) (s : ClassicSVfitIntegrand K)
    (params : integrationParameters) (tf : Option (HadTauTF K)) (leg : FittedTauLepton K) :
    ∃ o : Option K, ∀ p, legProbTF env s params tf leg p = o.map (fun t => p * t) := by
  unfold legProbTF
  split_ifs
  · cases tf with
    | none => exact ⟨none, fun _ => rfl⟩
    | some f => exact ⟨some _, fun _ => rfl⟩
  · exact ⟨some 1, fun p => by simp⟩

/-- The product of the densities does not depend on the order of the legs when the mass
constraint is disabled. -/
theorem EvalPS_prob_swapLegs (env : Env K) (s : ClassicSVfitIntegrand K) (sh1 sh2 x y : K)
    (hM : ¬ s.diTauMassConstraint_ > 0) :
    EvalPS_prob env (swapLegs s) sh2 sh1 x = EvalPS_prob env s sh1 sh2 y := by
  unfold EvalPS_prob
  have e1 : (swapLegs s).hadTauTFs_.map Prod.fst = s.hadTauTFs_.map Prod.snd := by
    show (s.hadTauTFs_.map Prod.swap).map Prod.fst = _
    cases s.hadTauTFs_ <;> rfl
  have e2 : (swapLegs s).hadTauTFs_.map Prod.snd = s.hadTauTFs_.map Prod.fst := by
    show (s.hadTauTFs_.map Prod.swap).map Prod.snd = _
    cases s.hadTauTFs_ <;> rfl
  rw [e1, e2]
  obtain ⟨o1, ho1⟩ := legProbTF_factor env s s.legIntegrationParams_0
    (s.hadTauTFs_.map Prod.fst) s.fittedTauLepton1_
  obtain ⟨o2, ho2⟩ := legProbTF_factor env s s.legIntegrationParams_1
    (s.hadTauTFs_.map Prod.snd) s.fittedTauLepton2_
  have f1 : ∀ p, legProbTF env (swapLegs s) (swapLegs s).legIntegrationParams_0
      (s.hadTauTFs_.map Prod.snd) (swapLegs s).fittedTauLepton1_ p = o2.map (fun t => p * t) :=
    fun p => ho2 p
  have f2 : ∀ p, legProbTF env (swapLegs s) (swapLegs s).legIntegrationParams_1
      (s.hadTauTFs_.map Prod.fst) (swapLegs s).fittedTauLepton2_ p = o1.map (fun t => p * t) :=
    fun p => ho1 p
  simp only [f1, f2, ho1, ho2]
  have hM' : ¬ (swapLegs s).diTauMassConstraint_ > 0 := hM
  simp only [if_neg hM, if_neg hM']
  have g1 : (swapLegs s).fittedTauLepton1_ = s.fittedTauLepton2_ := rfl
  have g2 : (swapLegs s).fittedTauLepton2_ = s.fittedTauLepton1_ := rfl
  have g3 : (swapLegs s).addLogM_ = s.addLogM_ := rfl
  have g4 : (swapLegs s).addLogM_power_ = s.addLogM_power_ := rfl
  rw [g1, g2, g3, g4, LorentzVector_add_comm s.fittedTauLepton2_.tauP4]
  cases o1 <;> cases o2 <;> simp only [Option.map_some', Option.map_none'] <;>
    first
      | rfl
      | (congr 1; ring)

/-- One pass of the loop of `EvalFlightLength` multiplies `prob` by a factor that does not
depend on `prob`. -/
theorem EvalFlightLength_leg_factor (env : Env K) (s : ClassicSVfitIntegrand K)
    (leg : FittedTauLepton K) (cov covInv : TMatrixD K)
    (hadron : Option (MeasuredHadTauDecayProduct K)) (params : integrationParameters) (c : K) :
    ∃ o : Option K, ∀ prob,
      EvalFlightLength_leg env s leg cov covInv hadron params c prob =
        o.map (fun t => prob * t) := by
  refine ⟨EvalFlightLength_leg env s leg cov covInv hadron params c 1, fun prob => ?_⟩
  unfold EvalFlightLength_leg
  simp only
  by_cases hp : leg.getMeasuredTauLepton.isPrompt = true
  · simp [hp]
  · simp only [if_neg hp]
    cases hadron with
    | none => rfl
    | some had =>
      simp only
      cases readX s.x_ params.idx_flightLength_ with
      | none => rfl
      | some v =>
        simp only
        split_ifs <;> simp

/-- `EvalFlightLength` does not depend on the order of the legs. -/
theorem EvalFlightLength_swapLegs (env : Env K) (s : ClassicSVfitIntegrand K) :
    EvalFlightLength env (swapLegs s) = EvalFlightLength env s := by
  unfold EvalFlightLength
  obtain ⟨o1, ho1⟩ := EvalFlightLength_leg_factor env s s.fittedTauLepton1_
    s.leg1decayVertexCov_ s.leg1decayVertexCovInv_ s.leg1leadChargedHadron_
    s.legIntegrationParams_0 s.const_FlightLength1_
  obtain ⟨o2, ho2⟩ := EvalFlightLength_leg_factor env s s.fittedTauLepton2_
    s.leg2decayVertexCov_ s.leg2decayVertexCovInv_ s.leg2leadChargedHadron_
    s.legIntegrationParams_1 s.const_FlightLength2_
  have f1 : ∀ p, EvalFlightLength_leg env (swapLegs s) (swapLegs s).fittedTauLepton1_
      (swapLegs s).leg1decayVertexCov_ (swapLegs s).leg1decayVertexCovInv_
      (swapLegs s).leg1leadChargedHadron_ (swapLegs s).legIntegrationParams_0
      (swapLegs s).const_FlightLength1_ p = o2.map (fun t => p * t) := fun p => ho2 p
  have f2 : ∀ p, EvalFlightLength_leg env (swapLegs s) (swapLegs s).fittedTauLepton2_
      (swapLegs s).leg2decayVertexCov_ (swapLegs s).leg2decayVertexCovInv_
      (swapLegs s).leg2leadChargedHadron_ (swapLegs s).legIntegrationParams_1
      (swapLegs s).const_FlightLength2_ p = o1.map (fun t => p * t) := fun p => ho1 p
  have g : (swapLegs s).useTauFlightLength_ = s.useTauFlightLength_ := rfl
  simp only [f1, f2, ho1, ho2, g]
  split_ifs
  · rfl
  · cases o1 <;> cases o2 <;> simp only [Option.map_some', Option.map_none'] <;>
      first
        | rfl
        | (congr 1; ring)

/-- The response correction of one leg adds to the residual a shift that does not depend on
the residual. -/
theorem EvalMEtTF_correction_shift (s : ClassicSVfitIntegrand K) (leg : FittedTauLepton K)
    (params : integrationParameters) (b : Bool) :
    ∃ o : Option (K × K × K × K), ∀ r,
      EvalMEtTF_correction s leg params b r =
        o.map (fun d => (r.1 + d.1, r.2.1 + d.2.1, r.2.2.1 + d.2.2.1, r.2.2.2 + d.2.2.2)) := by
  unfold EvalMEtTF_correction
  simp only
  by_cases h1 : leg.getMeasuredTauLepton.isHadronicTauDecay = true
  · simp only [if_pos h1]
    by_cases h2 : params.idx_VisPtShift_ ≠ -1
    · simp only [if_pos h2]
      cases readX s.x_ params.idx_VisPtShift_ with
      | none => exact ⟨none, fun _ => rfl⟩
      | some v =>
        simp only
        by_cases h3 : 1 / v < lit1em2
        · simp only [if_pos h3]
          exact ⟨some (0, 0, 0, 0), fun r => by simp⟩
        · simp only [if_neg h3]
          cases b with
          | true =>
            refine ⟨some (s.rhoHadTau_ * (1 / v - 1) * leg.getMeasuredTauLepton.px,
              s.rhoHadTau_ * (1 / v - 1) * leg.getMeasuredTauLepton.py,
              s.rhoHadTau_ * (1 / v - 1) * leg.getMeasuredTauLepton.pz,
              s.rhoHadTau_ * (1 / v - 1) * leg.getMeasuredTauLepton.energy), fun r => ?_⟩
            simp
          | false =>
            refine ⟨some (s.rhoHadTau_ * (1 / v - 1) * leg.getMeasuredTauLepton.px,
              s.rhoHadTau_ * (1 / v - 1) * leg.getMeasuredTauLepton.py, 0, 0), fun r => ?_⟩
            simp
    · simp only [if_neg h2]
      exact ⟨some (0, 0, 0, 0), fun r => by simp⟩
  · simp only [if_neg h1]
    exact ⟨some (0, 0, 0, 0), fun r => by simp⟩

/-- The corrected residual does not depend on the order of the legs. -/
theorem EvalMEtTF_residual_swapLegs (s : ClassicSVfitIntegrand K) (b : Bool) (r : K × K × K × K) :
    EvalMEtTF_residual (swapLegs s) b r = EvalMEtTF_residual s b r := by
  unfold EvalMEtTF_residual
  obtain ⟨o1, ho1⟩ := EvalMEtTF_correction_shift s s.fittedTauLepton1_ s.legIntegrationParams_0 b
  obtain ⟨o2, ho2⟩ := EvalMEtTF_correction_shift s s.fittedTauLepton2_ s.legIntegrationParams_1 b
  have f1 : ∀ r, EvalMEtTF_correction (swapLegs s) (swapLegs s).fittedTauLepton1_
      (swapLegs s).legIntegrationParams_0 b r = EvalMEtTF_correction s s.fittedTauLepton2_
        s.legIntegrationParams_1 b r := fun _ => rfl
  have f2 : ∀ r, EvalMEtTF_correction (swapLegs s) (swapLegs s).fittedTauLepton2_
      (swapLegs s).legIntegrationParams_1 b r = EvalMEtTF_correction s s.fittedTauLepton1_
        s.legIntegrationParams_0 b r := fun _ => rfl
  have g : (swapLegs s).rhoHadTau_ = s.rhoHadTau_ := rfl
  simp only [f1, f2, g, ho1, ho2]
  split_ifs
  · cases o1 <;> cases o2 <;> simp only [Option.map_some', Option.map_none'] <;>
      first
        | rfl
        | (simp only [Option.some.injEq, Prod.mk.injEq]
           refine ⟨?_, ?_, ?_, ?_⟩ <;> ring)
  · rfl

/-- `EvalMEtTF` does not depend on the order of the legs. -/
theorem EvalMEtTF_swapLegs (env : Env K) (s : ClassicSVfitIntegrand K) (met : MeasuredMEt K) :
    EvalMEtTF env (swapLegs s) met = EvalMEtTF env s met := by
  have hc : ∀ a b : K, (0 : K) + a + b = 0 + b + a := fun a b => add_right_comm 0 a b
  unfold EvalMEtTF
  have g1 : (swapLegs s).fittedTauLepton1_ = s.fittedTauLepton2_ := rfl
  have g2 : (swapLegs s).fittedTauLepton2_ = s.fittedTauLepton1_ := rfl
  simp only [g1, g2, EvalMEtTF_residual_swapLegs]
  rw [hc s.fittedTauLepton2_.nuP4.px, hc s.fittedTauLepton2_.nuP4.py,
    hc s.fittedTauLepton2_.nuP4.pz, hc s.fittedTauLepton2_.nuP4.E]

/-- The value of lines 333-345 does not depend on the order of the legs. -/
theorem Eval_combine_swapLegs (env : Env K) (s : ClassicSVfitIntegrand K) :
    (Eval_combine env (swapLegs s)).map Prod.fst = (Eval_combine env s).map Prod.fst := by
  unfold Eval_combine
  have g1 : (swapLegs s).probPS_ = s.probPS_ := rfl
  have g2 : (swapLegs s).probFlightLength_ = s.probFlightLength_ := rfl
  have g3 : (swapLegs s).measuredEvent_.MEt = s.measuredEvent_.MEt := rfl
  have g4 : idxMeasuredMEt (swapLegs s) = idxMeasuredMEt s := rfl
  have g5 : (swapLegs s).histogramAdapter_ = s.histogramAdapter_ := rfl
  simp only [g1, g2, g3, g4, g5, EvalMEtTF_swapLegs]
  split_ifs
  · rfl
  · cases s.measuredEvent_.MEt[idxMeasuredMEt s]? with
    | none => rfl
    | some met =>
      simp only
      cases EvalMEtTF env s met with
      | none => rfl
      | some m =>
        simp only
        cases s.histogramAdapter_ with
        | none => rfl
        | some a =>
          simp only
          split_ifs <;> rfl

/-- Inversion of the second-leg part of `EvalPS` at a non-zero value. -/
theorem EvalPS_leg2_inv {env : Env K} {s t : ClassicSVfitIntegrand K} {sh1 sh2 a ps : K}
    (h : EvalPS_leg2 env s sh1 sh2 a = some (ps, t)) (hps : ps ≠ 0) :
    ∃ b l2, x2_dash s a = some b ∧ (b / sh2 ≥ lit1em5 ∧ b / sh2 ≤ 1) ∧
      LegUpdated env s.x_ s.legIntegrationParams_1 s.leg2isPrompt_ s.fittedTauLepton2_
        (b / sh2) l2 ∧
      t = { s with fittedTauLepton2_ := l2 } ∧ EvalPS_prob env t sh1 sh2 (b / sh2) = some ps := by
  unfold EvalPS_leg2 at h
  cases hx : x2_dash s a with
  | none => simp [hx] at h
  | some b =>
    simp only [hx] at h
    by_cases hr : ¬ (b / sh2 ≥ lit1em5 ∧ b / sh2 ≤ 1)
    · rw [if_pos hr] at h
      cases h
      exact absurd rfl hps
    · rw [if_neg hr] at h
      have hr' := not_not.mp hr
      by_cases hp : s.leg2isPrompt_ = false
      · rw [if_pos hp] at h
        cases hu : updateLeg env s.x_ s.legIntegrationParams_1 s.fittedTauLepton2_ (b / sh2) with
        | none => simp [hu] at h
        | some l2 =>
          simp only [hu] at h
          by_cases he : l2.errorCode ≠ env.FittedTauLepton_None
          · rw [if_pos he] at h
            cases h
            exact absurd rfl hps
          · rw [if_neg he] at h
            obtain ⟨hv, rfl⟩ := map_pair_eq_some h
            exact ⟨b, l2, rfl, hr', Or.inl ⟨hp, hu, not_not.mp he⟩, rfl, hv⟩
      · rw [if_neg hp] at h
        obtain ⟨hv, rfl⟩ := map_pair_eq_some h
        exact ⟨b, t.fittedTauLepton2_, rfl, hr', Or.inr ⟨by simpa using hp, rfl⟩, rfl, hv⟩

/-- The second-leg part of `EvalPS` computed from its intermediate results. -/
theorem EvalPS_leg2_of {env : Env K} {s : ClassicSVfitIntegrand K} {sh1 sh2 a b ps : K}
    {l2 : FittedTauLepton K} (hx : x2_dash s a = some b)
    (hr : b / sh2 ≥ lit1em5 ∧ b / sh2 ≤ 1)
    (hl : LegUpdated env s.x_ s.legIntegrationParams_1 s.leg2isPrompt_ s.fittedTauLepton2_
      (b / sh2) l2)
    (hv : EvalPS_prob env { s with fittedTauLepton2_ := l2 } sh1 sh2 (b / sh2) = some ps) :
    EvalPS_leg2 env s sh1 sh2 a = some (ps, { s with fittedTauLepton2_ := l2 }) := by
  unfold EvalPS_leg2
  simp only [hx, if_neg (not_not.mpr hr)]
  rcases hl with ⟨hp, hu, he⟩ | ⟨hp, rfl⟩
  · simp only [if_pos hp, hu, if_neg (not_not.mpr he), hv, Option.map_some']
  · have hp' : ¬ s.leg2isPrompt_ = false := by simp [hp]
    have hv' : EvalPS_prob env s sh1 sh2 (b / sh2) = some ps := hv
    simp only [if_neg hp', hv', Option.map_some']

/-- Inversion of the first-leg part of `EvalPS` at a non-zero value. -/
theorem EvalPS_leg1_inv {env : Env K} {s t : ClassicSVfitIntegrand K} {sh1 sh2 ps : K}
    (h : EvalPS_leg1 env s sh1 sh2 = some (ps, t)) (hps : ps ≠ 0) :
    ∃ a b l1 l2, x1_dash s = some a ∧ (a / sh1 ≥ lit1em5 ∧ a / sh1 ≤ 1) ∧
      LegUpdated env s.x_ s.legIntegrationParams_0 s.leg1isPrompt_ s.fittedTauLepton1_
        (a / sh1) l1 ∧
      x2_dash s a = some b ∧ (b / sh2 ≥ lit1em5 ∧ b / sh2 ≤ 1) ∧
      LegUpdated env s.x_ s.legIntegrationParams_1 s.leg2isPrompt_ s.fittedTauLepton2_
        (b / sh2) l2 ∧
      t = { s with fittedTauLepton1_ := l1, fittedTauLepton2_ := l2 } ∧
      EvalPS_prob env t sh1 sh2 (b / sh2) = some ps := by
  unfold EvalPS_leg1 at h
  cases hx : x1_dash s with
  | none => simp [hx] at h
  | some a =>
    simp only [hx] at h
    by_cases hr : ¬ (a / sh1 ≥ lit1em5 ∧ a / sh1 ≤ 1)
    · rw [if_pos hr] at h
      cases h
      exact absurd rfl hps
    · rw [if_neg hr] at h
      have hr' := not_not.mp hr
      by_cases hp : s.leg1isPrompt_ = false
      · rw [if_pos hp] at h
        cases hu : updateLeg env s.x_ s.legIntegrationParams_0 s.fittedTauLepton1_ (a / sh1) with
        | none => simp [hu] at h
        | some l1 =>
          simp only [hu] at h
          by_cases he : l1.errorCode ≠ env.FittedTauLepton_None
          · rw [if_pos he] at h
            cases h
            exact absurd rfl hps
          · rw [if_neg he] at h
            obtain ⟨b, l2, hb, hrb, hl2, rfl, hv⟩ := EvalPS_leg2_inv h hps
            exact ⟨a, b, l1, l2, rfl, hr', Or.inl ⟨hp, hu, not_not.mp he⟩, hb, hrb, hl2, rfl, hv⟩
      · rw [if_neg hp] at h
        obtain ⟨b, l2, hb, hrb, hl2, rfl, hv⟩ := EvalPS_leg2_inv h hps
        exact ⟨a, b, s.fittedTauLepton1_, l2, rfl, hr', Or.inr ⟨by simpa using hp, rfl⟩, hb, hrb,
          hl2, rfl, hv⟩

/-- The first-leg part of `EvalPS` computed from its intermediate results. -/
theorem EvalPS_leg1_of {env : Env K} {s : ClassicSVfitIntegrand K} {sh1 sh2 a b ps : K}
    {l1 l2 : FittedTauLepton K} (hx : x1_dash s = some a)
    (hr : a / sh1 ≥ lit1em5 ∧ a / sh1 ≤ 1)
    (hl : LegUpdated env s.x_ s.legIntegrationParams_0 s.leg1isPrompt_ s.fittedTauLepton1_
      (a / sh1) l1)
    (hx2 : x2_dash s a = some b) (hr2 : b / sh2 ≥ lit1em5 ∧ b / sh2 ≤ 1)
    (hl2 : LegUpdated env s.x_ s.legIntegrationParams_1 s.leg2isPrompt_ s.fittedTauLepton2_
      (b / sh2) l2)
    (hv : EvalPS_prob env { s with fittedTauLepton1_ := l1, fittedTauLepton2_ := l2 } sh1 sh2
      (b / sh2) = some ps) :
    EvalPS_leg1 env s sh1 sh2 =
      some (ps, { s with fittedTauLepton1_ := l1, fittedTauLepton2_ := l2 }) := by
  unfold EvalPS_leg1
  simp only [hx, if_neg (not_not.mpr hr)]
  rcases hl with ⟨hp, hu, he⟩ | ⟨hp, rfl⟩
  · simp only [if_pos hp, hu, if_neg (not_not.mpr he)]
    exact EvalPS_leg2_of (s := { s with fittedTauLepton1_ := l1 }) hx2 hr2 hl2 hv
  · have hp' : ¬ s.leg1isPrompt_ = false := by simp [hp]
    simp only [if_neg hp']
    exact EvalPS_leg2_of hx2 hr2 hl2 hv

/-- Inversion of `EvalPS` at a non-zero value. -/
theorem EvalPS_inv {env : Env K} {s t : ClassicSVfitIntegrand K} {ps : K}
    (h : EvalPS env s = some (ps, t)) (hps : ps ≠ 0) :
    ∃ sh1 sh2 a b l1 l2,
      visPtShift s s.legIntegrationParams_0 s.leg1isLeptonicTauDecay_ = some sh1 ∧
      visPtShift s s.legIntegrationParams_1 s.leg2isLeptonicTauDecay_ = some sh2 ∧
      ¬ (sh1 < lit1em2 ∨ sh2 < lit1em2) ∧
      x1_dash s = some a ∧ (a / sh1 ≥ lit1em5 ∧ a / sh1 ≤ 1) ∧
      LegUpdated env s.x_ s.legIntegrationParams_0 s.leg1isPrompt_
        (env.updateVisMomentum s.fittedTauLepton1_ sh1) (a / sh1) l1 ∧
      x2_dash s a = some b ∧ (b / sh2 ≥ lit1em5 ∧ b / sh2 ≤ 1) ∧
      LegUpdated env s.x_ s.legIntegrationParams_1 s.leg2isPrompt_
        (env.updateVisMomentum s.fittedTauLepton2_ sh2) (b / sh2) l2 ∧
      t = { s with
        errorCode_ := s.errorCode_ &&& (s.errorCode_ ^^^ env.TauDecayParameters)
        fittedTauLepton1_ := l1, fittedTauLepton2_ := l2 } ∧
      EvalPS_prob env t sh1 sh2 (b / sh2) = some ps := by
  unfold EvalPS at h
  simp only at h
  split at h
  · rename_i sh1 sh2 h1 h2
    by_cases hsh : sh1 < lit1em2 ∨ sh2 < lit1em2
    · rw [if_pos hsh] at h
      cases h
      exact absurd rfl hps
    · rw [if_neg hsh] at h
      obtain ⟨a, b, l1, l2, ha, hra, hl1, hb, hrb, hl2, rfl, hv⟩ := EvalPS_leg1_inv h hps
      exact ⟨sh1, sh2, a, b, l1, l2, h1, h2, hsh, ha, hra, hl1, hb, hrb, hl2, rfl, hv⟩
  · cases h

/-- `EvalPS` computed from its intermediate results. -/
theorem EvalPS_of {env : Env K} {s : ClassicSVfitIntegrand K} {sh1 sh2 a b ps : K}
    {l1 l2 : FittedTauLepton K}
    (h1 : visPtShift s s.legIntegrationParams_0 s.leg1isLeptonicTauDecay_ = some sh1)
    (h2 : visPtShift s s.legIntegrationParams_1 s.leg2isLeptonicTauDecay_ = some sh2)
    (hsh : ¬ (sh1 < lit1em2 ∨ sh2 < lit1em2))
    (hx : x1_dash s = some a) (hr : a / sh1 ≥ lit1em5 ∧ a / sh1 ≤ 1)
    (hl : LegUpdated env s.x_ s.legIntegrationParams_0 s.leg1isPrompt_
      (env.updateVisMomentum s.fittedTauLepton1_ sh1) (a / sh1) l1)
    (hx2 : x2_dash s a = some b) (hr2 : b / sh2 ≥ lit1em5 ∧ b / sh2 ≤ 1)
    (hl2 : LegUpdated env s.x_ s.legIntegrationParams_1 s.leg2isPrompt_
      (env.updateVisMomentum s.fittedTauLepton2_ sh2) (b / sh2) l2)
    (hv : EvalPS_prob env
      { s with
        errorCode_ := s.errorCode_ &&& (s.errorCode_ ^^^ env.TauDecayParameters)
        fittedTauLepton1_ := l1, fittedTauLepton2_ := l2 } sh1 sh2 (b / sh2) = some ps) :
    EvalPS env s = some (ps,
      { s with
        errorCode_ := s.errorCode_ &&& (s.errorCode_ ^^^ env.TauDecayParameters)
        fittedTauLepton1_ := l1, fittedTauLepton2_ := l2 }) := by
  unfold EvalPS
  have h1' : visPtShift
      { s with errorCode_ := s.errorCode_ &&& (s.errorCode_ ^^^ env.TauDecayParameters) }
      s.legIntegrationParams_0 s.leg1isLeptonicTauDecay_ = some sh1 := h1
  have h2' : visPtShift
      { s with errorCode_ := s.errorCode_ &&& (s.errorCode_ ^^^ env.TauDecayParameters) }
      s.legIntegrationParams_1 s.leg2isLeptonicTauDecay_ = some sh2 := h2
  simp only [h1', h2', if_neg hsh]
  exact EvalPS_leg1_of (s := { s with
      errorCode_ := s.errorCode_ &&& (s.errorCode_ ^^^ env.TauDecayParameters)
      fittedTauLepton1_ := env.updateVisMomentum s.fittedTauLepton1_ sh1
      fittedTauLepton2_ := env.updateVisMomentum s.fittedTauLepton2_ sh2 }) hx hr hl hx2 hr2 hl2 hv

/-- A non-zero value of `EvalPS` is also its value on the integrand with the legs exchanged,
when the mass constraint is disabled and `EvalPS` does not abort there. -/
theorem EvalPS_swapLegs {env : Env K} {s t : ClassicSVfitIntegrand K} {ps : K}
    (hM : ¬ s.diTauMassConstraint_ > 0) (h : EvalPS env s = some (ps, t)) (hps : ps ≠ 0)
    (hret : ∃ r, EvalPS env (swapLegs s) = some r) :
    EvalPS env (swapLegs s) = some (ps, swapLegs t) := by
  obtain ⟨sh1, sh2, a, b, l1, l2, h1, h2, hsh, ha, hra, hl1, hb, hrb, hl2, rfl, hv⟩ :=
    EvalPS_inv h hps
  have k1 : visPtShift (swapLegs s) (swapLegs s).legIntegrationParams_0
      (swapLegs s).leg1isLeptonicTauDecay_ = some sh2 := h2
  have k2 : visPtShift (swapLegs s) (swapLegs s).legIntegrationParams_1
      (swapLegs s).leg2isLeptonicTauDecay_ = some sh1 := h1
  have ksh : ¬ (sh2 < lit1em2 ∨ sh1 < lit1em2) := fun hh => hsh (Or.symm hh)
  have hx1 : x1_dash (swapLegs s) ≠ none := by
    obtain ⟨r, hr⟩ := hret
    unfold EvalPS at hr
    have k1' : visPtShift
        { swapLegs s with errorCode_ :=
            (swapLegs s).errorCode_ &&& ((swapLegs s).errorCode_ ^^^ env.TauDecayParameters) }
        (swapLegs s).legIntegrationParams_0 (swapLegs s).leg1isLeptonicTauDecay_ = some sh2 := h2
    have k2' : visPtShift
        { swapLegs s with errorCode_ :=
            (swapLegs s).errorCode_ &&& ((swapLegs s).errorCode_ ^^^ env.TauDecayParameters) }
        (swapLegs s).legIntegrationParams_1 (swapLegs s).leg2isLeptonicTauDecay_ = some sh1 := h1
    simp only [k1', k2', if_neg ksh] at hr
    unfold EvalPS_leg1 at hr
    intro hnone
    have hnone' : x1_dash
        { swapLegs s with
          errorCode_ :=
            (swapLegs s).errorCode_ &&& ((swapLegs s).errorCode_ ^^^ env.TauDecayParameters)
          fittedTauLepton1_ := env.updateVisMomentum (swapLegs s).fittedTauLepton1_ sh2
          fittedTauLepton2_ := env.updateVisMomentum (swapLegs s).fittedTauLepton2_ sh1 } =
        none := hnone
    simp only [hnone'] at hr
    cases hr
  have kb : x1_dash (swapLegs s) = some b := by
    unfold x1_dash at hx1 ⊢
    unfold x2_dash at hb
    have e1 : (swapLegs s).leg1isPrompt_ = s.leg2isPrompt_ := rfl
    have e2 : (swapLegs s).legIntegrationParams_0 = s.legIntegrationParams_1 := rfl
    have e3 : (swapLegs s).x_ = s.x_ := rfl
    rw [e1, e2, e3] at hx1 ⊢
    split_ifs at hb hx1 ⊢ <;> first | exact hb | exact absurd rfl hx1 | rfl
  have ka : x2_dash (swapLegs s) b = some a := by
    unfold x2_dash
    unfold x1_dash at ha
    have e1 : (swapLegs s).leg2isPrompt_ = s.leg1isPrompt_ := rfl
    have e2 : (swapLegs s).legIntegrationParams_1 = s.legIntegrationParams_0 := rfl
    have e3 : (swapLegs s).x_ = s.x_ := rfl
    rw [e1, e2, e3]
    split_ifs at ha ⊢ <;> first | exact ha | cases ha | rfl
  have hv' : EvalPS_prob env
      { swapLegs s with
        errorCode_ :=
          (swapLegs s).errorCode_ &&& ((swapLegs s).errorCode_ ^^^ env.TauDecayParameters)
        fittedTauLepton1_ := l2, fittedTauLepton2_ := l1 } sh2 sh1 (a / sh1) = some ps := by
    rw [← hv]
    exact EvalPS_prob_swapLegs env
      { s with
        errorCode_ := s.errorCode_ &&& (s.errorCode_ ^^^ env.TauDecayParameters)
        fittedTauLepton1_ := l1, fittedTauLepton2_ := l2 } sh1 sh2 (a / sh1) (b / sh2) hM
  exact EvalPS_of (s := swapLegs s) k1 k2 ksh kb hrb hl2 ka hra hl1 hv'

omit [LinearOrderedField K] in
/-- Exchanging the legs twice gives the integrand back. -/
theorem swapLegs_swapLegs (s : ClassicSVfitIntegrand K) : swapLegs (swapLegs s) = s := by
  have h1 : (s.hadTauTFs_.map Prod.swap).map Prod.swap = s.hadTauTFs_ := by
    cases s.hadTauTFs_ <;> rfl
  have h2 : ({ s.measuredEvent_ with tauLeptons := s.measuredEvent_.tauLeptons.reverse.reverse } :
      MeasuredEvent K) = s.measuredEvent_ := by
    rw [List.reverse_reverse]
  unfold swapLegs
  simp only [h1, h2]

/-- `rescaleX` commutes with the exchange of the legs. -/
theorem rescaleX_swapLegs (s : ClassicSVfitIntegrand K) (q : Nat → K) :
    rescaleX (swapLegs s) q = (rescaleX s q).map swapLegs := by
  unfold rescaleX
  have e1 : (swapLegs s).xMin_ = s.xMin_ := rfl
  have e2 : (swapLegs s).xMax_ = s.xMax_ := rfl
  have e3 : (swapLegs s).x_ = s.x_ := rfl
  have e4 : (swapLegs s).numDimensions_ = s.numDimensions_ := rfl
  rw [e1, e2, e3, e4]
  cases rescaleXLoop q s.xMin_ s.xMax_ s.numDimensions_ 0 s.x_ <;> rfl

/-- A non-zero value of `Eval` is also its value on the integrand with the legs exchanged, when
the mass constraint is disabled and `Eval` returns there. -/
theorem Eval_swapLegs_of_ne_zero {env : Env K} {s s1 s2 : ClassicSVfitIntegrand K}
    {q : Nat → K} {v v' : K} (hM : ¬ s.diTauMassConstraint_ > 0)
    (h1 : Eval env s q = some (v, s1)) (hv : v ≠ 0)
    (h2 : Eval env (swapLegs s) q = some (v', s2)) : v' = v := by
  have hcomb_eq : ∀ {u u1 u2 : ClassicSVfitIntegrand K}, Eval_combine env u = some (v, u1) →
      Eval_combine env (swapLegs u) = some (v', u2) → v' = v := by
    intro u u1 u2 hu hu'
    have := Eval_combine_swapLegs env u
    rw [hu, hu'] at this
    simpa using this
  rcases Eval_spec h1 with ⟨-, rfl, -⟩ | ⟨hne, r1, hr, hcase⟩
  · exact absurd rfl hv
  · have hr1 := rescaleX_frame hr
    have hM1 : ¬ r1.diTauMassConstraint_ > 0 := by rw [hr1]; exact hM
    have hrs : rescaleX (swapLegs s) q = some (swapLegs r1) := by
      rw [rescaleX_swapLegs, hr]; rfl
    rcases Eval_spec h2 with ⟨he', -, -⟩ | ⟨-, r2, hr2, hcase2⟩
    · exact absurd he' hne
    · rw [hrs] at hr2
      cases hr2
      rcases hcase with ⟨hc, ps, t, hp, hflag⟩ | ⟨hnc, hcomb⟩
      · rcases hflag with ⟨-, rfl, -⟩ | ⟨hnf, fl, hfl, hcomb⟩
        · exact absurd rfl hv
        · have hps : ps ≠ 0 := by
            rcases Eval_combine_spec hcomb with ⟨-, rfl, -⟩ | ⟨-, met, m, -, -, hval, -⟩
            · exact absurd rfl hv
            · intro h0
              apply hv
              rw [hval]
              show ps * fl * m = 0
              rw [h0, zero_mul, zero_mul]
          rcases hcase2 with ⟨-, ps', t', hp', hflag'⟩ | ⟨hnc', -⟩
          · have hsw := EvalPS_swapLegs hM1 hp hps ⟨_, hp'⟩
            rw [hsw] at hp'
            cases hp'
            rcases hflag' with ⟨hf', -, -⟩ | ⟨-, fl', hfl', hcomb'⟩
            · exact absurd hf' hnf
            · have hfl2 : EvalFlightLength env (swapLegs { t with probPS_ := ps }) = some fl' :=
                hfl'
              rw [EvalFlightLength_swapLegs, hfl] at hfl2
              cases hfl2
              exact hcomb_eq hcomb hcomb'
          · exact absurd hc hnc'
      · rcases hcase2 with ⟨hc', -⟩ | ⟨-, hcomb'⟩
        · exact absurd hc' hnc
        · exact hcomb_eq hcomb hcomb'

/-- C8 (amended): leg symmetry with the mass constraint disabled.  When
`diTauMassConstraint_ <= 0`, exchanging the two measured legs together with their
integration-parameter index maps leaves the value of `Eval` unchanged, at every sample point
at which `Eval` returns for both orders of the legs. -/
theorem Eval_swapLegs (env : Env K) (s s1 s2 : ClassicSVfitIntegrand K) (q : Nat → K)
    (v v' : K) (hM : ¬ s.diTauMassConstraint_ > 0)
    (h1 : Eval env s q = some (v, s1)) (h2 : Eval env (swapLegs s) q = some (v', s2)) :
    v' = v := by
  by_cases hv : v = 0
  · by_cases hv' : v' = 0
    · rw [hv, hv']
    · have h1' : Eval env (swapLegs (swapLegs s)) q = some (v, s1) := by
        rw [swapLegs_swapLegs]; exact h1
      exact (Eval_swapLegs_of_ne_zero (s := swapLegs s) hM h2 hv' h1').symm
  · exact Eval_swapLegs_of_ne_zero hM h1 hv h2

/-- Counterexample to C8 as stated: a hadronic tau (energy fraction read from dimension 0) and
a prompt lepton with the mass constraint enabled at `M = 4`, at `q = (1/2, 1/2)`.  With the
hadronic tau as leg 1, `x2 = 1` and the Jacobian factor `2*x2/M` is `1/2`: `Eval` returns
`1/48`.  With the legs and their index maps exchanged, `x2 = 1/2` and the factor is `1/4`:
`Eval` returns `1/96`. -/
theorem Eval_swapLegs_counterexample :
    (Eval (sampleEnv Real.exp Real.sqrt Real.rpow)
      (enableDiTauMassConstraint sampleHadIntegrand 4) (fun _ => 1 / 2)).map Prod.fst =
        some (1 / 48) ∧
    (Eval (sampleEnv Real.exp Real.sqrt Real.rpow)
      (swapLegs (enableDiTauMassConstraint sampleHadIntegrand 4)) (fun _ => 1 / 2)).map Prod.fst =
        some (1 / 96) ∧
    (1 / 96 : ℝ) ≠ 1 / 48 := by
  refine ⟨?_, ?_, by norm_num⟩
  · norm_num [Eval, enableDiTauMassConstraint, sampleHadIntegrand, samplePromptIntegrand, hasSetupError, sampleEnv,
      rescaleX, rescaleXLoop, ClassicSVfitIntegrand.ctor, disableDiTauMassConstraint,
      blankIntegrand, EvalPS, visPtShift, EvalPS_leg1, EvalPS_leg2, x1_dash, x2_dash, lit1em2,
      lit1em5, floor300, EvalPS_prob, legDecayProb, legProbTF, sampleFitted, samplePromptLepton,
      sampleHadTau, EvalFlightLength, Eval_combine, idxMeasuredMEt, EvalMEtTF, EvalMEtTF_residual,
      sampleMEt, LorentzVector.zero, readX, updateLeg, LorentzVector.scale,
      compPSfactor_tauToHadDecay, compCosThetaNuNu, LorentzVector.P, square, sqrt_nine,
      sqrt_thirtysix]
  · norm_num [Eval, swapLegs, enableDiTauMassConstraint, sampleHadIntegrand, samplePromptIntegrand, hasSetupError, sampleEnv,
      rescaleX, rescaleXLoop, ClassicSVfitIntegrand.ctor, disableDiTauMassConstraint,
      blankIntegrand, EvalPS, visPtShift, EvalPS_leg1, EvalPS_leg2, x1_dash, x2_dash, lit1em2,
      lit1em5, floor300, EvalPS_prob, legDecayProb, legProbTF, sampleFitted, samplePromptLepton,
      sampleHadTau, EvalFlightLength, Eval_combine, idxMeasuredMEt, EvalMEtTF, EvalMEtTF_residual,
      sampleMEt, LorentzVector.zero, readX, updateLeg, LorentzVector.scale,
      compPSfactor_tauToHadDecay, compCosThetaNuNu, LorentzVector.P, square, sqrt_nine,
      sqrt_thirtysix]

/-- With the real `exp` and `sqrt`, the sample integrand with the legs exchanged evaluates to
`1/24` at `q = (1/2, 1/2)`. -/
theorem sampleHad_swap_Eval :
    ∃ s', Eval (sampleEnv Real.exp Real.sqrt Real.rpow) (swapLegs sampleHadIntegrand)
      (fun _ => 1 / 2) = some (1 / 24, s') := by
  apply exists_of_map_fst
  norm_num [Eval, swapLegs, sampleHadIntegrand, samplePromptIntegrand, hasSetupError, sampleEnv,
    rescaleX, rescaleXLoop, ClassicSVfitIntegrand.ctor, disableDiTauMassConstraint,
    blankIntegrand, EvalPS, visPtShift, EvalPS_leg1, EvalPS_leg2, x1_dash, x2_dash, lit1em2,
    lit1em5, floor300, EvalPS_prob, legDecayProb, legProbTF, sampleFitted, samplePromptLepton,
    sampleHadTau, EvalFlightLength, Eval_combine, idxMeasuredMEt, EvalMEtTF, EvalMEtTF_residual,
    sampleMEt, LorentzVector.zero, readX, updateLeg, LorentzVector.scale,
    compPSfactor_tauToHadDecay, compCosThetaNuNu, LorentzVector.P, square, sqrt_nine,
    sqrt_thirtysix]

/-- Witness of C8 (amended): the sample integrand with a hadronic and a prompt leg, mass
constraint disabled; `Eval` returns `1/24` for both orders of the legs. -/
theorem Eval_swapLegs_witness :
    ∃ s1 s2,
      Eval (sampleEnv Real.exp Real.sqrt Real.rpow) sampleHadIntegrand (fun _ => 1 / 2) =
        some (1 / 24, s1) ∧
      Eval (sampleEnv Real.exp Real.sqrt Real.rpow) (swapLegs sampleHadIntegrand)
        (fun _ => 1 / 2) = some (1 / 24, s2) ∧
      (1 / 24 : ℝ) = 1 / 24 := by
  obtain ⟨s1, h1⟩ := sampleHad_Eval
  obtain ⟨s2, h2⟩ := sampleHad_swap_Eval
  exact ⟨s1, s2, h1, h2, Eval_swapLegs _ _ s1 s2 _ _ _
    (by norm_num [sampleHadIntegrand, samplePromptIntegrand, disableDiTauMassConstraint,
      ClassicSVfitIntegrand.ctor]) h1 h2⟩

/-! ## The mass constraint -/

/-- The real square root of 4. -/
theorem sqrt_four : Real.sqrt 4 = 2 := by
  rw [show (4 : ℝ) = 2 ^ 2 by norm_num]
  exact Real.sqrt_sq (by norm_num)

set_option maxHeartbeats 4000000 in
/-- With the real `exp`, `sqrt`, `cos` and `sin`, the sample integrand with the mass constraint
`18/5` evaluates to `15/32768` at `(2/3, 1/2, 1/2)` and leaves the tau four-momenta
`(2,0,1,3)` and `(14/25,48/25,1,3)`. -/
theorem sampleConstraint_Eval :
    (Eval (specEnv Real.exp Real.sqrt Real.rpow Real.cos Real.sin) sampleConstraintIntegrand
        sampleConstraintPoint).map
      (fun r => (r.1, r.2.fittedTauLepton1_.tauP4, r.2.fittedTauLepton2_.tauP4)) =
    some (15 / 32768, ⟨2, 0, 1, 3⟩, ⟨14 / 25, 48 / 25, 1, 3⟩) := by
  norm_num [Eval, sampleConstraintIntegrand, sampleConstraintBase, sampleConstraintPoint,
    enableDiTauMassConstraint, specEnv, updateTauMomentum_spec, compCrossProduct, normalize,
    LorentzVector.Vect, LorentzVector.add,
    samplePromptIntegrand, hasSetupError, sampleEnv,
    rescaleX, rescaleXLoop, ClassicSVfitIntegrand.ctor, disableDiTauMassConstraint,
    blankIntegrand, EvalPS, visPtShift, EvalPS_leg1, EvalPS_leg2, x1_dash, x2_dash, lit1em2,
    lit1em5, floor300, EvalPS_prob, legDecayProb, legProbTF, sampleFitted, samplePromptLepton,
    sampleHadTau, EvalFlightLength, Eval_combine, idxMeasuredMEt, EvalMEtTF, EvalMEtTF_residual,
    sampleMEt, LorentzVector.zero, readX, updateLeg, LorentzVector.scale,
    compPSfactor_tauToHadDecay, compCosThetaNuNu, LorentzVector.P, square, sqrt_nine,
    sqrt_four, show Int.toNat 2 = 2 from rfl]

/-- C7 (amended): with the di-tau mass constraint enabled with target `M > 0` and the energy
fraction of leg 2 derived from it (leg 2 not prompt, no energy-fraction dimension), for every
sample point at which a central-mode `Eval` returns a non-zero value the energy fractions that
`EvalPS` used satisfy `x1_dash * x2_dash * M^2 = mVis2_measured_`: the visible mass divided by
`sqrt(x1_dash * x2_dash)`, the pair mass of the collinear approximation, equals `M`. -/
theorem Eval_massConstraint_fractions (env : Env K) (s0 s' : ClassicSVfitIntegrand K)
    (q : Nat → K) (v M : K) (hM : 0 < M) (hc : s0.isCentral_ = true)
    (h2 : s0.leg2isPrompt_ = false) (hidx : s0.legIntegrationParams_1.idx_X_ = -1)
    (h : Eval env (enableDiTauMassConstraint s0 M) q = some (v, s')) (hv : v ≠ 0) :
    ∃ s1 x1d x2d, rescaleX (enableDiTauMassConstraint s0 M) q = some s1 ∧
      x1_dash s1 = some x1d ∧ x2_dash s1 x1d = some x2d ∧
      x1d * x2d * (M * M) = s0.mVis2_measured_ := by
  rcases Eval_spec h with ⟨-, rfl, -⟩ | ⟨-, s1, hr, hcase⟩
  · exact absurd rfl hv
  · have hs1 := rescaleX_frame hr
    have hc1 : s1.isCentral_ = true := by rw [hs1]; exact hc
    have h21 : s1.leg2isPrompt_ = false := by rw [hs1]; exact h2
    have hidx1 : s1.legIntegrationParams_1.idx_X_ = -1 := by rw [hs1]; exact hidx
    have hM2 : s1.diTauMassConstraint2_ = M * M := by rw [hs1]; rfl
    have hmv : s1.mVis2_measured_ = s0.mVis2_measured_ := by rw [hs1]; rfl
    rcases hcase with ⟨-, ps, s2, hp, hcase2⟩ | ⟨hn, -⟩
    · rcases hcase2 with ⟨-, rfl, -⟩ | ⟨-, fl, -, hcomb⟩
      · exact absurd rfl hv
      · have hps : ps ≠ 0 := by
          rcases Eval_combine_spec hcomb with ⟨-, rfl, -⟩ | ⟨-, met, m, -, -, hval, -⟩
          · exact absurd rfl hv
          · intro h0
            apply hv
            rw [hval]
            show ps * fl * m = 0
            rw [h0, zero_mul, zero_mul]
        obtain ⟨sh1, sh2, a, b, -, -, ha, hb, ⟨ha1, -⟩, -⟩ := EvalPS_fractions hp hps
        refine ⟨s1, a, b, hr, ha, hb, ?_⟩
        have ha0 : a ≠ 0 := by
          intro h0
          rw [h0, zero_div] at ha1
          exact absurd (lit1em5_pos (K := K)) (not_lt.mpr ha1)
        unfold x2_dash at hb
        rw [if_pos h21, if_neg (not_not.mpr hidx1), hM2, hmv] at hb
        cases hb
        have hM0 : M ≠ 0 := ne_of_gt hM
        field_simp
        ring
    · exact absurd (Or.inl hc1) hn

/-- Witness of C7 (amended): the sample integrand with `M = 18/5` at the point `(2/3, 1/2, 1/2)`,
where `Eval` returns `15/32768` and `x1_dash = x2_dash = 2/3`, `mVis2_measured_ = 144/25`. -/
theorem Eval_massConstraint_fractions_witness :
    ∃ s' s1 x1d x2d,
      Eval (specEnv Real.exp Real.sqrt Real.rpow Real.cos Real.sin)
        (enableDiTauMassConstraint sampleConstraintBase (18 / 5)) sampleConstraintPoint =
        some (15 / 32768, s') ∧
      rescaleX (enableDiTauMassConstraint (sampleConstraintBase : ClassicSVfitIntegrand ℝ)
        (18 / 5)) sampleConstraintPoint = some s1 ∧
      x1_dash s1 = some x1d ∧ x2_dash s1 x1d = some x2d ∧
      x1d * x2d * (18 / 5 * (18 / 5)) =
        (sampleConstraintBase : ClassicSVfitIntegrand ℝ).mVis2_measured_ := by
  obtain ⟨r, hr, hf⟩ := Option.map_eq_some'.mp sampleConstraint_Eval
  obtain ⟨v, s'⟩ := r
  have hv : v = 15 / 32768 := congrArg Prod.fst hf
  subst hv
  obtain ⟨s1, x1d, x2d, h⟩ :=
    Eval_massConstraint_fractions (specEnv Real.exp Real.sqrt Real.rpow Real.cos Real.sin)
      sampleConstraintBase s' sampleConstraintPoint (15 / 32768) (18 / 5) (by norm_num) rfl rfl
      rfl hr (by norm_num)
  exact ⟨s', s1, x1d, x2d, hr, h⟩

/-- Counterexample to C7 as stated, with `updateTauMomentum` as the specification describes
it: for the sample integrand with the constraint `M = 18/5` enabled and the fraction of leg 2
derived from it, `Eval` at `(2/3, 1/2, 1/2)` returns the non-zero value `15/32768`, the
reconstructed tau four-momenta are `(2,0,1,3)` and `(14/25,48/25,1,3)`, and the invariant mass
of their sum is `sqrt(544/25)`, not `18/5`. -/
theorem Eval_massConstraint_counterexample :
    ∃ v s',
      Eval (specEnv Real.exp Real.sqrt Real.rpow Real.cos Real.sin)
        (enableDiTauMassConstraint sampleConstraintBase (18 / 5)) sampleConstraintPoint =
        some (v, s') ∧
      v ≠ 0 ∧ (0 : ℝ) < 18 / 5 ∧
      (sampleConstraintBase : ClassicSVfitIntegrand ℝ).isCentral_ = true ∧
      (sampleConstraintBase : ClassicSVfitIntegrand ℝ).leg2isPrompt_ = false ∧
      (sampleConstraintBase : ClassicSVfitIntegrand ℝ).legIntegrationParams_1.idx_X_ = -1 ∧
      (s'.fittedTauLepton1_.tauP4.add s'.fittedTauLepton2_.tauP4).mass
        (specEnv Real.exp Real.sqrt Real.rpow Real.cos Real.sin) ≠ 18 / 5 := by
  obtain ⟨r, hr, hf⟩ := Option.map_eq_some'.mp sampleConstraint_Eval
  obtain ⟨v, s'⟩ := r
  have hv : v = 15 / 32768 := congrArg Prod.fst hf
  have h1 : s'.fittedTauLepton1_.tauP4 = ⟨2, 0, 1, 3⟩ := congrArg (fun t => t.2.1) hf
  have h2 : s'.fittedTauLepton2_.tauP4 = ⟨14 / 25, 48 / 25, 1, 3⟩ :=
    congrArg (fun t => t.2.2) hf
  refine ⟨v, s', hr, ?_, by norm_num, rfl, rfl, rfl, ?_⟩
  · rw [hv]; norm_num
  · rw [h1, h2]
    intro hm
    have hmm : Real.sqrt (544 / 25) = 18 / 5 := by
      have := hm
      norm_num [LorentzVector.mass, LorentzVector.add, specEnv, sampleEnv] at this
      rw [← this]
      norm_num
    have hsq := Real.sq_sqrt (show (0 : ℝ) ≤ 544 / 25 by norm_num)
    rw [hmm] at hsq
    norm_num at hsq

/-! ## The per-call flag TauDecayParameters -/

/-- The reset `e & (e ^ m)` of line 374 clears every bit of the mask `m`. -/
theorem land_xor_land_self (e m : Nat) : (e &&& (e ^^^ m)) &&& m = 0 := by
  apply Nat.eq_of_testBit_eq
  intro i
  simp only [Nat.testBit_and, Nat.testBit_xor, Nat.zero_testBit]
  cases e.testBit i <;> cases m.testBit i <;> rfl

/-- Raising the mask `m` with `e | m` sets every bit of `m`. -/
theorem lor_land_self (e m : Nat) : (e ||| m) &&& m = m := by
  apply Nat.eq_of_testBit_eq
  intro i
  simp only [Nat.testBit_and, Nat.testBit_or]
  cases e.testBit i <;> cases m.testBit i <;> rfl

/-- The second-leg part of `EvalPS` either leaves `errorCode_` alone or returns 0 through the
branch of lines 462-466, with the flag raised and the error code of the leg not `None`. -/
theorem EvalPS_leg2_flag {env : Env K} {s t : ClassicSVfitIntegrand K} {a b c p : K}
    (h : EvalPS_leg2 env s a b c = some (p, t)) :
    t.errorCode_ = s.errorCode_ ∨
    (p = 0 ∧ t.errorCode_ = s.errorCode_ ||| env.TauDecayParameters ∧
      t.leg2isPrompt_ = false ∧ t.fittedTauLepton2_.errorCode ≠ env.FittedTauLepton_None) := by
  unfold EvalPS_leg2 at h
  cases hx : x2_dash s c with
  | none => simp [hx] at h
  | some x2d =>
    simp only [hx] at h
    by_cases hr : ¬ (x2d / b ≥ lit1em5 ∧ x2d / b ≤ 1)
    · rw [if_pos hr] at h
      cases h
      exact Or.inl rfl
    · rw [if_neg hr] at h
      by_cases hp : s.leg2isPrompt_ = false
      · rw [if_pos hp] at h
        cases hu : updateLeg env s.x_ s.legIntegrationParams_1 s.fittedTauLepton2_ (x2d / b) with
        | none => simp [hu] at h
        | some leg2 =>
          simp only [hu] at h
          by_cases he : leg2.errorCode ≠ env.FittedTauLepton_None
          · rw [if_pos he] at h
            cases h
            exact Or.inr ⟨rfl, rfl, hp, he⟩
          · rw [if_neg he] at h
            obtain ⟨pp, -, hpp⟩ := Option.map_eq_some'.mp h
            cases hpp
            exact Or.inl rfl
      · rw [if_neg hp] at h
        obtain ⟨pp, -, hpp⟩ := Option.map_eq_some'.mp h
        cases hpp
        exact Or.inl rfl

/-- The first-leg part of `EvalPS` either leaves `errorCode_` alone or returns 0 through one of
the branches of lines 411-415 and 462-466. -/
theorem EvalPS_leg1_flag {env : Env K} {s t : ClassicSVfitIntegrand K} {a b p : K}
    (h : EvalPS_leg1 env s a b = some (p, t)) :
    t.errorCode_ = s.errorCode_ ∨
    (p = 0 ∧ t.errorCode_ = s.errorCode_ ||| env.TauDecayParameters ∧
      ((t.leg1isPrompt_ = false ∧ t.fittedTauLepton1_.errorCode ≠ env.FittedTauLepton_None) ∨
       (t.leg2isPrompt_ = false ∧ t.fittedTauLepton2_.errorCode ≠ env.FittedTauLepton_None))) := by
  unfold EvalPS_leg1 at h
  cases hx : x1_dash s with
  | none => simp [hx] at h
  | some x1d =>
    simp only [hx] at h
    by_cases hr : ¬ (x1d / a ≥ lit1em5 ∧ x1d / a ≤ 1)
    · rw [if_pos hr] at h
      cases h
      exact Or.inl rfl
    · rw [if_neg hr] at h
      by_cases hp : s.leg1isPrompt_ = false
      · rw [if_pos hp] at h
        cases hu : updateLeg env s.x_ s.legIntegrationParams_0 s.fittedTauLepton1_ (x1d / a) with
        | none => simp [hu] at h
        | some leg1 =>
          simp only [hu] at h
          by_cases he : leg1.errorCode ≠ env.FittedTauLepton_None
          · rw [if_pos he] at h
            cases h
            exact Or.inr ⟨rfl, rfl, Or.inl ⟨hp, he⟩⟩
          · rw [if_neg he] at h
            rcases EvalPS_leg2_flag h with h2 | ⟨h0, h2, h3⟩
            · exact Or.inl h2
            · exact Or.inr ⟨h0, h2, Or.inr h3⟩
      · rw [if_neg hp] at h
        rcases EvalPS_leg2_flag h with h2 | ⟨h0, h2, h3⟩
        · exact Or.inl h2
        · exact Or.inr ⟨h0, h2, Or.inr h3⟩

/-- `EvalPS` leaves `errorCode_` with the flag `TauDecayParameters` cleared, or returns 0 with
the flag raised on the cleared code because the error code of a non-prompt leg is not `None`. -/
theorem EvalPS_flag {env : Env K} {s t : ClassicSVfitIntegrand K} {p : K}
    (h : EvalPS env s = some (p, t)) :
    t.errorCode_ = s.errorCode_ &&& (s.errorCode_ ^^^ env.TauDecayParameters) ∨
    (p = 0 ∧
      t.errorCode_ =
        (s.errorCode_ &&& (s.errorCode_ ^^^ env.TauDecayParameters)) ||| env.TauDecayParameters ∧
      ((t.leg1isPrompt_ = false ∧ t.fittedTauLepton1_.errorCode ≠ env.FittedTauLepton_None) ∨
       (t.leg2isPrompt_ = false ∧ t.fittedTauLepton2_.errorCode ≠ env.FittedTauLepton_None))) := by
  unfold EvalPS at h
  simp only at h
  split at h
  · rename_i sh1 sh2 h1 h2
    split_ifs at h
    · cases h; exact Or.inl rfl
    · exact EvalPS_leg1_flag h
  · cases h

/-- C11 (amended): the flag `TauDecayParameters` is cleared when `EvalPS` is entered (line 374)
and nothing clears it before `Eval` returns.  After a central-mode `Eval` (`isCentral_` or
`idxMEtSystematic_ == 0`) on a state without setup-time error, whatever the flag was before the
call: if the flag is set, `Eval` has returned 0, `errorCode_` is the cleared code with the flag
raised, and the error code of a non-prompt fitted leg is not `None`; if the flag is clear,
`errorCode_` is the cleared code; and the flag is clear after every invocation that returns a
non-zero value. -/
theorem Eval_flag_after (env : Env K) (s s' : ClassicSVfitIntegrand K) (q : Nat → K) (v : K)
    (hs : ¬ hasSetupError env s) (hc : s.isCentral_ = true ∨ s.idxMEtSystematic_ = 0)
    (h : Eval env s q = some (v, s')) :
    (s'.errorCode_ &&& env.TauDecayParameters ≠ 0 →
      v = 0 ∧
      s'.errorCode_ =
        (s.errorCode_ &&& (s.errorCode_ ^^^ env.TauDecayParameters)) ||| env.TauDecayParameters ∧
      ((s'.leg1isPrompt_ = false ∧
          s'.fittedTauLepton1_.errorCode ≠ env.FittedTauLepton_None) ∨
       (s'.leg2isPrompt_ = false ∧
          s'.fittedTauLepton2_.errorCode ≠ env.FittedTauLepton_None))) ∧
    (s'.errorCode_ &&& env.TauDecayParameters = 0 →
      s'.errorCode_ = s.errorCode_ &&& (s.errorCode_ ^^^ env.TauDecayParameters)) ∧
    (v ≠ 0 → s'.errorCode_ &&& env.TauDecayParameters = 0) := by
  rcases Eval_spec h with ⟨hse, -, -⟩ | ⟨-, s1, hr, hcase⟩
  · exact absurd hse hs
  · have hs1 := rescaleX_frame hr
    have hc1 : s1.isCentral_ = true ∨ s1.idxMEtSystematic_ = 0 := by rw [hs1]; exact hc
    have he1 : s1.errorCode_ = s.errorCode_ := by rw [hs1]
    rcases hcase with ⟨-, ps, s2, hp, hcase2⟩ | ⟨hn, -⟩
    · have hfl := EvalPS_flag hp
      rw [he1] at hfl
      have key : s'.errorCode_ = s2.errorCode_ ∧ s'.leg1isPrompt_ = s2.leg1isPrompt_ ∧
          s'.leg2isPrompt_ = s2.leg2isPrompt_ ∧ s'.fittedTauLepton1_ = s2.fittedTauLepton1_ ∧
          s'.fittedTauLepton2_ = s2.fittedTauLepton2_ ∧
          (s2.errorCode_ &&& env.TauDecayParameters ≠ 0 → v = 0) := by
        rcases hcase2 with ⟨hf, rfl, rfl⟩ | ⟨hnf, fl, -, hcomb⟩
        · exact ⟨rfl, rfl, rfl, rfl, rfl, fun _ => rfl⟩
        · rcases Eval_combine_spec hcomb with ⟨-, -, rfl⟩ | ⟨-, met, m, -, -, -, rfl⟩
          · exact ⟨rfl, rfl, rfl, rfl, rfl, fun hf => absurd hf hnf⟩
          · exact ⟨rfl, rfl, rfl, rfl, rfl, fun hf => absurd hf hnf⟩
      obtain ⟨k1, k2, k3, k4, k5, k6⟩ := key
      rw [k1, k2, k3, k4, k5]
      have hA : s2.errorCode_ &&& env.TauDecayParameters ≠ 0 →
          v = 0 ∧
          s2.errorCode_ =
            (s.errorCode_ &&& (s.errorCode_ ^^^ env.TauDecayParameters)) |||
              env.TauDecayParameters ∧
          ((s2.leg1isPrompt_ = false ∧
              s2.fittedTauLepton1_.errorCode ≠ env.FittedTauLepton_None) ∨
           (s2.leg2isPrompt_ = false ∧
              s2.fittedTauLepton2_.errorCode ≠ env.FittedTauLepton_None)) := by
        intro hf
        rcases hfl with hcl | ⟨-, hraised, hlegs⟩
        · rw [hcl, land_xor_land_self] at hf
          exact absurd rfl hf
        · exact ⟨k6 hf, hraised, hlegs⟩
      refine ⟨hA, ?_, ?_⟩
      · intro hz
        rcases hfl with hcl | ⟨-, hraised, -⟩
        · exact hcl
        · rw [hraised, lor_land_self] at hz
          rw [hraised, hz, Nat.or_zero]
      · intro hv
        by_contra hf
        exact hv (hA hf).1
    · exact absurd hc1 hn

/-- The real square root of 16. -/
theorem sqrt_sixteen : Real.sqrt 16 = 4 := by
  rw [show (16 : ℝ) = 4 ^ 2 by norm_num]
  exact Real.sqrt_sq (by norm_num)

set_option maxHeartbeats 4000000 in
/-- With `updateTauMomentum` as the specification describes it, the sample integrand with two
hadronic legs flags the sample point `(8/9, 1/2, 1/2)`: the opening-angle cosine of leg 1 is
`-3`, `Eval` returns 0 and leaves `errorCode_ = TauDecayParameters`. -/
theorem sampleFlag_Eval :
    (Eval (specEnv Real.exp Real.sqrt Real.rpow Real.cos Real.sin) sampleConstraintIntegrand
        sampleFlagPoint).map (fun r => (r.1, r.2.errorCode_)) = some (0, 4) := by
  norm_num [Eval, sampleConstraintIntegrand, sampleConstraintBase, sampleFlagPoint,
    enableDiTauMassConstraint, specEnv, updateTauMomentum_spec, compCrossProduct, normalize,
    LorentzVector.Vect, LorentzVector.add,
    samplePromptIntegrand, hasSetupError, sampleEnv,
    rescaleX, rescaleXLoop, ClassicSVfitIntegrand.ctor, disableDiTauMassConstraint,
    blankIntegrand, EvalPS, visPtShift, EvalPS_leg1, EvalPS_leg2, x1_dash, x2_dash, lit1em2,
    lit1em5, floor300, EvalPS_prob, legDecayProb, legProbTF, sampleFitted, samplePromptLepton,
    sampleHadTau, EvalFlightLength, Eval_combine, idxMeasuredMEt, EvalMEtTF, EvalMEtTF_residual,
    sampleMEt, LorentzVector.zero, readX, updateLeg, LorentzVector.scale,
    compPSfactor_tauToHadDecay, compCosThetaNuNu, LorentzVector.P, square, sqrt_nine,
    sqrt_four, sqrt_sixteen, show Int.toNat 2 = 2 from rfl]

/-- The sample integrand with two hadronic legs has no setup-time error. -/
theorem sampleConstraint_noSetupError :
    ¬ hasSetupError (specEnv Real.exp Real.sqrt Real.rpow Real.cos Real.sin)
      (sampleConstraintIntegrand : ClassicSVfitIntegrand ℝ) := by
  norm_num [hasSetupError, sampleConstraintIntegrand, sampleConstraintBase,
    enableDiTauMassConstraint, samplePromptIntegrand, disableDiTauMassConstraint,
    ClassicSVfitIntegrand.ctor, specEnv, sampleEnv]

/-- Counterexample to C11 as stated: for the sample integrand with two hadronic legs `Eval`
at `(8/9, 1/2, 1/2)` returns 0 because `updateTauMomentum` flags leg 1 (opening-angle cosine
`-3`), and after `Eval` has returned the bit `TauDecayParameters` of `errorCode_` is set. -/
theorem Eval_flag_after_counterexample :
    ∃ s', Eval (specEnv Real.exp Real.sqrt Real.rpow Real.cos Real.sin) sampleConstraintIntegrand
        sampleFlagPoint = some (0, s') ∧
      s'.errorCode_ &&&
        (specEnv Real.exp Real.sqrt Real.rpow Real.cos Real.sin).TauDecayParameters ≠ 0 := by
  obtain ⟨r, hr, hf⟩ := Option.map_eq_some'.mp sampleFlag_Eval
  obtain ⟨v, s'⟩ := r
  have hv : v = 0 := congrArg Prod.fst hf
  have he : s'.errorCode_ = 4 := congrArg Prod.snd hf
  subst hv
  refine ⟨s', hr, ?_⟩
  rw [he]
  decide

/-- Witness of C11 (amended): the sample integrand with two hadronic legs at the flagged
point `(8/9, 1/2, 1/2)`. -/
theorem Eval_flag_after_witness :
    ∃ s', Eval (specEnv Real.exp Real.sqrt Real.rpow Real.cos Real.sin) sampleConstraintIntegrand
        sampleFlagPoint = some (0, s') ∧
      (s'.errorCode_ &&&
          (specEnv Real.exp Real.sqrt Real.rpow Real.cos Real.sin).TauDecayParameters ≠ 0 →
        (0 : ℝ) = 0 ∧
        s'.errorCode_ =
          ((sampleConstraintIntegrand : ClassicSVfitIntegrand ℝ).errorCode_ &&&
            ((sampleConstraintIntegrand : ClassicSVfitIntegrand ℝ).errorCode_ ^^^
              (specEnv Real.exp Real.sqrt Real.rpow Real.cos Real.sin).TauDecayParameters)) |||
            (specEnv Real.exp Real.sqrt Real.rpow Real.cos Real.sin).TauDecayParameters ∧
        ((s'.leg1isPrompt_ = false ∧ s'.fittedTauLepton1_.errorCode ≠
            (specEnv Real.exp Real.sqrt Real.rpow Real.cos Real.sin).FittedTauLepton_None) ∨
         (s'.leg2isPrompt_ = false ∧ s'.fittedTauLepton2_.errorCode ≠
            (specEnv Real.exp Real.sqrt Real.rpow Real.cos Real.sin).FittedTauLepton_None))) := by
  obtain ⟨r, hr, hf⟩ := Option.map_eq_some'.mp sampleFlag_Eval
  obtain ⟨v, s'⟩ := r
  have hv : v = 0 := congrArg Prod.fst hf
  subst hv
  exact ⟨s', hr,
    (Eval_flag_after (specEnv Real.exp Real.sqrt Real.rpow Real.cos Real.sin)
      sampleConstraintIntegrand s' sampleFlagPoint 0 sampleConstraint_noSetupError
      (Or.inl rfl) hr).1⟩

/-! ## Verbosity -/

/-- `rescaleX` does not read `verbosity_` and carries it along. -/
theorem rescaleX_setVerbosity (s : ClassicSVfitIntegrand K) (a : Int) (q : Nat → K) :
    rescaleX (setVerbosity s a) q = (rescaleX s q).map fun t => setVerbosity t a := by
  unfold rescaleX
  show (match rescaleXLoop q s.xMin_ s.xMax_ s.numDimensions_ 0 s.x_ with
    | some x => some { setVerbosity s a with x_ := x }
    | none => none) = _
  cases rescaleXLoop q s.xMin_ s.xMax_ s.numDimensions_ 0 s.x_ <;> rfl

/-- The product of lines 489-555 does not read `verbosity_`. -/
theorem EvalPS_prob_setVerbosity (env : Env K) (s : ClassicSVfitIntegrand K) (a : Int)
    (sh1 sh2 x2 : K) :
    EvalPS_prob env (setVerbosity s a) sh1 sh2 x2 = EvalPS_prob env s sh1 sh2 x2 := rfl

/-- The second-leg part of `EvalPS` does not read `verbosity_` and carries it along. -/
theorem EvalPS_leg2_setVerbosity (env : Env K) (s : ClassicSVfitIntegrand K) (a : Int)
    (sh1 sh2 x1d : K) :
    EvalPS_leg2 env (setVerbosity s a) sh1 sh2 x1d =
      (EvalPS_leg2 env s sh1 sh2 x1d).map fun r => (r.1, setVerbosity r.2 a) := by
  unfold EvalPS_leg2
  have h1 : x2_dash (setVerbosity s a) x1d = x2_dash s x1d := rfl
  rw [h1]
  cases x2_dash s x1d with
  | none => rfl
  | some x2d =>
    simp only
    by_cases hr : ¬ (x2d / sh2 ≥ lit1em5 ∧ x2d / sh2 ≤ 1)
    · rw [if_pos hr, if_pos hr]; rfl
    · rw [if_neg hr, if_neg hr]
      have h2 : (setVerbosity s a).leg2isPrompt_ = s.leg2isPrompt_ := rfl
      rw [h2]
      by_cases hp : s.leg2isPrompt_ = false
      · rw [if_pos hp, if_pos hp]
        have h3 : updateLeg env (setVerbosity s a).x_ (setVerbosity s a).legIntegrationParams_1
            (setVerbosity s a).fittedTauLepton2_ (x2d / sh2) =
            updateLeg env s.x_ s.legIntegrationParams_1 s.fittedTauLepton2_ (x2d / sh2) := rfl
        rw [h3]
        cases updateLeg env s.x_ s.legIntegrationParams_1 s.fittedTauLepton2_ (x2d / sh2) with
        | none => rfl
        | some leg2 =>
          simp only
          by_cases he : leg2.errorCode ≠ env.FittedTauLepton_None
          · rw [if_pos he, if_pos he]; rfl
          · rw [if_neg he, if_neg he]
            show (EvalPS_prob env (setVerbosity { s with fittedTauLepton2_ := leg2 } a) sh1 sh2
              (x2d / sh2)).map _ = _
            rw [EvalPS_prob_setVerbosity]
            cases EvalPS_prob env { s with fittedTauLepton2_ := leg2 } sh1 sh2 (x2d / sh2) <;> rfl
      · rw [if_neg hp, if_neg hp, EvalPS_prob_setVerbosity]
        cases EvalPS_prob env s sh1 sh2 (x2d / sh2) <;> rfl

/-- The first-leg part of `EvalPS` does not read `verbosity_` and carries it along. -/
theorem EvalPS_leg1_setVerbosity (env : Env K) (s : ClassicSVfitIntegrand K) (a : Int)
    (sh1 sh2 : K) :
    EvalPS_leg1 env (setVerbosity s a) sh1 sh2 =
      (EvalPS_leg1 env s sh1 sh2).map fun r => (r.1, setVerbosity r.2 a) := by
  unfold EvalPS_leg1
  have h1 : x1_dash (setVerbosity s a) = x1_dash s := rfl
  rw [h1]
  cases x1_dash s with
  | none => rfl
  | some x1d =>
    simp only
    by_cases hr : ¬ (x1d / sh1 ≥ lit1em5 ∧ x1d / sh1 ≤ 1)
    · rw [if_pos hr, if_pos hr]; rfl
    · rw [if_neg hr, if_neg hr]
      have h2 : (setVerbosity s a).leg1isPrompt_ = s.leg1isPrompt_ := rfl
      rw [h2]
      by_cases hp : s.leg1isPrompt_ = false
      · rw [if_pos hp, if_pos hp]
        have h3 : updateLeg env (setVerbosity s a).x_ (setVerbosity s a).legIntegrationParams_0
            (setVerbosity s a).fittedTauLepton1_ (x1d / sh1) =
            updateLeg env s.x_ s.legIntegrationParams_0 s.fittedTauLepton1_ (x1d / sh1) := rfl
        rw [h3]
        cases updateLeg env s.x_ s.legIntegrationParams_0 s.fittedTauLepton1_ (x1d / sh1) with
        | none => rfl
        | some leg1 =>
          simp only
          by_cases he : leg1.errorCode ≠ env.FittedTauLepton_None
          · rw [if_pos he, if_pos he]; rfl
          · rw [if_neg he, if_neg he]
            exact EvalPS_leg2_setVerbosity env { s with fittedTauLepton1_ := leg1 } a sh1 sh2 x1d
      · rw [if_neg hp, if_neg hp]
        exact EvalPS_leg2_setVerbosity env s a sh1 sh2 x1d

/-- `EvalPS` does not read `verbosity_` and carries it along. -/
theorem EvalPS_setVerbosity (env : Env K) (s : ClassicSVfitIntegrand K) (a : Int) :
    EvalPS env (setVerbosity s a) =
      (EvalPS env s).map fun r => (r.1, setVerbosity r.2 a) := by
  have hL : EvalPS env (setVerbosity s a) =
      (match visPtShift
          { s with errorCode_ := s.errorCode_ &&& (s.errorCode_ ^^^ env.TauDecayParameters) }
          s.legIntegrationParams_0 s.leg1isLeptonicTauDecay_,
        visPtShift
          { s with errorCode_ := s.errorCode_ &&& (s.errorCode_ ^^^ env.TauDecayParameters) }
          s.legIntegrationParams_1 s.leg2isLeptonicTauDecay_ with
      | some visPtShift1, some visPtShift2 =>
        if visPtShift1 < lit1em2 ∨ visPtShift2 < lit1em2 then
          some (0, setVerbosity
            { s with errorCode_ := s.errorCode_ &&& (s.errorCode_ ^^^ env.TauDecayParameters) } a)
        else
          EvalPS_leg1 env
            (setVerbosity
              { s with
                errorCode_ := s.errorCode_ &&& (s.errorCode_ ^^^ env.TauDecayParameters)
                fittedTauLepton1_ := env.updateVisMomentum s.fittedTauLepton1_ visPtShift1
                fittedTauLepton2_ := env.updateVisMomentum s.fittedTauLepton2_ visPtShift2 } a)
            visPtShift1 visPtShift2
      | _, _ => none) := rfl
  rw [hL]
  unfold EvalPS
  simp only
  cases visPtShift { s with errorCode_ := s.errorCode_ &&& (s.errorCode_ ^^^ env.TauDecayParameters) }
      s.legIntegrationParams_0 s.leg1isLeptonicTauDecay_ with
  | none => rfl
  | some sh1 =>
    cases visPtShift
        { s with errorCode_ := s.errorCode_ &&& (s.errorCode_ ^^^ env.TauDecayParameters) }
        s.legIntegrationParams_1 s.leg2isLeptonicTauDecay_ with
    | none => rfl
    | some sh2 =>
      simp only
      by_cases hsh : sh1 < lit1em2 ∨ sh2 < lit1em2
      · rw [if_pos hsh, if_pos hsh]; rfl
      · rw [if_neg hsh, if_neg hsh]
        exact EvalPS_leg1_setVerbosity env _ a sh1 sh2

/-- Lines 333-345 do not read `verbosity_` and carry it along. -/
theorem Eval_combine_setVerbosity (env : Env K) (s : ClassicSVfitIntegrand K) (a : Int) :
    Eval_combine env (setVerbosity s a) =
      (Eval_combine env s).map fun r => (r.1, setVerbosity r.2 a) := by
  have hL : Eval_combine env (setVerbosity s a) =
      (if s.probPS_ * s.probFlightLength_ < floor300 then some (0, setVerbosity s a)
      else
        match s.measuredEvent_.MEt[idxMeasuredMEt s]? with
        | none => none
        | some measuredMEt =>
          match EvalMEtTF env s measuredMEt with
          | none => none
          | some probMEtTF =>
            match s.histogramAdapter_ with
            | some adapter =>
              if s.probPS_ * s.probFlightLength_ * probMEtTF > floor300 then
                some (s.probPS_ * s.probFlightLength_ * probMEtTF,
                  setVerbosity
                    { s with
                      histogramAdapter_ :=
                        some (adapter.setFittedTauLeptons s.fittedTauLepton1_
                          s.fittedTauLepton2_) } a)
              else some (s.probPS_ * s.probFlightLength_ * probMEtTF, setVerbosity s a)
            | none => some (s.probPS_ * s.probFlightLength_ * probMEtTF, setVerbosity s a)) := rfl
  rw [hL]
  unfold Eval_combine
  by_cases hf : s.probPS_ * s.probFlightLength_ < floor300
  · rw [if_pos hf, if_pos hf]; rfl
  · rw [if_neg hf, if_neg hf]
    cases s.measuredEvent_.MEt[idxMeasuredMEt s]? with
    | none => rfl
    | some met =>
      simp only
      cases EvalMEtTF env s met with
      | none => rfl
      | some m =>
        simp only
        cases s.histogramAdapter_ with
        | none => rfl
        | some adapter =>
          simp only
          by_cases hg : s.probPS_ * s.probFlightLength_ * m > floor300
          · rw [if_pos hg, if_pos hg]; rfl
          · rw [if_neg hg, if_neg hg]; rfl

/-- `EvalFlightLength` does not read `verbosity_`. -/
theorem EvalFlightLength_setVerbosity (env : Env K) (s : ClassicSVfitIntegrand K) (a : Int) :
    EvalFlightLength env (setVerbosity s a) = EvalFlightLength env s := rfl

/-- `Eval` on a state with another verbosity returns the same value and the same state but
for `verbosity_`. -/
theorem Eval_setVerbosity_eq (env : Env K) (s : ClassicSVfitIntegrand K) (a : Int)
    (q : Nat → K) :
    Eval env (setVerbosity s a) q =
      (Eval env s q).map fun r => (r.1, setVerbosity r.2 a) := by
  unfold Eval
  have h0 : hasSetupError env (setVerbosity s a) ↔ hasSetupError env s := Iff.rfl
  by_cases hs : hasSetupError env s
  · rw [if_pos (h0.mpr hs), if_pos hs]; rfl
  · rw [if_neg (fun h => hs (h0.mp h)), if_neg hs, rescaleX_setVerbosity]
    cases rescaleX s q with
    | none => rfl
    | some s1 =>
      simp only [Option.map_some']
      have hc : ((setVerbosity s1 a).isCentral_ = true ∨ (setVerbosity s1 a).idxMEtSystematic_ = 0) ↔
          (s1.isCentral_ = true ∨ s1.idxMEtSystematic_ = 0) := Iff.rfl
      by_cases hcc : s1.isCentral_ = true ∨ s1.idxMEtSystematic_ = 0
      · rw [if_pos (hc.mpr hcc), if_pos hcc, EvalPS_setVerbosity]
        cases EvalPS env s1 with
        | none => rfl
        | some r =>
          obtain ⟨ps, s2⟩ := r
          simp only [Option.map_some']
          by_cases hf : s2.errorCode_ &&& env.TauDecayParameters ≠ 0
          · rw [if_pos (show (setVerbosity s2 a).errorCode_ &&& env.TauDecayParameters ≠ 0 from hf),
              if_pos hf]
            rfl
          · rw [if_neg (show ¬ (setVerbosity s2 a).errorCode_ &&& env.TauDecayParameters ≠ 0 from hf),
              if_neg hf]
            show (match EvalFlightLength env (setVerbosity { s2 with probPS_ := ps } a) with
              | none => none
              | some fl =>
                Eval_combine env
                  (setVerbosity { s2 with probPS_ := ps, probFlightLength_ := fl } a)) = _
            rw [EvalFlightLength_setVerbosity]
            cases EvalFlightLength env { s2 with probPS_ := ps } with
            | none => rfl
            | some fl =>
              simp only
              exact Eval_combine_setVerbosity env _ a
      · rw [if_neg (fun h => hcc (hc.mp h)), if_neg hcc]
        exact Eval_combine_setVerbosity env s1 a

/-- A loop of `rescaleX` that completes keeps the length of `x_`, and the indices it has
visited are inside `x_`. -/
theorem rescaleXLoop_length (q : Nat → K) (xMin xMax : List K) :
    ∀ (n i : Nat) (x x1 : List K), rescaleXLoop q xMin xMax n i x = some x1 →
      x1.length = x.length ∧ (n = 0 ∨ i + n ≤ x.length) := by
  intro n
  induction n with
  | zero =>
    intro i x x1 h
    simp only [rescaleXLoop, Option.some.injEq] at h
    subst h
    exact ⟨rfl, Or.inl rfl⟩
  | succ n ih =>
    intro i x x1 h
    unfold rescaleXLoop at h
    cases h1 : xMin[i]? with
    | none => simp [h1] at h
    | some lo =>
      cases h2 : xMax[i]? with
      | none => simp [h1, h2] at h
      | some hi =>
        simp only [h1, h2] at h
        by_cases hlt : i < x.length
        · rw [if_pos hlt] at h
          obtain ⟨hlen, hn⟩ := ih (i + 1) _ x1 h
          rw [List.length_set] at hlen hn
          refine ⟨hlen, Or.inr ?_⟩
          rcases hn with h0 | hle
          · omega
          · omega
        · rw [if_neg hlt] at h
          cases h

/-- Once `rescaleX` has returned, `x_` has at least `numDimensions_` entries. -/
theorem rescaleX_numDimensions {s s1 : ClassicSVfitIntegrand K} {q : Nat → K}
    (h : rescaleX s q = some s1) : s1.numDimensions_ ≤ s1.x_.length := by
  unfold rescaleX at h
  cases hl : rescaleXLoop q s.xMin_ s.xMax_ s.numDimensions_ 0 s.x_ with
  | none => simp [hl] at h
  | some x1 =>
    simp only [hl, Option.some.injEq] at h
    subst h
    obtain ⟨hlen, hn⟩ := rescaleXLoop_length q s.xMin_ s.xMax_ s.numDimensions_ 0 s.x_ x1 hl
    show s.numDimensions_ ≤ x1.length
    rcases hn with h0 | hle
    · omega
    · omega

/-! ## Binding an event -/

/-- C13 (the code at the failing input): bound to an event with a single measured lepton,
`setMeasurement` does not complete with the flag `LeptonNumber` set: after raising the flag at
line 194 it goes on to read `measuredTauLeptons[1]` (line 202), an element that the vector does
not have; bound to an event without leptons it reads `measuredTauLeptons[0]` (line 197). -/
theorem setMeasurement_missing_lepton :
    setMeasurement sampleEnvQ sampleSetupEnv (ClassicSVfitIntegrand.ctor blankIntegrand 0)
      (samplePromptEvent [⟨3, 0, 0, 3⟩]) = none ∧
    setMeasurement sampleEnvQ sampleSetupEnv (ClassicSVfitIntegrand.ctor blankIntegrand 0)
      (samplePromptEvent []) = none := by
  constructor <;> simp [setMeasurement, samplePromptEvent]

/-- What `Eval` may change: `x_`, the fitted legs, `errorCode_`, the cached probabilities and
the sink. -/
theorem Eval_frame {env : Env K} {s s' : ClassicSVfitIntegrand K} {q : Nat → K} {v : K}
    (h : Eval env s q = some (v, s')) :
    ∃ x l1 l2 e ps fl ha, s' =
      { s with
        x_ := x, fittedTauLepton1_ := l1, fittedTauLepton2_ := l2, errorCode_ := e
        probPS_ := ps, probFlightLength_ := fl, histogramAdapter_ := ha } := by
  rcases Eval_spec h with ⟨-, -, rfl⟩ | ⟨-, s1, hr, hcase⟩
  · exact ⟨_, _, _, _, _, _, _, rfl⟩
  · have hs1 := rescaleX_frame hr
    rcases hcase with ⟨-, ps, s2, hp, hcase2⟩ | ⟨-, hcomb⟩
    · obtain ⟨l1, l2, e, rfl⟩ := EvalPS_frame hp
      rcases hcase2 with ⟨-, -, rfl⟩ | ⟨-, fl, -, hcomb⟩
      · rw [hs1]
        exact ⟨_, _, _, _, _, _, _, rfl⟩
      · rcases Eval_combine_spec hcomb with ⟨-, -, rfl⟩ | ⟨-, met, m, -, -, -, rfl⟩
        · rw [hs1]
          exact ⟨_, _, _, _, _, _, _, rfl⟩
        · rw [hs1]
          exact ⟨_, _, _, _, _, _, _, rfl⟩
    · rcases Eval_combine_spec hcomb with ⟨-, -, rfl⟩ | ⟨-, met, m, -, -, -, rfl⟩
      · rw [hs1]
        exact ⟨_, _, _, _, _, _, _, rfl⟩
      · rw [hs1]
        exact ⟨_, _, _, _, _, _, _, rfl⟩

/-! ## Systematic variations of the MEt -/

/-- A bit of `e & x` is a bit of `e`. -/
theorem land_land_ne_zero {e x m : Nat} (h : (e &&& x) &&& m ≠ 0) : e &&& m ≠ 0 := by
  intro h0
  apply h
  rw [Nat.and_comm e x, Nat.and_assoc, h0, Nat.and_zero]

/-- A state whose error code is the cleared code of a state without setup-time error has no
setup-time error. -/
theorem hasSetupError_of_cleared {env : Env K} {s t : ClassicSVfitIntegrand K} {x : Nat}
    (he : t.errorCode_ = s.errorCode_ &&& x) (h : hasSetupError env t) : hasSetupError env s := by
  unfold hasSetupError at h ⊢
  rw [he] at h
  rcases h with h | h | h | h
  · exact Or.inl (land_land_ne_zero h)
  · exact Or.inr (Or.inl (land_land_ne_zero h))
  · exact Or.inr (Or.inr (Or.inl (land_land_ne_zero h)))
  · exact Or.inr (Or.inr (Or.inr (land_land_ne_zero h)))

/-- The state a central-mode `Eval` leaves: the value of `EvalPS` is cached in `probPS_`, and
either the sample was flagged (then `EvalPS` returned 0) or the value of `EvalFlightLength`
is cached in `probFlightLength_` and the error code is the cleared one. -/
theorem Eval_central_inv {env : Env K} {s s1 : ClassicSVfitIntegrand K} {q : Nat → K} {v : K}
    (hs : ¬ hasSetupError env s) (hc : s.isCentral_ = true ∨ s.idxMEtSystematic_ = 0)
    (h : Eval env s q = some (v, s1)) :
    ∃ sr ps s2, rescaleX s q = some sr ∧ EvalPS env sr = some (ps, s2) ∧ s1.probPS_ = ps ∧
      ((s2.errorCode_ &&& env.TauDecayParameters ≠ 0 ∧ v = 0 ∧ ps = 0) ∨
       (¬ s2.errorCode_ &&& env.TauDecayParameters ≠ 0 ∧
          s1.errorCode_ = s.errorCode_ &&& (s.errorCode_ ^^^ env.TauDecayParameters) ∧
          ∃ fl, EvalFlightLength env { s2 with probPS_ := ps } = some fl ∧
            s1.probFlightLength_ = fl ∧
            Eval_combine env { s2 with probPS_ := ps, probFlightLength_ := fl } =
              some (v, s1))) := by
  rcases Eval_spec h with ⟨hse, -, -⟩ | ⟨-, sr, hr, hcase⟩
  · exact absurd hse hs
  · have hsr := rescaleX_frame hr
    have hcr : sr.isCentral_ = true ∨ sr.idxMEtSystematic_ = 0 := by rw [hsr]; exact hc
    have her : sr.errorCode_ = s.errorCode_ := by rw [hsr]
    rcases hcase with ⟨-, ps, s2, hp, hcase2⟩ | ⟨hn, -⟩
    · have hfl := EvalPS_flag hp
      rw [her] at hfl
      refine ⟨sr, ps, s2, hr, hp, ?_, ?_⟩
      · rcases hcase2 with ⟨-, -, rfl⟩ | ⟨-, fl, -, hcomb⟩
        · rfl
        · rcases Eval_combine_spec hcomb with ⟨-, -, rfl⟩ | ⟨-, met, m, -, -, -, rfl⟩ <;> rfl
      · rcases hcase2 with ⟨hf, hv, -⟩ | ⟨hnf, fl, hfle, hcomb⟩
        · refine Or.inl ⟨hf, hv, ?_⟩
          rcases hfl with hcl | ⟨hp0, -, -⟩
          · rw [hcl, land_xor_land_self] at hf
            exact absurd rfl hf
          · exact hp0
        · refine Or.inr ⟨hnf, ?_, fl, hfle, ?_, hcomb⟩
          · have hcl : s2.errorCode_ =
                s.errorCode_ &&& (s.errorCode_ ^^^ env.TauDecayParameters) := by
              rcases hfl with hcl | ⟨-, hraised, -⟩
              · exact hcl
              · have hT : env.TauDecayParameters = 0 := by
                  have h0 := not_not.mp hnf
                  rw [hraised, lor_land_self] at h0
                  exact h0
                have h1 : ∀ m : Nat, m = 0 →
                    (s.errorCode_ &&& (s.errorCode_ ^^^ m)) ||| m =
                      s.errorCode_ &&& (s.errorCode_ ^^^ m) := by
                  intro m hm
                  subst hm
                  exact Nat.or_zero _
                rw [hraised]
                exact h1 _ hT
            rcases Eval_combine_spec hcomb with ⟨-, -, rfl⟩ | ⟨-, met, m, -, -, -, rfl⟩ <;>
              exact hcl
          · rcases Eval_combine_spec hcomb with ⟨-, -, rfl⟩ | ⟨-, met, m, -, -, -, rfl⟩ <;> rfl
    · exact absurd hcr hn

/-- The index of the MEt alternative: 0 after `setCentral`, `k + 1` after
`setMEtSystematic(k)` unless `k + 1` overflows an `unsigned int`. -/
theorem idxMeasuredMEt_mode (s : ClassicSVfitIntegrand K) (k : Nat) :
    idxMeasuredMEt (setCentral s) = 0 ∧
    (k + 1 < 2 ^ 32 → idxMeasuredMEt (setMEtSystematic s k) = k + 1) := by
  constructor
  · rfl
  · intro hk
    show (if false = true then 0 else (k % 2 ^ 32 + 1) % 2 ^ 32) = k + 1
    rw [if_neg (by decide), Nat.mod_eq_of_lt (show k < 2 ^ 32 by omega), Nat.mod_eq_of_lt hk]

/-- A systematic evaluation (`k >= 1`) right after a central one: the fitted legs and the
cached probabilities are those the central call left, and the value is 0 or the cached product
times the MEt term of alternative `k + 1`. -/
theorem Eval_systematic_cached {env : Env K} {s s1 t1 : ClassicSVfitIntegrand K} {q : Nat → K}
    {v w : K} {k : Nat} (hs : ¬ hasSetupError env s) (hc : s.isCentral_ = true)
    (h1 : Eval env s q = some (v, s1)) (hk : 1 ≤ k) (hk2 : k + 1 < 2 ^ 32)
    (h2 : Eval env (setMEtSystematic s1 k) q = some (w, t1)) :
    ∃ sr ps s2, rescaleX s q = some sr ∧ EvalPS env sr = some (ps, s2) ∧
      t1.fittedTauLepton1_ = s1.fittedTauLepton1_ ∧
      t1.fittedTauLepton2_ = s1.fittedTauLepton2_ ∧
      t1.probPS_ = s1.probPS_ ∧ t1.probFlightLength_ = s1.probFlightLength_ ∧
      ((s2.errorCode_ &&& env.TauDecayParameters ≠ 0 ∧ w = 0) ∨
       (¬ s2.errorCode_ &&& env.TauDecayParameters ≠ 0 ∧ ∃ fl,
          EvalFlightLength env { s2 with probPS_ := ps } = some fl ∧
          ((ps * fl < floor300 ∧ w = 0) ∨
           (¬ ps * fl < floor300 ∧ ∃ tr met m,
              rescaleX (setMEtSystematic s1 k) q = some tr ∧
              s.measuredEvent_.MEt[k + 1]? = some met ∧ EvalMEtTF env tr met = some m ∧
              w = ps * fl * m)))) := by
  obtain ⟨sr, ps, s2, hr, hp, hps, hcase⟩ := Eval_central_inv hs (Or.inl hc) h1
  obtain ⟨x, l1, l2, e, p0, f0, ha, hfr⟩ := Eval_frame h1
  have hmev : s1.measuredEvent_ = s.measuredEvent_ := by rw [hfr]
  have hmode : ¬ ((setMEtSystematic s1 k).isCentral_ = true ∨
      (setMEtSystematic s1 k).idxMEtSystematic_ = 0) := by
    show ¬ (false = true ∨ k % 2 ^ 32 = 0)
    rw [Nat.mod_eq_of_lt (by omega)]
    intro h
    rcases h with h | h
    · cases h
    · omega
  -- the second call
  have hsecond : (hasSetupError env (setMEtSystematic s1 k) ∧ w = 0 ∧
        t1 = setMEtSystematic s1 k) ∨
      ∃ tr, rescaleX (setMEtSystematic s1 k) q = some tr ∧ Eval_combine env tr = some (w, t1) := by
    rcases Eval_spec h2 with ⟨hse, hw, ht⟩ | ⟨-, tr, htr, hcase2⟩
    · exact Or.inl ⟨hse, hw, ht⟩
    · rcases hcase2 with ⟨hm, -⟩ | ⟨-, hcomb⟩
      · have htf := rescaleX_frame htr
        rw [htf] at hm
        exact absurd hm hmode
      · exact Or.inr ⟨tr, htr, hcomb⟩
  have hframe2 : t1.fittedTauLepton1_ = s1.fittedTauLepton1_ ∧
      t1.fittedTauLepton2_ = s1.fittedTauLepton2_ ∧
      t1.probPS_ = s1.probPS_ ∧ t1.probFlightLength_ = s1.probFlightLength_ := by
    rcases hsecond with ⟨-, -, rfl⟩ | ⟨tr, htr, hcomb⟩
    · exact ⟨rfl, rfl, rfl, rfl⟩
    · have htf := rescaleX_frame htr
      rcases Eval_combine_spec hcomb with ⟨-, -, rfl⟩ | ⟨-, met, m, -, -, -, rfl⟩ <;>
        (rw [htf]; exact ⟨rfl, rfl, rfl, rfl⟩)
  obtain ⟨f1, f2, f3, f4⟩ := hframe2
  refine ⟨sr, ps, s2, hr, hp, f1, f2, f3, f4, ?_⟩
  rcases hcase with ⟨hf, -, hps0⟩ | ⟨hnf, hcl, fl, hfle, hfl1, -⟩
  · refine Or.inl ⟨hf, ?_⟩
    rcases hsecond with ⟨-, hw, -⟩ | ⟨tr, htr, hcomb⟩
    · exact hw
    · have htf := rescaleX_frame htr
      have hpr : tr.probPS_ = 0 := by rw [htf]; show s1.probPS_ = 0; rw [hps, hps0]
      rcases Eval_combine_spec hcomb with ⟨-, hw, -⟩ | ⟨hnfl, -⟩
      · exact hw
      · exfalso
        apply hnfl
        rw [hpr, zero_mul]
        exact floor300_pos
  · refine Or.inr ⟨hnf, fl, hfle, ?_⟩
    have hns1 : ¬ hasSetupError env (setMEtSystematic s1 k) := by
      intro hse
      exact hs (hasSetupError_of_cleared (t := setMEtSystematic s1 k) hcl hse)
    rcases hsecond with ⟨hse, -, -⟩ | ⟨tr, htr, hcomb⟩
    · exact absurd hse hns1
    · have htf := rescaleX_frame htr
      have hpr : tr.probPS_ = ps := by rw [htf]; exact hps
      have hfr2 : tr.probFlightLength_ = fl := by rw [htf]; exact hfl1
      have hidx : idxMeasuredMEt tr = k + 1 := by
        rw [htf]
        exact (idxMeasuredMEt_mode s1 k).2 hk2
      have hme : tr.measuredEvent_ = s.measuredEvent_ := by rw [htf]; exact hmev
      rcases Eval_combine_spec hcomb with ⟨hfloor, hw, -⟩ | ⟨hnfl, met, m, hmet, hm, hw, -⟩
      · rw [hpr, hfr2] at hfloor
        exact Or.inl ⟨hfloor, hw⟩
      · rw [hpr, hfr2] at hnfl hw
        rw [hidx, hme] at hmet
        exact Or.inr ⟨hnfl, tr, met, m, htr, hmet, hm, hw⟩

/-- With the flight length disabled `EvalFlightLength` returns 1 (line 561). -/
theorem EvalFlightLength_disabled (env : Env K) (s : ClassicSVfitIntegrand K)
    (h : s.useTauFlightLength_ = false) : EvalFlightLength env s = some 1 := by
  unfold EvalFlightLength
  rw [if_pos h]

/-- In systematic mode with `idxMEtSystematic_ != 0`, `Eval` goes from `rescaleX` straight to
the test of line 333. -/
theorem Eval_systematic_eq {env : Env K} {t tr : ClassicSVfitIntegrand K} {q : Nat → K}
    (hns : ¬ hasSetupError env t) (hm : ¬ (t.isCentral_ = true ∨ t.idxMEtSystematic_ = 0))
    (hr : rescaleX t q = some tr) : Eval env t q = Eval_combine env tr := by
  have htf := rescaleX_frame hr
  have hm1 : ¬ (tr.isCentral_ = true ∨ tr.idxMEtSystematic_ = 0) := by rw [htf]; exact hm
  unfold Eval
  rw [if_neg hns, hr]
  simp only
  rw [if_neg hm1]

/-- In systematic mode with `idxMEtSystematic_ != 0`, `Eval` returns when the ranges and `x_`
cover the dimensions, the hadronic-response correction is off and the MEt alternative exists
and is of a known collision type. -/
theorem Eval_systematic_isSome (env : Env K) (t : ClassicSVfitIntegrand K) (q : Nat → K)
    (hns : ¬ hasSetupError env t) (hm : ¬ (t.isCentral_ = true ∨ t.idxMEtSystematic_ = 0))
    (hcov : t.numDimensions_ ≤ t.xMin_.length ∧ t.numDimensions_ ≤ t.xMax_.length ∧
      t.numDimensions_ ≤ t.x_.length)
    (hrho : t.rhoHadTau_ = 0)
    (hmet : ∃ met, t.measuredEvent_.MEt[idxMeasuredMEt t]? = some met ∧
      met.type ≠ CollisionType.other) :
    ∃ w t1, Eval env t q = some (w, t1) := by
  obtain ⟨x1, hr, hlen⟩ := rescaleX_isSome t q hcov
  rw [Eval_systematic_eq hns hm hr]
  obtain ⟨r, hr2⟩ := Eval_combine_isSome env { t with x_ := x1 }
    (by show t.numDimensions_ ≤ x1.length; rw [hlen]; exact hcov.2.2)
    (fun h => absurd hrho h) (fun h => absurd hrho h) hmet
  exact ⟨r.1, r.2, hr2⟩

/-- C14 (amended): central mode (`setCentral`) evaluates the MEt term on alternative 0 and
`setMEtSystematic(k)`, for `k + 1` within `unsigned int`, on alternative `k + 1`.  For a
systematic evaluation made at the same sample point right after a central evaluation on a state
without setup-time error: when `k >= 1`, `Eval` runs neither `EvalPS` nor `EvalFlightLength`
(the fitted legs and the cached probabilities are those the central call left) and it returns 0
when the central call flagged the sample or when (phase-space term of the central call) *
(flight-length term of the central call) is below `1.e-300`, and otherwise that product times
`EvalMEtTF` of alternative `k + 1`; when `k = 0`, `Eval` takes the central path of line 327 and
evaluates `EvalPS` again. -/
theorem Eval_systematic (env : Env K) (s s1 t1 : ClassicSVfitIntegrand K) (q : Nat → K)
    (v w : K) (k : Nat) (hs : ¬ hasSetupError env s) (hc : s.isCentral_ = true)
    (h1 : Eval env s q = some (v, s1)) (hk2 : k + 1 < 2 ^ 32)
    (h2 : Eval env (setMEtSystematic s1 k) q = some (w, t1)) :
    idxMeasuredMEt (setCentral s) = 0 ∧ idxMeasuredMEt (setMEtSystematic s1 k) = k + 1 ∧
    (1 ≤ k →
      ∃ sr ps s2, rescaleX s q = some sr ∧ EvalPS env sr = some (ps, s2) ∧
        t1.fittedTauLepton1_ = s1.fittedTauLepton1_ ∧
        t1.fittedTauLepton2_ = s1.fittedTauLepton2_ ∧
        t1.probPS_ = s1.probPS_ ∧ t1.probFlightLength_ = s1.probFlightLength_ ∧
        ((s2.errorCode_ &&& env.TauDecayParameters ≠ 0 ∧ w = 0) ∨
         (¬ s2.errorCode_ &&& env.TauDecayParameters ≠ 0 ∧ ∃ fl,
            EvalFlightLength env { s2 with probPS_ := ps } = some fl ∧
            ((ps * fl < floor300 ∧ w = 0) ∨
             (¬ ps * fl < floor300 ∧ ∃ tr met m,
                rescaleX (setMEtSystematic s1 k) q = some tr ∧
                s.measuredEvent_.MEt[k + 1]? = some met ∧ EvalMEtTF env tr met = some m ∧
                w = ps * fl * m))))) ∧
    (k = 0 → ¬ hasSetupError env (setMEtSystematic s1 k) →
      ∃ tr ps1 s3, rescaleX (setMEtSystematic s1 k) q = some tr ∧
        EvalPS env tr = some (ps1, s3)) := by
  refine ⟨(idxMeasuredMEt_mode s k).1, (idxMeasuredMEt_mode s1 k).2 hk2, ?_, ?_⟩
  · intro hk
    exact Eval_systematic_cached hs hc h1 hk hk2 h2
  · intro hk hns
    rcases Eval_spec h2 with ⟨hse, -, -⟩ | ⟨-, tr, htr, hcase⟩
    · exact absurd hse hns
    · rcases hcase with ⟨-, ps1, s3, hp, -⟩ | ⟨hm, -⟩
      · exact ⟨tr, ps1, s3, htr, hp⟩
      · exfalso
        apply hm
        have htf := rescaleX_frame htr
        rw [htf]
        right
        show k % 2 ^ 32 = 0
        rw [hk, Nat.zero_mod]

/-- The floor sample with three MEt alternatives has no setup-time error. -/
theorem sampleSystFloor_noSetupError :
    ¬ hasSetupError (sampleEnv Real.exp Real.sqrt Real.rpow)
      (sampleSystFloorIntegrand : ClassicSVfitIntegrand ℝ) := by
  norm_num [hasSetupError, sampleSystFloorIntegrand, sampleSystIntegrand,
    enableDiTauMassConstraint, samplePromptIntegrand, disableDiTauMassConstraint,
    ClassicSVfitIntegrand.ctor, sampleEnv]

/-- On the floor sample `rescaleX` has nothing to rescale. -/
theorem sampleSystFloor_rescaleX (q : Nat → ℝ) :
    rescaleX (sampleSystFloorIntegrand : ClassicSVfitIntegrand ℝ) q =
      some sampleSystFloorIntegrand := rfl

/-- On the floor sample `EvalPS` returns `1e-301` and raises no flag. -/
theorem sampleSystFloor_EvalPS :
    (EvalPS (sampleEnv Real.exp Real.sqrt Real.rpow)
      (sampleSystFloorIntegrand : ClassicSVfitIntegrand ℝ)).map
        (fun r => (r.1, r.2.errorCode_)) = some (1 / 10 ^ 301, 0) := by
  norm_num [sampleSystFloorIntegrand, sampleSystIntegrand, enableDiTauMassConstraint,
    samplePromptIntegrand, sampleEnv, ClassicSVfitIntegrand.ctor, disableDiTauMassConstraint,
    blankIntegrand, EvalPS, visPtShift, EvalPS_leg1, EvalPS_leg2, x1_dash, x2_dash, lit1em2,
    lit1em5, EvalPS_prob, legDecayProb, legProbTF, sampleFitted, samplePromptLepton,
    LorentzVector.zero, LorentzVector.scale]

/-- On the floor sample the central `Eval` returns 0. -/
theorem sampleSystFloor_Eval :
    ∃ s1, Eval (sampleEnv Real.exp Real.sqrt Real.rpow)
      (sampleSystFloorIntegrand : ClassicSVfitIntegrand ℝ) (fun _ => 1 / 2) = some (0, s1) := by
  apply exists_of_map_fst
  norm_num [Eval, hasSetupError, rescaleX, rescaleXLoop, floor300, EvalFlightLength, Eval_combine,
    sampleSystFloorIntegrand, sampleSystIntegrand, enableDiTauMassConstraint,
    samplePromptIntegrand, sampleEnv, ClassicSVfitIntegrand.ctor, disableDiTauMassConstraint,
    blankIntegrand, EvalPS, visPtShift, EvalPS_leg1, EvalPS_leg2, x1_dash, x2_dash, lit1em2,
    lit1em5, EvalPS_prob, legDecayProb, legProbTF, sampleFitted, samplePromptLepton,
    LorentzVector.zero]

/-- Counterexample to C14 as stated: two prompt leptons, three MEt alternatives, mass
constraint `2e301`.  The central call has the phase-space term `1e-301` and the flight-length
term 1; the systematic call with `k = 1` at the same point returns 0 (the cached product is
below the floor `1.e-300`), whereas (phase-space term) * (flight-length term) *
`EvalMEtTF`(alternative 2) is not 0. -/
theorem Eval_systematic_counterexample :
    ∃ s1 w t1 sr ps s2 fl tr met m,
      Eval (sampleEnv Real.exp Real.sqrt Real.rpow)
        (sampleSystFloorIntegrand : ClassicSVfitIntegrand ℝ) (fun _ => 1 / 2) = some (0, s1) ∧
      Eval (sampleEnv Real.exp Real.sqrt Real.rpow) (setMEtSystematic s1 1) (fun _ => 1 / 2) =
        some (w, t1) ∧
      rescaleX (sampleSystFloorIntegrand : ClassicSVfitIntegrand ℝ) (fun _ => 1 / 2) = some sr ∧
      EvalPS (sampleEnv Real.exp Real.sqrt Real.rpow) sr = some (ps, s2) ∧
      EvalFlightLength (sampleEnv Real.exp Real.sqrt Real.rpow) { s2 with probPS_ := ps } =
        some fl ∧
      rescaleX (setMEtSystematic s1 1) (fun _ => 1 / 2) = some tr ∧
      (sampleSystFloorIntegrand : ClassicSVfitIntegrand ℝ).measuredEvent_.MEt[1 + 1]? =
        some met ∧
      EvalMEtTF (sampleEnv Real.exp Real.sqrt Real.rpow) tr met = some m ∧
      w ≠ ps * fl * m := by
  obtain ⟨s1, h1⟩ := sampleSystFloor_Eval
  obtain ⟨sr, ps, s2, hr, hp, hps, hcase⟩ :=
    Eval_central_inv sampleSystFloor_noSetupError (Or.inl rfl) h1
  -- the phase-space term of the central call
  rw [sampleSystFloor_rescaleX] at hr
  cases hr
  have hE := sampleSystFloor_EvalPS
  rw [hp] at hE
  simp only [Option.map_some', Option.some.injEq, Prod.mk.injEq] at hE
  obtain ⟨hpsv, he2⟩ := hE
  have hnf : ¬ s2.errorCode_ &&& (sampleEnv Real.exp Real.sqrt Real.rpow).TauDecayParameters ≠ 0 := by
    rw [he2]
    decide
  rcases hcase with ⟨hf, -⟩ | ⟨-, hcl, fl, hfle, hfl1, -⟩
  · exact absurd hf hnf
  · obtain ⟨x, l1, l2, e, p0, f0, ha, hfr⟩ := Eval_frame h1
    -- the flight-length term of the central call
    have hfl : fl = 1 := by
      obtain ⟨l1', l2', e', hs2⟩ := EvalPS_frame hp
      have h0 := EvalFlightLength_disabled (sampleEnv Real.exp Real.sqrt Real.rpow)
        { s2 with probPS_ := ps } (by rw [hs2]; rfl)
      rw [hfle] at h0
      exact Option.some.inj h0
    -- the systematic call returns
    have hns1 : ¬ hasSetupError (sampleEnv Real.exp Real.sqrt Real.rpow)
        (setMEtSystematic s1 1) := fun hse =>
      sampleSystFloor_noSetupError (hasSetupError_of_cleared (t := setMEtSystematic s1 1) hcl hse)
    have hmode : ¬ ((setMEtSystematic s1 1).isCentral_ = true ∨
        (setMEtSystematic s1 1).idxMEtSystematic_ = 0) := by
      show ¬ (false = true ∨ 1 % 2 ^ 32 = 0)
      decide
    obtain ⟨tr0, htr0, hlen0⟩ := rescaleX_isSome (setMEtSystematic s1 1) (fun _ => (1 / 2 : ℝ))
      (by rw [hfr]; exact ⟨Nat.zero_le _, Nat.zero_le _, Nat.zero_le _⟩)
    obtain ⟨w, t1, h2⟩ := Eval_systematic_isSome (sampleEnv Real.exp Real.sqrt Real.rpow)
      (setMEtSystematic s1 1) (fun _ => (1 / 2 : ℝ)) hns1 hmode
      (by rw [hfr]; exact ⟨Nat.zero_le _, Nat.zero_le _, Nat.zero_le _⟩)
      (by rw [hfr]; rfl)
      ⟨sampleMEt 0 0, by rw [hfr]; rfl, by simp [sampleMEt]⟩
    -- the MEt term of alternative 2
    obtain ⟨m, hm⟩ := EvalMEtTF_isSome (sampleEnv Real.exp Real.sqrt Real.rpow)
      { setMEtSystematic s1 1 with x_ := tr0 } (sampleMEt 0 0)
      (by rw [hfr]; exact Nat.zero_le _)
      (fun h => absurd (show (setMEtSystematic s1 1).rhoHadTau_ = 0 by rw [hfr]; rfl) h)
      (fun h => absurd (show (setMEtSystematic s1 1).rhoHadTau_ = 0 by rw [hfr]; rfl) h)
      (by simp [sampleMEt])
    have hm0 : m ≠ 0 := by
      obtain ⟨pull2, hpull⟩ := EvalMEtTF_form hm
      rw [hpull]
      show (1 : ℝ) * Real.exp (-(1 / 2) * pull2) ≠ 0
      rw [one_mul]
      exact (Real.exp_pos _).ne'
    -- the value of the systematic call
    have hw : w = 0 := by
      obtain ⟨sr', ps', s2', hr', hp', -, -, -, -, hcase'⟩ :=
        Eval_systematic_cached sampleSystFloor_noSetupError rfl h1 (le_refl 1) (by norm_num) h2
      rw [sampleSystFloor_rescaleX] at hr'
      cases hr'
      rw [hp] at hp'
      cases hp'
      rcases hcase' with ⟨-, hw⟩ | ⟨-, fl', hfle', hcase''⟩
      · exact hw
      · rw [hfle] at hfle'
        cases hfle'
        rcases hcase'' with ⟨-, hw⟩ | ⟨hnfloor, -⟩
        · exact hw
        · exfalso
          apply hnfloor
          rw [hpsv, hfl]
          norm_num [floor300]
    refine ⟨s1, w, t1, _, ps, s2, fl, _, sampleMEt 0 0, m, h1, h2, sampleSystFloor_rescaleX _,
      hp, hfle, htr0, rfl, hm, ?_⟩
    rw [hw, hpsv, hfl]
    intro h0
    have h3 : (1 / 10 ^ 301 : ℝ) * 1 * m ≠ 0 := by
      apply mul_ne_zero _ hm0
      norm_num
    exact h3 h0.symm

/-- The sample with three MEt alternatives has no setup-time error. -/
theorem sampleSyst_noSetupError :
    ¬ hasSetupError (sampleEnv Real.exp Real.sqrt Real.rpow)
      (sampleSystIntegrand : ClassicSVfitIntegrand ℝ) := by
  norm_num [hasSetupError, sampleSystIntegrand,
    samplePromptIntegrand, disableDiTauMassConstraint,
    ClassicSVfitIntegrand.ctor, sampleEnv]

/-- On the sample with three MEt alternatives the central `Eval` returns 1 and raises no
flag. -/
theorem sampleSyst_Eval :
    (Eval (sampleEnv Real.exp Real.sqrt Real.rpow)
      (sampleSystIntegrand : ClassicSVfitIntegrand ℝ) (fun _ => 1 / 2)).map
        (fun r => (r.1, r.2.errorCode_)) = some (1, 0) := by
  norm_num [Eval, hasSetupError, rescaleX, rescaleXLoop, floor300, EvalFlightLength, Eval_combine,
    sampleSystIntegrand, idxMeasuredMEt, EvalMEtTF, EvalMEtTF_residual, sampleMEt,
    samplePromptIntegrand, sampleEnv, ClassicSVfitIntegrand.ctor, disableDiTauMassConstraint,
    blankIntegrand, EvalPS, visPtShift, EvalPS_leg1, EvalPS_leg2, x1_dash, x2_dash, lit1em2,
    lit1em5, EvalPS_prob, legDecayProb, legProbTF, sampleFitted, samplePromptLepton,
    LorentzVector.zero]

/-- Witness of C14 (amended): two prompt leptons with three MEt alternatives, a central
evaluation (value 1) followed by the systematic evaluation with `k = 1`. -/
theorem Eval_systematic_witness :
    ∃ s1 w t1,
      Eval (sampleEnv Real.exp Real.sqrt Real.rpow)
        (sampleSystIntegrand : ClassicSVfitIntegrand ℝ) (fun _ => 1 / 2) = some (1, s1) ∧
      Eval (sampleEnv Real.exp Real.sqrt Real.rpow) (setMEtSystematic s1 1) (fun _ => 1 / 2) =
        some (w, t1) ∧
      idxMeasuredMEt (setMEtSystematic s1 1) = 1 + 1 ∧
      t1.probPS_ = s1.probPS_ ∧ t1.probFlightLength_ = s1.probFlightLength_ := by
  obtain ⟨r, h1, hf⟩ := Option.map_eq_some'.mp sampleSyst_Eval
  obtain ⟨v, s1⟩ := r
  have hv : v = 1 := congrArg Prod.fst hf
  have he : s1.errorCode_ = 0 := congrArg Prod.snd hf
  subst hv
  obtain ⟨x, l1, l2, e, p0, f0, ha, hfr⟩ := Eval_frame h1
  have hns1 : ¬ hasSetupError (sampleEnv Real.exp Real.sqrt Real.rpow)
      (setMEtSystematic s1 1) := by
    unfold hasSetupError
    show ¬ (s1.errorCode_ &&& _ ≠ 0 ∨ s1.errorCode_ &&& _ ≠ 0 ∨ s1.errorCode_ &&& _ ≠ 0 ∨
      s1.errorCode_ &&& _ ≠ 0)
    rw [he]
    simp
  have hmode : ¬ ((setMEtSystematic s1 1).isCentral_ = true ∨
      (setMEtSystematic s1 1).idxMEtSystematic_ = 0) := by
    show ¬ (false = true ∨ 1 % 2 ^ 32 = 0)
    decide
  obtain ⟨w, t1, h2⟩ := Eval_systematic_isSome (sampleEnv Real.exp Real.sqrt Real.rpow)
    (setMEtSystematic s1 1) (fun _ => (1 / 2 : ℝ)) hns1 hmode
    (by rw [hfr]; exact ⟨Nat.zero_le _, Nat.zero_le _, Nat.zero_le _⟩)
    (by rw [hfr]; rfl)
    ⟨sampleMEt 0 0, by rw [hfr]; rfl, by simp [sampleMEt]⟩
  have h := Eval_systematic (sampleEnv Real.exp Real.sqrt Real.rpow) sampleSystIntegrand s1 t1
    (fun _ => 1 / 2) 1 w 1 sampleSyst_noSetupError rfl h1 (by norm_num) h2
  obtain ⟨-, hidx, hcached, -⟩ := h
  obtain ⟨sr, ps, s2, -, -, -, -, hp1, hp2, -⟩ := hcached (le_refl 1)
  exact ⟨s1, w, t1, h1, h2, hidx, hp1, hp2⟩

/-! ## The flight-length term when it is disabled -/

/-- C15 (amended): `EvalFlightLength` returns exactly 1 whenever the flight length is
disabled (`useTauFlightLength_` false: the constructed default, the state after
`disableTauFlightLength`, and any such state, whatever the legs and `x_`).  A central-mode
`Eval` on such a state without setup-time error then caches `probFlightLength_ = 1` and, unless
the sample is flagged, returns `probPS * probMEtTF` when `probPS >= 1.e-300` and 0 when `probPS`
is below `1.e-300`. -/
theorem EvalFlightLength_disabled_Eval (env : Env K) (u s s' : ClassicSVfitIntegrand K)
    (verbosity : Int) (q : Nat → K) (v : K) (hs : ¬ hasSetupError env s)
    (hc : s.isCentral_ = true) (hfl : s.useTauFlightLength_ = false)
    (h : Eval env s q = some (v, s')) :
    EvalFlightLength env (ClassicSVfitIntegrand.ctor u verbosity) = some 1 ∧
    EvalFlightLength env (disableTauFlightLength u) = some 1 ∧
    EvalFlightLength env s = some 1 ∧
    ∃ sr ps s2, rescaleX s q = some sr ∧ EvalPS env sr = some (ps, s2) ∧
      ((s2.errorCode_ &&& env.TauDecayParameters ≠ 0 ∧ v = 0) ∨
       (¬ s2.errorCode_ &&& env.TauDecayParameters ≠ 0 ∧
          EvalFlightLength env { s2 with probPS_ := ps } = some 1 ∧
          s'.probFlightLength_ = 1 ∧
          ((ps < floor300 ∧ v = 0) ∨
           (¬ ps < floor300 ∧ ∃ met m, s.measuredEvent_.MEt[0]? = some met ∧
              EvalMEtTF env { s2 with probPS_ := ps, probFlightLength_ := 1 } met = some m ∧
              v = ps * m)))) := by
  refine ⟨EvalFlightLength_disabled env _ rfl, EvalFlightLength_disabled env _ rfl,
    EvalFlightLength_disabled env s hfl, ?_⟩
  obtain ⟨sr, ps, s2, hr, hp, -, hcase⟩ := Eval_central_inv hs (Or.inl hc) h
  refine ⟨sr, ps, s2, hr, hp, ?_⟩
  rcases hcase with ⟨hf, hv, -⟩ | ⟨hnf, -, fl, hfle, hfl1, hcomb⟩
  · exact Or.inl ⟨hf, hv⟩
  · have hsr := rescaleX_frame hr
    obtain ⟨l1, l2, e, hs2⟩ := EvalPS_frame hp
    have h0 := EvalFlightLength_disabled env { s2 with probPS_ := ps }
      (by rw [hs2, hsr]; exact hfl)
    have hfl' : fl = 1 := by
      rw [hfle] at h0
      exact Option.some.inj h0
    subst hfl'
    refine Or.inr ⟨hnf, h0, hfl1, ?_⟩
    have hcen : ({ s2 with probPS_ := ps, probFlightLength_ := (1 : K) } :
        ClassicSVfitIntegrand K).isCentral_ = true := by
      rw [hs2, hsr]; exact hc
    have hmev : ({ s2 with probPS_ := ps, probFlightLength_ := (1 : K) } :
        ClassicSVfitIntegrand K).measuredEvent_ = s.measuredEvent_ := by
      rw [hs2, hsr]
    rcases Eval_combine_spec hcomb with ⟨hfloor, hv, -⟩ | ⟨hnfloor, met, m, hmet, hm, hv, -⟩
    · refine Or.inl ⟨?_, hv⟩
      have : ps * 1 < floor300 := hfloor
      rwa [mul_one] at this
    · refine Or.inr ⟨?_, met, m, ?_, hm, ?_⟩
      · intro hlt
        apply hnfloor
        show ps * 1 < floor300
        rwa [mul_one]
      · have hidx : idxMeasuredMEt ({ s2 with probPS_ := ps, probFlightLength_ := (1 : K) } :
            ClassicSVfitIntegrand K) = 0 := by
          unfold idxMeasuredMEt
          rw [if_pos hcen]
        rw [hidx, hmev] at hmet
        exact hmet
      · have : v = ps * 1 * m := hv
        rwa [mul_one] at this

/-- Counterexample to C15 as stated: two prompt leptons, mass constraint `2e301`, flight
length disabled.  `EvalFlightLength` returns 1 and `EvalPS` returns `1e-301`; `Eval` returns 0,
whereas `probPS * probMEtTF` is not 0. -/
theorem EvalFlightLength_disabled_Eval_counterexample :
    ∃ s' ps s2 met m,
      (sampleSystFloorIntegrand : ClassicSVfitIntegrand ℝ).useTauFlightLength_ = false ∧
      Eval (sampleEnv Real.exp Real.sqrt Real.rpow)
        (sampleSystFloorIntegrand : ClassicSVfitIntegrand ℝ) (fun _ => 1 / 2) = some (0, s') ∧
      rescaleX (sampleSystFloorIntegrand : ClassicSVfitIntegrand ℝ) (fun _ => 1 / 2) =
        some sampleSystFloorIntegrand ∧
      EvalPS (sampleEnv Real.exp Real.sqrt Real.rpow) sampleSystFloorIntegrand = some (ps, s2) ∧
      EvalFlightLength (sampleEnv Real.exp Real.sqrt Real.rpow) { s2 with probPS_ := ps } =
        some 1 ∧
      (sampleSystFloorIntegrand : ClassicSVfitIntegrand ℝ).measuredEvent_.MEt[0]? = some met ∧
      EvalMEtTF (sampleEnv Real.exp Real.sqrt Real.rpow)
        { s2 with probPS_ := ps, probFlightLength_ := 1 } met = some m ∧
      (0 : ℝ) ≠ ps * m := by
  obtain ⟨s1, h1⟩ := sampleSystFloor_Eval
  obtain ⟨sr, ps, s2, hr, hp, -, -⟩ :=
    Eval_central_inv sampleSystFloor_noSetupError (Or.inl rfl) h1
  rw [sampleSystFloor_rescaleX] at hr
  cases hr
  have hE := sampleSystFloor_EvalPS
  rw [hp] at hE
  simp only [Option.map_some', Option.some.injEq, Prod.mk.injEq] at hE
  obtain ⟨hpsv, -⟩ := hE
  obtain ⟨l1, l2, e, hs2⟩ := EvalPS_frame hp
  have hfle := EvalFlightLength_disabled (sampleEnv Real.exp Real.sqrt Real.rpow)
    { s2 with probPS_ := ps } (by rw [hs2]; rfl)
  obtain ⟨m, hm⟩ := EvalMEtTF_isSome (sampleEnv Real.exp Real.sqrt Real.rpow)
    { s2 with probPS_ := ps, probFlightLength_ := 1 } (sampleMEt 0 0)
    (by rw [hs2]; exact Nat.zero_le _)
    (fun h => absurd (show s2.rhoHadTau_ = 0 by rw [hs2]; rfl) h)
    (fun h => absurd (show s2.rhoHadTau_ = 0 by rw [hs2]; rfl) h)
    (by simp [sampleMEt])
  have hm0 : m ≠ 0 := by
    obtain ⟨pull2, hpull⟩ := EvalMEtTF_form hm
    rw [hpull]
    show (1 : ℝ) * Real.exp (-(1 / 2) * pull2) ≠ 0
    rw [one_mul]
    exact (Real.exp_pos _).ne'
  refine ⟨s1, ps, s2, sampleMEt 0 0, m, rfl, h1, sampleSystFloor_rescaleX _, hp, hfle, rfl, hm,
    ?_⟩
  rw [hpsv]
  intro h0
  have h3 : (1 / 10 ^ 301 : ℝ) * m ≠ 0 := by
    apply mul_ne_zero _ hm0
    norm_num
  exact h3 h0.symm

/-- Witness of C15 (amended): two prompt leptons with the flight length disabled, where
`Eval` returns 1. -/
theorem EvalFlightLength_disabled_Eval_witness :
    ∃ s', Eval (sampleEnv Real.exp Real.sqrt Real.rpow)
        (sampleSystIntegrand : ClassicSVfitIntegrand ℝ) (fun _ => 1 / 2) = some (1, s') ∧
      EvalFlightLength (sampleEnv Real.exp Real.sqrt Real.rpow)
        (sampleSystIntegrand : ClassicSVfitIntegrand ℝ) = some 1 := by
  obtain ⟨r, h1, hf⟩ := Option.map_eq_some'.mp sampleSyst_Eval
  obtain ⟨v, s1⟩ := r
  have hv : v = 1 := congrArg Prod.fst hf
  subst hv
  exact ⟨s1, h1,
    (EvalFlightLength_disabled_Eval (sampleEnv Real.exp Real.sqrt Real.rpow) blankIntegrand
      sampleSystIntegrand s1 0 (fun _ => 1 / 2) 1 sampleSyst_noSetupError rfl rfl h1).2.2.1⟩

/-! ## The number of dimensions -/

/-- C16 (amended): on an integrand as constructed (`maxNumberOfDimensions_ = 4*numTaus_ = 8`,
which no member function changes, so also with the flight length enabled) `setNumDimensions`
accepts every `n <= 8`, after which `numDimensions_ = n` and `x_` has exactly `n` entries, and
it fails its assertion for every `n > 8`. -/
theorem setNumDimensions_accepts (s : ClassicSVfitIntegrand K) (n : Nat)
    (hmax : s.maxNumberOfDimensions_ = 4 * 2) :
    (n ≤ 8 → ∃ s', setNumDimensions s n = some s' ∧ s'.numDimensions_ = n ∧
      s'.x_.length = n) ∧
    (8 < n → setNumDimensions s n = none) := by
  constructor
  · intro hn
    refine ⟨{ s with
      numDimensions_ := n
      x_ := s.x_.take n ++ List.replicate (n - s.x_.length) 0 }, ?_, ?_, ?_⟩
    · unfold setNumDimensions
      rw [if_pos (by rw [hmax]; exact hn)]
    · rfl
    · show (s.x_.take n ++ List.replicate (n - s.x_.length) 0).length = n
      rw [List.length_append, List.length_take, List.length_replicate]
      omega
  · intro hn
    unfold setNumDimensions
    rw [if_neg (by rw [hmax]; omega)]

/-- Counterexample to C16 as stated: on a constructed integrand with the flight length
enabled, `setNumDimensions(9)` and `setNumDimensions(10)` fail
`assert(numDimensions <= maxNumberOfDimensions_)`. -/
theorem setNumDimensions_accepts_counterexample :
    (enableTauFlightLength
      (ClassicSVfitIntegrand.ctor (blankIntegrand : ClassicSVfitIntegrand ℚ) 0)).useTauFlightLength_
        = true ∧
    setNumDimensions (enableTauFlightLength
      (ClassicSVfitIntegrand.ctor (blankIntegrand : ClassicSVfitIntegrand ℚ) 0)) 9 = none ∧
    setNumDimensions (enableTauFlightLength
      (ClassicSVfitIntegrand.ctor (blankIntegrand : ClassicSVfitIntegrand ℚ) 0)) 10 = none := by
  refine ⟨rfl, ?_, ?_⟩ <;>
    simp [setNumDimensions, enableTauFlightLength, ClassicSVfitIntegrand.ctor]

/-- Witness of C16 (amended): a constructed integrand with the flight length enabled accepts
8 dimensions. -/
theorem setNumDimensions_accepts_witness :
    (enableTauFlightLength
      (ClassicSVfitIntegrand.ctor (blankIntegrand : ClassicSVfitIntegrand ℚ) 0)).maxNumberOfDimensions_
        = 4 * 2 ∧
    ∃ s', setNumDimensions (enableTauFlightLength
        (ClassicSVfitIntegrand.ctor (blankIntegrand : ClassicSVfitIntegrand ℚ) 0)) 8 = some s' ∧
      s'.numDimensions_ = 8 ∧ s'.x_.length = 8 :=
  ⟨rfl, (setNumDimensions_accepts (enableTauFlightLength
      (ClassicSVfitIntegrand.ctor (blankIntegrand : ClassicSVfitIntegrand ℚ) 0)) 8 rfl).1
    (le_refl 8)⟩

/-! ## The helicity frame -/

/-- C17 (the code at the failing input): for `cosTheta = k.h = 1.0000001`, inside the
tolerance, `get_r` clamps `cosTheta` to 1, so that `sinTheta = sqrt(1 - 1) = 0`, and divides by
it: the result is not a finite vector.  The same happens for unit vectors with `k.h = 1`
exactly.  For `cosTheta = 1.5` `get_r` aborts. -/
theorem get_r_clamped_divides_by_zero :
    get_r (sampleEnv Real.exp Real.sqrt Real.rpow) ⟨0, 0, 1⟩ ⟨0, 0, 10000001 / 10000000⟩ =
      FrameResult.notFinite ∧
    get_r (sampleEnv Real.exp Real.sqrt Real.rpow) ⟨0, 0, 1⟩ ⟨0, 0, 1⟩ =
      FrameResult.notFinite ∧
    get_r (sampleEnv Real.exp Real.sqrt Real.rpow) ⟨0, 0, 1⟩ ⟨0, 0, 3 / 2⟩ =
      FrameResult.aborted := by
  refine ⟨?_, ?_, ?_⟩ <;>
    norm_num [get_r, Vector.Dot, lit1p01, sampleEnv]

/-- C19 (the code at the failing input): for `tauPlusP4 = (0,0,3,5)` and
`tauMinusP4 = (0,0,-3,5)` (mass 4 each, back to back along the beam axis `(0,0,4,5)`), lines
122-127 of `setFittedTauLeptons` boost to the rest frame of the pair, where `k = (0,0,-1)` and
`h = (0,0,1)`, and `get_r` divides by `sinTheta = 0`: the vectors `r_` and `n_` that
`operator()` projects on are not finite. -/
theorem setFittedTauLeptons_frame_notFinite :
    setFittedTauLeptons_frame (sampleEnv Real.exp Real.sqrt Real.rpow) (sampleRootEnv Real.sqrt)
      ⟨0, 0, 4, 5⟩ ⟨0, 0, 3, 5⟩ ⟨0, 0, -3, 5⟩ = FrameResult.notFinite := by
  have hk : get_k (sampleRootEnv Real.sqrt) (⟨0, 0, -3, 5⟩ : LorentzVector ℝ)
      ((sampleRootEnv Real.sqrt).BoostToCM
        ((⟨0, 0, 3, 5⟩ : LorentzVector ℝ).add ⟨0, 0, -3, 5⟩)) = ⟨0, 0, -1⟩ := by
    norm_num [get_k, getP4_rf, sampleRootEnv, LorentzVector.add, LorentzVector.Vect, sqrt_nine]
  have hh : get_h (sampleRootEnv Real.sqrt) (⟨0, 0, 4, 5⟩ : LorentzVector ℝ)
      ((sampleRootEnv Real.sqrt).BoostToCM
        ((⟨0, 0, 3, 5⟩ : LorentzVector ℝ).add ⟨0, 0, -3, 5⟩)) = ⟨0, 0, 1⟩ := by
    norm_num [get_h, getP4_rf, sampleRootEnv, LorentzVector.add, LorentzVector.Vect,
      sqrt_sixteen]
  have hr : get_r (sampleEnv Real.exp Real.sqrt Real.rpow) (⟨0, 0, -1⟩ : Vector ℝ) ⟨0, 0, 1⟩ =
      FrameResult.notFinite := by
    norm_num [get_r, Vector.Dot, lit1p01, sampleEnv]
  unfold setFittedTauLeptons_frame get_localCoordinateSystem
  simp only [hk, hh, hr]

/-- For a unit vector `r` orthogonal to a unit vector `k`, the vector `n = r x k` of `get_n` is
a unit vector orthogonal to both, with `n x r = k`, `r x n = -k` and `r . (n x k) = -1`. -/
theorem get_n_frame (r k : Vector K) (hA : r.Dot r = 1) (hB : k.Dot k = 1)
    (hC : r.Dot k = 0) :
    (get_n k r).Dot (get_n k r) = 1 ∧ r.Dot (get_n k r) = 0 ∧ (get_n k r).Dot k = 0 ∧
    (get_n k r).Cross r = k ∧ r.Cross (get_n k r) = k.neg ∧
    r.Dot ((get_n k r).Cross k) = -1 := by
  obtain ⟨rx, ry, rz⟩ := r
  obtain ⟨kx, ky, kz⟩ := k
  simp only [Vector.Dot] at hA hB hC
  simp only [get_n, Vector.Dot, Vector.Cross, Vector.neg, Vector.mk.injEq]
  refine ⟨?_, ?_, ?_, ⟨?_, ?_, ?_⟩, ⟨?_, ?_, ?_⟩, ?_⟩
  · linear_combination (kx * kx + ky * ky + kz * kz) * hA + hB - (rx * kx + ry * ky + rz * kz) * hC
  · ring
  · ring
  · linear_combination kx * hA - rx * hC
  · linear_combination ky * hA - ry * hC
  · linear_combination kz * hA - rz * hC
  · linear_combination -kx * hA + rx * hC
  · linear_combination -ky * hA + ry * hC
  · linear_combination -kz * hA + rz * hC
  · linear_combination (-(kx * kx + ky * ky + kz * kz)) * hA - hB +
      (rx * kx + ry * ky + rz * kz) * hC

/-- For unit vectors `k`, `h` with `|k.h| < 1`, and `sqrt` the square root at `1 - (k.h)^2`,
`get_r` returns `r = (h - k*cosTheta)/sinTheta`, a unit vector orthogonal to `k`. -/
theorem get_r_unit (env : Env K) (k h : Vector K) (hk : k.Dot k = 1) (hh : h.Dot h = 1)
    (hc : |k.Dot h| < 1)
    (hsq : env.sqrt (1 - k.Dot h * k.Dot h) * env.sqrt (1 - k.Dot h * k.Dot h) =
      1 - k.Dot h * k.Dot h) :
    get_r env k h = FrameResult.value
      ((h.sub (k.smul (k.Dot h))).smul (1 / env.sqrt (1 - k.Dot h * k.Dot h))) ∧
    ((h.sub (k.smul (k.Dot h))).smul (1 / env.sqrt (1 - k.Dot h * k.Dot h))).Dot
      ((h.sub (k.smul (k.Dot h))).smul (1 / env.sqrt (1 - k.Dot h * k.Dot h))) = 1 ∧
    ((h.sub (k.smul (k.Dot h))).smul (1 / env.sqrt (1 - k.Dot h * k.Dot h))).Dot k = 0 := by
  obtain ⟨hc1, hc2⟩ := abs_lt.mp hc
  have hpos : 0 < 1 - k.Dot h * k.Dot h := by nlinarith
  have hs0 : env.sqrt (1 - k.Dot h * k.Dot h) ≠ 0 := by
    intro h0
    rw [h0, mul_zero] at hsq
    exact absurd hsq.symm (ne_of_gt hpos)
  refine ⟨?_, ?_, ?_⟩
  · unfold get_r
    simp only
    have h1 : ¬ (k.Dot h < -lit1p01 ∨ k.Dot h > lit1p01) := by
      unfold lit1p01
      intro hor
      rcases hor with hor | hor
      · linarith
      · have : (101 / 100 : K) < 1 := lt_trans hor hc2
        norm_num at this
    rw [if_neg h1, if_neg (not_lt.mpr (le_of_lt hc1)), if_neg (not_lt.mpr (le_of_lt hc2)),
      if_neg hs0]
  · obtain ⟨kx, ky, kz⟩ := k
    obtain ⟨hx, hy, hz⟩ := h
    simp only [Vector.Dot, Vector.sub, Vector.smul] at *
    generalize env.sqrt (1 - (kx * hx + ky * hy + kz * hz) * (kx * hx + ky * hy + kz * hz)) = s
      at *
    field_simp
    linear_combination hh + (kx * hx + ky * hy + kz * hz) ^ 2 * hk - hsq
  · obtain ⟨kx, ky, kz⟩ := k
    obtain ⟨hx, hy, hz⟩ := h
    simp only [Vector.Dot, Vector.sub, Vector.smul] at *
    generalize env.sqrt (1 - (kx * hx + ky * hy + kz * hz) * (kx * hx + ky * hy + kz * hz)) = s
      at *
    field_simp
    linear_combination (-(kx * hx + ky * hy + kz * hz)) * hk

/-- For a unit vector `r` orthogonal to a unit vector `k` and `n = r x k`, `getP4_hf` keeps the
length of the momentum and the energy. -/
theorem getP4_hf_norm (p : LorentzVector K) (r k : Vector K) (hA : r.Dot r = 1)
    (hB : k.Dot k = 1) (hC : r.Dot k = 0) :
    (getP4_hf p r (get_n k r) k).Vect.Dot (getP4_hf p r (get_n k r) k).Vect =
      p.Vect.Dot p.Vect ∧
    (getP4_hf p r (get_n k r) k).E = p.E := by
  obtain ⟨rx, ry, rz⟩ := r
  obtain ⟨kx, ky, kz⟩ := k
  obtain ⟨px, py, pz, E⟩ := p
  simp only [Vector.Dot] at hA hB hC
  simp only [getP4_hf, get_n, Vector.Dot, Vector.Cross, LorentzVector.Vect, and_true]
  linear_combination
    ((px * px + py * py + pz * pz) * (kx * kx + ky * ky + kz * kz) -
      (px * kx + py * ky + pz * kz) ^ 2) * hA +
    ((px * px + py * py + pz * pz) - (px * rx + py * ry + pz * rz) ^ 2) * hB +
    (-(px * px + py * py + pz * pz) * (rx * kx + ry * ky + rz * kz) +
      2 * (px * rx + py * ry + pz * rz) * (px * kx + py * ky + pz * kz)) * hC

/-- C18 (amended): for unit vectors `k` and `h` with `|k.h| < 1` (and `sqrt` the square root
at `1 - (k.h)^2`), `get_r` returns `r = (h - k*cosTheta)/sinTheta`, and with `n = r x k` of
`get_n` the vectors `r`, `n`, `k` are unit vectors and mutually orthogonal; `n x r = k`, that is
`{n, r, k}` is right-handed, while `r x n = -k` and `r . (n x k) = -1`: the ordered basis
`{r, n, k}` is left-handed, and `getP4_hf`, which maps a momentum to `(p.r, p.n, p.k)`, keeps
lengths and the energy and has determinant `-1`. -/
theorem get_localFrame (env : Env K) (k h : Vector K) (hk : k.Dot k = 1) (hh : h.Dot h = 1)
    (hc : |k.Dot h| < 1)
    (hsq : env.sqrt (1 - k.Dot h * k.Dot h) * env.sqrt (1 - k.Dot h * k.Dot h) =
      1 - k.Dot h * k.Dot h) :
    ∃ r, get_r env k h = FrameResult.value r ∧
      r = (h.sub (k.smul (k.Dot h))).smul (1 / env.sqrt (1 - k.Dot h * k.Dot h)) ∧
      r.Dot r = 1 ∧ (get_n k r).Dot (get_n k r) = 1 ∧
      r.Dot (get_n k r) = 0 ∧ r.Dot k = 0 ∧ (get_n k r).Dot k = 0 ∧
      (get_n k r).Cross r = k ∧ r.Cross (get_n k r) = k.neg ∧
      r.Dot ((get_n k r).Cross k) = -1 ∧
      ∀ p : LorentzVector K,
        (getP4_hf p r (get_n k r) k).Vect.Dot (getP4_hf p r (get_n k r) k).Vect =
          p.Vect.Dot p.Vect ∧
        (getP4_hf p r (get_n k r) k).E = p.E := by
  obtain ⟨hr, hA, hC⟩ := get_r_unit env k h hk hh hc hsq
  obtain ⟨h1, h2, h3, h4, h5, h6⟩ := get_n_frame _ k hA hk hC
  exact ⟨_, hr, rfl, hA, h1, h2, hC, h3, h4, h5, h6, fun p => getP4_hf_norm p _ k hA hk hC⟩

/-- Counterexample to C18 as stated: for the unit vectors `k = (0,0,1)` and `h = (1,0,0)`,
`get_r` returns `r = (1,0,0)`, `get_n` returns `n = r x k = (0,-1,0)`, and
`r x n = (0,0,-1)` is not `k`. -/
theorem get_localFrame_counterexample :
    (⟨0, 0, 1⟩ : Vector ℝ).Dot ⟨0, 0, 1⟩ = 1 ∧ (⟨1, 0, 0⟩ : Vector ℝ).Dot ⟨1, 0, 0⟩ = 1 ∧
    |(⟨0, 0, 1⟩ : Vector ℝ).Dot ⟨1, 0, 0⟩| < 1 ∧
    get_r (sampleEnv Real.exp Real.sqrt Real.rpow) ⟨0, 0, 1⟩ ⟨1, 0, 0⟩ =
      FrameResult.value ⟨1, 0, 0⟩ ∧
    get_n (⟨0, 0, 1⟩ : Vector ℝ) ⟨1, 0, 0⟩ = ⟨0, -1, 0⟩ ∧
    (⟨1, 0, 0⟩ : Vector ℝ).Cross (get_n ⟨0, 0, 1⟩ ⟨1, 0, 0⟩) ≠ ⟨0, 0, 1⟩ := by
  refine ⟨?_, ?_, ?_, ?_, ?_, ?_⟩
  · norm_num [Vector.Dot]
  · norm_num [Vector.Dot]
  · norm_num [Vector.Dot]
  · norm_num [get_r, Vector.Dot, Vector.sub, Vector.smul, lit1p01, sampleEnv]
  · norm_num [get_n, Vector.Cross]
  · intro h
    have hz := congrArg Vector.z h
    norm_num [get_n, Vector.Cross] at hz

/-- Witness of C18 (amended): `k = (0,0,1)`, `h = (1,0,0)` with the real square root. -/
theorem get_localFrame_witness :
    ∃ r, get_r (sampleEnv Real.exp Real.sqrt Real.rpow) ⟨0, 0, 1⟩ ⟨1, 0, 0⟩ =
        FrameResult.value r ∧
      (get_n ⟨0, 0, 1⟩ r).Cross r = ⟨0, 0, 1⟩ ∧
      r.Dot ((get_n ⟨0, 0, 1⟩ r).Cross ⟨0, 0, 1⟩) = -1 := by
  obtain ⟨r, h1, -, -, -, -, -, -, h2, -, h3, -⟩ :=
    get_localFrame (sampleEnv Real.exp Real.sqrt Real.rpow) ⟨0, 0, 1⟩ ⟨1, 0, 0⟩
      (by norm_num [Vector.Dot]) (by norm_num [Vector.Dot]) (by norm_num [Vector.Dot])
      (by norm_num [Vector.Dot, sampleEnv])
  exact ⟨r, h1, h2, h3⟩

/-! ## Prompt legs -/

/-- For a prompt second leg the second-leg part of `EvalPS` changes nothing: `x2_dash` is 1
and `updateTauMomentum` is not called. -/
theorem EvalPS_leg2_prompt {env : Env K} {s t : ClassicSVfitIntegrand K} {a b c p : K}
    (hp : s.leg2isPrompt_ = true) (h : EvalPS_leg2 env s a b c = some (p, t)) : t = s := by
  unfold EvalPS_leg2 at h
  cases hx : x2_dash s c with
  | none => simp [hx] at h
  | some x2d =>
    simp only [hx] at h
    have hnp : ¬ s.leg2isPrompt_ = false := by rw [hp]; decide
    by_cases hr : ¬ (x2d / b ≥ lit1em5 ∧ x2d / b ≤ 1)
    · rw [if_pos hr] at h
      cases h
      rfl
    · rw [if_neg hr, if_neg hnp] at h
      obtain ⟨pp, -, hpp⟩ := Option.map_eq_some'.mp h
      cases hpp
      rfl

/-- The first-leg part of `EvalPS` leaves the fitted leg of a prompt first leg, and of a
prompt second leg, as it is. -/
theorem EvalPS_leg1_prompt {env : Env K} {s t : ClassicSVfitIntegrand K} {a b p : K}
    (h : EvalPS_leg1 env s a b = some (p, t)) :
    (s.leg1isPrompt_ = true → t.fittedTauLepton1_ = s.fittedTauLepton1_) ∧
    (s.leg2isPrompt_ = true → t.fittedTauLepton2_ = s.fittedTauLepton2_) := by
  unfold EvalPS_leg1 at h
  cases hx : x1_dash s with
  | none => simp [hx] at h
  | some x1d =>
    simp only [hx] at h
    by_cases hr : ¬ (x1d / a ≥ lit1em5 ∧ x1d / a ≤ 1)
    · rw [if_pos hr] at h
      cases h
      exact ⟨fun _ => rfl, fun _ => rfl⟩
    · rw [if_neg hr] at h
      by_cases hp : s.leg1isPrompt_ = false
      · rw [if_pos hp] at h
        refine ⟨fun h1 => ?_, fun h2 => ?_⟩
        · rw [hp] at h1; cases h1
        · cases hu : updateLeg env s.x_ s.legIntegrationParams_0 s.fittedTauLepton1_ (x1d / a) with
          | none => simp [hu] at h
          | some leg1 =>
            simp only [hu] at h
            by_cases he : leg1.errorCode ≠ env.FittedTauLepton_None
            · rw [if_pos he] at h
              cases h
              rfl
            · rw [if_neg he] at h
              have := EvalPS_leg2_prompt (s := { s with fittedTauLepton1_ := leg1 }) h2 h
              rw [this]
      · rw [if_neg hp] at h
        refine ⟨fun _ => ?_, fun h2 => ?_⟩
        · obtain ⟨l2, e, ht⟩ := EvalPS_leg2_frame h
          rw [ht]
        · rw [EvalPS_leg2_prompt h2 h]

/-- What `EvalPS` does for a prompt leg: `x_dash` is exactly 1 for every sample point and every
configuration, no energy-fraction, angle or invisible-mass dimension is read for it and
`updateTauMomentum` is not called for it (the fitted leg is left as it was, or as
`updateVisMomentum` left it); and `visPtShift` is 1 when the hadronic transfer function is not
in use or the leg has no `VisPtShift` dimension. -/
theorem EvalPS_prompt_leg_x_dash (env : Env K) (s t : ClassicSVfitIntegrand K) (p : K)
    (h : EvalPS env s = some (p, t)) :
    (s.leg1isPrompt_ = true →
      x1_dash s = some 1 ∧
      (s.useHadTauTF_ = false ∨ s.legIntegrationParams_0.idx_VisPtShift_ = -1 →
        visPtShift s s.legIntegrationParams_0 s.leg1isLeptonicTauDecay_ = some 1) ∧
      (t.fittedTauLepton1_ = s.fittedTauLepton1_ ∨
        ∃ sh1, visPtShift s s.legIntegrationParams_0 s.leg1isLeptonicTauDecay_ = some sh1 ∧
          t.fittedTauLepton1_ = env.updateVisMomentum s.fittedTauLepton1_ sh1)) ∧
    (s.leg2isPrompt_ = true →
      (∀ x1d, x2_dash s x1d = some 1) ∧
      (s.useHadTauTF_ = false ∨ s.legIntegrationParams_1.idx_VisPtShift_ = -1 →
        visPtShift s s.legIntegrationParams_1 s.leg2isLeptonicTauDecay_ = some 1) ∧
      (t.fittedTauLepton2_ = s.fittedTauLepton2_ ∨
        ∃ sh2, visPtShift s s.legIntegrationParams_1 s.leg2isLeptonicTauDecay_ = some sh2 ∧
          t.fittedTauLepton2_ = env.updateVisMomentum s.fittedTauLepton2_ sh2)) := by
  have hshift : ∀ (params : integrationParameters) (b : Bool),
      (s.useHadTauTF_ = false ∨ params.idx_VisPtShift_ = -1) →
      visPtShift s params b = some 1 := by
    intro params b hcond
    unfold visPtShift
    rw [if_neg]
    rintro ⟨h1, h2, -⟩
    rcases hcond with hcond | hcond
    · rw [hcond] at h1; cases h1
    · exact h2 hcond
  have hlegs : (s.leg1isPrompt_ = true →
        t.fittedTauLepton1_ = s.fittedTauLepton1_ ∨
        ∃ sh1, visPtShift s s.legIntegrationParams_0 s.leg1isLeptonicTauDecay_ = some sh1 ∧
          t.fittedTauLepton1_ = env.updateVisMomentum s.fittedTauLepton1_ sh1) ∧
      (s.leg2isPrompt_ = true →
        t.fittedTauLepton2_ = s.fittedTauLepton2_ ∨
        ∃ sh2, visPtShift s s.legIntegrationParams_1 s.leg2isLeptonicTauDecay_ = some sh2 ∧
          t.fittedTauLepton2_ = env.updateVisMomentum s.fittedTauLepton2_ sh2) := by
    unfold EvalPS at h
    simp only at h
    split at h
    · rename_i sh1 sh2 h1 h2
      have h1' : visPtShift s s.legIntegrationParams_0 s.leg1isLeptonicTauDecay_ = some sh1 := h1
      have h2' : visPtShift s s.legIntegrationParams_1 s.leg2isLeptonicTauDecay_ = some sh2 := h2
      split_ifs at h
      · cases h
        exact ⟨fun _ => Or.inl rfl, fun _ => Or.inl rfl⟩
      · obtain ⟨k1, k2⟩ := EvalPS_leg1_prompt h
        exact ⟨fun hp => Or.inr ⟨sh1, h1', k1 hp⟩, fun hp => Or.inr ⟨sh2, h2', k2 hp⟩⟩
    · cases h
  refine ⟨fun hp => ⟨?_, hshift _ _, hlegs.1 hp⟩, fun hp => ⟨fun x1d => ?_, hshift _ _, hlegs.2 hp⟩⟩
  · unfold x1_dash
    rw [if_neg (by rw [hp]; decide)]
  · unfold x2_dash
    rw [if_neg (by rw [hp]; decide)]

/-- The sample with a `VisPtShift` dimension on the prompt first leg: `EvalPS` returns 0 at
`x_ = [2]` and 1 at `x_ = [1]`. -/
theorem samplePromptShift_EvalPS :
    (EvalPS sampleEnvQ (samplePromptShiftIntegrand 2)).map Prod.fst = some 0 ∧
    (EvalPS sampleEnvQ (samplePromptShiftIntegrand 1)).map Prod.fst = some 1 := by
  constructor <;>
    norm_num [samplePromptShiftIntegrand, samplePromptIntegrand, sampleEnvQ, sampleEnv,
      ClassicSVfitIntegrand.ctor, disableDiTauMassConstraint, readX,
      blankIntegrand, EvalPS, visPtShift, EvalPS_leg1, EvalPS_leg2, x1_dash, x2_dash, lit1em2,
      lit1em5, EvalPS_prob, legDecayProb, legProbTF, sampleFitted, samplePromptLepton,
      LorentzVector.zero, LorentzVector.scale]

/-- C20 (the code at the failing input): two prompt leptons, the hadronic transfer function in
use and a `VisPtShift` dimension (dimension 0) configured for the prompt first leg.  The gate of
line 381 tests `!leg1isLeptonicTauDecay_`, which a prompt leg passes: at `x_[0] = 2` a sample
dimension is read for the prompt leg, `visPtShift1 = 1/2` and `x1 = x1_dash/visPtShift1 = 2`,
not 1, and `EvalPS` rejects the point (`x1 > 1`, value 0), while at `x_[0] = 1` it returns 1.
The gates of the same feature in lines 509 and 662 test `isHadronicTauDecay()`: for the same
leg the transfer function is not applied (`legProbTF` leaves `prob_TF = 1`) and the MEt
residual is not corrected. -/
theorem EvalPS_prompt_leg_reads_shift :
    (samplePromptShiftIntegrand (2 : ℚ)).leg1isPrompt_ = true ∧
    x1_dash (samplePromptShiftIntegrand (2 : ℚ)) = some 1 ∧
    visPtShift (samplePromptShiftIntegrand (2 : ℚ))
      (samplePromptShiftIntegrand (2 : ℚ)).legIntegrationParams_0
      (samplePromptShiftIntegrand (2 : ℚ)).leg1isLeptonicTauDecay_ = some (1 / 2) ∧
    (1 : ℚ) / (1 / 2) ≠ 1 ∧
    (EvalPS sampleEnvQ (samplePromptShiftIntegrand 2)).map Prod.fst = some 0 ∧
    (EvalPS sampleEnvQ (samplePromptShiftIntegrand 1)).map Prod.fst = some 1 ∧
    legProbTF sampleEnvQ (samplePromptShiftIntegrand 2)
      (samplePromptShiftIntegrand (2 : ℚ)).legIntegrationParams_0 (some fun _ _ _ => 5)
      (samplePromptShiftIntegrand (2 : ℚ)).fittedTauLepton1_ 1 = some 1 ∧
    EvalMEtTF_correction (samplePromptShiftIntegrand (2 : ℚ))
      (samplePromptShiftIntegrand (2 : ℚ)).fittedTauLepton1_
      (samplePromptShiftIntegrand (2 : ℚ)).legIntegrationParams_0 false (7, 7, 0, 0) =
        some (7, 7, 0, 0) := by
  refine ⟨rfl, ?_, ?_, ?_, ?_, ?_, ?_, ?_⟩
  · norm_num [x1_dash, samplePromptShiftIntegrand, samplePromptIntegrand]
  · norm_num [visPtShift, samplePromptShiftIntegrand, samplePromptIntegrand, readX,
      disableDiTauMassConstraint, ClassicSVfitIntegrand.ctor, blankIntegrand]
  · norm_num
  · exact samplePromptShift_EvalPS.1
  · exact samplePromptShift_EvalPS.2
  · norm_num [legProbTF, samplePromptShiftIntegrand, samplePromptIntegrand, sampleFitted,
      samplePromptLepton]
  · norm_num [EvalMEtTF_correction, samplePromptShiftIntegrand, samplePromptIntegrand,
      sampleFitted, samplePromptLepton]

/-! ## The product returned by EvalPS -/

/-- The value of `EvalPS_prob` is the product of line 542 of the constant factors, the decay
densities of the legs, the transfer-function term, `prob_logM` and `jacobiFactor`. -/
theorem EvalPS_prob_iff (env : Env K) (s : ClassicSVfitIntegrand K) (sh1 sh2 x2 v : K) :
    EvalPS_prob env s sh1 sh2 x2 = some v ↔
    ∃ p0 pTF,
      legProbTF env s s.legIntegrationParams_0 (s.hadTauTFs_.map Prod.fst) s.fittedTauLepton1_ 1
        = some p0 ∧
      legProbTF env s s.legIntegrationParams_1 (s.hadTauTFs_.map Prod.snd) s.fittedTauLepton2_ p0
        = some pTF ∧
      v = env.constFactor *
          (1 * legDecayProb env s.fittedTauLepton1_ * legDecayProb env s.fittedTauLepton2_) *
          env.matrixElementNorm * pTF * prob_logM env s * jacobiFactor s sh1 sh2 x2 := by
  unfold EvalPS_prob
  cases h0 : legProbTF env s s.legIntegrationParams_0 (s.hadTauTFs_.map Prod.fst)
      s.fittedTauLepton1_ 1 with
  | none => simp
  | some p0 =>
    cases h1 : legProbTF env s s.legIntegrationParams_1 (s.hadTauTFs_.map Prod.snd)
        s.fittedTauLepton2_ p0 with
    | none => simp [h1]
    | some pTF =>
      simp only [h1]
      constructor
      · intro h
        cases h
        exact ⟨p0, pTF, rfl, h1, rfl⟩
      · rintro ⟨q0, qTF, hq0, hqTF, rfl⟩
        cases hq0
        rw [h1] at hqTF
        cases hqTF
        rfl

/-- Without the hadronic transfer function, `legProbTF` leaves `prob_TF` as it is. -/
theorem legProbTF_inactive (env : Env K) (s : ClassicSVfitIntegrand K)
    (params : integrationParameters) (tf : Option (HadTauTF K)) (leg : FittedTauLepton K) (p : K)
    (h : s.useHadTauTF_ = false) : legProbTF env s params tf leg p = some p := by
  unfold legProbTF
  rw [if_neg]
  simp [h]

/-- Without the hadronic transfer function, `EvalPS_prob` returns the product with
`prob_TF = 1`. -/
theorem EvalPS_prob_inactive (env : Env K) (s : ClassicSVfitIntegrand K) (sh1 sh2 x2 : K)
    (h : s.useHadTauTF_ = false) :
    EvalPS_prob env s sh1 sh2 x2 = some (env.constFactor *
      (1 * legDecayProb env s.fittedTauLepton1_ * legDecayProb env s.fittedTauLepton2_) *
      env.matrixElementNorm * 1 * prob_logM env s * jacobiFactor s sh1 sh2 x2) :=
  (EvalPS_prob_iff env s sh1 sh2 x2 _).mpr
    ⟨1, 1, legProbTF_inactive env s _ _ _ 1 h, legProbTF_inactive env s _ _ _ 1 h, rfl⟩

/-- C21: the regularization factor.  The value of `EvalPS_prob` (lines 489-555) is the product
of the other factors with `prob_logM`; `prob_logM` is `1/pow(max(1, M), p)` for the invariant
mass `M` of the sum of the two fitted tau four-momenta and the configured power `p` when
regularization is enabled (after `enableLogM(p)` in particular) and exactly 1 after
`disableLogM`; the constructor leaves regularization enabled with power 6; and with `pow` a
power function (`pow(b, p) >= 1` for `b >= 1`, `p >= 0`, and `pow(1, p) = 1`), the factor lies in
`(0, 1]` for `p >= 0` and is 1 for every `M <= 1`. -/
theorem EvalPS_regularization (env : Env K) (s u : ClassicSVfitIntegrand K) (verbosity : Int)
    (sh1 sh2 x2 power : K)
    (hpow : ∀ b p : K, 1 ≤ b → 0 ≤ p → 1 ≤ env.pow b p) (hpow1 : ∀ p : K, env.pow 1 p = 1) :
    (∀ v, EvalPS_prob env s sh1 sh2 x2 = some v ↔
      ∃ p0 pTF,
        legProbTF env s s.legIntegrationParams_0 (s.hadTauTFs_.map Prod.fst)
          s.fittedTauLepton1_ 1 = some p0 ∧
        legProbTF env s s.legIntegrationParams_1 (s.hadTauTFs_.map Prod.snd)
          s.fittedTauLepton2_ p0 = some pTF ∧
        v = env.constFactor *
            (1 * legDecayProb env s.fittedTauLepton1_ * legDecayProb env s.fittedTauLepton2_) *
            env.matrixElementNorm * pTF * prob_logM env s * jacobiFactor s sh1 sh2 x2) ∧
    (s.addLogM_ = true → prob_logM env s =
      1 / env.pow (max 1 ((s.fittedTauLepton1_.tauP4.add s.fittedTauLepton2_.tauP4).mass env))
        s.addLogM_power_) ∧
    prob_logM env (enableLogM s power) =
      1 / env.pow (max 1 ((s.fittedTauLepton1_.tauP4.add s.fittedTauLepton2_.tauP4).mass env))
        power ∧
    prob_logM env (disableLogM s) = 1 ∧
    ((ClassicSVfitIntegrand.ctor u verbosity).addLogM_ = true ∧
      (ClassicSVfitIntegrand.ctor u verbosity).addLogM_power_ = 6) ∧
    (0 ≤ s.addLogM_power_ → 0 < prob_logM env s ∧ prob_logM env s ≤ 1) ∧
    ((s.fittedTauLepton1_.tauP4.add s.fittedTauLepton2_.tauP4).mass env ≤ 1 →
      prob_logM env s = 1) := by
  refine ⟨fun v => EvalPS_prob_iff env s sh1 sh2 x2 v, ?_, rfl, rfl, ⟨rfl, rfl⟩, ?_, ?_⟩
  · intro h
    unfold prob_logM mTauTau
    rw [if_pos h]
  · intro hp
    unfold prob_logM
    split_ifs
    · have h1 : 1 ≤ env.pow (max 1 (mTauTau env s)) s.addLogM_power_ :=
        hpow _ _ (le_max_left _ _) hp
      have h0 : 0 < env.pow (max 1 (mTauTau env s)) s.addLogM_power_ := lt_of_lt_of_le one_pos h1
      exact ⟨div_pos one_pos h0, (div_le_one h0).mpr h1⟩
    · exact ⟨one_pos, le_refl _⟩
  · intro hM
    unfold prob_logM
    split_ifs
    · have : max 1 (mTauTau env s) = 1 := max_eq_left hM
      rw [this, hpow1, div_one]
    · rfl

/-- Witness of C21: the real power function on the sample integrand with a hadronic first leg,
after `enableLogM(6)`. -/
theorem EvalPS_regularization_witness :
    (∀ b p : ℝ, 1 ≤ b → 0 ≤ p → 1 ≤ (sampleEnv Real.exp Real.sqrt Real.rpow).pow b p) ∧
    (∀ p : ℝ, (sampleEnv Real.exp Real.sqrt Real.rpow).pow 1 p = 1) ∧
    0 < prob_logM (sampleEnv Real.exp Real.sqrt Real.rpow) (enableLogM sampleHadIntegrand 6) ∧
    prob_logM (sampleEnv Real.exp Real.sqrt Real.rpow) (enableLogM sampleHadIntegrand 6) ≤ 1 := by
  have hpow : ∀ b p : ℝ, 1 ≤ b → 0 ≤ p → 1 ≤ (sampleEnv Real.exp Real.sqrt Real.rpow).pow b p :=
    fun b p hb hp => Real.one_le_rpow hb hp
  have hpow1 : ∀ p : ℝ, (sampleEnv Real.exp Real.sqrt Real.rpow).pow 1 p = 1 :=
    fun p => Real.one_rpow p
  exact ⟨hpow, hpow1,
    (EvalPS_regularization (sampleEnv Real.exp Real.sqrt Real.rpow)
      (enableLogM sampleHadIntegrand 6) blankIntegrand 0 1 1 1 6 hpow hpow1).2.2.2.2.2.1
      (by show (0 : ℝ) ≤ 6; norm_num)⟩


/-- C24: the accepted path of `EvalPS` with the hadronic transfer function inactive.  When
neither shift is below `1.e-2`, both energy fractions pass the range test and no leg flags an
error (`LegUpdated`), `EvalPS` returns
`constFactor * matrixElementNorm * D(leg 1) * D(leg 2) * prob_logM * jacobiFactor`, where `D` of
a fitted leg is `compPSfactor_tauToLepDecay` when its measured lepton is leptonic,
`compPSfactor_tauToHadDecay` when it is hadronic and 1 when it is neither (a prompt lepton), and
`jacobiFactor` is `1/(shift1*shift2)`, multiplied by `2*x2/diTauMassConstraint_` exactly when
`diTauMassConstraint_ > 0`.  (Without the transfer function both shifts are 1.) -/
theorem EvalPS_accepted (env : Env K) (s : ClassicSVfitIntegrand K) (sh1 sh2 a b : K)
    (l1 l2 : FittedTauLepton K) (hTF : s.useHadTauTF_ = false)
    (h1 : visPtShift s s.legIntegrationParams_0 s.leg1isLeptonicTauDecay_ = some sh1)
    (h2 : visPtShift s s.legIntegrationParams_1 s.leg2isLeptonicTauDecay_ = some sh2)
    (hsh : ¬ (sh1 < lit1em2 ∨ sh2 < lit1em2))
    (hx : x1_dash s = some a) (hr : a / sh1 ≥ lit1em5 ∧ a / sh1 ≤ 1)
    (hl : LegUpdated env s.x_ s.legIntegrationParams_0 s.leg1isPrompt_
      (env.updateVisMomentum s.fittedTauLepton1_ sh1) (a / sh1) l1)
    (hx2 : x2_dash s a = some b) (hr2 : b / sh2 ≥ lit1em5 ∧ b / sh2 ≤ 1)
    (hl2 : LegUpdated env s.x_ s.legIntegrationParams_1 s.leg2isPrompt_
      (env.updateVisMomentum s.fittedTauLepton2_ sh2) (b / sh2) l2) :
    (∃ t, EvalPS env s = some (env.constFactor * env.matrixElementNorm * legDecayProb env l1 *
        legDecayProb env l2 * prob_logM env t * jacobiFactor s sh1 sh2 (b / sh2), t) ∧
      t.fittedTauLepton1_ = l1 ∧ t.fittedTauLepton2_ = l2 ∧ t.addLogM_ = s.addLogM_ ∧
      t.addLogM_power_ = s.addLogM_power_) ∧
    (∀ l : FittedTauLepton K, l.getMeasuredTauLepton.isLeptonicTauDecay = true →
      legDecayProb env l = compPSfactor_tauToLepDecay env l.x l.visP4.E (l.visP4.P env)
        l.getMeasuredTauLepton.mass l.nuP4.E (l.nuP4.P env) l.nuMass) ∧
    (∀ l : FittedTauLepton K, l.getMeasuredTauLepton.isLeptonicTauDecay = false →
      l.getMeasuredTauLepton.isHadronicTauDecay = true →
      legDecayProb env l = compPSfactor_tauToHadDecay env l.x l.visP4.E (l.visP4.P env)
        l.getMeasuredTauLepton.mass l.nuP4.E (l.nuP4.P env)) ∧
    (∀ l : FittedTauLepton K, l.getMeasuredTauLepton.isLeptonicTauDecay = false →
      l.getMeasuredTauLepton.isHadronicTauDecay = false → legDecayProb env l = 1) ∧
    (s.diTauMassConstraint_ > 0 → jacobiFactor s sh1 sh2 (b / sh2) =
      1 / (sh1 * sh2) * (2 * (b / sh2) / s.diTauMassConstraint_)) ∧
    (¬ s.diTauMassConstraint_ > 0 → jacobiFactor s sh1 sh2 (b / sh2) = 1 / (sh1 * sh2)) := by
  refine ⟨⟨{ s with
      errorCode_ := s.errorCode_ &&& (s.errorCode_ ^^^ env.TauDecayParameters)
      fittedTauLepton1_ := l1, fittedTauLepton2_ := l2 }, ?_, rfl, rfl, rfl, rfl⟩, ?_, ?_, ?_, ?_, ?_⟩
  · refine EvalPS_of h1 h2 hsh hx hr hl hx2 hr2 hl2 ?_
    refine (EvalPS_prob_inactive env
      { s with
        errorCode_ := s.errorCode_ &&& (s.errorCode_ ^^^ env.TauDecayParameters)
        fittedTauLepton1_ := l1, fittedTauLepton2_ := l2 } sh1 sh2 (b / sh2) hTF).trans ?_
    congr 1
    show env.constFactor * (1 * legDecayProb env l1 * legDecayProb env l2) *
      env.matrixElementNorm * 1 * _ * jacobiFactor s sh1 sh2 (b / sh2) = _
    ring
  · intro l h
    unfold legDecayProb
    rw [if_pos h]
  · intro l h h'
    unfold legDecayProb
    rw [if_neg (by simp [h]), if_pos h']
  · intro l h h'
    unfold legDecayProb
    rw [if_neg (by simp [h]), if_neg (by simp [h'])]
  · intro h
    unfold jacobiFactor
    simp only [if_pos h]
  · intro h
    unfold jacobiFactor
    simp only [if_neg h]

/-- Witness of C24: the sample integrand with a hadronic first leg and a prompt second leg at
the point `(1/2, 0)`, over the rationals. -/
theorem EvalPS_accepted_witness :
    ∃ v t, EvalPS sampleEnvQ (sampleHadPoint : ClassicSVfitIntegrand ℚ) = some (v, t) ∧
      t.fittedTauLepton1_.x = 1 / 2 := by
  obtain ⟨t, ht, h1, -⟩ := (EvalPS_accepted sampleEnvQ (sampleHadPoint : ClassicSVfitIntegrand ℚ)
    1 1 (1 / 2) 1
    (sampleEnvQ.updateTauMomentum
      (sampleEnvQ.updateVisMomentum (sampleFitted (sampleHadTau ⟨3, 0, 0, 3⟩)) 1) (1 / 2 / 1) 0 0)
    (sampleEnvQ.updateVisMomentum (sampleFitted (samplePromptLepton ⟨-3, 0, 0, 3⟩)) 1)
    rfl rfl rfl (by norm_num [lit1em2]) rfl (by norm_num [lit1em5])
    (Or.inl ⟨rfl, rfl, by norm_num [sampleEnvQ, sampleEnv]⟩) rfl (by norm_num [lit1em5])
    (Or.inr ⟨rfl, rfl⟩)).1
  refine ⟨_, t, ht, ?_⟩
  rw [h1]
  norm_num [sampleEnvQ, sampleEnv]

/-! ## Rejections of the decay densities (svFitAuxFunctions.cc, lines 181-240) -/

/-- C25: the decay densities return exactly 0 outside the physical region.  With the constant
`epsilon` of svFitAuxFunctions.h not negative: both `compPSfactor_tauToLepDecay` and
`compPSfactor_tauToHadDecay` return 0 when `x < visMass^2/tauLeptonMass2` or `x > 1`, and when
the cosine computed by `compCosThetaNuNu` from their arguments is below -1 or above 1; the
leptonic density also returns 0 when `nunuMass^2 >= (1 - x)*tauLeptonMass2`, and when the
rest-frame energy `tauEn_rf = (tauLeptonMass2 + nunuMass^2 - visMass^2)/(2*nunuMass)` is below
`tauLeptonMass` or `visEn_rf = tauEn_rf - nunuMass` is below `visMass`. -/
theorem compPSfactor_rejects (env : Env K) (x visEn visP visMass nunuEn nunuP nunuMass : K)
    (heps : 0 ≤ env.epsilon) :
    ((x < square visMass / env.tauLeptonMass2 ∨ x > 1) →
      compPSfactor_tauToLepDecay env x visEn visP visMass nunuEn nunuP nunuMass = 0 ∧
      compPSfactor_tauToHadDecay env x visEn visP visMass nunuEn nunuP = 0) ∧
    ((compCosThetaNuNu env visEn visP (square visMass) nunuEn nunuP (square nunuMass) < -1 ∨
        compCosThetaNuNu env visEn visP (square visMass) nunuEn nunuP (square nunuMass) > 1) →
      compPSfactor_tauToLepDecay env x visEn visP visMass nunuEn nunuP nunuMass = 0) ∧
    ((compCosThetaNuNu env visEn visP (square visMass) nunuEn nunuP 0 < -1 ∨
        compCosThetaNuNu env visEn visP (square visMass) nunuEn nunuP 0 > 1) →
      compPSfactor_tauToHadDecay env x visEn visP visMass nunuEn nunuP = 0) ∧
    (square nunuMass ≥ (1 - x) * env.tauLeptonMass2 →
      compPSfactor_tauToLepDecay env x visEn visP visMass nunuEn nunuP nunuMass = 0) ∧
    (((env.tauLeptonMass2 + square nunuMass - square visMass) / (2 * nunuMass)
          < env.tauLeptonMass ∨
        (env.tauLeptonMass2 + square nunuMass - square visMass) / (2 * nunuMass) - nunuMass
          < visMass) →
      compPSfactor_tauToLepDecay env x visEn visP visMass nunuEn nunuP nunuMass = 0) := by
  have hcos : ∀ c : K, (c < -1 ∨ c > 1) → ¬ (c ≥ -1 + env.epsilon ∧ c ≤ 1) := by
    rintro c (h | h) ⟨h1, h2⟩
    · linarith
    · exact absurd h2 (not_le.mpr h)
  refine ⟨?_, ?_, ?_, ?_, ?_⟩
  · intro hx
    have hn : ¬ (x ≥ square visMass / env.tauLeptonMass2 ∧ x ≤ 1) := by
      rintro ⟨h1, h2⟩
      rcases hx with h | h
      · exact absurd h1 (not_le.mpr h)
      · exact absurd h2 (not_le.mpr h)
    constructor
    · unfold compPSfactor_tauToLepDecay
      simp only
      rw [if_neg (fun h => hn ⟨h.1, h.2.1⟩)]
    · unfold compPSfactor_tauToHadDecay
      simp only
      rw [if_neg hn]
  · intro hc
    unfold compPSfactor_tauToLepDecay
    simp only
    split_ifs with h1 h2 h3
    · exact absurd h3 (hcos _ hc)
    · rfl
    · rfl
    · rfl
  · intro hc
    unfold compPSfactor_tauToHadDecay
    simp only
    split_ifs with h1 h2
    · exact absurd h2 (hcos _ hc)
    · rfl
    · rfl
  · intro hm
    unfold compPSfactor_tauToLepDecay
    simp only
    rw [if_neg (fun h => absurd hm (not_le.mpr h.2.2))]
  · intro he
    unfold compPSfactor_tauToLepDecay
    simp only
    have hn : ¬ ((env.tauLeptonMass2 + square nunuMass - square visMass) / (2 * nunuMass)
          ≥ env.tauLeptonMass ∧
        (env.tauLeptonMass2 + square nunuMass - square visMass) / (2 * nunuMass) - nunuMass
          ≥ visMass) := by
      rintro ⟨h1, h2⟩
      rcases he with h | h
      · exact absurd h1 (not_le.mpr h)
      · exact absurd h2 (not_le.mpr h)
    split_ifs <;> rfl

/-- Witness of C25: with the sample constants (`tauLeptonMass2 = 4`, `epsilon = 1/1000`), the
hadronic density at `x = 2`. -/
theorem compPSfactor_rejects_witness :
    (0 : ℚ) ≤ sampleEnvQ.epsilon ∧ compPSfactor_tauToHadDecay sampleEnvQ 2 3 3 1 1 1 = 0 :=
  ⟨by norm_num [sampleEnvQ, sampleEnv],
    ((compPSfactor_rejects sampleEnvQ 2 3 3 1 1 1 0 (by norm_num [sampleEnvQ, sampleEnv])).1
      (Or.inr (by norm_num))).2⟩

/-! ## The two-dimensional MEt transfer function -/

/-- The quadratic form that lines 677-679 write out by hand is the matrix form
`r^T * covInv * r`. -/
theorem pull2_eq_matrix_form (covInv : TMatrixD K) (rx ry : K) :
    rx * (covInv 0 0 * rx + covInv 0 1 * ry) + ry * (covInv 1 0 * rx + covInv 1 1 * ry) =
      dotVec 2 (residual2 rx ry) (matVec 2 covInv (residual2 rx ry)) := by
  simp [dotVec, matVec, residual2, List.range_succ]

/-- C26: the two-dimensional MEt transfer function.  For a MEt measurement of proton-proton
type and `rhoHadTau_ = 0` (no hadronic-response correction), with
`r = (MEt.px - (nuP4_1.px + nuP4_2.px), MEt.py - (nuP4_1.py + nuP4_2.py))`, `EvalMEtTF` returns
`const_MET * exp(-(1/2) * r^T * covInv * r)`, the quadratic form written out in the code being
the matrix form; and with `exp(t) <= 1` for `t <= 0` and `exp(0) = 1`, for a positive
semidefinite `covInv` and `const_MET >= 0` the value is at most `const_MET`, and it is
`const_MET` when `r = 0`. -/
theorem EvalMEtTF_gaussian (env : Env K) (s : ClassicSVfitIntegrand K) (met : MeasuredMEt K)
    (rx ry : K) (hexp : ∀ t : K, t ≤ 0 → env.exp t ≤ 1) (hexp0 : env.exp 0 = 1)
    (htype : met.type = CollisionType.kProtonProtonCollisions) (hrho : s.rhoHadTau_ = 0)
    (hrx : rx = met.px - (s.fittedTauLepton1_.nuP4.px + s.fittedTauLepton2_.nuP4.px))
    (hry : ry = met.py - (s.fittedTauLepton1_.nuP4.py + s.fittedTauLepton2_.nuP4.py)) :
    EvalMEtTF env s met = some (met.const_MET * env.exp (-(1 / 2) *
      dotVec 2 (residual2 rx ry) (matVec 2 met.covInv (residual2 rx ry)))) ∧
    rx * (met.covInv 0 0 * rx + met.covInv 0 1 * ry) +
        ry * (met.covInv 1 0 * rx + met.covInv 1 1 * ry) =
      dotVec 2 (residual2 rx ry) (matVec 2 met.covInv (residual2 rx ry)) ∧
    ((∀ v : Nat → K, 0 ≤ dotVec 2 v (matVec 2 met.covInv v)) → 0 ≤ met.const_MET →
      ∃ m, EvalMEtTF env s met = some m ∧ m ≤ met.const_MET) ∧
    (rx = 0 → ry = 0 → EvalMEtTF env s met = some met.const_MET) := by
  have hval : EvalMEtTF env s met = some (met.const_MET * env.exp (-(1 / 2) *
      dotVec 2 (residual2 rx ry) (matVec 2 met.covInv (residual2 rx ry)))) := by
    unfold EvalMEtTF
    rw [htype]
    simp only [EvalMEtTF_residual, hrho, ne_eq, not_true_eq_false, if_false]
    rw [← pull2_eq_matrix_form, hrx, hry]
    simp only [zero_add]
  refine ⟨hval, pull2_eq_matrix_form _ _ _, ?_, ?_⟩
  · intro hpsd hc
    have h1 : env.exp (-(1 / 2) *
        dotVec 2 (residual2 rx ry) (matVec 2 met.covInv (residual2 rx ry))) ≤ 1 := by
      apply hexp
      have := hpsd (residual2 rx ry)
      linarith
    refine ⟨_, hval, ?_⟩
    calc met.const_MET * env.exp (-(1 / 2) *
          dotVec 2 (residual2 rx ry) (matVec 2 met.covInv (residual2 rx ry)))
        ≤ met.const_MET * 1 := mul_le_mul_of_nonneg_left h1 hc
      _ = met.const_MET := mul_one _
  · intro h0 h1
    rw [hval, ← pull2_eq_matrix_form, h0, h1]
    simp [hexp0]

/-- Witness of C26: the real exponential, the sample MEt measurement `(3, 0)` with unit inverse
covariance and two prompt legs. -/
theorem EvalMEtTF_gaussian_witness :
    EvalMEtTF (sampleEnv Real.exp Real.sqrt Real.rpow)
      (samplePromptIntegrand ⟨3, 0, 0, 3⟩ ⟨-3, 0, 0, 3⟩ [sampleMEt 3 0]) (sampleMEt 3 0) =
      some ((sampleMEt (3 : ℝ) 0).const_MET * Real.exp (-(1 / 2) *
        dotVec 2 (residual2 (3 - (0 + 0)) (0 - (0 + 0)))
          (matVec 2 (sampleMEt (3 : ℝ) 0).covInv (residual2 (3 - (0 + 0)) (0 - (0 + 0)))))) :=
  (EvalMEtTF_gaussian (sampleEnv Real.exp Real.sqrt Real.rpow)
    (samplePromptIntegrand ⟨3, 0, 0, 3⟩ ⟨-3, 0, 0, 3⟩ [sampleMEt 3 0]) (sampleMEt 3 0)
    (3 - (0 + 0)) (0 - (0 + 0)) (fun _ ht => Real.exp_le_one_iff.mpr ht) Real.exp_zero rfl rfl
    rfl rfl).1

/-! ## The flight-length probability -/

/-- A number is zero when none of its bits is set. -/
theorem eq_zero_iff_testBit (a : Nat) : a = 0 ↔ ∀ i, a.testBit i = false :=
  ⟨fun h i => by rw [h]; exact Nat.zero_testBit i,
    fun h => Nat.eq_of_testBit_eq (fun i => by rw [h i, Nat.zero_testBit])⟩

/-- Two distinct single bits have no bit in common. -/
theorem two_pow_land_two_pow {j k : Nat} (h : j ≠ k) : 2 ^ j &&& 2 ^ k = 0 := by
  rw [eq_zero_iff_testBit]
  intro i
  rw [Nat.testBit_and, Nat.testBit_two_pow, Nat.testBit_two_pow]
  by_cases h1 : j = i
  · have h2 : ¬ k = i := fun h2 => h (h1.trans h2.symm)
    simp [h1, h2]
  · simp [h1]

/-- A single bit tested against itself. -/
theorem two_pow_land_self_ne_zero (k : Nat) : 2 ^ k &&& 2 ^ k ≠ 0 := by
  rw [Nat.and_self]
  exact Nat.pos_iff_ne_zero.mp (Nat.two_pow_pos k)

/-- A mask tested on `a | b` is clear when it is clear on `a` and on `b`. -/
theorem lor_land_eq_zero_iff (a b m : Nat) :
    (a ||| b) &&& m = 0 ↔ a &&& m = 0 ∧ b &&& m = 0 := by
  simp only [eq_zero_iff_testBit, Nat.testBit_and, Nat.testBit_or]
  constructor
  · intro h
    constructor <;> intro i <;> have := h i <;> revert this <;>
      cases a.testBit i <;> cases b.testBit i <;> cases m.testBit i <;> simp
  · rintro ⟨h1, h2⟩ i
    have k1 := h1 i
    have k2 := h2 i
    revert k1 k2
    cases a.testBit i <;> cases b.testBit i <;> cases m.testBit i <;> simp

/-- The reset `e & (e ^ t)` leaves the bits of a mask `m` disjoint from `t` as they are. -/
theorem reset_land (e t m : Nat) (h : m &&& t = 0) : (e &&& (e ^^^ t)) &&& m = e &&& m := by
  apply Nat.eq_of_testBit_eq
  intro i
  have hi := (eq_zero_iff_testBit _).mp h i
  rw [Nat.testBit_and] at hi
  simp only [Nat.testBit_and, Nat.testBit_xor]
  revert hi
  cases e.testBit i <;> cases t.testBit i <;> cases m.testBit i <;> simp

/-- Raising `t` with `e | t` leaves the bits of a mask `m` disjoint from `t` as they are. -/
theorem raise_land (e t m : Nat) (h : m &&& t = 0) : (e ||| t) &&& m = e &&& m := by
  apply Nat.eq_of_testBit_eq
  intro i
  have hi := (eq_zero_iff_testBit _).mp h i
  rw [Nat.testBit_and] at hi
  simp only [Nat.testBit_and, Nat.testBit_or]
  revert hi
  cases e.testBit i <;> cases t.testBit i <;> cases m.testBit i <;> simp

/-- Bit by bit, the reset `e & (e ^ t)` is `e` with the bits of `t` cleared. -/
theorem reset_testBit (e t i : Nat) :
    (e &&& (e ^^^ t)).testBit i = (e.testBit i && !t.testBit i) := by
  simp only [Nat.testBit_and, Nat.testBit_xor]
  cases e.testBit i <;> cases t.testBit i <;> rfl

/-- The masks of the setup-time flags are disjoint from `TauDecayParameters`. -/
theorem setup_masks_disjoint {env : Env K} (h : ErrorCodes_distinctBits env) :
    env.MatrixInversion &&& env.TauDecayParameters = 0 ∧
    env.LeptonNumber &&& env.TauDecayParameters = 0 ∧
    env.MissingVertex &&& env.TauDecayParameters = 0 ∧
    env.MissingLeadChargedHadron &&& env.TauDecayParameters = 0 := by
  obtain ⟨a, b, c, d, e, hn, ha, hb, hc, hd, he⟩ := h
  simp only [List.nodup_cons, List.mem_cons, List.mem_singleton, not_or, List.not_mem_nil,
    not_false_eq_true, List.nodup_nil, and_true] at hn
  rw [ha, hb, hc, hd, he]
  exact ⟨two_pow_land_two_pow hn.1.2.1, two_pow_land_two_pow hn.2.1.1,
    two_pow_land_two_pow (Ne.symm hn.2.2.1.1), two_pow_land_two_pow (Ne.symm hn.2.2.1.2)⟩

/-- The value of `errorCode_` after `Eval`: unchanged, reset, or reset and raised. -/
theorem Eval_errorCode {env : Env K} {s s' : ClassicSVfitIntegrand K} {q : Nat → K} {v : K}
    (h : Eval env s q = some (v, s')) :
    s'.errorCode_ = s.errorCode_ ∨
    s'.errorCode_ = s.errorCode_ &&& (s.errorCode_ ^^^ env.TauDecayParameters) ∨
    s'.errorCode_ =
      (s.errorCode_ &&& (s.errorCode_ ^^^ env.TauDecayParameters)) ||| env.TauDecayParameters := by
  rcases Eval_spec h with ⟨-, -, rfl⟩ | ⟨-, s1, hr, hcase⟩
  · exact Or.inl rfl
  · have hs1 : s1.errorCode_ = s.errorCode_ := by rw [rescaleX_frame hr]
    rcases hcase with ⟨-, ps, s2, hp, hcase2⟩ | ⟨-, hcomb⟩
    · have h2 : s'.errorCode_ = s2.errorCode_ := by
        rcases hcase2 with ⟨-, -, rfl⟩ | ⟨-, fl, -, hcomb⟩
        · rfl
        · rcases Eval_combine_spec hcomb with ⟨-, -, rfl⟩ | ⟨-, met, m, -, -, -, rfl⟩ <;> rfl
      rw [h2, ← hs1]
      rcases EvalPS_flag hp with hf | ⟨-, hf, -⟩
      · exact Or.inr (Or.inl hf)
      · exact Or.inr (Or.inr hf)
    · left
      rw [← hs1]
      rcases Eval_combine_spec hcomb with ⟨-, -, rfl⟩ | ⟨-, met, m, -, -, -, rfl⟩ <;> rfl

/-! ## The per-call flag and the setup-time flags -/

/-- For a single-bit mask `2^c`, the reset `e & (e ^ 2^c)` clears bit `c` and keeps the others,
and `| 2^c` on the result sets bit `c` and keeps the others. -/
theorem reset_raise_testBit (e c : Nat) :
    (e &&& (e ^^^ 2 ^ c)).testBit c = false ∧
    (∀ i, i ≠ c → (e &&& (e ^^^ 2 ^ c)).testBit i = e.testBit i) ∧
    ((e &&& (e ^^^ 2 ^ c)) ||| 2 ^ c).testBit c = true ∧
    (∀ i, i ≠ c → ((e &&& (e ^^^ 2 ^ c)) ||| 2 ^ c).testBit i = e.testBit i) := by
  refine ⟨?_, fun i hi => ?_, ?_, fun i hi => ?_⟩
  · rw [reset_testBit, Nat.testBit_two_pow]
    simp
  · rw [reset_testBit, Nat.testBit_two_pow]
    have : ¬ c = i := fun h => hi h.symm
    simp [this]
  · rw [Nat.testBit_or, Nat.testBit_two_pow]
    simp
  · rw [Nat.testBit_or, reset_testBit, Nat.testBit_two_pow]
    have : ¬ c = i := fun h => hi h.symm
    simp [this]

/-- C30: the reset of line 374 and the setup-time flags.  With the masks distinct single bits
and `c` the bit of `TauDecayParameters`: for every prior value `e` of `errorCode_` the
expression `e & (e ^ TauDecayParameters)` has bit `c` clear and every other bit as in `e`.
`EvalPS` performs this reset on every path: when it returns, every bit of `errorCode_` other
than `c` is as before the call, whatever it was; bit `c` is set afterwards only if this call
has raised it (lines 414, 465: the value is 0, `errorCode_` is the reset code with the bit
raised, and the error code of a non-prompt fitted leg is not `None`), so a flag left by an
earlier call does not survive; and when bit `c` is clear afterwards `errorCode_` is the reset
code.  `Eval` likewise leaves every bit other than `c` as it finds it; it leaves `errorCode_`
untouched when it returns on a setup-time error or evaluates a systematic variation, and after
a central evaluation bit `c` is set only if the value returned is 0.  Hence the four setup-time
flags `MatrixInversion`, `LeptonNumber`, `MissingVertex` and `MissingLeadChargedHadron` are
neither set nor cleared by `EvalPS` or `Eval`. -/
theorem EvalPS_reset_keeps_setup_flags (env : Env K) (s : ClassicSVfitIntegrand K)
    (q : Nat → K) (hbits : ErrorCodes_distinctBits env) :
    ∃ c, env.TauDecayParameters = 2 ^ c ∧
      (∀ e : Nat, (e &&& (e ^^^ env.TauDecayParameters)).testBit c = false ∧
        ∀ i, i ≠ c → (e &&& (e ^^^ env.TauDecayParameters)).testBit i = e.testBit i) ∧
      (∀ p t, EvalPS env s = some (p, t) →
        (∀ i, i ≠ c → t.errorCode_.testBit i = s.errorCode_.testBit i) ∧
        (t.errorCode_.testBit c = true →
          p = 0 ∧
          t.errorCode_ =
            (s.errorCode_ &&& (s.errorCode_ ^^^ env.TauDecayParameters)) |||
              env.TauDecayParameters ∧
          ((t.leg1isPrompt_ = false ∧
              t.fittedTauLepton1_.errorCode ≠ env.FittedTauLepton_None) ∨
           (t.leg2isPrompt_ = false ∧
              t.fittedTauLepton2_.errorCode ≠ env.FittedTauLepton_None))) ∧
        (t.errorCode_.testBit c = false →
          t.errorCode_ = s.errorCode_ &&& (s.errorCode_ ^^^ env.TauDecayParameters)) ∧
        t.errorCode_ &&& env.MatrixInversion = s.errorCode_ &&& env.MatrixInversion ∧
        t.errorCode_ &&& env.LeptonNumber = s.errorCode_ &&& env.LeptonNumber ∧
        t.errorCode_ &&& env.MissingVertex = s.errorCode_ &&& env.MissingVertex ∧
        t.errorCode_ &&& env.MissingLeadChargedHadron =
          s.errorCode_ &&& env.MissingLeadChargedHadron) ∧
      (∀ v s', Eval env s q = some (v, s') →
        (∀ i, i ≠ c → s'.errorCode_.testBit i = s.errorCode_.testBit i) ∧
        (hasSetupError env s ∨ ¬ (s.isCentral_ = true ∨ s.idxMEtSystematic_ = 0) →
          s'.errorCode_ = s.errorCode_) ∧
        (¬ hasSetupError env s → (s.isCentral_ = true ∨ s.idxMEtSystematic_ = 0) →
          s'.errorCode_.testBit c = true → v = 0) ∧
        s'.errorCode_ &&& env.MatrixInversion = s.errorCode_ &&& env.MatrixInversion ∧
        s'.errorCode_ &&& env.LeptonNumber = s.errorCode_ &&& env.LeptonNumber ∧
        s'.errorCode_ &&& env.MissingVertex = s.errorCode_ &&& env.MissingVertex ∧
        s'.errorCode_ &&& env.MissingLeadChargedHadron =
          s.errorCode_ &&& env.MissingLeadChargedHadron) := by
  obtain ⟨h1, h2, h3, h4⟩ := setup_masks_disjoint hbits
  have key : ∀ x : Nat,
      (x = s.errorCode_ ∨
        x = s.errorCode_ &&& (s.errorCode_ ^^^ env.TauDecayParameters) ∨
        x = (s.errorCode_ &&& (s.errorCode_ ^^^ env.TauDecayParameters)) |||
          env.TauDecayParameters) →
      ∀ m, m &&& env.TauDecayParameters = 0 → x &&& m = s.errorCode_ &&& m := by
    rintro x (rfl | rfl | rfl) m hm
    · rfl
    · exact reset_land _ _ _ hm
    · rw [raise_land _ _ _ hm, reset_land _ _ _ hm]
  obtain ⟨a, b, c, d, e, -, -, -, hc, -, -⟩ := hbits
  have bits : ∀ x : Nat,
      (x = s.errorCode_ ∨
        x = s.errorCode_ &&& (s.errorCode_ ^^^ env.TauDecayParameters) ∨
        x = (s.errorCode_ &&& (s.errorCode_ ^^^ env.TauDecayParameters)) |||
          env.TauDecayParameters) →
      ∀ i, i ≠ c → x.testBit i = s.errorCode_.testBit i := by
    rintro x (rfl | rfl | rfl) i hi
    · rfl
    · rw [hc]
      exact (reset_raise_testBit _ c).2.1 i hi
    · rw [hc]
      exact (reset_raise_testBit _ c).2.2.2 i hi
  refine ⟨c, hc, fun e => ?_, ?_, ?_⟩
  · rw [hc]
    exact ⟨(reset_raise_testBit e c).1, (reset_raise_testBit e c).2.1⟩
  · intro p t h
    have hf := EvalPS_flag h
    have hf3 : t.errorCode_ = s.errorCode_ ∨
        t.errorCode_ = s.errorCode_ &&& (s.errorCode_ ^^^ env.TauDecayParameters) ∨
        t.errorCode_ = (s.errorCode_ &&& (s.errorCode_ ^^^ env.TauDecayParameters)) |||
          env.TauDecayParameters := by
      rcases hf with hf | ⟨-, hf, -⟩
      · exact Or.inr (Or.inl hf)
      · exact Or.inr (Or.inr hf)
    refine ⟨bits _ hf3, ?_, ?_, key _ hf3 _ h1, key _ hf3 _ h2, key _ hf3 _ h3, key _ hf3 _ h4⟩
    · intro hset
      rcases hf with hf | hf
      · rw [hf, hc, (reset_raise_testBit _ c).1] at hset
        cases hset
      · exact hf
    · intro hclear
      rcases hf with hf | ⟨-, hf, -⟩
      · exact hf
      · rw [hf, hc, (reset_raise_testBit _ c).2.2.1] at hclear
        cases hclear
  · intro v s' h
    have hf := Eval_errorCode h
    refine ⟨bits _ hf, ?_, ?_, key _ hf _ h1, key _ hf _ h2, key _ hf _ h3, key _ hf _ h4⟩
    · intro hcase
      rcases Eval_spec h with ⟨-, -, rfl⟩ | ⟨hns, s1, hr, hcase2⟩
      · rfl
      · have hs1 := rescaleX_frame hr
        rcases hcase with hse | hnc
        · exact absurd hse hns
        · rcases hcase2 with ⟨hcen, -⟩ | ⟨-, hcomb⟩
          · rw [hs1] at hcen
            exact absurd hcen hnc
          · have he1 : s1.errorCode_ = s.errorCode_ := by rw [hs1]
            rw [← he1]
            rcases Eval_combine_spec hcomb with ⟨-, -, rfl⟩ | ⟨-, met, m, -, -, -, rfl⟩ <;> rfl
    · intro hns hcen hset
      rcases Eval_spec h with ⟨hse, -, -⟩ | ⟨-, s1, hr, hcase2⟩
      · exact absurd hse hns
      · have hs1 := rescaleX_frame hr
        rcases hcase2 with ⟨-, ps, s2, hp, hcase3⟩ | ⟨hnc, -⟩
        · rcases hcase3 with ⟨-, hv, -⟩ | ⟨hnf, fl, -, hcomb⟩
          · exact hv
          · exfalso
            have he : s'.errorCode_ = s2.errorCode_ := by
              rcases Eval_combine_spec hcomb with ⟨-, -, rfl⟩ | ⟨-, met, m, -, -, -, rfl⟩ <;> rfl
            rw [he] at hset
            rcases EvalPS_flag hp with hcl | ⟨-, hraised, -⟩
            · rw [hcl, hc, (reset_raise_testBit _ c).1] at hset
              cases hset
            · apply hnf
              rw [hraised, lor_land_self, hc]
              exact Nat.pos_iff_ne_zero.mp (Nat.two_pow_pos c)
        · rw [hs1] at hnc
          exact absurd hcen hnc

/-- The masks of the sample environment are the bits 0 to 4. -/
theorem sampleEnv_distinctBits (exp sqrt : K → K) (pow : K → K → K) :
    ErrorCodes_distinctBits (sampleEnv exp sqrt pow) :=
  ⟨0, 1, 2, 3, 4, by decide, rfl, rfl, rfl, rfl, rfl⟩

/-- On the sample integrand of two prompt leptons `EvalPS` returns 1, whatever `errorCode_`
is. -/
theorem sampleFlagged_EvalPS (e : Nat) :
    (EvalPS sampleEnvQ (sampleFlaggedIntegrand e)).map Prod.fst = some 1 := by
  norm_num [sampleFlaggedIntegrand, samplePromptIntegrand, sampleEnvQ, sampleEnv,
    ClassicSVfitIntegrand.ctor, disableDiTauMassConstraint,
    blankIntegrand, EvalPS, visPtShift, EvalPS_leg1, EvalPS_leg2, x1_dash, x2_dash, lit1em2,
    lit1em5, EvalPS_prob, legDecayProb, legProbTF, sampleFitted, samplePromptLepton,
    LorentzVector.zero, LorentzVector.scale]

/-- On the sample integrand of two prompt leptons with `errorCode_ = 4` (the flag
`TauDecayParameters` left by an earlier call, no setup-time flag) `Eval` returns 1. -/
theorem sampleFlagged_Eval :
    (Eval sampleEnvQ (sampleFlaggedIntegrand 4) (fun _ => 1 / 2)).map Prod.fst = some 1 := by
  norm_num [Eval, sampleFlaggedIntegrand, samplePromptIntegrand, hasSetupError, sampleEnvQ,
    sampleEnv,
    rescaleX, rescaleXLoop, ClassicSVfitIntegrand.ctor, disableDiTauMassConstraint,
    blankIntegrand, EvalPS, visPtShift, EvalPS_leg1, EvalPS_leg2, x1_dash, x2_dash, lit1em2,
    lit1em5, floor300, EvalPS_prob, legDecayProb, legProbTF, sampleFitted, samplePromptLepton,
    EvalFlightLength, Eval_combine, idxMeasuredMEt, EvalMEtTF, EvalMEtTF_residual, sampleMEt,
    LorentzVector.zero, LorentzVector.scale, show (4 : Nat) &&& 1 = 0 from rfl,
    show (4 : Nat) &&& 2 = 0 from rfl, show (4 : Nat) &&& 8 = 0 from rfl,
    show (4 : Nat) &&& 16 = 0 from rfl, show (4 : Nat) &&& (4 ^^^ 4) = 0 from rfl,
    show (0 : Nat) &&& 4 = 0 from rfl]

/-- Witness of C30: the sample masks (bits 0 to 4, `TauDecayParameters = 4`) and two prompt
leptons.  `EvalPS` on the state with `errorCode_ = 7` (the flags `MatrixInversion`,
`LeptonNumber` and `TauDecayParameters`) returns 1 and leaves `errorCode_ = 3`: the flag
`TauDecayParameters` is cleared, the two setup-time flags are kept.  `Eval` on the state with
`errorCode_ = 4` returns 1 and leaves `errorCode_ = 0`. -/
theorem EvalPS_reset_keeps_setup_flags_witness :
    ErrorCodes_distinctBits sampleEnvQ ∧
    (∃ t, EvalPS sampleEnvQ (sampleFlaggedIntegrand 7) = some (1, t) ∧ t.errorCode_ = 3) ∧
    (∃ s', Eval sampleEnvQ (sampleFlaggedIntegrand 4) (fun _ => 1 / 2) = some (1, s') ∧
      s'.errorCode_ = 0) := by
  refine ⟨sampleEnv_distinctBits _ _ _, ?_, ?_⟩
  · obtain ⟨t, ht⟩ := exists_of_map_fst (sampleFlagged_EvalPS 7)
    obtain ⟨c, hc, -, hps, -⟩ := EvalPS_reset_keeps_setup_flags sampleEnvQ
      (sampleFlaggedIntegrand 7) (fun _ => 1 / 2) (sampleEnv_distinctBits _ _ _)
    obtain ⟨-, hset, hclear, -⟩ := hps 1 t ht
    refine ⟨t, ht, ?_⟩
    cases hb : t.errorCode_.testBit c with
    | true => exact absurd (hset hb).1 one_ne_zero
    | false => rw [hclear hb]; rfl
  · obtain ⟨s', hs'⟩ := exists_of_map_fst sampleFlagged_Eval
    obtain ⟨c, hc, -, -, hev⟩ := EvalPS_reset_keeps_setup_flags sampleEnvQ
      (sampleFlaggedIntegrand 4) (fun _ => 1 / 2) (sampleEnv_distinctBits _ _ _)
    obtain ⟨hbits, -, hzero, -⟩ := hev 1 s' hs'
    refine ⟨s', hs', ?_⟩
    have hc2 : c = 2 := by
      have h4 : (2 : Nat) ^ c = 2 ^ 2 := hc.symm
      exact Nat.pow_right_injective (le_refl 2) h4
    subst hc2
    have hclear : s'.errorCode_.testBit 2 = false := by
      cases hb : s'.errorCode_.testBit 2 with
      | true =>
        have := hzero (by
          norm_num [hasSetupError, sampleFlaggedIntegrand, sampleEnvQ, sampleEnv,
            show (4 : Nat) &&& 1 = 0 from rfl, show (4 : Nat) &&& 2 = 0 from rfl,
            show (4 : Nat) &&& 8 = 0 from rfl, show (4 : Nat) &&& 16 = 0 from rfl])
          (Or.inl rfl) hb
        exact absurd this one_ne_zero
      | false => rfl
    apply Nat.eq_of_testBit_eq
    intro i
    by_cases hi : i = 2
    · rw [hi, hclear]
      rfl
    · rw [hbits i hi]
      show Nat.testBit 4 i = Nat.testBit 0 i
      rw [show (4 : Nat) = 2 ^ 2 from rfl, Nat.testBit_two_pow, Nat.zero_testBit]
      simp [Ne.symm hi]


/-! ## The flags that setMeasurement sets -/

/-- A mask tested on a conditionally raised code. -/
theorem ite_lor_land (c : Prop) [Decidable c] (x M m : Nat) :
    (if c then x ||| M else x) &&& m = 0 ↔ x &&& m = 0 ∧ (c → M &&& m = 0) := by
  split_ifs with h
  · rw [lor_land_eq_zero_iff]
    exact ⟨fun ⟨a, b⟩ => ⟨a, fun _ => b⟩, fun ⟨a, b⟩ => ⟨a, b h⟩⟩
  · exact ⟨fun a => ⟨a, fun hc => absurd hc h⟩, fun a => a.1⟩

/-- The loop of lines 230-238 over the MEt alternatives. -/
theorem foldl_MEt_land (env : Env K) (m : Nat) (l : List (MeasuredMEt K)) :
    ∀ e : Nat,
    (l.foldl (fun e x => if x.covInv_isValid = false then e ||| env.MatrixInversion else e) e)
        &&& m = 0 ↔
      e &&& m = 0 ∧ ((∃ x ∈ l, x.covInv_isValid = false) → env.MatrixInversion &&& m = 0) := by
  induction l with
  | nil => intro e; simp
  | cons a l ih =>
    intro e
    rw [List.foldl_cons, ih, ite_lor_land]
    simp only [List.mem_cons, exists_eq_or_imp]
    constructor
    · rintro ⟨⟨h1, h2⟩, h3⟩
      exact ⟨h1, fun h => h.elim h2 h3⟩
    · rintro ⟨h1, h2⟩
      exact ⟨⟨h1, fun h => h2 (Or.inl h)⟩, fun h => h2 (Or.inr h)⟩

/-- Without an invalid MEt alternative the loop of lines 230-238 leaves the code as it is. -/
theorem foldl_MEt_valid (env : Env K) (l : List (MeasuredMEt K))
    (h : ∀ x ∈ l, x.covInv_isValid = true) (e : Nat) :
    l.foldl (fun e x => if x.covInv_isValid = false then e ||| env.MatrixInversion else e) e
      = e := by
  induction l generalizing e with
  | nil => rfl
  | cons a l ih =>
    have ha : ¬ a.covInv_isValid = false := by simp [h a (List.mem_cons_self _ _)]
    rw [List.foldl_cons, if_neg ha]
    exact ih (fun x hx => h x (List.mem_cons_of_mem _ hx)) e

/-- The loop of lines 255-260: `hasDecayVertices` ends false when it starts false or some
non-prompt lepton of the event has no decay vertex. -/
theorem foldl_hasDecayVertices (l : List (MeasuredTauLepton K)) :
    ∀ b : Bool,
    l.foldl (fun b m => if m.isPrompt = true then b
        else if m.hasDecayVertex = false then false else b) b = false ↔
      b = false ∨ ∃ m ∈ l, m.isPrompt = false ∧ m.hasDecayVertex = false := by
  induction l with
  | nil => intro b; simp
  | cons a l ih =>
    intro b
    rw [List.foldl_cons, ih]
    simp only [List.mem_cons, exists_eq_or_imp]
    cases hp : a.isPrompt <;> cases hd : a.hasDecayVertex <;> simp

/-- The flags of the flight-length part of `setMeasurement` (lines 240-307), for a mask `m`
disjoint from `MatrixInversion`. -/
theorem setMeasurement_flightLength_land (env : Env K) (senv : SetupEnv K)
    (s : ClassicSVfitIntegrand K) (ev : MeasuredEvent K) (e m : Nat)
    (hMI : env.MatrixInversion &&& m = 0) :
    (setMeasurement_flightLength env senv s ev e).errorCode_ &&& m = 0 ↔
      e &&& m = 0 ∧
      ((ev.hasPrimaryVertex = false ∨
          ∃ x ∈ ev.tauLeptons, x.isPrompt = false ∧ x.hasDecayVertex = false) →
        env.MissingVertex &&& m = 0) ∧
      (((s.leg1isPrompt_ = false ∧ s.measuredTauLepton1_.leadChargedHadron = none) ∨
          (s.leg2isPrompt_ = false ∧ s.measuredTauLepton2_.leadChargedHadron = none)) →
        env.MissingLeadChargedHadron &&& m = 0) := by
  simp only [setMeasurement_flightLength, ite_lor_land, hMI, implies_true, and_true]
  have hdv := foldl_hasDecayVertices ev.tauLeptons true
  simp only [Bool.true_eq_false, false_or] at hdv
  rw [hdv]
  have hlead : (¬ ((s.measuredTauLepton1_.leadChargedHadron.isSome = true ∨
        s.leg1isPrompt_ = true) ∧
      (s.measuredTauLepton2_.leadChargedHadron.isSome = true ∨ s.leg2isPrompt_ = true))) ↔
      ((s.leg1isPrompt_ = false ∧ s.measuredTauLepton1_.leadChargedHadron = none) ∨
        (s.leg2isPrompt_ = false ∧ s.measuredTauLepton2_.leadChargedHadron = none)) := by
    cases s.measuredTauLepton1_.leadChargedHadron <;>
      cases s.measuredTauLepton2_.leadChargedHadron <;>
      cases s.leg1isPrompt_ <;> cases s.leg2isPrompt_ <;> simp
  rw [hlead]
  constructor
  · rintro ⟨⟨⟨h1, h2⟩, h3⟩, h4⟩
    exact ⟨h1, fun h => h.elim h2 h3, h4⟩
  · rintro ⟨h1, h2, h3⟩
    exact ⟨⟨⟨h1, fun h => h2 (Or.inl h)⟩, fun h => h2 (Or.inr h)⟩, h3⟩


/-- The pairs of masks that the flag tests of `setMeasurement` meet. -/
theorem masks_disjoint {env : Env K} (h : ErrorCodes_distinctBits env) :
    (env.LeptonNumber &&& env.MissingVertex = 0 ∧
      env.MatrixInversion &&& env.MissingVertex = 0 ∧
      env.MissingLeadChargedHadron &&& env.MissingVertex = 0 ∧
      env.MissingVertex &&& env.MissingVertex ≠ 0) ∧
    (env.LeptonNumber &&& env.MissingLeadChargedHadron = 0 ∧
      env.MatrixInversion &&& env.MissingLeadChargedHadron = 0 ∧
      env.MissingVertex &&& env.MissingLeadChargedHadron = 0 ∧
      env.MissingLeadChargedHadron &&& env.MissingLeadChargedHadron ≠ 0) ∧
    (env.LeptonNumber &&& env.MatrixInversion = 0 ∧
      env.MatrixInversion &&& env.MatrixInversion ≠ 0) := by
  obtain ⟨a, b, c, d, e, hn, ha, hb, hc, hd, he⟩ := h
  simp only [List.nodup_cons, List.mem_cons, List.mem_singleton, not_or, List.not_mem_nil,
    not_false_eq_true, List.nodup_nil, and_true] at hn
  obtain ⟨⟨hab, hac, had, hae⟩, ⟨hbc, hbd, hbe⟩, ⟨hcd, hce⟩, hde⟩ := hn
  rw [ha, hb, hd, he]
  exact ⟨⟨two_pow_land_two_pow hbd, two_pow_land_two_pow had,
      two_pow_land_two_pow (Ne.symm hde), two_pow_land_self_ne_zero d⟩,
    ⟨two_pow_land_two_pow hbe, two_pow_land_two_pow hae, two_pow_land_two_pow hde,
      two_pow_land_self_ne_zero e⟩,
    ⟨two_pow_land_two_pow (Ne.symm hab), two_pow_land_self_ne_zero a⟩⟩

/-- The code accumulated by lines 188-238 has no bit of a mask disjoint from `LeptonNumber`
and `MatrixInversion`. -/
theorem setMeasurement_errorCode_land (env : Env K) (ev : MeasuredEvent K) (m : Nat)
    (hLN : env.LeptonNumber &&& m = 0) (hMI : env.MatrixInversion &&& m = 0) :
    setMeasurement_errorCode env ev &&& m = 0 := by
  unfold setMeasurement_errorCode
  rw [foldl_MEt_land, ite_lor_land]
  exact ⟨⟨Nat.zero_and m, fun _ => hLN⟩, fun _ => hMI⟩

/-- `setMeasurement` returns when the event has two leptons to read and `hadTauTFs_` is filled
when the transfer function is used. -/
theorem setMeasurement_isSome (env : Env K) (senv : SetupEnv K) (s : ClassicSVfitIntegrand K)
    (ev : MeasuredEvent K) (m1 m2 : MeasuredTauLepton K)
    (h0 : ev.tauLeptons[0]? = some m1) (h1 : ev.tauLeptons[1]? = some m2)
    (hTF : s.useHadTauTF_ = true → s.hadTauTFs_ ≠ none) :
    ∃ s', setMeasurement env senv s ev = some s' := by
  unfold setMeasurement
  simp only [h0, h1]
  cases htf : setMeasurement_hadTauTFs senv s (env.setMeasuredTauLepton s.fittedTauLepton1_ m1)
      (env.setMeasuredTauLepton s.fittedTauLepton2_ m2) with
  | some tfs => exact ⟨_, rfl⟩
  | none =>
    exfalso
    unfold setMeasurement_hadTauTFs at htf
    by_cases hc : s.useHadTauTF_ = true ∧
        ((env.setMeasuredTauLepton s.fittedTauLepton1_ m1).getMeasuredTauLepton.isHadronicTauDecay
            = true ∨
          (env.setMeasuredTauLepton s.fittedTauLepton2_ m2).getMeasuredTauLepton.isHadronicTauDecay
            = true)
    · rw [if_pos hc] at htf
      cases hh : s.hadTauTFs_ with
      | none => exact hTF hc.1 hh
      | some tfs => rw [hh] at htf; cases htf
    · rw [if_neg hc] at htf
      cases htf

/-- What `setMeasurement` leaves in the members that the fraction of the second leg and the
flag tests read. -/
theorem setMeasurement_inv {env : Env K} {senv : SetupEnv K} {s s' : ClassicSVfitIntegrand K}
    {ev : MeasuredEvent K} {m1 m2 : MeasuredTauLepton K}
    (h : setMeasurement env senv s ev = some s')
    (h0 : ev.tauLeptons[0]? = some m1) (h1 : ev.tauLeptons[1]? = some m2) :
    s'.leg1isPrompt_ = m1.isPrompt ∧ s'.leg2isPrompt_ = m2.isPrompt ∧
    s'.mVis_measured_ = (m1.p4.add m2.p4).mass env ∧
    s'.mVis2_measured_ = square ((m1.p4.add m2.p4).mass env) ∧
    s'.diTauMassConstraint_ = s.diTauMassConstraint_ ∧
    s'.diTauMassConstraint2_ = s.diTauMassConstraint2_ ∧
    s'.legIntegrationParams_1 = s.legIntegrationParams_1 ∧
    s'.useTauFlightLength_ = s.useTauFlightLength_ ∧
    (s.useTauFlightLength_ = false → s'.errorCode_ = setMeasurement_errorCode env ev) ∧
    (s.useTauFlightLength_ = true → ∃ s1 : ClassicSVfitIntegrand K,
      s1.leg1isPrompt_ = m1.isPrompt ∧ s1.leg2isPrompt_ = m2.isPrompt ∧
      s1.measuredTauLepton1_ = m1 ∧ s1.measuredTauLepton2_ = m2 ∧
      s'.errorCode_ = (setMeasurement_flightLength env senv s1 ev
        (setMeasurement_errorCode env ev)).errorCode_) := by
  unfold setMeasurement at h
  simp only [h0, h1] at h
  cases htf : setMeasurement_hadTauTFs senv s (env.setMeasuredTauLepton s.fittedTauLepton1_ m1)
      (env.setMeasuredTauLepton s.fittedTauLepton2_ m2) with
  | none => simp [htf] at h
  | some tfs =>
    simp only [htf] at h
    by_cases hfl : s.useTauFlightLength_ = true
    · rw [if_pos hfl] at h
      cases h
      refine ⟨rfl, rfl, rfl, rfl, rfl, rfl, rfl, rfl, fun hf => ?_, fun _ => ⟨_, ?_, ?_, ?_, ?_, rfl⟩⟩
      · rw [hfl] at hf; cases hf
      all_goals rfl
    · rw [if_neg hfl] at h
      cases h
      exact ⟨rfl, rfl, rfl, rfl, rfl, rfl, rfl, rfl, fun _ => rfl, fun hf => absurd hf hfl⟩

/-- C28: the vertex flags of `setMeasurement`.  With the masks distinct single bits, for an
event with (at least) two leptons to read (`m1`, `m2` the first two, the legs), `setMeasurement`
returns, and with `useTauFlightLength_` set, the flag `MissingVertex` is set afterwards if and
only if the event has no primary vertex or some non-prompt lepton of the event has no decay
vertex, and the flag `MissingLeadChargedHadron` is set if and only if a non-prompt leg has no
leading charged hadron; with `useTauFlightLength_` clear neither flag is set. -/
theorem setMeasurement_vertex_flags (env : Env K) (senv : SetupEnv K)
    (s : ClassicSVfitIntegrand K) (ev : MeasuredEvent K) (m1 m2 : MeasuredTauLepton K)
    (hbits : ErrorCodes_distinctBits env)
    (h0 : ev.tauLeptons[0]? = some m1) (h1 : ev.tauLeptons[1]? = some m2)
    (hTF : s.useHadTauTF_ = true → s.hadTauTFs_ ≠ none) :
    ∃ s', setMeasurement env senv s ev = some s' ∧
      (s.useTauFlightLength_ = true →
        (s'.errorCode_ &&& env.MissingVertex ≠ 0 ↔
          (ev.hasPrimaryVertex = false ∨
            ∃ x ∈ ev.tauLeptons, x.isPrompt = false ∧ x.hasDecayVertex = false)) ∧
        (s'.errorCode_ &&& env.MissingLeadChargedHadron ≠ 0 ↔
          ((m1.isPrompt = false ∧ m1.leadChargedHadron = none) ∨
            (m2.isPrompt = false ∧ m2.leadChargedHadron = none)))) ∧
      (s.useTauFlightLength_ = false →
        s'.errorCode_ &&& env.MissingVertex = 0 ∧
        s'.errorCode_ &&& env.MissingLeadChargedHadron = 0) := by
  obtain ⟨s', hs'⟩ := setMeasurement_isSome env senv s ev m1 m2 h0 h1 hTF
  obtain ⟨-, -, -, -, -, -, -, -, hoff, hon⟩ := setMeasurement_inv hs' h0 h1
  obtain ⟨⟨v1, v2, v3, v4⟩, ⟨c1, c2, c3, c4⟩, -⟩ := masks_disjoint hbits
  refine ⟨s', hs', fun hfl => ?_, fun hfl => ?_⟩
  · obtain ⟨s1, p1, p2, q1, q2, he⟩ := hon hfl
    constructor
    · rw [he, ne_eq, setMeasurement_flightLength_land env senv s1 ev _ _ v2]
      constructor
      · intro hne
        by_contra hc
        exact hne ⟨setMeasurement_errorCode_land env ev _ v1 v2, fun h => absurd h hc,
          fun _ => v3⟩
      · rintro hc ⟨-, h, -⟩
        exact v4 (h hc)
    · rw [he, ne_eq, setMeasurement_flightLength_land env senv s1 ev _ _ c2, p1, p2, q1, q2]
      constructor
      · intro hne
        by_contra hc
        exact hne ⟨setMeasurement_errorCode_land env ev _ c1 c2, fun _ => c3,
          fun h => absurd h hc⟩
      · rintro hc ⟨-, -, h⟩
        exact c4 (h hc)
  · rw [hoff hfl]
    exact ⟨setMeasurement_errorCode_land env ev _ v1 v2,
      setMeasurement_errorCode_land env ev _ c1 c2⟩

/-- Witness of C28: the sample event of two hadronic tau decays without vertices, bound with the
flight length in use: both flags are set. -/
theorem setMeasurement_vertex_flags_witness :
    ∃ s', setMeasurement sampleEnvQ sampleSetupEnv
        (enableTauFlightLength (ClassicSVfitIntegrand.ctor blankIntegrand 0))
        sampleHadHadEvent = some s' ∧
      s'.errorCode_ &&& sampleEnvQ.MissingVertex ≠ 0 ∧
      s'.errorCode_ &&& sampleEnvQ.MissingLeadChargedHadron ≠ 0 := by
  obtain ⟨s', hs', hon, -⟩ := setMeasurement_vertex_flags sampleEnvQ sampleSetupEnv
    (enableTauFlightLength (ClassicSVfitIntegrand.ctor blankIntegrand 0)) sampleHadHadEvent
    (sampleHadTau ⟨3, 0, 0, 3⟩) (sampleHadTau ⟨-3, 0, 0, 3⟩) (sampleEnv_distinctBits _ _ _)
    rfl rfl (fun h => by cases h)
  exact ⟨s', hs', (hon rfl).1.mpr (Or.inl rfl), (hon rfl).2.mpr (Or.inl ⟨rfl, rfl⟩)⟩

/-- C29: the reset of the flags and the flag `MatrixInversion`.  `setMeasurement` does not read
the `errorCode_` it finds (line 188 sets it to `None`, which is 0); with the masks distinct
single bits and `useTauFlightLength_` clear, for an event with (at least) two leptons to read,
`setMeasurement` returns and the flag `MatrixInversion` is set afterwards if and only if some
MEt alternative of the event has `covInv_isValid` false; and after an event with exactly two
leptons whose MEt alternatives are all valid, `errorCode_` is `None`. -/
theorem setMeasurement_MatrixInversion (env : Env K) (senv : SetupEnv K)
    (s : ClassicSVfitIntegrand K) (ev : MeasuredEvent K) (m1 m2 : MeasuredTauLepton K)
    (hbits : ErrorCodes_distinctBits env)
    (h0 : ev.tauLeptons[0]? = some m1) (h1 : ev.tauLeptons[1]? = some m2)
    (hTF : s.useHadTauTF_ = true → s.hadTauTFs_ ≠ none)
    (hFL : s.useTauFlightLength_ = false) :
    (∀ e : Nat, setMeasurement env senv { s with errorCode_ := e } ev =
      setMeasurement env senv s ev) ∧
    ∃ s', setMeasurement env senv s ev = some s' ∧
      (s'.errorCode_ &&& env.MatrixInversion ≠ 0 ↔ ∃ x ∈ ev.MEt, x.covInv_isValid = false) ∧
      (ev.tauLeptons.length = 2 → (∀ x ∈ ev.MEt, x.covInv_isValid = true) →
        s'.errorCode_ = 0) := by
  obtain ⟨s', hs'⟩ := setMeasurement_isSome env senv s ev m1 m2 h0 h1 hTF
  obtain ⟨-, -, -, -, -, -, -, -, hoff, -⟩ := setMeasurement_inv hs' h0 h1
  obtain ⟨-, -, ⟨i1, i2⟩⟩ := masks_disjoint hbits
  refine ⟨fun e => rfl, s', hs', ?_, ?_⟩
  · rw [hoff hFL, ne_eq]
    unfold setMeasurement_errorCode
    rw [foldl_MEt_land, ite_lor_land]
    constructor
    · intro hne
      by_contra hc
      exact hne ⟨⟨Nat.zero_and _, fun _ => i1⟩, fun h => absurd h hc⟩
    · rintro hc ⟨-, h⟩
      exact i2 (h hc)
  · intro hlen hvalid
    rw [hoff hFL]
    unfold setMeasurement_errorCode
    rw [foldl_MEt_valid env _ hvalid, if_neg (not_not.mpr hlen)]

/-- Witness of C29: the sample event of two prompt leptons with a valid MEt alternative, bound
to an integrand whose `errorCode_` is 3 from an earlier event. -/
theorem setMeasurement_MatrixInversion_witness :
    ∃ s', setMeasurement sampleEnvQ sampleSetupEnv
        { ClassicSVfitIntegrand.ctor blankIntegrand 0 with errorCode_ := 3 }
        (samplePromptEvent [⟨3, 0, 0, 3⟩, ⟨-3, 0, 0, 3⟩]) = some s' ∧ s'.errorCode_ = 0 := by
  obtain ⟨-, s', hs', -, hnone⟩ := setMeasurement_MatrixInversion sampleEnvQ sampleSetupEnv
    { ClassicSVfitIntegrand.ctor blankIntegrand 0 with errorCode_ := 3 }
    (samplePromptEvent [⟨3, 0, 0, 3⟩, ⟨-3, 0, 0, 3⟩])
    (samplePromptLepton ⟨3, 0, 0, 3⟩) (samplePromptLepton ⟨-3, 0, 0, 3⟩)
    (sampleEnv_distinctBits _ _ _) rfl rfl (fun h => by cases h) rfl
  refine ⟨s', hs', hnone rfl ?_⟩
  intro x hx
  simp only [samplePromptEvent, List.mem_singleton] at hx
  rw [hx]
  rfl


/-! ## The energy fraction derived from the mass constraint -/

/-- C23 (amended): the derived fraction of the second leg.  For an integrand on which
`enableDiTauMassConstraint(M)` and `setMeasurement` have been called (in either order), with a
non-prompt second lepton `m2` and no energy-fraction dimension for the second leg
(`idx_X_ = -1`): `mVis2_measured_` is the square of the invariant mass of `m1.p4 + m2.p4`,
`diTauMassConstraint_` is `M`, `diTauMassConstraint2_` is `M^2`, the fraction `x2_dash` that
`EvalPS` derives (line 447) is `(mVis^2 / M^2) / x1_dash`, and for every `x1_dash != 0` and
`M != 0` it satisfies `x1_dash * x2_dash * M^2 = mVis^2`. -/
theorem x2_dash_ratio (env : Env K) (senv : SetupEnv K) (s0 s : ClassicSVfitIntegrand K)
    (ev : MeasuredEvent K) (m1 m2 : MeasuredTauLepton K) (M x1d : K)
    (hset : setMeasurement env senv (enableDiTauMassConstraint s0 M) ev = some s ∨
      ∃ s1, setMeasurement env senv s0 ev = some s1 ∧ s = enableDiTauMassConstraint s1 M)
    (h0 : ev.tauLeptons[0]? = some m1) (h1 : ev.tauLeptons[1]? = some m2)
    (hp : m2.isPrompt = false) (hidx : s0.legIntegrationParams_1.idx_X_ = -1) :
    s.mVis2_measured_ = square ((m1.p4.add m2.p4).mass env) ∧
    s.diTauMassConstraint_ = M ∧ s.diTauMassConstraint2_ = square M ∧
    x2_dash s x1d = some ((square ((m1.p4.add m2.p4).mass env) / square M) / x1d) ∧
    (x1d ≠ 0 → M ≠ 0 →
      x1d * ((square ((m1.p4.add m2.p4).mass env) / square M) / x1d) * square M =
        square ((m1.p4.add m2.p4).mass env)) := by
  have hfields : s.leg2isPrompt_ = false ∧ s.legIntegrationParams_1.idx_X_ = -1 ∧
      s.mVis2_measured_ = square ((m1.p4.add m2.p4).mass env) ∧
      s.diTauMassConstraint_ = M ∧ s.diTauMassConstraint2_ = square M := by
    rcases hset with h | ⟨s1, h, rfl⟩
    · obtain ⟨-, f2, -, f4, f5, f6, f7, -⟩ := setMeasurement_inv h h0 h1
      exact ⟨f2.trans hp, by rw [f7]; exact hidx, f4, f5, f6⟩
    · obtain ⟨-, f2, -, f4, -, -, f7, -⟩ := setMeasurement_inv h h0 h1
      exact ⟨f2.trans hp, by
        show s1.legIntegrationParams_1.idx_X_ = -1
        rw [f7]; exact hidx, f4, rfl, rfl⟩
  obtain ⟨g1, g2, g3, g4, g5⟩ := hfields
  refine ⟨g3, g4, g5, ?_, ?_⟩
  · unfold x2_dash
    rw [if_pos g1, if_neg (not_not.mpr g2), g3, g5]
  · intro hx hM
    have hM2 : square M ≠ 0 := mul_ne_zero hM hM
    field_simp
    ring

/-- Counterexample to C23 as stated (identity for every `x1_dash != 0`): with the target
`M = 0` (real `sqrt`), the sample event of two hadronic tau decays has `mVis^2 = 36`, and the
derived fraction at `x1_dash = 1/2` does not satisfy `x1_dash * x2_dash * M^2 = mVis^2`, the
left-hand side being a multiple of `M^2 = 0`. -/
theorem x2_dash_ratio_counterexample :
    ∃ s v, setMeasurement (sampleEnv Real.exp Real.sqrt Real.rpow) sampleSetupEnv
        (enableDiTauMassConstraint (ClassicSVfitIntegrand.ctor blankIntegrand 0) 0)
        sampleHadHadEvent = some s ∧
      s.leg2isPrompt_ = false ∧ s.legIntegrationParams_1.idx_X_ = -1 ∧
      s.mVis2_measured_ = 36 ∧ s.diTauMassConstraint2_ = 0 ∧
      x2_dash s (1 / 2) = some v ∧ 1 / 2 * v * s.diTauMassConstraint2_ ≠ s.mVis2_measured_ := by
  obtain ⟨s, hs⟩ := setMeasurement_isSome (sampleEnv Real.exp Real.sqrt Real.rpow)
    sampleSetupEnv (enableDiTauMassConstraint (ClassicSVfitIntegrand.ctor blankIntegrand 0) 0)
    sampleHadHadEvent (sampleHadTau ⟨3, 0, 0, 3⟩) (sampleHadTau ⟨-3, 0, 0, 3⟩) rfl rfl
    (fun h => by cases h)
  obtain ⟨-, f2, -, f4, -, f6, f7, -⟩ := setMeasurement_inv hs
    (show (sampleHadHadEvent : MeasuredEvent ℝ).tauLeptons[0]? =
      some (sampleHadTau ⟨3, 0, 0, 3⟩) from rfl)
    (show (sampleHadHadEvent : MeasuredEvent ℝ).tauLeptons[1]? =
      some (sampleHadTau ⟨-3, 0, 0, 3⟩) from rfl)
  have g1 : s.leg2isPrompt_ = false := f2
  have g2 : s.legIntegrationParams_1.idx_X_ = -1 := by rw [f7]; rfl
  have g3 : s.mVis2_measured_ = 36 := by
    rw [f4]
    norm_num [LorentzVector.mass, LorentzVector.add, sampleHadTau, samplePromptLepton,
      sampleEnv, square, sqrt_thirtysix]
  have g4 : s.diTauMassConstraint2_ = 0 := by
    rw [f6]
    show square (0 : ℝ) = 0
    norm_num [square]
  refine ⟨s, s.mVis2_measured_ / s.diTauMassConstraint2_ / (1 / 2), hs, g1, g2, g3, g4, ?_, ?_⟩
  · unfold x2_dash
    rw [if_pos g1, if_neg (not_not.mpr g2)]
  · rw [g3, g4]
    norm_num

/-- Witness of C23: the sample event of two hadronic tau decays bound after
`enableDiTauMassConstraint(12)`, at `x1_dash = 1/2`, over the rationals. -/
theorem x2_dash_ratio_witness :
    ∃ s v, setMeasurement sampleEnvQ sampleSetupEnv
        (enableDiTauMassConstraint (ClassicSVfitIntegrand.ctor blankIntegrand 0) 12)
        sampleHadHadEvent = some s ∧
      x2_dash s (1 / 2) = some v ∧ 1 / 2 * v * square 12 = s.mVis2_measured_ := by
  obtain ⟨s, hs⟩ := setMeasurement_isSome sampleEnvQ sampleSetupEnv
    (enableDiTauMassConstraint (ClassicSVfitIntegrand.ctor blankIntegrand 0) 12)
    sampleHadHadEvent (sampleHadTau ⟨3, 0, 0, 3⟩) (sampleHadTau ⟨-3, 0, 0, 3⟩) rfl rfl
    (fun h => by cases h)
  obtain ⟨k1, -, -, k4, k5⟩ := x2_dash_ratio sampleEnvQ sampleSetupEnv
    (ClassicSVfitIntegrand.ctor blankIntegrand 0) s sampleHadHadEvent
    (sampleHadTau ⟨3, 0, 0, 3⟩) (sampleHadTau ⟨-3, 0, 0, 3⟩) 12 (1 / 2) (Or.inl hs) rfl rfl rfl
    rfl
  exact ⟨s, _, hs, k4, (k5 (by norm_num) (by norm_num)).trans k1.symm⟩

/-! ## Systematic evaluations and the sample point -/

/-- Whether the loop of `rescaleX` completes does not depend on the sample point. -/
theorem rescaleXLoop_isSome_indep (q q' : Nat → K) (xMin xMax : List K) :
    ∀ (n i : Nat) (x x' : List K), x.length = x'.length →
      (rescaleXLoop q xMin xMax n i x).isSome = (rescaleXLoop q' xMin xMax n i x').isSome := by
  intro n
  induction n with
  | zero => intro i x x' _; rfl
  | succ n ih =>
    intro i x x' hlen
    unfold rescaleXLoop
    cases xMin[i]? with
    | none => rfl
    | some lo =>
      cases xMax[i]? with
      | none => rfl
      | some hi =>
        simp only
        by_cases hi' : i < x.length
        · rw [if_pos hi', if_pos (hlen ▸ hi')]
          exact ih _ _ _ (by rw [List.length_set, List.length_set, hlen])
        · rw [if_neg hi', if_neg (hlen ▸ hi')]

/-- Without hadronic-response correction `EvalMEtTF` does not read `x_`. -/
theorem EvalMEtTF_x (env : Env K) (s : ClassicSVfitIntegrand K) (x : List K)
    (met : MeasuredMEt K) (h : s.rhoHadTau_ = 0) :
    EvalMEtTF env { s with x_ := x } met = EvalMEtTF env s met := by
  have hr : ∀ (b : Bool) (r : K × K × K × K),
      EvalMEtTF_residual { s with x_ := x } b r = EvalMEtTF_residual s b r := by
    intro b r
    unfold EvalMEtTF_residual
    have h' : ¬ s.rhoHadTau_ ≠ 0 := not_not.mpr h
    rw [if_neg h', if_neg (show ¬ ({ s with x_ := x } : ClassicSVfitIntegrand K).rhoHadTau_ ≠ 0
      from h')]
  unfold EvalMEtTF
  cases met.type with
  | kProtonProtonCollisions => simp only [hr]
  | kElectronPositronCollisions => simp only [hr]
  | other => rfl

/-- Without hadronic-response correction the value of lines 333-345 does not depend on `x_`. -/
theorem Eval_combine_x (env : Env K) (s : ClassicSVfitIntegrand K) (x : List K)
    (h : s.rhoHadTau_ = 0) :
    (Eval_combine env { s with x_ := x }).map Prod.fst = (Eval_combine env s).map Prod.fst := by
  unfold Eval_combine
  by_cases hf : s.probPS_ * s.probFlightLength_ < floor300
  · rw [if_pos hf, if_pos (show ({ s with x_ := x } : ClassicSVfitIntegrand K).probPS_ *
      ({ s with x_ := x } : ClassicSVfitIntegrand K).probFlightLength_ < floor300 from hf)]
    rfl
  · rw [if_neg hf, if_neg (show ¬ ({ s with x_ := x } : ClassicSVfitIntegrand K).probPS_ *
      ({ s with x_ := x } : ClassicSVfitIntegrand K).probFlightLength_ < floor300 from hf)]
    have hidx : ({ s with x_ := x } : ClassicSVfitIntegrand K).measuredEvent_.MEt[
        idxMeasuredMEt ({ s with x_ := x } : ClassicSVfitIntegrand K)]? =
        s.measuredEvent_.MEt[idxMeasuredMEt s]? := rfl
    rw [hidx]
    cases s.measuredEvent_.MEt[idxMeasuredMEt s]? with
    | none => rfl
    | some met =>
      simp only [EvalMEtTF_x env s x met h]
      cases EvalMEtTF env s met with
      | none => rfl
      | some m =>
        simp only
        cases s.histogramAdapter_ with
        | none => rfl
        | some a =>
          simp only
          split_ifs <;> rfl

/-- Without hadronic-response correction (`rhoHadTau_ = 0`), under `setMEtSystematic(k)` with
`1 <= k` (`k` an `unsigned int`) the value returned by `Eval` is the same at any two sample
points `q` and `q'` (and `Eval` aborts at `q` exactly when it aborts at `q'`), for every
integrand state. -/
theorem Eval_systematic_indep_of_rho (env : Env K) (s : ClassicSVfitIntegrand K) (q q' : Nat → K)
    (k : Nat) (hk : 1 ≤ k) (hk2 : k < 2 ^ 32) (hrho : s.rhoHadTau_ = 0) :
    (Eval env (setMEtSystematic s k) q).map Prod.fst =
      (Eval env (setMEtSystematic s k) q').map Prod.fst := by
  have hm : ¬ ((setMEtSystematic s k).isCentral_ = true ∨
      (setMEtSystematic s k).idxMEtSystematic_ = 0) := by
    rintro (h | h)
    · cases h
    · have h' : k % 2 ^ 32 = 0 := h
      rw [Nat.mod_eq_of_lt hk2] at h'
      omega
  by_cases hs : hasSetupError env (setMEtSystematic s k)
  · have h0 : ∀ p : Nat → K,
        Eval env (setMEtSystematic s k) p = some (0, setMEtSystematic s k) := by
      intro p
      unfold Eval
      rw [if_pos hs]
    rw [h0 q, h0 q']
  · have hsome := rescaleXLoop_isSome_indep q q' (setMEtSystematic s k).xMin_
      (setMEtSystematic s k).xMax_ (setMEtSystematic s k).numDimensions_ 0
      (setMEtSystematic s k).x_ (setMEtSystematic s k).x_ rfl
    cases h1 : rescaleXLoop q (setMEtSystematic s k).xMin_ (setMEtSystematic s k).xMax_
        (setMEtSystematic s k).numDimensions_ 0 (setMEtSystematic s k).x_ with
    | none =>
      cases h2 : rescaleXLoop q' (setMEtSystematic s k).xMin_ (setMEtSystematic s k).xMax_
          (setMEtSystematic s k).numDimensions_ 0 (setMEtSystematic s k).x_ with
      | none =>
        have h0 : ∀ p : Nat → K,
            rescaleXLoop p (setMEtSystematic s k).xMin_ (setMEtSystematic s k).xMax_
              (setMEtSystematic s k).numDimensions_ 0 (setMEtSystematic s k).x_ = none →
            Eval env (setMEtSystematic s k) p = none := by
          intro p hp
          unfold Eval rescaleX
          rw [if_neg hs, hp]
        rw [h0 q h1, h0 q' h2]
      | some x2 => rw [h1, h2] at hsome; cases hsome
    | some x1 =>
      cases h2 : rescaleXLoop q' (setMEtSystematic s k).xMin_ (setMEtSystematic s k).xMax_
          (setMEtSystematic s k).numDimensions_ 0 (setMEtSystematic s k).x_ with
      | none => rw [h1, h2] at hsome; cases hsome
      | some x2 =>
        have r1 : rescaleX (setMEtSystematic s k) q =
            some { setMEtSystematic s k with x_ := x1 } := by
          unfold rescaleX
          rw [h1]
        have r2 : rescaleX (setMEtSystematic s k) q' =
            some { setMEtSystematic s k with x_ := x2 } := by
          unfold rescaleX
          rw [h2]
        rw [Eval_systematic_eq hs hm r1, Eval_systematic_eq hs hm r2,
          Eval_combine_x env (setMEtSystematic s k) x1 hrho,
          Eval_combine_x env (setMEtSystematic s k) x2 hrho]

set_option maxHeartbeats 4000000 in
/-- C31 (the code at the failing input): `disableHadTauTF` clears `useHadTauTF_` and leaves
`rhoHadTau_` as `enableHadTauTF` has set it (whereas `disableDiTauMassConstraint` and
`disableLogM` reset the values of their features), and `EvalMEtTF` (line 656) tests
`rhoHadTau_ != 0.`, not `useHadTauTF_`.  After `enableHadTauTF` with `rhoHadTau = 1` and
`disableHadTauTF`, on the sample with a hadronic first leg and a `VisPtShift` dimension of range
`[1, 2]`, under `setMEtSystematic(1)` with cached probabilities 1 (real `exp`): the transfer
function is inactive, and at `q = (0, 0, 0)` the shift read by `EvalMEtTF` is 1, the residual
is `(0, 0)` and `Eval` returns 1, while at `q' = (1, 1, 1)` the shift is `1/2`, the residual is
`(-3/2, 0)` and `Eval` returns `exp(-9/8)`: the value depends on the sample point.  On the
state rescaled at `q'` the gate of `EvalPS` (line 381), which tests `useHadTauTF_`, takes the
shift of the same leg to be 1. -/
theorem Eval_systematic_depends_on_q :
    (sampleResponseIntegrand : ClassicSVfitIntegrand ℝ).useHadTauTF_ = false ∧
    (sampleResponseIntegrand : ClassicSVfitIntegrand ℝ).isCentral_ = false ∧
    (sampleResponseIntegrand : ClassicSVfitIntegrand ℝ).idxMEtSystematic_ = 1 ∧
    (Eval (sampleEnv Real.exp Real.sqrt Real.rpow) sampleResponseIntegrand
      (fun _ => 0)).map Prod.fst = some 1 ∧
    (Eval (sampleEnv Real.exp Real.sqrt Real.rpow) sampleResponseIntegrand
      (fun _ => 1)).map Prod.fst = some (Real.exp (-(9 / 8))) ∧
    Real.exp (-(9 / 8)) ≠ 1 ∧
    (∀ (s : ClassicSVfitIntegrand ℝ) (tf : HadTauTF ℝ) (rho : ℝ),
      (disableHadTauTF (enableHadTauTF s tf rho)).useHadTauTF_ = false ∧
      (disableHadTauTF (enableHadTauTF s tf rho)).rhoHadTau_ = rho ∧
      (disableDiTauMassConstraint s).diTauMassConstraint_ = -1 ∧
      (disableLogM s).addLogM_power_ = 0) ∧
    visPtShift ({ sampleResponseIntegrand with x_ := [1, 3, 2] } : ClassicSVfitIntegrand ℝ)
      (sampleResponseIntegrand : ClassicSVfitIntegrand ℝ).legIntegrationParams_0
      (sampleResponseIntegrand : ClassicSVfitIntegrand ℝ).leg1isLeptonicTauDecay_ = some 1 := by
  refine ⟨rfl, rfl, rfl, ?_, ?_, ?_, fun s tf rho => ⟨rfl, rfl, rfl, rfl⟩, ?_⟩
  · norm_num [Eval, hasSetupError, rescaleX, rescaleXLoop, floor300, Eval_combine,
      sampleResponseIntegrand, setMEtSystematic, disableHadTauTF, enableHadTauTF,
      sampleHadIntegrand, idxMeasuredMEt, EvalMEtTF, EvalMEtTF_residual, EvalMEtTF_correction,
      sampleMEt, samplePromptIntegrand, sampleEnv, ClassicSVfitIntegrand.ctor,
      disableDiTauMassConstraint, blankIntegrand, lit1em2, sampleFitted, samplePromptLepton,
      sampleHadTau, LorentzVector.zero, readX, show Int.toNat 2 = 2 from rfl]
  · norm_num [Eval, hasSetupError, rescaleX, rescaleXLoop, floor300, Eval_combine,
      sampleResponseIntegrand, setMEtSystematic, disableHadTauTF, enableHadTauTF,
      sampleHadIntegrand, idxMeasuredMEt, EvalMEtTF, EvalMEtTF_residual, EvalMEtTF_correction,
      sampleMEt, samplePromptIntegrand, sampleEnv, ClassicSVfitIntegrand.ctor,
      disableDiTauMassConstraint, blankIntegrand, lit1em2, sampleFitted, samplePromptLepton,
      sampleHadTau, LorentzVector.zero, readX, show Int.toNat 2 = 2 from rfl]
  · rw [ne_eq, Real.exp_eq_one_iff]
    norm_num
  · norm_num [visPtShift, sampleResponseIntegrand, setMEtSystematic, disableHadTauTF,
      enableHadTauTF, sampleHadIntegrand, samplePromptIntegrand]


/-! ## Systematic evaluations before the first central one -/

/-- `setMeasurement` resets the cached probabilities (lines 309-310) and leaves the dimensions,
the integration ranges and `x_` as they are. -/
theorem setMeasurement_caches {env : Env K} {senv : SetupEnv K} {s s' : ClassicSVfitIntegrand K}
    {ev : MeasuredEvent K} (h : setMeasurement env senv s ev = some s') :
    s'.probPS_ = 0 ∧ s'.probFlightLength_ = 0 ∧ s'.numDimensions_ = s.numDimensions_ ∧
    s'.xMin_ = s.xMin_ ∧ s'.xMax_ = s.xMax_ ∧ s'.x_ = s.x_ := by
  unfold setMeasurement at h
  cases h0 : ev.tauLeptons[0]? with
  | none => simp [h0] at h
  | some m1 =>
    cases h1 : ev.tauLeptons[1]? with
    | none => simp [h0, h1] at h
    | some m2 =>
      simp only [h0, h1] at h
      cases htf : setMeasurement_hadTauTFs senv s
          (env.setMeasuredTauLepton s.fittedTauLepton1_ m1)
          (env.setMeasuredTauLepton s.fittedTauLepton2_ m2) with
      | none => simp [htf] at h
      | some tfs =>
        simp only [htf] at h
        by_cases hfl : s.useTauFlightLength_ = true
        · rw [if_pos hfl] at h
          cases h
          exact ⟨rfl, rfl, rfl, rfl, rfl, rfl⟩
        · rw [if_neg hfl] at h
          cases h
          exact ⟨rfl, rfl, rfl, rfl, rfl, rfl⟩

/-- C32: a systematic evaluation before the first central one.  `setMeasurement` leaves
`probPS_ = 0` and `probFlightLength_ = 0`; on every state `u` that still has these cached values
(whatever was configured since), under `setMEtSystematic(k)` with `1 <= k` (`k` an
`unsigned int`), with the ranges and `x_` covering the dimensions, `Eval` returns 0 at every
sample point, through the setup-error test or the test of line 333, whether or not the MEt
alternative `k + 1` exists. -/
theorem Eval_systematic_after_setMeasurement (env : Env K) (senv : SetupEnv K)
    (s s1 u : ClassicSVfitIntegrand K) (ev : MeasuredEvent K) (k : Nat) (q : Nat → K)
    (hset : setMeasurement env senv s ev = some s1)
    (hu : u.probPS_ = s1.probPS_ ∧ u.probFlightLength_ = s1.probFlightLength_)
    (hk : 1 ≤ k) (hk2 : k < 2 ^ 32)
    (hcov : u.numDimensions_ ≤ u.xMin_.length ∧ u.numDimensions_ ≤ u.xMax_.length ∧
      u.numDimensions_ ≤ u.x_.length) :
    s1.probPS_ = 0 ∧ s1.probFlightLength_ = 0 ∧
    ∃ t, Eval env (setMEtSystematic u k) q = some (0, t) := by
  obtain ⟨c1, c2, -⟩ := setMeasurement_caches hset
  refine ⟨c1, c2, ?_⟩
  by_cases hs : hasSetupError env (setMEtSystematic u k)
  · refine ⟨setMEtSystematic u k, ?_⟩
    unfold Eval
    rw [if_pos hs]
  · have hm : ¬ ((setMEtSystematic u k).isCentral_ = true ∨
        (setMEtSystematic u k).idxMEtSystematic_ = 0) := by
      rintro (h | h)
      · cases h
      · have h' : k % 2 ^ 32 = 0 := h
        rw [Nat.mod_eq_of_lt hk2] at h'
        omega
    obtain ⟨x1, hr, -⟩ := rescaleX_isSome (setMEtSystematic u k) q hcov
    rw [Eval_systematic_eq hs hm hr]
    refine ⟨{ setMEtSystematic u k with x_ := x1 }, ?_⟩
    unfold Eval_combine
    rw [if_pos]
    show u.probPS_ * u.probFlightLength_ < floor300
    rw [hu.1, c1, zero_mul]
    exact floor300_pos

/-- Witness of C32: the sample event of two prompt leptons bound to a freshly constructed
integrand, then `setMEtSystematic(1)`; the event has a single MEt alternative. -/
theorem Eval_systematic_after_setMeasurement_witness :
    ∃ s1 t, setMeasurement sampleEnvQ sampleSetupEnv (ClassicSVfitIntegrand.ctor blankIntegrand 0)
        (samplePromptEvent [⟨3, 0, 0, 3⟩, ⟨-3, 0, 0, 3⟩]) = some s1 ∧
      Eval sampleEnvQ (setMEtSystematic s1 1) (fun _ => 1 / 2) = some (0, t) := by
  obtain ⟨s1, hs1⟩ := setMeasurement_isSome sampleEnvQ sampleSetupEnv
    (ClassicSVfitIntegrand.ctor blankIntegrand 0)
    (samplePromptEvent [⟨3, 0, 0, 3⟩, ⟨-3, 0, 0, 3⟩])
    (samplePromptLepton ⟨3, 0, 0, 3⟩) (samplePromptLepton ⟨-3, 0, 0, 3⟩) rfl rfl
    (fun h => by cases h)
  obtain ⟨-, -, c3, -, -, -⟩ := setMeasurement_caches hs1
  obtain ⟨-, -, t, ht⟩ := Eval_systematic_after_setMeasurement sampleEnvQ sampleSetupEnv
    (ClassicSVfitIntegrand.ctor blankIntegrand 0) s1 s1
    (samplePromptEvent [⟨3, 0, 0, 3⟩, ⟨-3, 0, 0, 3⟩]) 1 (fun _ => 1 / 2) hs1 ⟨rfl, rfl⟩
    (le_refl 1) (by norm_num)
    (by
      rw [c3]
      exact ⟨Nat.zero_le _, Nat.zero_le _, Nat.zero_le _⟩)
  exact ⟨s1, t, hs1, ht⟩

/-! ## The derived fraction without mass constraint -/

/-- The sample integrand with two hadronic legs at `x_ = (1/2, 0, 0)` meets the guards. -/
theorem sampleUnconstrainedPoint_wellConfigured :
    WellConfigured (sampleUnconstrainedPoint : ClassicSVfitIntegrand K) := by
  refine ⟨?_, ?_, ?_, ?_, ?_, ?_, ?_, ?_, ?_, ?_, ?_, ?_, ?_⟩
  · simp [sampleUnconstrainedPoint, sampleConstraintBase]
  · intro _; simp [sampleUnconstrainedPoint, sampleConstraintBase, idxInRange]
  · intro _; simp [sampleUnconstrainedPoint, sampleConstraintBase]
  · intro _; simp [sampleUnconstrainedPoint, sampleConstraintBase, idxInRange]
  · intro _; simp [sampleUnconstrainedPoint, sampleConstraintBase, idxInRange]
  · intro _; simp [sampleUnconstrainedPoint, sampleConstraintBase]
  · intro _; simp [sampleUnconstrainedPoint, sampleConstraintBase]
  · intro _; simp [sampleUnconstrainedPoint, sampleConstraintBase]
  · intro _; simp [sampleUnconstrainedPoint, sampleConstraintBase]
  · simp [sampleUnconstrainedPoint, sampleConstraintBase, samplePromptIntegrand,
      disableDiTauMassConstraint, ClassicSVfitIntegrand.ctor]
  · simp [sampleUnconstrainedPoint, sampleConstraintBase, samplePromptIntegrand,
      disableDiTauMassConstraint, ClassicSVfitIntegrand.ctor]
  · simp [sampleUnconstrainedPoint, sampleConstraintBase, samplePromptIntegrand,
      disableDiTauMassConstraint, ClassicSVfitIntegrand.ctor]
  · refine ⟨sampleMEt 0 0, ?_, ?_⟩
    · simp [sampleUnconstrainedPoint, sampleConstraintBase, samplePromptIntegrand,
        disableDiTauMassConstraint, ClassicSVfitIntegrand.ctor, idxMeasuredMEt]
    · simp [sampleMEt]

/-- C33: the derived fraction without mass constraint.  `disableDiTauMassConstraint` stores
`diTauMassConstraint2_ = -1` and `setMeasurement` stores `mVis2_measured_ >= 0`.  With a
non-prompt second leg without energy-fraction dimension (`idx_X_ = -1`),
`diTauMassConstraint2_ = -1` and `mVis2_measured_ >= 0`, every value that `EvalPS` returns is 0,
whatever `x_` holds, and `EvalPS` does return on every configuration that meets its guards. -/
theorem EvalPS_unconstrained_derived_zero (env : Env K) (s : ClassicSVfitIntegrand K)
    (hp : s.leg2isPrompt_ = false) (hidx : s.legIntegrationParams_1.idx_X_ = -1)
    (hM : s.diTauMassConstraint2_ = -1) (hmv : 0 ≤ s.mVis2_measured_) :
    (∀ u : ClassicSVfitIntegrand K, (disableDiTauMassConstraint u).diTauMassConstraint2_ = -1) ∧
    (∀ (senv : SetupEnv K) (u u' : ClassicSVfitIntegrand K) (ev : MeasuredEvent K),
      setMeasurement env senv u ev = some u' → 0 ≤ u'.mVis2_measured_) ∧
    (∀ p t, EvalPS env s = some (p, t) → p = 0) ∧
    (WellConfigured s → ∃ t, EvalPS env s = some (0, t)) := by
  have hzero : ∀ p t, EvalPS env s = some (p, t) → p = 0 := by
    intro p t h
    by_contra hne
    obtain ⟨sh1, sh2, a, b, l1, l2, -, -, hsh, -, hra, -, hb, hrb, -, -, -⟩ := EvalPS_inv h hne
    have hsh1 : 0 < sh1 := lt_of_lt_of_le (by unfold lit1em2; positivity)
      (not_lt.mp (fun h' => hsh (Or.inl h')))
    have hsh2 : 0 < sh2 := lt_of_lt_of_le (by unfold lit1em2; positivity)
      (not_lt.mp (fun h' => hsh (Or.inr h')))
    have ha : 0 < a := by
      have h1 : 0 < a / sh1 := lt_of_lt_of_le lit1em5_pos hra.1
      have := mul_pos h1 hsh1
      rwa [div_mul_cancel₀ _ (ne_of_gt hsh1)] at this
    unfold x2_dash at hb
    rw [if_pos hp, if_neg (not_not.mpr hidx), hM] at hb
    cases hb
    have hneg : s.mVis2_measured_ / -1 / a / sh2 ≤ 0 := by
      apply div_nonpos_of_nonpos_of_nonneg _ (le_of_lt hsh2)
      apply div_nonpos_of_nonpos_of_nonneg _ (le_of_lt ha)
      rw [div_neg, div_one]
      linarith
    have := lt_of_lt_of_le lit1em5_pos hrb.1
    linarith
  refine ⟨fun _ => rfl, ?_, hzero, ?_⟩
  · intro senv u u' ev h
    cases h0 : ev.tauLeptons[0]? with
    | none => unfold setMeasurement at h; simp [h0] at h
    | some m1 =>
      cases h1 : ev.tauLeptons[1]? with
      | none => unfold setMeasurement at h; simp [h0, h1] at h
      | some m2 =>
        obtain ⟨-, -, -, f4, -⟩ := setMeasurement_inv h h0 h1
        rw [f4]
        exact mul_self_nonneg _
  · intro hw
    obtain ⟨r, hr⟩ := EvalPS_isSome env s hw
    obtain ⟨p, t⟩ := r
    have := hzero p t hr
    subst this
    exact ⟨t, hr⟩

/-- Witness of C33: the sample integrand with two hadronic legs (`mVis2_measured_ = 144/25`,
no energy-fraction dimension for the second leg, mass constraint disabled) at
`x_ = (1/2, 0, 0)`. -/
theorem EvalPS_unconstrained_derived_zero_witness :
    ∃ t, EvalPS sampleEnvQ (sampleUnconstrainedPoint : ClassicSVfitIntegrand ℚ) = some (0, t) :=
  (EvalPS_unconstrained_derived_zero sampleEnvQ sampleUnconstrainedPoint rfl rfl rfl
    (by norm_num [sampleUnconstrainedPoint, sampleConstraintBase])).2.2.2
    sampleUnconstrainedPoint_wellConfigured

/-! ## The hadronic decay density on shell -/

/-- C34: the hadronic decay density for on-shell inputs.  With `sqrt(y*y) = y` for `y >= 0`, for
`visEn^2 = visP^2 + visMass^2`, `nuEn^2 = nuP^2`, `visP > 0`, `nuP > 0` and `visEn + nuEn > 0`,
the radicand `visP^2 + nuP^2 + 2*visP*nuP*cosThetaNu + tauLeptonMass2` of line 230, formed with
the cosine of `compCosThetaNuNu`, is `(visEn + nuEn)^2`, and in its accepted branch (`x` in
range, cosine in range) `compPSfactor_tauToHadDecay` returns
`1/(8 * visP * x^2 * (tauLeptonMass2 - visMass^2))`, in which the momentum of the neutrino does
not occur. -/
theorem compPSfactor_tauToHadDecay_onShell (env : Env K) (x visEn visP visMass nuEn nuP : K)
    (hsqrt : ∀ y : K, 0 ≤ y → env.sqrt (y * y) = y)
    (hvis : visEn * visEn = visP * visP + visMass * visMass) (hnu : nuEn * nuEn = nuP * nuP)
    (hvp : 0 < visP) (hnp : 0 < nuP) (hE : 0 < visEn + nuEn) :
    square visP + square nuP +
        2 * visP * nuP * compCosThetaNuNu env visEn visP (square visMass) nuEn nuP 0 +
        env.tauLeptonMass2 = (visEn + nuEn) * (visEn + nuEn) ∧
    (x ≥ square visMass / env.tauLeptonMass2 ∧ x ≤ 1 →
      compCosThetaNuNu env visEn visP (square visMass) nuEn nuP 0 ≥ -1 + env.epsilon ∧
        compCosThetaNuNu env visEn visP (square visMass) nuEn nuP 0 ≤ 1 →
      compPSfactor_tauToHadDecay env x visEn visP visMass nuEn nuP =
        1 / (8 * visP * square x * (env.tauLeptonMass2 - square visMass))) := by
  have hrad : square visP + square nuP +
      2 * visP * nuP * compCosThetaNuNu env visEn visP (square visMass) nuEn nuP 0 +
      env.tauLeptonMass2 = (visEn + nuEn) * (visEn + nuEn) := by
    unfold compCosThetaNuNu square
    have h1 : visP ≠ 0 := ne_of_gt hvp
    have h2 : nuP ≠ 0 := ne_of_gt hnp
    field_simp
    linear_combination (-(2 * visP * nuP)) * hvis - (2 * visP * nuP) * hnu
  refine ⟨hrad, fun hx hc => ?_⟩
  unfold compPSfactor_tauToHadDecay
  simp only
  rw [if_pos hx, if_neg (not_not.mpr hc), hrad, hsqrt _ (le_of_lt hE)]
  have hE' : visEn + nuEn ≠ 0 := ne_of_gt hE
  rw [mul_comm (8 * visP * square x) (visEn + nuEn), ← div_div, div_self hE',
    one_div_mul_one_div]

/-- Witness of C34: the real square root, a massless visible system and a neutrino of momentum 3
each, `tauLeptonMass2 = 4`, `x = 1/2`. -/
theorem compPSfactor_tauToHadDecay_onShell_witness :
    compPSfactor_tauToHadDecay (sampleEnv Real.exp Real.sqrt Real.rpow) (1 / 2) 3 3 0 3 3 =
      1 / (8 * 3 * square (1 / 2) *
        ((sampleEnv Real.exp Real.sqrt Real.rpow).tauLeptonMass2 - square 0)) :=
  (compPSfactor_tauToHadDecay_onShell (sampleEnv Real.exp Real.sqrt Real.rpow) (1 / 2) 3 3 0 3 3
    (fun y hy => Real.sqrt_mul_self hy) (by norm_num) (by norm_num) (by norm_num) (by norm_num)
    (by norm_num)).2
    (by norm_num [square, sampleEnv]) (by norm_num [compCosThetaNuNu, square, sampleEnv])

/-! ## Sign and divisors of the leptonic decay density -/

/-- The integral `I` of line 197 is not negative when the rest-frame energies are at least the
rest masses. -/
theorem tauToLepDecay_I_nonneg (env : Env K) (Et nunuMass visMass : K)
    (hm : 0 < env.tauLeptonMass)
    (hm2 : env.tauLeptonMass2 = env.tauLeptonMass * env.tauLeptonMass)
    (hsqrtle : ∀ y z : K, 0 ≤ z → y ≤ z * z → env.sqrt y ≤ z)
    (hvm : 0 ≤ visMass) (ht : Et ≥ env.tauLeptonMass) (hv : Et - nunuMass ≥ visMass) :
    0 ≤ square nunuMass * (2 * Et * (Et - nunuMass) - 2 / 3 *
      env.sqrt ((square Et - env.tauLeptonMass2) *
        (square (Et - nunuMass) - square visMass))) := by
  have hEt : 0 ≤ Et := le_trans (le_of_lt hm) ht
  have hEv : 0 ≤ Et - nunuMass := le_trans hvm hv
  have ha1 : square Et - env.tauLeptonMass2 ≤ Et * Et := by
    rw [hm2]
    unfold square
    linarith [mul_self_nonneg env.tauLeptonMass]
  have hb0 : 0 ≤ square (Et - nunuMass) - square visMass := by
    unfold square
    have := mul_self_le_mul_self hvm hv
    linarith
  have hb1 : square (Et - nunuMass) - square visMass ≤ (Et - nunuMass) * (Et - nunuMass) := by
    unfold square
    linarith [mul_self_nonneg visMass]
  have hA : (square Et - env.tauLeptonMass2) * (square (Et - nunuMass) - square visMass)
      ≤ (Et * (Et - nunuMass)) * (Et * (Et - nunuMass)) := by
    calc (square Et - env.tauLeptonMass2) * (square (Et - nunuMass) - square visMass)
        ≤ (Et * Et) * ((Et - nunuMass) * (Et - nunuMass)) :=
          mul_le_mul ha1 hb1 hb0 (mul_self_nonneg Et)
      _ = (Et * (Et - nunuMass)) * (Et * (Et - nunuMass)) := by ring
  have hs := hsqrtle _ _ (mul_nonneg hEt hEv) hA
  have hp := mul_nonneg hEt hEv
  apply mul_nonneg (mul_self_nonneg nunuMass)
  linarith

/-- The radicand of line 203 is positive for a cosine that is at least -1. -/
theorem tauToLepDecay_radicand_pos (visP nunuP c m2 : K) (hvp : 0 < visP) (hnp : 0 ≤ nunuP)
    (hc : -1 ≤ c) (hm2 : 0 < m2) :
    0 < square visP + square nunuP + 2 * visP * nunuP * c + m2 := by
  unfold square
  nlinarith [mul_nonneg (mul_nonneg (le_of_lt hvp) hnp) (show 0 ≤ c + 1 by linarith),
    mul_self_nonneg (visP - nunuP)]

/-- C35 (amended): sign and divisors of `compPSfactor_tauToLepDecay`.  With the constants
`tauLeptonMass > 0`, `tauLeptonMass2 = tauLeptonMass^2`, `epsilon >= 0` and a square root that is
not negative, positive on positive arguments and at most `z` on arguments up to `z^2`
(`z >= 0`): for every input with `visMass >= 0`, `visP > 0`, `nunuP >= 0`,
`visEn + nunuEn >= 0`, `x > 0` and `nunuMass != 0` the value is not negative, and when moreover
`nunuP > 0` no divisor evaluated on the path taken is zero. -/
theorem compPSfactor_tauToLepDecay_nonneg (env : Env K)
    (x visEn visP visMass nunuEn nunuP nunuMass : K)
    (hm : 0 < env.tauLeptonMass)
    (hm2 : env.tauLeptonMass2 = env.tauLeptonMass * env.tauLeptonMass)
    (heps : 0 ≤ env.epsilon)
    (hsqrt0 : ∀ y : K, 0 ≤ env.sqrt y)
    (hsqrtpos : ∀ y : K, 0 < y → 0 < env.sqrt y)
    (hsqrtle : ∀ y z : K, 0 ≤ z → y ≤ z * z → env.sqrt y ≤ z)
    (hvm : 0 ≤ visMass) (hvp : 0 < visP) (hnp : 0 ≤ nunuP) (hE : 0 ≤ visEn + nunuEn)
    (hx : 0 < x) (hn : nunuMass ≠ 0) :
    0 ≤ compPSfactor_tauToLepDecay env x visEn visP visMass nunuEn nunuP nunuMass ∧
    (0 < nunuP → (0 : K) ∉
      compPSfactor_tauToLepDecay_divisors env x visEn visP visMass nunuEn nunuP nunuMass) := by
  have hm2pos : 0 < env.tauLeptonMass2 := by rw [hm2]; exact mul_pos hm hm
  constructor
  · unfold compPSfactor_tauToLepDecay
    simp only
    split_ifs with h1 h2 h3
    · have hI := tauToLepDecay_I_nonneg env _ nunuMass visMass hm hm2 hsqrtle hvm h2.1 h2.2
      have hd : 0 ≤ 8 * visP * square x * env.sqrt (square visP + square nunuP + 2 * visP * nunuP *
          compCosThetaNuNu env visEn visP (square visMass) nunuEn nunuP (square nunuMass)
          + env.tauLeptonMass2) :=
        mul_nonneg (mul_nonneg (mul_nonneg (by norm_num) (le_of_lt hvp))
          (mul_self_nonneg x)) (hsqrt0 _)
      exact div_nonneg (mul_nonneg hE hI) hd
    · exact le_refl _
    · exact le_refl _
    · exact le_refl _
  · intro hnp'
    have hd1 : (0 : K) ≠ 2 * nunuMass := (mul_ne_zero two_ne_zero hn).symm
    have hd2 : (0 : K) ≠ visP * nunuP := (mul_ne_zero (ne_of_gt hvp) (ne_of_gt hnp')).symm
    have hd0 : (0 : K) ≠ env.tauLeptonMass2 := ne_of_lt hm2pos
    unfold compPSfactor_tauToLepDecay_divisors
    simp only
    split_ifs with h1 h2 h3
    · have hrad := tauToLepDecay_radicand_pos visP nunuP
        (compCosThetaNuNu env visEn visP (square visMass) nunuEn nunuP (square nunuMass))
        env.tauLeptonMass2 hvp hnp (by linarith [h3.1]) hm2pos
      have hd3 : (0 : K) ≠ 8 * visP * square x * env.sqrt (square visP + square nunuP +
          2 * visP * nunuP *
          compCosThetaNuNu env visEn visP (square visMass) nunuEn nunuP (square nunuMass)
          + env.tauLeptonMass2) :=
        (mul_ne_zero (mul_ne_zero (mul_ne_zero (by norm_num) (ne_of_gt hvp))
          (mul_ne_zero (ne_of_gt hx) (ne_of_gt hx))) (ne_of_gt (hsqrtpos _ hrad))).symm
      simp only [List.mem_cons, List.mem_singleton, not_or, List.not_mem_nil, or_false]
      exact ⟨hd0, hd1, hd2, hd3⟩
    · simp only [List.mem_cons, List.mem_singleton, not_or, List.not_mem_nil, or_false]
      exact ⟨hd0, hd1, hd2⟩
    · simp only [List.mem_cons, List.mem_singleton, not_or, List.not_mem_nil, or_false]
      exact ⟨hd0, hd1⟩
    · simp only [List.mem_singleton]
      exact hd0

/-- Counterexample to C35 as stated (no division by zero in the physical branch; the division by
`2*nunuMass` reached only with `nunuMass != 0`): with the sample constants
(`tauLeptonMass2 = 4`), `x = 1/2`, `visMass = 0`, `visP = 3`, `nunuP = 3` and `nunuMass = 0` the
test of line 193 passes (`0 < (1 - 1/2)*4`) and the second divisor evaluated, `2*nunuMass` of
line 194, is zero; with `nunuMass = 1`, `x = 1/4` and `nunuP = 0` the third divisor evaluated,
`visP*nunuP` of `compCosThetaNuNu`, is zero. -/
theorem compPSfactor_tauToLepDecay_divides_by_zero :
    ((1 / 2 : ℚ) ≥ square 0 / sampleEnvQ.tauLeptonMass2 ∧ (1 / 2 : ℚ) ≤ 1 ∧
      square (0 : ℚ) < (1 - 1 / 2) * sampleEnvQ.tauLeptonMass2) ∧
    (compPSfactor_tauToLepDecay_divisors sampleEnvQ (1 / 2) 3 3 0 3 3 0)[1]? = some 0 ∧
    (compPSfactor_tauToLepDecay_divisors sampleEnvQ (1 / 4) 3 3 0 0 0 1)[2]? = some 0 := by
  refine ⟨by norm_num [square, sampleEnvQ, sampleEnv], ?_, ?_⟩
  · norm_num [compPSfactor_tauToLepDecay_divisors, square, sampleEnvQ, sampleEnv]
  · norm_num [compPSfactor_tauToLepDecay_divisors, compCosThetaNuNu, square, sampleEnvQ,
      sampleEnv]

/-- Witness of C35: the real square root, the sample constants (`tauLeptonMass = 2`,
`tauLeptonMass2 = 4`, `epsilon = 1/1000`), and the input `x = 1/2`, `visEn = visP = 3`,
`visMass = 0`, `nunuEn = 3`, `nunuP = 2`, `nunuMass = 1`. -/
theorem compPSfactor_tauToLepDecay_nonneg_witness :
    0 ≤ compPSfactor_tauToLepDecay (sampleEnv Real.exp Real.sqrt Real.rpow) (1 / 2) 3 3 0 3 2 1 ∧
    (0 : ℝ) ∉ compPSfactor_tauToLepDecay_divisors (sampleEnv Real.exp Real.sqrt Real.rpow)
      (1 / 2) 3 3 0 3 2 1 := by
  have h := compPSfactor_tauToLepDecay_nonneg (sampleEnv Real.exp Real.sqrt Real.rpow)
    (1 / 2) 3 3 0 3 2 1 (by norm_num [sampleEnv]) (by norm_num [sampleEnv])
    (by norm_num [sampleEnv]) (fun y => Real.sqrt_nonneg y) (fun y hy => Real.sqrt_pos.mpr hy)
    (fun y z hz hy => by
      have := Real.sqrt_le_sqrt hy
      rwa [Real.sqrt_mul_self hz] at this)
    (le_refl 0) (by norm_num) (by norm_num) (by norm_num) (by norm_num) (by norm_num)
  exact ⟨h.1, h.2 (by norm_num)⟩

/-! ## The accessors of MeasuredHadTauDecayProduct -/

/-- The square root of 25. -/
theorem sqrt_twentyfive : Real.sqrt 25 = 5 := by
  rw [show (25 : ℝ) = 5 * 5 by norm_num]
  exact Real.sqrt_mul_self (by norm_num)

/-- C36: `mass()` does not return the mass given to the constructor.  `mass()` returns
`preciseVisMass_` (line 62), a member that no constructor sets: after construction from
`(charge, pt, eta, phi, mass)` the accessors `charge()`, `pt()`, `eta()`, `phi()` return the
arguments, but `mass()` returns what the memory held; and the copy constructor sets `mass_` from
`mass()`, so the `energy()` of a copy is computed from that value.  With the real functions and
memory holding zeros, the object constructed from `(1, 3, 0, 0, 4)` has `mass() = 0` and
`energy() = 5`, and its copy has `energy() = 3`. -/
theorem MeasuredHadTauDecayProduct_mass_not_returned :
    (∀ (tm : TMathEnv ℝ) (u : MeasuredHadTauDecayProduct ℝ) (charge : Int) (pt eta phi mass : ℝ),
      (MeasuredHadTauDecayProduct.ctor tm u charge pt eta phi mass).charge = charge ∧
      (MeasuredHadTauDecayProduct.ctor tm u charge pt eta phi mass).pt = pt ∧
      (MeasuredHadTauDecayProduct.ctor tm u charge pt eta phi mass).eta = eta ∧
      (MeasuredHadTauDecayProduct.ctor tm u charge pt eta phi mass).phi = phi ∧
      (MeasuredHadTauDecayProduct.ctor tm u charge pt eta phi mass).mass = u.preciseVisMass_) ∧
    (MeasuredHadTauDecayProduct.ctor ⟨Real.cosh, Real.cos, Real.sin, Real.sinh, Real.sqrt⟩
      zeroHadTauDecayProduct 1 3 0 0 4).mass = 0 ∧
    (MeasuredHadTauDecayProduct.ctor ⟨Real.cosh, Real.cos, Real.sin, Real.sinh, Real.sqrt⟩
      zeroHadTauDecayProduct 1 3 0 0 4).energy = 5 ∧
    (MeasuredHadTauDecayProduct.copy_ctor ⟨Real.cosh, Real.cos, Real.sin, Real.sinh, Real.sqrt⟩
      zeroHadTauDecayProduct
      (MeasuredHadTauDecayProduct.ctor ⟨Real.cosh, Real.cos, Real.sin, Real.sinh, Real.sqrt⟩
        zeroHadTauDecayProduct 1 3 0 0 4)).energy = 3 := by
  refine ⟨fun tm u charge pt eta phi mass => ⟨rfl, rfl, rfl, rfl, rfl⟩, rfl, ?_, ?_⟩
  · norm_num [MeasuredHadTauDecayProduct.ctor, MeasuredHadTauDecayProduct.initialize,
      MeasuredHadTauDecayProduct.energy, zeroHadTauDecayProduct, sqrt_twentyfive]
  · norm_num [MeasuredHadTauDecayProduct.copy_ctor, MeasuredHadTauDecayProduct.ctor,
      MeasuredHadTauDecayProduct.initialize, MeasuredHadTauDecayProduct.energy,
      MeasuredHadTauDecayProduct.mass, MeasuredHadTauDecayProduct.pt,
      MeasuredHadTauDecayProduct.eta, MeasuredHadTauDecayProduct.phi,
      MeasuredHadTauDecayProduct.charge, zeroHadTauDecayProduct, sqrt_nine]

/-! ## The diagnostic output -/

/-- The loop printing the sample point completes when it stays inside `x_`. -/
theorem EvalPS_coutLoop_isSome (x_ : List K) :
    ∀ n i : Nat, i + n ≤ x_.length → ∃ xs, EvalPS_coutLoop x_ n i = some xs := by
  intro n
  induction n with
  | zero => intro i _; exact ⟨[], rfl⟩
  | succ n ih =>
    intro i h
    unfold EvalPS_coutLoop
    have hi : i < x_.length := by omega
    rw [List.getElem?_eq_getElem hi]
    obtain ⟨xs, hxs⟩ := ih (i + 1) (by omega)
    exact ⟨x_[i] :: xs, by simp only [hxs, Option.map_some']⟩

/-- The block of lines 361-371 completes when it prints nothing or stays inside `x_`. -/
theorem EvalPS_cout_x_isSome {s : ClassicSVfitIntegrand K} (h : EvalPS_printInBounds s) :
    ∃ c, EvalPS_cout_x s = some c := by
  unfold EvalPS_cout_x
  by_cases hv : s.verbosity_ ≥ 2
  · rw [if_pos hv]
    obtain ⟨xs, hxs⟩ := EvalPS_coutLoop_isSome s.x_ s.numDimensions_ 0 (by
      have := h hv
      omega)
    exact ⟨[[], xs], by simp only [hxs]⟩
  · rw [if_neg hv]
    exact ⟨[], rfl⟩

/-- Below verbosity 2 the block of lines 361-371 prints nothing. -/
theorem EvalPS_cout_x_silent {s : ClassicSVfitIntegrand K} (hv : s.verbosity_ < 2) :
    EvalPS_cout_x s = some [] := by
  unfold EvalPS_cout_x
  rw [if_neg (not_le.mpr hv)]

/-- Without its output, `legProbTF_cout` is `legProbTF`. -/
theorem legProbTF_cout_fst (env : Env K) (s : ClassicSVfitIntegrand K)
    (params : integrationParameters) (tf : Option (HadTauTF K)) (leg : FittedTauLepton K)
    (prob_TF : K) :
    (legProbTF_cout env s params tf leg prob_TF).map Prod.fst =
      legProbTF env s params tf leg prob_TF := by
  unfold legProbTF_cout legProbTF
  by_cases hg : s.useHadTauTF_ = true ∧ params.idx_VisPtShift_ ≠ -1 ∧
      leg.getMeasuredTauLepton.isHadronicTauDecay = true
  · rw [if_pos hg, if_pos hg]
    cases tf <;> rfl
  · rw [if_neg hg, if_neg hg]
    rfl

/-- Below verbosity 2 `legProbTF_cout` prints nothing. -/
theorem legProbTF_cout_silent {env : Env K} {s : ClassicSVfitIntegrand K}
    {params : integrationParameters} {tf : Option (HadTauTF K)} {leg : FittedTauLepton K}
    {prob_TF : K} {r : K × Cout K} (hv : s.verbosity_ < 2)
    (h : legProbTF_cout env s params tf leg prob_TF = some r) : r.2 = [] := by
  unfold legProbTF_cout at h
  by_cases hg : s.useHadTauTF_ = true ∧ params.idx_VisPtShift_ ≠ -1 ∧
      leg.getMeasuredTauLepton.isHadronicTauDecay = true
  · rw [if_pos hg] at h
    cases tf with
    | none => cases h
    | some f =>
      simp only [Option.some.injEq] at h
      rw [← h]
      exact if_neg (not_le.mpr hv)
  · rw [if_neg hg] at h
    cases h
    rfl

/-- Without its output, `EvalPS_prob_cout` is `EvalPS_prob`. -/
theorem EvalPS_prob_cout_fst (env : Env K) (s : ClassicSVfitIntegrand K) (sh1 sh2 x2 : K) :
    (EvalPS_prob_cout env s sh1 sh2 x2).map Prod.fst = EvalPS_prob env s sh1 sh2 x2 := by
  unfold EvalPS_prob_cout EvalPS_prob
  simp only
  rw [← legProbTF_cout_fst env s s.legIntegrationParams_0]
  cases h0 : legProbTF_cout env s s.legIntegrationParams_0 (s.hadTauTFs_.map Prod.fst)
      s.fittedTauLepton1_ 1 with
  | none => rfl
  | some r0 =>
    obtain ⟨p0, c0⟩ := r0
    simp only [Option.map_some']
    rw [← legProbTF_cout_fst env s s.legIntegrationParams_1]
    cases h1 : legProbTF_cout env s s.legIntegrationParams_1 (s.hadTauTFs_.map Prod.snd)
        s.fittedTauLepton2_ p0 with
    | none => rfl
    | some r1 =>
      obtain ⟨p1, c1⟩ := r1
      rfl

/-- Below verbosity 2 `EvalPS_prob_cout` prints nothing. -/
theorem EvalPS_prob_cout_silent {env : Env K} {s : ClassicSVfitIntegrand K} {sh1 sh2 x2 : K}
    {r : K × Cout K} (hv : s.verbosity_ < 2)
    (h : EvalPS_prob_cout env s sh1 sh2 x2 = some r) : r.2 = [] := by
  unfold EvalPS_prob_cout at h
  simp only at h
  cases h0 : legProbTF_cout env s s.legIntegrationParams_0 (s.hadTauTFs_.map Prod.fst)
      s.fittedTauLepton1_ 1 with
  | none => simp [h0] at h
  | some r0 =>
    obtain ⟨p0, c0⟩ := r0
    simp only [h0] at h
    cases h1 : legProbTF_cout env s s.legIntegrationParams_1 (s.hadTauTFs_.map Prod.snd)
        s.fittedTauLepton2_ p0 with
    | none => simp [h1] at h
    | some r1 =>
      obtain ⟨p1, c1⟩ := r1
      simp only [h1, Option.some.injEq] at h
      have e0 : c0 = [] := legProbTF_cout_silent hv h0
      have e1 : c1 = [] := legProbTF_cout_silent hv h1
      rw [← h, e0, e1, if_neg (not_le.mpr hv)]
      rfl

/-- Below verbosity 2 the block of lines 469-487 prints nothing. -/
theorem EvalPS_cout_legs_silent (env : Env K) (phi : LorentzVector K → K)
    {s : ClassicSVfitIntegrand K} (hv : s.verbosity_ < 2) : EvalPS_cout_legs env phi s = [] :=
  if_neg (not_le.mpr hv)

/-- Without its output, `EvalPS_leg2_cout` is `EvalPS_leg2`. -/
theorem EvalPS_leg2_cout_fst (env : Env K) (phi : LorentzVector K → K)
    (s : ClassicSVfitIntegrand K) (sh1 sh2 x1d : K) :
    (EvalPS_leg2_cout env phi s sh1 sh2 x1d).map Prod.fst = EvalPS_leg2 env s sh1 sh2 x1d := by
  unfold EvalPS_leg2_cout EvalPS_leg2
  cases x2_dash s x1d with
  | none => rfl
  | some x2d =>
    simp only
    by_cases hr : ¬ (x2d / sh2 ≥ lit1em5 ∧ x2d / sh2 ≤ 1)
    · rw [if_pos hr, if_pos hr]
      rfl
    · rw [if_neg hr, if_neg hr]
      by_cases hp : s.leg2isPrompt_ = false
      · rw [if_pos hp, if_pos hp]
        cases updateLeg env s.x_ s.legIntegrationParams_1 s.fittedTauLepton2_ (x2d / sh2) with
        | none => rfl
        | some leg2 =>
          simp only
          by_cases he : leg2.errorCode ≠ env.FittedTauLepton_None
          · rw [if_pos he, if_pos he]
            rfl
          · rw [if_neg he, if_neg he, ← EvalPS_prob_cout_fst, Option.map_map, Option.map_map]
            rfl
      · rw [if_neg hp, if_neg hp, ← EvalPS_prob_cout_fst, Option.map_map, Option.map_map]
        rfl

/-- Below verbosity 2 `EvalPS_leg2_cout` prints nothing. -/
theorem EvalPS_leg2_cout_silent {env : Env K} {phi : LorentzVector K → K}
    {s : ClassicSVfitIntegrand K} {sh1 sh2 x1d : K}
    {r : (K × ClassicSVfitIntegrand K) × Cout K} (hv : s.verbosity_ < 2)
    (h : EvalPS_leg2_cout env phi s sh1 sh2 x1d = some r) : r.2 = [] := by
  unfold EvalPS_leg2_cout at h
  cases hx : x2_dash s x1d with
  | none => simp [hx] at h
  | some x2d =>
    simp only [hx] at h
    by_cases hr : ¬ (x2d / sh2 ≥ lit1em5 ∧ x2d / sh2 ≤ 1)
    · rw [if_pos hr] at h
      cases h
      rfl
    · rw [if_neg hr] at h
      by_cases hp : s.leg2isPrompt_ = false
      · rw [if_pos hp] at h
        cases hu : updateLeg env s.x_ s.legIntegrationParams_1 s.fittedTauLepton2_ (x2d / sh2) with
        | none => simp [hu] at h
        | some leg2 =>
          simp only [hu] at h
          by_cases he : leg2.errorCode ≠ env.FittedTauLepton_None
          · rw [if_pos he] at h
            cases h
            rfl
          · rw [if_neg he] at h
            obtain ⟨r0, hr0, hr1⟩ := Option.map_eq_some'.mp h
            have hv2 : ({ s with fittedTauLepton2_ := leg2 } :
                ClassicSVfitIntegrand K).verbosity_ < 2 := hv
            rw [← hr1]
            show EvalPS_cout_legs env phi _ ++ r0.2 = []
            rw [EvalPS_cout_legs_silent env phi hv2, EvalPS_prob_cout_silent hv2 hr0]
            rfl
      · rw [if_neg hp] at h
        obtain ⟨r0, hr0, hr1⟩ := Option.map_eq_some'.mp h
        rw [← hr1]
        show EvalPS_cout_legs env phi _ ++ r0.2 = []
        rw [EvalPS_cout_legs_silent env phi hv, EvalPS_prob_cout_silent hv hr0]
        rfl

/-- Without its output, `EvalPS_leg1_cout` is `EvalPS_leg1`. -/
theorem EvalPS_leg1_cout_fst (env : Env K) (phi : LorentzVector K → K)
    (s : ClassicSVfitIntegrand K) (sh1 sh2 : K) :
    (EvalPS_leg1_cout env phi s sh1 sh2).map Prod.fst = EvalPS_leg1 env s sh1 sh2 := by
  unfold EvalPS_leg1_cout EvalPS_leg1
  cases x1_dash s with
  | none => rfl
  | some x1d =>
    simp only
    by_cases hr : ¬ (x1d / sh1 ≥ lit1em5 ∧ x1d / sh1 ≤ 1)
    · rw [if_pos hr, if_pos hr]
      rfl
    · rw [if_neg hr, if_neg hr]
      by_cases hp : s.leg1isPrompt_ = false
      · rw [if_pos hp, if_pos hp]
        cases updateLeg env s.x_ s.legIntegrationParams_0 s.fittedTauLepton1_ (x1d / sh1) with
        | none => rfl
        | some leg1 =>
          simp only
          by_cases he : leg1.errorCode ≠ env.FittedTauLepton_None
          · rw [if_pos he, if_pos he]
            rfl
          · rw [if_neg he, if_neg he]
            exact EvalPS_leg2_cout_fst env phi _ sh1 sh2 x1d
      · rw [if_neg hp, if_neg hp]
        exact EvalPS_leg2_cout_fst env phi _ sh1 sh2 x1d

/-- Below verbosity 2 `EvalPS_leg1_cout` prints nothing. -/
theorem EvalPS_leg1_cout_silent {env : Env K} {phi : LorentzVector K → K}
    {s : ClassicSVfitIntegrand K} {sh1 sh2 : K}
    {r : (K × ClassicSVfitIntegrand K) × Cout K} (hv : s.verbosity_ < 2)
    (h : EvalPS_leg1_cout env phi s sh1 sh2 = some r) : r.2 = [] := by
  unfold EvalPS_leg1_cout at h
  cases hx : x1_dash s with
  | none => simp [hx] at h
  | some x1d =>
    simp only [hx] at h
    by_cases hr : ¬ (x1d / sh1 ≥ lit1em5 ∧ x1d / sh1 ≤ 1)
    · rw [if_pos hr] at h
      cases h
      rfl
    · rw [if_neg hr] at h
      by_cases hp : s.leg1isPrompt_ = false
      · rw [if_pos hp] at h
        cases hu : updateLeg env s.x_ s.legIntegrationParams_0 s.fittedTauLepton1_ (x1d / sh1) with
        | none => simp [hu] at h
        | some leg1 =>
          simp only [hu] at h
          by_cases he : leg1.errorCode ≠ env.FittedTauLepton_None
          · rw [if_pos he] at h
            cases h
            rfl
          · rw [if_neg he] at h
            exact EvalPS_leg2_cout_silent
              (show ({ s with fittedTauLepton1_ := leg1 } :
                ClassicSVfitIntegrand K).verbosity_ < 2 from hv) h
      · rw [if_neg hp] at h
        exact EvalPS_leg2_cout_silent hv h

/-- Without its output, `EvalPS_cout` is `EvalPS`, when the block of lines 361-371 reads inside
`x_`. -/
theorem EvalPS_cout_fst (env : Env K) (phi : LorentzVector K → K)
    (s : ClassicSVfitIntegrand K) (hb : EvalPS_printInBounds s) :
    (EvalPS_cout env phi s).map Prod.fst = EvalPS env s := by
  obtain ⟨c, hc⟩ := EvalPS_cout_x_isSome hb
  unfold EvalPS_cout EvalPS
  simp only [hc]
  generalize visPtShift ({ s with errorCode_ := s.errorCode_ &&&
    (s.errorCode_ ^^^ env.TauDecayParameters) } : ClassicSVfitIntegrand K)
    s.legIntegrationParams_0 s.leg1isLeptonicTauDecay_ = v1
  generalize visPtShift ({ s with errorCode_ := s.errorCode_ &&&
    (s.errorCode_ ^^^ env.TauDecayParameters) } : ClassicSVfitIntegrand K)
    s.legIntegrationParams_1 s.leg2isLeptonicTauDecay_ = v2
  cases v1 with
  | none => rfl
  | some sh1 =>
    cases v2 with
    | none => rfl
    | some sh2 =>
      simp only
      by_cases hl : sh1 < lit1em2 ∨ sh2 < lit1em2
      · rw [if_pos hl, if_pos hl]
        rfl
      · rw [if_neg hl, if_neg hl, ← EvalPS_leg1_cout_fst env phi, Option.map_map]
        rfl

/-- Below verbosity 2 `EvalPS_cout` prints nothing. -/
theorem EvalPS_cout_silent {env : Env K} {phi : LorentzVector K → K}
    {s : ClassicSVfitIntegrand K} {r : (K × ClassicSVfitIntegrand K) × Cout K}
    (hv : s.verbosity_ < 2) (h : EvalPS_cout env phi s = some r) : r.2 = [] := by
  unfold EvalPS_cout at h
  simp only [EvalPS_cout_x_silent hv] at h
  generalize visPtShift ({ s with errorCode_ := s.errorCode_ &&&
    (s.errorCode_ ^^^ env.TauDecayParameters) } : ClassicSVfitIntegrand K)
    s.legIntegrationParams_0 s.leg1isLeptonicTauDecay_ = v1 at h
  generalize visPtShift ({ s with errorCode_ := s.errorCode_ &&&
    (s.errorCode_ ^^^ env.TauDecayParameters) } : ClassicSVfitIntegrand K)
    s.legIntegrationParams_1 s.leg2isLeptonicTauDecay_ = v2 at h
  cases v1 with
  | none => cases h
  | some sh1 =>
    cases v2 with
    | none => cases h
    | some sh2 =>
      simp only at h
      by_cases hl : sh1 < lit1em2 ∨ sh2 < lit1em2
      · rw [if_pos hl] at h
        cases h
        rfl
      · rw [if_neg hl] at h
        obtain ⟨r0, hr0, hr1⟩ := Option.map_eq_some'.mp h
        have e0 : r0.2 = [] := by
          refine EvalPS_leg1_cout_silent ?_ hr0
          exact hv
        rw [← hr1]
        show [] ++ r0.2 = []
        rw [e0]
        rfl

/-- Without its output, `EvalFlightLength_leg_cout` is `EvalFlightLength_leg`. -/
theorem EvalFlightLength_leg_cout_fst (env : Env K) (s : ClassicSVfitIntegrand K)
    (leg : FittedTauLepton K) (cov covInv : TMatrixD K)
    (hadron : Option (MeasuredHadTauDecayProduct K)) (params : integrationParameters)
    (c prob : K) :
    (EvalFlightLength_leg_cout env s leg cov covInv hadron params c prob).map Prod.fst =
      EvalFlightLength_leg env s leg cov covInv hadron params c prob := by
  unfold EvalFlightLength_leg_cout EvalFlightLength_leg
  simp only
  by_cases hp : leg.getMeasuredTauLepton.isPrompt = true
  · rw [if_pos hp, if_pos hp]
    rfl
  · rw [if_neg hp, if_neg hp]
    cases hadron with
    | none => rfl
    | some hd =>
      simp only
      cases readX s.x_ params.idx_flightLength_ with
      | none => rfl
      | some xf =>
        simp only
        split_ifs <;> rfl

/-- Below verbosity 2 `EvalFlightLength_leg_cout` prints nothing. -/
theorem EvalFlightLength_leg_cout_silent {env : Env K} {s : ClassicSVfitIntegrand K}
    {leg : FittedTauLepton K} {cov covInv : TMatrixD K}
    {hadron : Option (MeasuredHadTauDecayProduct K)} {params : integrationParameters}
    {c prob : K} {r : K × Cout K} (hv : s.verbosity_ < 2)
    (h : EvalFlightLength_leg_cout env s leg cov covInv hadron params c prob = some r) :
    r.2 = [] := by
  unfold EvalFlightLength_leg_cout at h
  simp only at h
  by_cases hp : leg.getMeasuredTauLepton.isPrompt = true
  · rw [if_pos hp] at h
    cases h
    rfl
  · rw [if_neg hp] at h
    cases hadron with
    | none => cases h
    | some hd =>
      simp only at h
      cases hx : readX s.x_ params.idx_flightLength_ with
      | none => simp [hx] at h
      | some xf =>
        simp only [hx] at h
        rw [if_neg (not_le.mpr hv)] at h
        split_ifs at h <;> first | (cases h; done) | (cases h; rfl)

/-- Without its output, `EvalFlightLength_cout` is `EvalFlightLength`. -/
theorem EvalFlightLength_cout_fst (env : Env K) (s : ClassicSVfitIntegrand K) :
    (EvalFlightLength_cout env s).map Prod.fst = EvalFlightLength env s := by
  unfold EvalFlightLength_cout EvalFlightLength
  by_cases hu : s.useTauFlightLength_ = false
  · rw [if_pos hu, if_pos hu]
    rfl
  · rw [if_neg hu, if_neg hu, ← EvalFlightLength_leg_cout_fst]
    cases EvalFlightLength_leg_cout env s s.fittedTauLepton1_ s.leg1decayVertexCov_
        s.leg1decayVertexCovInv_ s.leg1leadChargedHadron_ s.legIntegrationParams_0
        s.const_FlightLength1_ 1 with
    | none => rfl
    | some r1 =>
      obtain ⟨p1, c1⟩ := r1
      simp only [Option.map_some']
      rw [← EvalFlightLength_leg_cout_fst]
      cases EvalFlightLength_leg_cout env s s.fittedTauLepton2_ s.leg2decayVertexCov_
          s.leg2decayVertexCovInv_ s.leg2leadChargedHadron_ s.legIntegrationParams_1
          s.const_FlightLength2_ p1 with
      | none => rfl
      | some r2 => rfl

/-- Below verbosity 2 `EvalFlightLength_cout` prints nothing. -/
theorem EvalFlightLength_cout_silent {env : Env K} {s : ClassicSVfitIntegrand K}
    {r : K × Cout K} (hv : s.verbosity_ < 2) (h : EvalFlightLength_cout env s = some r) :
    r.2 = [] := by
  unfold EvalFlightLength_cout at h
  by_cases hu : s.useTauFlightLength_ = false
  · rw [if_pos hu] at h
    cases h
    rfl
  · rw [if_neg hu] at h
    cases h1 : EvalFlightLength_leg_cout env s s.fittedTauLepton1_ s.leg1decayVertexCov_
        s.leg1decayVertexCovInv_ s.leg1leadChargedHadron_ s.legIntegrationParams_0
        s.const_FlightLength1_ 1 with
    | none => simp [h1] at h
    | some r1 =>
      obtain ⟨p1, c1⟩ := r1
      simp only [h1] at h
      cases h2 : EvalFlightLength_leg_cout env s s.fittedTauLepton2_ s.leg2decayVertexCov_
          s.leg2decayVertexCovInv_ s.leg2leadChargedHadron_ s.legIntegrationParams_1
          s.const_FlightLength2_ p1 with
      | none => simp [h2] at h
      | some r2 =>
        obtain ⟨p2, c2⟩ := r2
        simp only [h2, Option.some.injEq] at h
        have e1 : c1 = [] := EvalFlightLength_leg_cout_silent hv h1
        have e2 : c2 = [] := EvalFlightLength_leg_cout_silent hv h2
        rw [← h, e1, e2, if_neg (not_le.mpr hv)]
        rfl

/-- Without its output, `EvalMEtTF_cout` is `EvalMEtTF`. -/
theorem EvalMEtTF_cout_fst (env : Env K) (s : ClassicSVfitIntegrand K) (met : MeasuredMEt K) :
    (EvalMEtTF_cout env s met).map Prod.fst = EvalMEtTF env s met := by
  unfold EvalMEtTF_cout EvalMEtTF
  cases met.type with
  | kProtonProtonCollisions =>
    simp only
    cases EvalMEtTF_residual s false _ <;> rfl
  | kElectronPositronCollisions =>
    simp only
    cases EvalMEtTF_residual s true _ <;> rfl
  | other => rfl

/-- Below verbosity 2 `EvalMEtTF_cout` prints nothing. -/
theorem EvalMEtTF_cout_silent {env : Env K} {s : ClassicSVfitIntegrand K} {met : MeasuredMEt K}
    {r : K × Cout K} (hv : s.verbosity_ < 2) (h : EvalMEtTF_cout env s met = some r) :
    r.2 = [] := by
  unfold EvalMEtTF_cout at h
  cases ht : met.type with
  | kProtonProtonCollisions =>
    simp only [ht] at h
    cases hr : EvalMEtTF_residual s false (met.px - (0 + s.fittedTauLepton1_.nuP4.px +
        s.fittedTauLepton2_.nuP4.px), met.py - (0 + s.fittedTauLepton1_.nuP4.py +
        s.fittedTauLepton2_.nuP4.py), 0, 0) with
    | none =>
      rw [hr] at h
      cases h
    | some r0 =>
      rw [hr] at h
      simp only [Option.some.injEq] at h
      rw [← h]
      exact if_neg (not_le.mpr hv)
  | kElectronPositronCollisions =>
    simp only [ht] at h
    cases hr : EvalMEtTF_residual s true (met.px - (0 + s.fittedTauLepton1_.nuP4.px +
        s.fittedTauLepton2_.nuP4.px), met.py - (0 + s.fittedTauLepton1_.nuP4.py +
        s.fittedTauLepton2_.nuP4.py), met.pz - (0 + s.fittedTauLepton1_.nuP4.pz +
        s.fittedTauLepton2_.nuP4.pz), met.energy - (0 + s.fittedTauLepton1_.nuP4.E +
        s.fittedTauLepton2_.nuP4.E)) with
    | none =>
      rw [hr] at h
      cases h
    | some r0 =>
      rw [hr] at h
      simp only [Option.some.injEq] at h
      rw [← h]
      exact if_neg (not_le.mpr hv)
  | other =>
    rw [ht] at h
    cases h

/-- Without its output, `Eval_combine_cout` is `Eval_combine`. -/
theorem Eval_combine_cout_fst (env : Env K) (s : ClassicSVfitIntegrand K) :
    (Eval_combine_cout env s).map Prod.fst = Eval_combine env s := by
  unfold Eval_combine_cout Eval_combine
  by_cases hf : s.probPS_ * s.probFlightLength_ < floor300
  · rw [if_pos hf, if_pos hf]
    rfl
  · rw [if_neg hf, if_neg hf]
    cases s.measuredEvent_.MEt[idxMeasuredMEt s]? with
    | none => rfl
    | some met =>
      simp only
      rw [← EvalMEtTF_cout_fst]
      cases EvalMEtTF_cout env s met with
      | none => rfl
      | some r =>
        obtain ⟨m, c⟩ := r
        simp only [Option.map_some']
        cases s.histogramAdapter_ with
        | none => rfl
        | some ad =>
          simp only
          split_ifs <;> rfl

/-- Below verbosity 2 `Eval_combine_cout` prints nothing. -/
theorem Eval_combine_cout_silent {env : Env K} {s : ClassicSVfitIntegrand K}
    {r : (K × ClassicSVfitIntegrand K) × Cout K} (hv : s.verbosity_ < 2)
    (h : Eval_combine_cout env s = some r) : r.2 = [] := by
  unfold Eval_combine_cout at h
  by_cases hf : s.probPS_ * s.probFlightLength_ < floor300
  · rw [if_pos hf] at h
    cases h
    rfl
  · rw [if_neg hf] at h
    cases hm : s.measuredEvent_.MEt[idxMeasuredMEt s]? with
    | none => simp [hm] at h
    | some met =>
      simp only [hm] at h
      cases he : EvalMEtTF_cout env s met with
      | none => simp [he] at h
      | some r0 =>
        obtain ⟨m, c⟩ := r0
        have ec : c = [] := EvalMEtTF_cout_silent hv he
        simp only [he] at h
        cases ha : s.histogramAdapter_ with
        | none =>
          simp only [ha, Option.some.injEq] at h
          rw [← h]
          exact ec
        | some ad =>
          simp only [ha] at h
          split_ifs at h <;>
          · simp only [Option.some.injEq] at h
            rw [← h]
            exact ec

/-- Without its output, `Eval_cout` is `Eval`: the block of lines 361-371 reads inside `x_`
because `rescaleX` has written the `numDimensions_` entries it prints. -/
theorem Eval_cout_fst (env : Env K) (phi : LorentzVector K → K) (s : ClassicSVfitIntegrand K)
    (q : Nat → K) : (Eval_cout env phi s q).map Prod.fst = Eval env s q := by
  unfold Eval_cout Eval
  by_cases hs : hasSetupError env s
  · rw [if_pos hs, if_pos hs]
    rfl
  · rw [if_neg hs, if_neg hs]
    cases hr : rescaleX s q with
    | none => rfl
    | some s1 =>
      simp only
      by_cases hc : s1.isCentral_ = true ∨ s1.idxMEtSystematic_ = 0
      · rw [if_pos hc, if_pos hc,
          ← EvalPS_cout_fst env phi s1 (fun _ => rescaleX_numDimensions hr)]
        cases EvalPS_cout env phi s1 with
        | none => rfl
        | some r1 =>
          obtain ⟨⟨ps, s2⟩, c1⟩ := r1
          simp only [Option.map_some']
          by_cases hf : s2.errorCode_ &&& env.TauDecayParameters ≠ 0
          · rw [if_pos hf, if_pos hf]
            rfl
          · rw [if_neg hf, if_neg hf, ← EvalFlightLength_cout_fst]
            cases EvalFlightLength_cout env { s2 with probPS_ := ps } with
            | none => rfl
            | some r2 =>
              obtain ⟨fl, c2⟩ := r2
              simp only [Option.map_some']
              rw [← Eval_combine_cout_fst, Option.map_map]
              rfl
      · rw [if_neg hc, if_neg hc]
        exact Eval_combine_cout_fst env s1

/-- Below verbosity 2 `Eval_cout` prints nothing. -/
theorem Eval_cout_silent {env : Env K} {phi : LorentzVector K → K}
    {s : ClassicSVfitIntegrand K} {q : Nat → K} {r : (K × ClassicSVfitIntegrand K) × Cout K}
    (hv : s.verbosity_ < 2) (h : Eval_cout env phi s q = some r) : r.2 = [] := by
  unfold Eval_cout at h
  by_cases hs : hasSetupError env s
  · rw [if_pos hs] at h
    cases h
    rfl
  · rw [if_neg hs] at h
    cases hr : rescaleX s q with
    | none => simp [hr] at h
    | some s1 =>
      simp only [hr] at h
      have hv1 : s1.verbosity_ < 2 := by rw [rescaleX_frame hr]; exact hv
      by_cases hc : s1.isCentral_ = true ∨ s1.idxMEtSystematic_ = 0
      · rw [if_pos hc] at h
        cases hp : EvalPS_cout env phi s1 with
        | none => simp [hp] at h
        | some r1 =>
          obtain ⟨⟨ps, s2⟩, c1⟩ := r1
          have e1 : c1 = [] := EvalPS_cout_silent hv1 hp
          have hp0 : EvalPS env s1 = some (ps, s2) := by
            rw [← EvalPS_cout_fst env phi s1 (fun _ => rescaleX_numDimensions hr), hp]
            rfl
          have hv2 : s2.verbosity_ < 2 := by
            obtain ⟨l1, l2, e, rfl⟩ := EvalPS_frame hp0
            exact hv1
          simp only [hp] at h
          by_cases hf : s2.errorCode_ &&& env.TauDecayParameters ≠ 0
          · rw [if_pos hf] at h
            cases h
            exact e1
          · rw [if_neg hf] at h
            cases hfl : EvalFlightLength_cout env { s2 with probPS_ := ps } with
            | none => simp [hfl] at h
            | some r2 =>
              obtain ⟨fl, c2⟩ := r2
              have e2 : c2 = [] := EvalFlightLength_cout_silent
                (show ({ s2 with probPS_ := ps } : ClassicSVfitIntegrand K).verbosity_ < 2
                  from hv2) hfl
              simp only [hfl] at h
              obtain ⟨r0, hr0, hr1⟩ := Option.map_eq_some'.mp h
              have e3 : r0.2 = [] := Eval_combine_cout_silent
                (show ({ s2 with probPS_ := ps, probFlightLength_ := fl } :
                  ClassicSVfitIntegrand K).verbosity_ < 2 from hv2) hr0
              rw [← hr1]
              show c1 ++ c2 ++ r0.2 = []
              rw [e1, e2, e3]
              rfl
      · rw [if_neg hc] at h
        exact Eval_combine_cout_silent hv1 h

/-- Called on its own, `EvalPS` is not independent of `verbosity_`: on the sample integrand of
two prompt leptons with `numDimensions_ = 1` and an empty `x_`, `EvalPS` returns 1 without
reading `x_`, and at verbosity 2 the loop of lines 365-369 reads `x_[0]` outside `x_`.  `Eval`
does not call `EvalPS` in such a state: `rescaleX` has written `numDimensions_` entries of `x_`
before. -/
theorem EvalPS_cout_reads_outside :
    (EvalPS sampleEnvQ
      { samplePromptIntegrand ⟨3, 0, 0, 3⟩ ⟨-3, 0, 0, 3⟩ [sampleMEt 0 0] with
        numDimensions_ := 1 }).map Prod.fst = some 1 ∧
    EvalPS_cout sampleEnvQ (fun _ => 0)
      (setVerbosity
        { samplePromptIntegrand ⟨3, 0, 0, 3⟩ ⟨-3, 0, 0, 3⟩ [sampleMEt 0 0] with
          numDimensions_ := 1 } 2) = none := by
  constructor
  · norm_num [samplePromptIntegrand, sampleEnvQ, sampleEnv,
      ClassicSVfitIntegrand.ctor, disableDiTauMassConstraint,
      blankIntegrand, EvalPS, visPtShift, EvalPS_leg1, EvalPS_leg2, x1_dash, x2_dash, lit1em2,
      lit1em5, EvalPS_prob, legDecayProb, legProbTF, sampleFitted, samplePromptLepton,
      LorentzVector.zero, LorentzVector.scale]
  · norm_num [EvalPS_cout, EvalPS_cout_x, EvalPS_coutLoop, setVerbosity, samplePromptIntegrand,
      ClassicSVfitIntegrand.ctor, disableDiTauMassConstraint, blankIntegrand]

/-- C12: verbosity has no behavioural effect.  `Eval_cout` is `Eval` with the diagnostic blocks
of the source, which test `verbosity_ >= 2`, print to `std::cout` and, in lines 365-369, index
`x_`.  For any two integrand states `s` and `t` that differ only in `verbosity_` and every
sample point: `Eval` on `t` returns what it returns on `s` (the same value, or an abort alike)
and leaves the same state but for `verbosity_` (the same `errorCode_`, `x_`, cached
probabilities, fitted legs and sink); without the output, it is the function `Eval` that leaves
the blocks out; and a state with `verbosity_ < 2` prints nothing, so that the lines printed are
all that `verbosity_` changes. -/
theorem Eval_setVerbosity (env : Env K) (phi : LorentzVector K → K)
    (s t : ClassicSVfitIntegrand K) (q : Nat → K) (h : t = setVerbosity s t.verbosity_) :
    (Eval_cout env phi t q).map (fun r => (r.1.1, setVerbosity r.1.2 s.verbosity_)) =
      (Eval_cout env phi s q).map Prod.fst ∧
    (Eval_cout env phi s q).map Prod.fst = Eval env s q ∧
    (∀ r, Eval_cout env phi s q = some r → s.verbosity_ < 2 → r.2 = []) := by
  refine ⟨?_, Eval_cout_fst env phi s q, fun r hr hv => Eval_cout_silent hv hr⟩
  have h1 : (Eval_cout env phi t q).map (fun r => (r.1.1, setVerbosity r.1.2 s.verbosity_)) =
      ((Eval_cout env phi t q).map Prod.fst).map
        (fun r => (r.1, setVerbosity r.2 s.verbosity_)) := by
    rw [Option.map_map]
    rfl
  have h2 : Eval env s q = (Eval env s q).map (fun r => (r.1, setVerbosity r.2 s.verbosity_)) :=
    Eval_setVerbosity_eq env s s.verbosity_ q
  rw [h1, Eval_cout_fst, Eval_cout_fst, h, Eval_setVerbosity_eq, Option.map_map]
  exact h2.symm

set_option maxHeartbeats 4000000 in
/-- The sample integrand with a hadronic first leg at `q = (1/2, 1/2)`, with the placeholder
library functions of `sampleEnvQ` (`sqrt t = t`, `exp t = 1`, `eta = phi = 0`): at verbosity 2
`Eval` returns `1/2160` and prints eleven lines, at verbosity 0 it returns `1/2160` and prints
nothing. -/
theorem sampleHad_Eval_cout :
    (Eval_cout sampleEnvQ (fun _ => 0) (setVerbosity sampleHadIntegrand 2)
        (fun _ => 1 / 2)).map (fun r => (r.1.1, r.2)) =
      some (1 / 2160,
        [[], [1 / 2, 0],
          [3, 3, 0, 0, 9, 0, 0, 0, 1 / 2], [6, 6, 0, 0, 36, 0, 0], [3, 3, 0, 0, 9, 0, 0, 0],
          [3, -3, 0, 0, 9, 0, 0, 0, 1], [3, -3, 0, 0, 9, 0, 0], [0, 0, 0, 0, 0, 0, 0, 0],
          [72], [1 / 2160, 1, 1, 1, 1 / 2160],
          [3, 0, 3, 0, 0, 1]]) ∧
    (Eval_cout sampleEnvQ (fun _ => 0) sampleHadIntegrand
        (fun _ => 1 / 2)).map (fun r => (r.1.1, r.2)) = some (1 / 2160, []) := by
  constructor <;>
  norm_num [Eval_cout, setVerbosity, sampleHadIntegrand, samplePromptIntegrand, hasSetupError,
    sampleEnvQ, sampleEnv,
    rescaleX, rescaleXLoop, ClassicSVfitIntegrand.ctor, disableDiTauMassConstraint,
    blankIntegrand, EvalPS_cout, EvalPS_cout_x, EvalPS_coutLoop, EvalPS_cout_legs,
    EvalPS_cout_leg, visPtShift, EvalPS_leg1_cout, EvalPS_leg2_cout, x1_dash, x2_dash, lit1em2,
    lit1em5, floor300, EvalPS_prob_cout, legDecayProb, legProbTF_cout, sampleFitted,
    samplePromptLepton, sampleHadTau, EvalFlightLength_cout, Eval_combine_cout, idxMeasuredMEt,
    EvalMEtTF_cout, EvalMEtTF_residual, sampleMEt, LorentzVector.zero, readX, updateLeg,
    LorentzVector.scale, LorentzVector.add, LorentzVector.mass, LorentzVector.pt,
    compPSfactor_tauToHadDecay, compCosThetaNuNu, LorentzVector.P, square]

/-- Witness of C12: the sample integrand with a hadronic first leg at verbosity 0 and at
verbosity 2, at `q = (1/2, 1/2)`: the value `1/2160` and the state left behind are the same,
eleven lines are printed at verbosity 2 and none at verbosity 0. -/
theorem Eval_setVerbosity_witness :
    (Eval_cout sampleEnvQ (fun _ => 0) (setVerbosity sampleHadIntegrand 2)
        (fun _ => 1 / 2)).map (fun r => (r.1.1, setVerbosity r.1.2 0)) =
      (Eval_cout sampleEnvQ (fun _ => 0) sampleHadIntegrand (fun _ => 1 / 2)).map Prod.fst ∧
    (Eval_cout sampleEnvQ (fun _ => 0) (setVerbosity sampleHadIntegrand 2)
        (fun _ => 1 / 2)).map (fun r => (r.1.1, r.2.length)) = some (1 / 2160, 11) ∧
    (Eval_cout sampleEnvQ (fun _ => 0) sampleHadIntegrand
        (fun _ => 1 / 2)).map (fun r => (r.1.1, r.2)) = some (1 / 2160, []) := by
  refine ⟨(Eval_setVerbosity sampleEnvQ (fun _ => 0) sampleHadIntegrand
    (setVerbosity sampleHadIntegrand 2) (fun _ => 1 / 2) rfl).1, ?_, sampleHad_Eval_cout.2⟩
  obtain ⟨r, hr, hv⟩ := Option.map_eq_some'.mp sampleHad_Eval_cout.1
  rw [hr]
  simp only [Option.map_some', Option.some.injEq, Prod.mk.injEq] at hv ⊢
  rw [hv.1, hv.2]
  exact ⟨rfl, rfl⟩

/-! ## The value of Eval as a `double` with its special values -/

/-- On finite operands `Eval_return` is the value of lines 333-345 over the field: 0 below the
floor, the product of the three terms otherwise. -/
theorem Eval_return_finite (a b c : K) :
    (Eval_return (Double.finite a) (Double.finite b) (Double.finite c)).1 =
      Double.finite (if a * b < floor300 then 0 else a * b * c) := by
  unfold Eval_return
  by_cases h : a * b < floor300
  · have h1 : ((Double.finite a).mul (Double.finite b)).lt (Double.finite floor300) = true := by
      show (if a * b < floor300 then true else false) = true
      rw [if_pos h]
    rw [if_pos h1, if_pos h]
  · have h1 : ¬ ((Double.finite a).mul (Double.finite b)).lt (Double.finite floor300) = true := by
      show ¬ (if a * b < floor300 then true else false) = true
      rw [if_neg h]
      decide
    rw [if_neg h1, if_neg h]
    rfl

/-- On the numbers of the field, `Eval_return` gives the value of `Eval_combine`: when
`Eval_combine` returns `v` and `EvalMEtTF` gives `m` on the selected MEt alternative,
`Eval_return` on the cached terms and `m` is the finite `double` `v`. -/
theorem Eval_return_of_Eval_combine {env : Env K} {s s' : ClassicSVfitIntegrand K} {v m : K}
    {met : MeasuredMEt K} (h : Eval_combine env s = some (v, s'))
    (hmet : s.measuredEvent_.MEt[idxMeasuredMEt s]? = some met)
    (hm : EvalMEtTF env s met = some m) :
    (Eval_return (Double.finite s.probPS_) (Double.finite s.probFlightLength_)
      (Double.finite m)).1 = Double.finite v := by
  rw [Eval_return_finite]
  rcases Eval_combine_spec h with ⟨hf, hv, -⟩ | ⟨hf, met1, m1, hmet1, hm1, hv, -⟩
  · rw [if_pos hf, hv]
  · rw [hmet] at hmet1
    cases hmet1
    rw [hm] at hm1
    cases hm1
    rw [if_neg hf, hv]

/-- C2 (the code at the failing input): an infinite phase-space term `probPS_ = +inf` with
`probFlightLength_ = 1` passes the floor test of line 333 (`inf < 1.e-300` is false), and with
`probMEtTF = 0` the product of line 340 is `inf*0`, NaN, which line 345 returns: the value of
`Eval` is NaN, not a number `>= 0`, and a sink is not called.  `EvalPS` replaces a NaN product
by 0 before it returns (lines 550-553) and lets `+inf` through; `Eval` has no such test. -/
theorem Eval_returns_NaN :
    Eval_return (Double.posInf : Double ℚ) (Double.finite 1) (Double.finite 0) =
      (Double.nan, false) ∧
    EvalPS_return (Double.posInf : Double ℚ) = Double.posInf ∧
    EvalPS_return (Double.nan : Double ℚ) = Double.finite 0 := by
  refine ⟨?_, rfl, rfl⟩
  norm_num [Eval_return, Double.mul, Double.lt]

end classic_svFit
